import Mathlib

/-!
# AppleTalk DDP (net/appletalk/ddp.c): a shallow embedding

The definitions below follow `src/net/appletalk/ddp.c` function by function.
Machine integers are natural numbers with explicit reduction; memory is a list
of bytes; the global tables are fields of `State`.
-/

namespace Ddp

/-! ## Machine words and byte order -/

/-- An octet of memory (`unsigned char`, `__u8`). -/
abbrev u8 := Fin 256

/-- Modelled from the spec: `ntohs` (asm/byteorder.h is not under src/). The
spec describes the normalization of a 16-bit word as swapping its two bytes
in place (the host is little-endian). -/
def ntohs (x : Nat) : Nat := (x % 256) * 256 + (x / 256) % 256

/-- Modelled from the spec: `htons`, the same byte swap as `ntohs`. -/
def htons (x : Nat) : Nat := (x % 256) * 256 + (x / 256) % 256

/-- Byte at offset `i` of a buffer (`((unsigned char *)p)[i]`). -/
def rd8 (data : List u8) (i : Nat) : Nat := (data.getD i 0).val

/-- The `__u16` stored at offset `i` of a buffer, as the host reads it. -/
def rd16 (data : List u8) (i : Nat) : Nat := rd8 data i + 256 * rd8 data (i + 1)

/-- Store a `__u16` at offset `i` of a buffer, as the host writes it. -/
def wr16 (data : List u8) (i : Nat) (v : Nat) : List u8 :=
  (data.set i (Fin.ofNat (v % 256))).set (i + 1) (Fin.ofNat ((v / 256) % 256))

/-! ## Checksum -/

/-- The body of the `while(len--)` loop of `atalk_checksum`, run over the bytes
it reads. `sum` is an `unsigned long` (32 bits): `sum+=*data; sum<<=1;
if(sum&0x10000) { sum++; sum&=0xFFFF; }`. -/
def atalk_checksum_loop (sum : Nat) : List u8 → Nat
  | [] => sum
  | b :: rest =>
    let s1 := (sum + b.val) % 2 ^ 32
    let s2 := (s1 * 2) % 2 ^ 32
    let s3 := if (s2 / 0x10000) % 2 = 1 then ((s2 + 1) % 2 ^ 32) % 0x10000 else s2
    atalk_checksum_loop s3 rest

/-- The function `atalk_checksum(ddp, len)`: `data` is the memory at `ddp`. The
loop reads the bytes at offsets `4 .. len-1`; the result is `none` when that
range is not inside `data` (the C code then reads outside the buffer). -/
def atalk_checksum (data : List u8) (len : Nat) : Option Nat :=
  if 4 ≤ len ∧ len ≤ data.length then
    let sum := atalk_checksum_loop 0 ((data.drop 4).take (len - 4))
    if sum ≠ 0 then some (htons (sum % 0x10000)) else some 0xFFFF
  else none

/-- The checksum step in the words of the specification, on the 16-bit value
`s`: `s += byte; s = (s << 1) | (s >> 15); s &= 0xFFFF`. The addition is made in
16 bits, as the other two statements are. -/
def spec_checksum_step (s : Nat) (byte : u8) : Nat :=
  let s1 := (s + byte.val) % 0x10000
  ((s1 <<< 1) ||| (s1 >>> 15)) &&& 0xFFFF

/-- The checksum in the words of the specification: start from `s = 0`, apply
the step to the bytes `b[4], ..., b[len-1]` in order, then substitute `0xFFFF`
for `0` and convert with `htons`. -/
def spec_checksum (b : List u8) (len : Nat) : Nat :=
  let s := ((b.drop 4).take (len - 4)).foldl spec_checksum_step 0
  if s ≠ 0 then htons s else 0xFFFF

/-! ## Constants of the headers that are not under src/ -/

/-- Modelled from the spec: `sizeof(struct ddpehdr)`. The structure is declared
in net/atalk.h, which is not under src/; the spec gives the extended header 13
bytes: the packed word, `deh_sum`, `deh_dnet`, `deh_snet`, `deh_dnode`,
`deh_snode`, `deh_dport`, `deh_sport` and the type octet. -/
def sizeof_ddpehdr : Nat := 13

/-- The address family number of linux/socket.h (not under src/). -/
def AF_APPLETALK : Nat := 5

/-- Modelled from the spec: net 0 is `this network` (net/atalk.h). -/
def ATADDR_ANYNET : Nat := 0

/-- Modelled from the spec: node `0x00` is `ANYNODE` (net/atalk.h). -/
def ATADDR_ANYNODE : Nat := 0

/-- Modelled from the spec: port 0 is `ANYPORT` (net/atalk.h). -/
def ATADDR_ANYPORT : Nat := 0

/-- Modelled from the spec: node `0xFF` is the broadcast node (net/atalk.h). -/
def ATADDR_BCAST : Nat := 255

/-- The status bit `probing` of an interface (net/atalk.h, not under src/). -/
def ATIF_PROBE : Nat := 1

/-- The status bit `probe failed` of an interface (net/atalk.h, not under src/). -/
def ATIF_PROBE_FAIL : Nat := 2

/-- The route flag `up` (linux/route.h, not under src/). -/
def RTF_UP : Nat := 1

/-- The route flag `gateway` (linux/route.h, not under src/). -/
def RTF_GATEWAY : Nat := 2

/-- The route flag `host` (linux/route.h, not under src/). -/
def RTF_HOST : Nat := 4

/-- The device flag `loopback` (linux/if.h, not under src/). -/
def IFF_LOOPBACK : Nat := 8

/-- The error numbers of linux/errno.h (not under src/). -/
def EINVAL : Int := 22

def ENETUNREACH : Int := 101

/-- The C test `if(flags & mask)`. -/
def flag_set (flags mask : Nat) : Bool := (flags &&& mask) != 0

/-! ## Data model -/

/-- A network device (`struct device`); the core only compares devices and
reads their flags, type and link header length. -/
structure device where
  name : Nat
  flags : Nat
  type : Nat
  hard_header_len : Nat
deriving DecidableEq, Repr

/-- The pair `struct at_addr`; `s_net` is kept as the code keeps it, in network
byte order. -/
structure at_addr where
  s_net : Nat
  s_node : Nat
deriving DecidableEq, Repr

structure sockaddr_at where
  sat_family : Nat
  sat_port : Nat
  sat_addr : at_addr
deriving DecidableEq, Repr

structure netrange where
  nr_phase : Nat
  nr_firstnet : Nat
  nr_lastnet : Nat
deriving DecidableEq, Repr

structure atalk_iface where
  dev : device
  address : at_addr
  status : Nat
  nets : netrange
deriving DecidableEq, Repr

/-- An entry of the routing table; `dev` is `none` for a NULL device. -/
structure atalk_route where
  dev : Option device
  target : at_addr
  gateway : at_addr
  flags : Nat
deriving DecidableEq, Repr

structure rtentry where
  rt_dst : sockaddr_at
  rt_gateway : sockaddr_at
  rt_flags : Nat
deriving DecidableEq, Repr

/-- A socket buffer: `data` is the memory from `skb->h.raw` to the end of the
buffer, `len` is `skb->len`; a buffer handed to `atalk_rcv` has `len` bytes of
frame in `data`, so `len ≤ data.length`. -/
structure sk_buff where
  len : Nat
  data : List u8
deriving DecidableEq, Repr

/-- The fields of `atalk_socket` (`struct sock`) that the DDP code uses. -/
structure atalk_socket where
  type : Nat
  src_net : Nat
  src_node : Nat
  src_port : Nat
  dest_net : Nat
  dest_node : Nat
  dest_port : Nat
  state : Nat
  zapped : Nat
  no_check : Nat
  dead : Nat
  err : Nat
  rcvbuf : Nat
  rmem_alloc : Nat
  receive_queue : List sk_buff
  wakeups : Nat
deriving DecidableEq, Repr

/-- One call `aarp_send_ddp(dev, skb, &target, NULL)`. -/
structure aarp_call where
  dev : device
  skb : sk_buff
  target : at_addr
deriving DecidableEq, Repr

/-- The global tables of ddp.c. Sockets are heap objects: `socks` holds them,
a socket pointer is an index into `socks`, and `atalk_socket_list` is the
linked list of pointers, head first. `aarp_sent` records the frames handed to
AARP, oldest first. -/
structure State where
  socks : List atalk_socket
  atalk_socket_list : List Nat
  atalk_router_list : List atalk_route
  atrtr_default : atalk_route
  atalk_iface_list : List atalk_iface
  aarp_sent : List aarp_call
deriving DecidableEq, Repr

/-- The zeroed static `atrtr_default`. -/
def atrtr_default_init : atalk_route :=
  { dev := none, target := ⟨0, 0⟩, gateway := ⟨0, 0⟩, flags := 0 }

/-- The tables at start-up: every list is NULL. -/
def State.init : State :=
  { socks := [], atalk_socket_list := [], atalk_router_list := [],
    atrtr_default := atrtr_default_init, atalk_iface_list := [], aarp_sent := [] }

/-- The socket object behind a pointer (a zeroed object for a pointer that was
never allocated). -/
def sock_at (st : State) (p : Nat) : atalk_socket :=
  st.socks.getD p
    { type := 0, src_net := 0, src_node := 0, src_port := 0, dest_net := 0,
      dest_node := 0, dest_port := 0, state := 0, zapped := 0, no_check := 0,
      dead := 0, err := 0, rcvbuf := 0, rmem_alloc := 0, receive_queue := [],
      wakeups := 0 }

/-! ## The extended DDP header in memory -/

/-- Modelled from the spec: the bit-field `deh_hops` of the first header word
(net/atalk.h is not under src/). The spec packs the word as hops (4 bits),
length (10 bits), pad (2 bits), hops in the high nibble. -/
def deh_hops (ddp : List u8) : Nat := (rd16 ddp 0 / 4096) % 16

/-- Modelled from the spec: the bit-field `deh_len`, the 10 bits below the hops. -/
def deh_len (ddp : List u8) : Nat := (rd16 ddp 0 / 4) % 1024

/-- Modelled from the spec: the bit-field `deh_pad`, the low 2 bits. -/
def deh_pad (ddp : List u8) : Nat := rd16 ddp 0 % 4

def deh_sum (ddp : List u8) : Nat := rd16 ddp 2
def deh_dnet (ddp : List u8) : Nat := rd16 ddp 4
def deh_snet (ddp : List u8) : Nat := rd16 ddp 6
def deh_dnode (ddp : List u8) : Nat := rd8 ddp 8
def deh_snode (ddp : List u8) : Nat := rd8 ddp 9
def deh_dport (ddp : List u8) : Nat := rd8 ddp 10
def deh_sport (ddp : List u8) : Nat := rd8 ddp 11

/-- Assignment to the bit-field `deh_hops`: the other twelve bits of the word
are kept. -/
def set_deh_hops (ddp : List u8) (h : Nat) : List u8 :=
  wr16 ddp 0 ((h % 16) * 4096 + rd16 ddp 0 % 4096)

/-- The statement `*((__u16 *)ddp)=ntohs(*((__u16 *)ddp))`. -/
def fix_first_word (ddp : List u8) : List u8 := wr16 ddp 0 (ntohs (rd16 ddp 0))

/-! ## Socket list -/

/-- The loop of `atalk_search_socket` over the list of socket pointers. -/
def atalk_search_socket_loop (st : State) (tosat : sockaddr_at) (atif : atalk_iface) :
    List Nat → Option Nat
  | [] => none
  | s :: next =>
    if tosat.sat_port ≠ (sock_at st s).src_port then
      atalk_search_socket_loop st tosat atif next
    else if tosat.sat_addr.s_net = 0 ∧ tosat.sat_addr.s_node = ATADDR_BCAST ∧
        (sock_at st s).src_net = atif.address.s_net then
      some s
    else if tosat.sat_addr.s_net = (sock_at st s).src_net ∧
        tosat.sat_addr.s_node = (sock_at st s).src_node then
      some s
    else atalk_search_socket_loop st tosat atif next

def atalk_search_socket (st : State) (tosat : sockaddr_at) (atif : atalk_iface) : Option Nat :=
  atalk_search_socket_loop st tosat atif st.atalk_socket_list

/-! ## Interface table -/

def atalk_find_anynet_loop (node : Nat) (dev : device) : List atalk_iface → Option atalk_iface
  | [] => none
  | iface :: next =>
    if iface.dev ≠ dev ∨ flag_set iface.status ATIF_PROBE then
      atalk_find_anynet_loop node dev next
    else if node = ATADDR_BCAST ∨ iface.address.s_node = node then some iface
    else atalk_find_anynet_loop node dev next

def atalk_find_anynet (st : State) (node : Nat) (dev : device) : Option atalk_iface :=
  atalk_find_anynet_loop node dev st.atalk_iface_list

def atalk_find_interface_loop (net node : Nat) : List atalk_iface → Option atalk_iface
  | [] => none
  | iface :: next =>
    if (node = ATADDR_BCAST ∨ iface.address.s_node = node) ∧ iface.address.s_net = net ∧
        ¬ flag_set iface.status ATIF_PROBE then some iface
    else atalk_find_interface_loop net node next

def atalk_find_interface (st : State) (net node : Nat) : Option atalk_iface :=
  atalk_find_interface_loop net node st.atalk_iface_list

/-! ## Routing table -/

def atrtr_find_loop (target : at_addr) : List atalk_route → Option atalk_route
  | [] => none
  | r :: next =>
    if ¬ flag_set r.flags RTF_UP then atrtr_find_loop target next
    else if r.target.s_net = target.s_net ∧
        (¬ flag_set r.flags RTF_HOST ∨ r.target.s_node = target.s_node) then some r
    else atrtr_find_loop target next

def atrtr_find (st : State) (target : at_addr) : Option atalk_route :=
  match atrtr_find_loop target st.atalk_router_list with
  | some r => some r
  | none => if st.atrtr_default.dev.isSome then some st.atrtr_default else none

def atrtr_set_default (st : State) (dev : Option device) : State :=
  { st with atrtr_default :=
      { st.atrtr_default with dev := dev, flags := RTF_UP, gateway := ⟨htons 0, 0⟩ } }

/-- The first loop of `atrtr_create`: the position of the entry the request
duplicates, `none` when the loop ends with `rt == NULL`. -/
def atrtr_create_scan (r : rtentry) : List atalk_route → Option Nat
  | [] => none
  | rt :: next =>
    if r.rt_flags ≠ rt.flags then (atrtr_create_scan r next).map (· + 1)
    else if r.rt_dst.sat_addr.s_net = rt.target.s_net ∧
        (¬ flag_set rt.flags RTF_HOST ∨ r.rt_dst.sat_addr.s_node = rt.target.s_node) then some 0
    else (atrtr_create_scan r next).map (· + 1)

/-- The second loop of `atrtr_create`: the interface through which the gateway
is reached. -/
def atrtr_create_riface (ga : sockaddr_at) (riface : Option atalk_iface) :
    List atalk_iface → Option atalk_iface
  | [] => riface
  | iface :: next =>
    let riface1 :=
      if riface = none ∧ ntohs ga.sat_addr.s_net ≥ ntohs iface.nets.nr_firstnet ∧
          ntohs ga.sat_addr.s_net ≤ ntohs iface.nets.nr_lastnet then some iface else riface
    let riface2 :=
      if ga.sat_addr.s_net = iface.address.s_net ∧ ga.sat_addr.s_node = iface.address.s_node
      then some iface else riface1
    atrtr_create_riface ga riface2 next

/-- The function `atrtr_create(r, devhint)`; the result is the C return value.
`kmalloc(GFP_KERNEL)` is taken to succeed. -/
def atrtr_create (st : State) (r : rtentry) (devhint : Option device) : State × Int :=
  let ta := r.rt_dst
  let ga := r.rt_gateway
  if ta.sat_family ≠ AF_APPLETALK then (st, -EINVAL)
  else if devhint = none ∧ ga.sat_family ≠ AF_APPLETALK then (st, -EINVAL)
  else
    let rt := atrtr_create_scan r st.atalk_router_list
    let devhint1 : Option device :=
      match devhint with
      | some d => some d
      | none => (atrtr_create_riface ga none st.atalk_iface_list).map (·.dev)
    match devhint1 with
    | none => (st, -ENETUNREACH)
    | some d =>
      let entry : atalk_route :=
        { target := ta.sat_addr, dev := some d, flags := r.rt_flags, gateway := ga.sat_addr }
      match rt with
      | none => ({ st with atalk_router_list := entry :: st.atalk_router_list }, 0)
      | some i => ({ st with atalk_router_list := st.atalk_router_list.set i entry }, 0)

/-! ## Receive path -/

/-- Modelled from the spec: `sock_queue_rcv_skb` (net/sock.h is not under
src/). A packet is enqueued when its length plus the bytes already queued does
not exceed the receive buffer size, and a wake-up is signalled on every
enqueue; otherwise the call fails (`none`) and the socket is unchanged. -/
def sock_queue_rcv_skb (sk : atalk_socket) (skb : sk_buff) : Option atalk_socket :=
  if skb.len + sk.rmem_alloc ≤ sk.rcvbuf then
    some { sk with rmem_alloc := sk.rmem_alloc + skb.len,
                   receive_queue := sk.receive_queue ++ [skb],
                   wakeups := sk.wakeups + 1 }
  else none

/-- The call `aarp_send_ddp(dev, skb, &target, NULL)`: AARP is an external
collaborator, the call is recorded. -/
def aarp_send_ddp (st : State) (dev : device) (skb : sk_buff) (target : at_addr) : State :=
  { st with aarp_sent := st.aarp_sent ++ [{ dev := dev, skb := skb, target := target }] }

/-- The `return` statement through which `atalk_rcv` leaves (the C function
returns 0 at each of them). `checksum_fault` stands for a checksum loop that
runs past the end of the buffer. -/
inductive rcv_exit where
  | header_short
  | length_short
  | checksum_bad
  | checksum_fault
  | not_routed
  | forwarded
  | no_socket
  | queued
  | queue_full
deriving DecidableEq, Repr

/-- The test `ddp->deh_sum && atalk_checksum(ddp, ddp->deh_len)!= ddp->deh_sum`
of `atalk_rcv`: `some true` when the frame is to be dropped, `none` when the
checksum loop leaves the buffer. -/
def atalk_rcv_checksum_fails (ddp : List u8) : Option Bool :=
  if deh_sum ddp = 0 then some false
  else match atalk_checksum ddp (deh_len ddp) with
    | none => none
    | some c => some (c != deh_sum ddp)

/-- The interface selection of `atalk_rcv`: `atalk_find_anynet(ddp->deh_dnode, dev)`
when `ddp->deh_dnet == 0`, `atalk_find_interface(ddp->deh_dnet, ddp->deh_dnode)`
otherwise. -/
def atalk_rcv_atif (st : State) (ddp : List u8) (dev : device) : Option atalk_iface :=
  if deh_dnet ddp = 0 then atalk_find_anynet st (deh_dnode ddp) dev
  else atalk_find_interface st (deh_dnet ddp) (deh_dnode ddp)

/-- The address `ta` that `atalk_rcv` routes on: `(deh_dnet, deh_dnode)`. -/
def atalk_rcv_ta (ddp : List u8) : at_addr :=
  { s_net := deh_dnet ddp, s_node := deh_dnode ddp }

/-- The socket address `tosat` that `atalk_rcv` searches for:
`(deh_dnet, deh_dnode, deh_dport)`; the code leaves `sat_family` unset. -/
def atalk_rcv_tosat (ddp : List u8) : sockaddr_at :=
  { sat_family := 0, sat_port := deh_dport ddp,
    sat_addr := { s_net := deh_dnet ddp, s_node := deh_dnode ddp } }

/-- The part of `atalk_rcv` after the checksum test: `Check the packet is aimed
at us`, then forward or deliver. `skb` is the trimmed buffer with the first
word in host order. -/
def atalk_rcv_dispatch (st : State) (skb : sk_buff) (dev : device) : State × rcv_exit :=
  let ddp := skb.data
  match atalk_rcv_atif st ddp dev with
  | none =>
    let ta := atalk_rcv_ta ddp
    match atrtr_find st ta with
    | none => (st, .not_routed)
    | some _ =>
      if deh_hops ddp = 15 then (st, .not_routed)
      else
        let ddp1 := set_deh_hops ddp (deh_hops ddp + 1)
        let ddp2 := fix_first_word ddp1
        (aarp_send_ddp st dev { skb with data := ddp2 } ta, .forwarded)
  | some atif =>
    match atalk_search_socket st (atalk_rcv_tosat ddp) atif with
    | none => (st, .no_socket)
    | some sock =>
      match sock_queue_rcv_skb (sock_at st sock) skb with
      | none => (st, .queue_full)
      | some sk1 => ({ st with socks := st.socks.set sock sk1 }, .queued)

/-- The buffer of `atalk_rcv` after the first word is put in host order and
`skb->len=min(skb->len,ddp->deh_len)`. -/
def atalk_rcv_trim (skb : sk_buff) : sk_buff :=
  let ddp := fix_first_word skb.data
  { len := min skb.len (deh_len ddp), data := ddp }

/-- The function `atalk_rcv(skb, dev, pt)`. -/
def atalk_rcv (st : State) (skb : sk_buff) (dev : device) : State × rcv_exit :=
  if skb.len < sizeof_ddpehdr then (st, .header_short)
  else
    let skb1 := atalk_rcv_trim skb
    if skb1.len < sizeof_ddpehdr then (st, .length_short)
    else
      match atalk_rcv_checksum_fails skb1.data with
      | none => (st, .checksum_fault)
      | some true => (st, .checksum_bad)
      | some false => atalk_rcv_dispatch st skb1 dev

/-! ## Send path: building the datagram -/

/-- The buffer at `skb->h.raw` in `atalk_sendto` once the header fields are
assigned and the user data is copied behind the header (everything from
`ddp=(struct ddpehdr *)skb->h.raw` to `memcpy_fromfs`), for the socket `sk`, the
destination `usat` and the user data `ubuf` (`len` is its length). The buffer
is newly allocated; the code writes every octet of it except `deh_sum`
(assigned next) and the octet at offset 12, whose content `type_octet` is
whatever the allocation held. -/
def atalk_sendto_fill (sk : atalk_socket) (usat : sockaddr_at) (ubuf : List u8)
    (type_octet : u8) : List u8 :=
  let len := ubuf.length
  let ddp0 : List u8 := List.replicate 12 0 ++ [type_octet] ++ ubuf
  -- deh_pad=0; deh_hops=0; deh_len=len+sizeof(*ddp)
  let ddp1 := wr16 ddp0 0 (((len + sizeof_ddpehdr) % 1024) * 4)
  let ddp2 := fix_first_word ddp1
  let ddp3 := wr16 ddp2 4 (usat.sat_addr.s_net % 65536)
  let ddp4 := wr16 ddp3 6 (sk.src_net % 65536)
  let ddp5 := ddp4.set 8 (Fin.ofNat usat.sat_addr.s_node)
  let ddp6 := ddp5.set 9 (Fin.ofNat sk.src_node)
  let ddp7 := ddp6.set 10 (Fin.ofNat usat.sat_port)
  ddp7.set 11 (Fin.ofNat sk.src_port)

/-- The datagram that `atalk_sendto` builds: the filled buffer with `deh_sum`
assigned, `0` when `sk->no_check==1` and `atalk_checksum(ddp, len+sizeof(*ddp))`
otherwise. -/
def atalk_sendto_build (sk : atalk_socket) (usat : sockaddr_at) (ubuf : List u8)
    (type_octet : u8) : Option (List u8) :=
  let ddp := atalk_sendto_fill sk usat ubuf type_octet
  if sk.no_check = 1 then some (wr16 ddp 2 0)
  else match atalk_checksum ddp (ubuf.length + sizeof_ddpehdr) with
    | none => none
    | some c => some (wr16 ddp 2 c)

/-! ## Concrete inputs used by the evaluations below -/

/-- A 13-byte datagram (`dst=65281.1.1`, `src=257.1.1`, length 13, empty
payload) whose bytes after the first four make the running sum of
`atalk_checksum` reach `0xFFFF + 1`, a carry out of 16 bits in the addition. Its
checksum field holds `0x00FC` in network byte order, the checksum of its bytes. -/
def carry_frame : List u8 := [0x00, 0x34, 0x00, 0xFC, 0xFF, 1, 1, 1, 1, 1, 1, 1, 0x80]

/-- A 13-byte datagram (length 13, empty payload, checksum field not yet
assigned) on which the loop of `atalk_checksum` ends with `sum = 0x20000`. -/
def zero_sum_frame : List u8 := [0x00, 0x34, 0, 0, 0xFF, 1, 0, 0, 0, 0, 0, 0, 0x80]

/-- The 11 octets `ibifmvlsyrh`, user data for a send. -/
def carry_payload : List u8 := [0x69, 0x62, 0x69, 0x66, 0x6D, 0x76, 0x6C, 0x73, 0x79, 0x72, 0x68]

/-- The 11 octets `dfoppukxzqb`, user data for a send. -/
def zero_sum_payload : List u8 :=
  [0x64, 0x66, 0x6F, 0x70, 0x70, 0x75, 0x6B, 0x78, 0x7A, 0x71, 0x62]

/-- An Ethernet device that is not a loopback device. -/
def eth0 : device := { name := 0, flags := 0, type := 1, hard_header_len := 14 }

/-- The interface `eth0` at 1000.5 with `nets = [1000, 1000]`, probing finished. -/
def eth0_iface : atalk_iface :=
  { dev := eth0, address := { s_net := htons 1000, s_node := 5 }, status := 0,
    nets := { nr_phase := 2, nr_firstnet := htons 1000, nr_lastnet := htons 1000 } }

/-- The request `2000.* via gateway 1000.7` (up, gateway). -/
def gw_request : rtentry :=
  { rt_dst := { sat_family := AF_APPLETALK, sat_port := 0,
                sat_addr := { s_net := htons 2000, s_node := 0 } },
    rt_gateway := { sat_family := AF_APPLETALK, sat_port := 0,
                    sat_addr := { s_net := htons 1000, s_node := 7 } },
    rt_flags := RTF_UP ||| RTF_GATEWAY }

/-- The tables after `eth0` is configured and `gw_request` is added with
`atrtr_create(&rt, NULL)`. -/
def forward_state : State :=
  (atrtr_create { State.init with atalk_iface_list := [eth0_iface] } gw_request none).1

/-- The wire frame `src=3000.1.10 -> dst=2000.2.20` with `hops = 14`, length 13,
no checksum. -/
def forward_frame : sk_buff :=
  { len := 13, data := [0xE0, 0x34, 0, 0, 0x07, 0xD0, 0x0B, 0xB8, 2, 1, 20, 10, 0] }

/-- A net route request for net 2000 (up). -/
def net_request : rtentry :=
  { rt_dst := { sat_family := AF_APPLETALK, sat_port := 0,
                sat_addr := { s_net := htons 2000, s_node := 0 } },
    rt_gateway := { sat_family := AF_APPLETALK, sat_port := 0,
                    sat_addr := { s_net := htons 1000, s_node := 5 } },
    rt_flags := RTF_UP }

/-- A host route request for 2000.20 (up, host). -/
def host_request : rtentry :=
  { rt_dst := { sat_family := AF_APPLETALK, sat_port := 0,
                sat_addr := { s_net := htons 2000, s_node := 20 } },
    rt_gateway := { sat_family := AF_APPLETALK, sat_port := 0,
                    sat_addr := { s_net := htons 1000, s_node := 9 } },
    rt_flags := RTF_UP ||| RTF_HOST }

/-- The route entry that `atrtr_create` fills in for a request and a device. -/
def route_of (r : rtentry) (d : device) : atalk_route :=
  { target := r.rt_dst.sat_addr, dev := some d, flags := r.rt_flags,
    gateway := r.rt_gateway.sat_addr }

/-- The predicate of the scan in `atrtr_find`: the route is up, its net is the
target net, and it is a net route or its node is the target node. -/
def route_matches (target : at_addr) (r : atalk_route) : Bool :=
  flag_set r.flags RTF_UP && (r.target.s_net == target.s_net) &&
    (!flag_set r.flags RTF_HOST || r.target.s_node == target.s_node)

/-- The tables after `net_request` and then `host_request` are added to empty
tables with `atrtr_create`, both through `eth0`. -/
def two_routes_state : State :=
  (atrtr_create (atrtr_create State.init net_request (some eth0)).1 host_request (some eth0)).1

/-- The frame `forward_frame` with `hops = 0` and the stored checksum 1, which
is not the checksum of its bytes (`0x9912`). -/
def bad_checksum_frame : sk_buff :=
  { len := 13, data := [0x00, 0x34, 0x01, 0x00, 0x07, 0xD0, 0x0B, 0xB8, 2, 1, 20, 10, 0] }

/-- A frame of 12 bytes, shorter than the header. -/
def short_frame : sk_buff :=
  { len := 12, data := [0x00, 0x30, 0, 0, 0x07, 0xD0, 0x0B, 0xB8, 2, 1, 20, 10] }

/-- A frame of 13 bytes whose header length field is 12. -/
def short_length_frame : sk_buff :=
  { len := 13, data := [0x00, 0x30, 0, 0, 0x07, 0xD0, 0x0B, 0xB8, 2, 1, 20, 10, 0] }

/-- A datagram socket bound to (1000, 5, 128) with the default receive buffer. -/
def socket_a : atalk_socket :=
  { type := 2, src_net := htons 1000, src_node := 5, src_port := 128, dest_net := 0,
    dest_node := 0, dest_port := 0, state := 0, zapped := 0, no_check := 0, dead := 0,
    err := 0, rcvbuf := 32768, rmem_alloc := 0, receive_queue := [], wakeups := 0 }

/-- The tables with the interface `eth0` at 1000.5 and `socket_a` bound. -/
def local_state : State :=
  { State.init with atalk_iface_list := [eth0_iface], socks := [socket_a],
                    atalk_socket_list := [0] }

/-- The wire frame `src=3000.1.10 -> dst=1000.5.128`, length 13, no checksum. -/
def local_frame : sk_buff :=
  { len := 13, data := [0x00, 0x34, 0, 0, 0x03, 0xE8, 0x0B, 0xB8, 5, 1, 128, 10, 0] }

/-- The wire frame `src=3000.1.10 -> dst=1000.5.129`: no socket is bound there. -/
def unbound_port_frame : sk_buff :=
  { len := 13, data := [0x00, 0x34, 0, 0, 0x03, 0xE8, 0x0B, 0xB8, 5, 1, 129, 10, 0] }

/-- The wire frame `src=3000.1.10 -> dst=2000.2.20` with `hops = 15`. -/
def hops15_frame : sk_buff :=
  { len := 13, data := [0xF0, 0x34, 0, 0, 0x07, 0xD0, 0x0B, 0xB8, 2, 1, 20, 10, 0] }

/-- The destination 1000.5.128. -/
def usat_a : sockaddr_at :=
  { sat_family := AF_APPLETALK, sat_port := 128,
    sat_addr := { s_net := htons 1000, s_node := 5 } }

/-! ## Route deletion and device-down -/

/-- The error number `ENOENT` of linux/errno.h (not under src/). -/
def ENOENT : Int := 2

/-- The event number `NETDEV_DOWN` of linux/notifier.h (not under src/). -/
def NETDEV_DOWN : Nat := 2

/-- The return value `NOTIFY_DONE` of linux/notifier.h (not under src/). -/
def NOTIFY_DONE : Nat := 0

/-- The test of `atrtr_delete` on a table entry: `tmp->target.s_net == addr->s_net
&& (!(tmp->flags&RTF_GATEWAY) || tmp->target.s_node == addr->s_node)`. -/
def atrtr_delete_matches (addr : at_addr) (tmp : atalk_route) : Bool :=
  (tmp.target.s_net == addr.s_net) &&
    (!flag_set tmp.flags RTF_GATEWAY || tmp.target.s_node == addr.s_node)

/-- The loop of `atrtr_delete`: the table with the first matching entry
unlinked, `none` when the loop reaches the end of the table. -/
def atrtr_delete_loop (addr : at_addr) : List atalk_route → Option (List atalk_route)
  | [] => none
  | tmp :: next =>
    if atrtr_delete_matches addr tmp then some next
    else (atrtr_delete_loop addr next).map (tmp :: ·)

/-- The function `atrtr_delete(addr)`; the result is the C return value. -/
def atrtr_delete (st : State) (addr : at_addr) : State × Int :=
  match atrtr_delete_loop addr st.atalk_router_list with
  | some l => ({ st with atalk_router_list := l }, 0)
  | none => (st, -ENOENT)

/-- The loop of `atrtr_device_down`: every entry with `tmp->dev == dev` is
unlinked. -/
def atrtr_device_down_loop (dev : device) : List atalk_route → List atalk_route
  | [] => []
  | tmp :: next =>
    if tmp.dev = some dev then atrtr_device_down_loop dev next
    else tmp :: atrtr_device_down_loop dev next

/-- The function `atrtr_device_down(dev)`. -/
def atrtr_device_down (st : State) (dev : device) : State :=
  let st1 := { st with atalk_router_list := atrtr_device_down_loop dev st.atalk_router_list }
  if st1.atrtr_default.dev = some dev then atrtr_set_default st1 none else st1

/-- The loop of `atif_drop_device`: every interface with `tmp->dev == dev` is
unlinked. -/
def atif_drop_device_loop (dev : device) : List atalk_iface → List atalk_iface
  | [] => []
  | tmp :: next =>
    if tmp.dev = dev then atif_drop_device_loop dev next
    else tmp :: atif_drop_device_loop dev next

/-- The function `atif_drop_device(dev)`. -/
def atif_drop_device (st : State) (dev : device) : State :=
  { st with atalk_iface_list := atif_drop_device_loop dev st.atalk_iface_list }

/-- The function `ddp_device_event(event, ptr)`; the result is the C return
value. -/
def ddp_device_event (st : State) (event : Nat) (ptr : device) : State × Nat :=
  if event = NETDEV_DOWN then (atif_drop_device (atrtr_device_down st ptr) ptr, NOTIFY_DONE)
  else (st, NOTIFY_DONE)

/-- The test of the first loop of `atrtr_create` on a table entry: the request
has the flags of the entry and its target net, and the entry is a net route
or has the target node of the request. -/
def atrtr_create_duplicates (r : rtentry) (rt : atalk_route) : Bool :=
  (r.rt_flags == rt.flags) && (r.rt_dst.sat_addr.s_net == rt.target.s_net) &&
    (!flag_set rt.flags RTF_HOST || r.rt_dst.sat_addr.s_node == rt.target.s_node)

/-- The two tests of the second loop of `atrtr_create` on an interface: the
gateway net lies in the net range of the interface (host byte order), or the
gateway is the address of the interface. -/
def atrtr_create_reaches (ga : sockaddr_at) (iface : atalk_iface) : Bool :=
  (decide (ntohs ga.sat_addr.s_net ≥ ntohs iface.nets.nr_firstnet) &&
    decide (ntohs ga.sat_addr.s_net ≤ ntohs iface.nets.nr_lastnet)) ||
  ((ga.sat_addr.s_net == iface.address.s_net) && (ga.sat_addr.s_node == iface.address.s_node))

/-- The test of `atalk_search_socket` on a socket, in the words of the
specification: the port is the socket port and either the net and node are
those of the socket, or the destination is net 0, node `BCAST` and the socket
net is the net of the interface. -/
def atalk_search_matches (tosat : sockaddr_at) (atif : atalk_iface) (s : atalk_socket) : Bool :=
  (tosat.sat_port == s.src_port) &&
    (((tosat.sat_addr.s_net == s.src_net) && (tosat.sat_addr.s_node == s.src_node)) ||
     ((tosat.sat_addr.s_net == 0) && (tosat.sat_addr.s_node == ATADDR_BCAST) &&
        (s.src_net == atif.address.s_net)))

/-- The tables after `net_request` (target 2000.0, up) and then `gw_request`
(target 2000.0, up and gateway) are added to empty tables with `atrtr_create`,
both through `eth0`: two routes with the same target. -/
def same_target_state : State :=
  (atrtr_create (atrtr_create State.init net_request (some eth0)).1 gw_request (some eth0)).1

/-! ## Socket objects: create, bind, autobind, release -/

/-- The socket types of linux/socket.h (not under src/). -/
def SOCK_DGRAM : Nat := 2

def SOCK_RAW : Nat := 3

/-- The socket states of net/tcp.h used by the DDP code (not under src/). -/
def TCP_ESTABLISHED : Nat := 1

def TCP_CLOSE : Nat := 7

/-- Modelled from the spec: the default receive buffer `SK_RMEM_MAX` (net/sock.h
is not under src/), 32 KiB. -/
def SK_RMEM_MAX : Nat := 32768

/-- Modelled from the spec: the first port of the autobind range, `0x80`
(net/atalk.h is not under src/). -/
def ATPORT_RESERVED : Nat := 128

/-- Modelled from the spec: the end of the autobind range `[0x80, 0xFE]`; the loop
of `atalk_pick_port` runs while `sat_port < ATPORT_LAST`. -/
def ATPORT_LAST : Nat := 255

/-- The size `sizeof(struct sockaddr_at)` (net/atalk.h is not under src/). -/
def sizeof_sockaddr_at : Nat := 16

/-- The error numbers of linux/errno.h used below (not under src/). -/
def EIO : Int := 5

def EBUSY : Int := 16

def ESOCKTNOSUPPORT : Int := 94

def EAFNOSUPPORT : Int := 97

def EADDRINUSE : Int := 98

def EADDRNOTAVAIL : Int := 99

/-- Assignment through a socket pointer: `*sk = v`. -/
def sock_set (st : State) (sk : Nat) (v : atalk_socket) : State :=
  { st with socks := st.socks.set sk v }

/-- The function `atalk_insert_socket(sk)`: `sk->next=atalk_socket_list;
atalk_socket_list=sk`. -/
def atalk_insert_socket (st : State) (sk : Nat) : State :=
  { st with atalk_socket_list := sk :: st.atalk_socket_list }

/-- The walk of `atalk_remove_socket` over the list: the first node equal to
`sk` is unlinked. -/
def atalk_remove_socket_loop (sk : Nat) : List Nat → List Nat
  | [] => []
  | s :: next => if s = sk then next else s :: atalk_remove_socket_loop sk next

/-- The function `atalk_remove_socket(sk)`. -/
def atalk_remove_socket (st : State) (sk : Nat) : State :=
  { st with atalk_socket_list := atalk_remove_socket_loop sk st.atalk_socket_list }

/-- The loop of `atalk_find_socket` over the list of socket pointers. -/
def atalk_find_socket_loop (st : State) (sat : sockaddr_at) : List Nat → Option Nat
  | [] => none
  | s :: next =>
    if (sock_at st s).src_net ≠ sat.sat_addr.s_net then atalk_find_socket_loop st sat next
    else if (sock_at st s).src_node ≠ sat.sat_addr.s_node then
      atalk_find_socket_loop st sat next
    else if (sock_at st s).src_port ≠ sat.sat_port then atalk_find_socket_loop st sat next
    else some s

/-- The function `atalk_find_socket(sat)`. -/
def atalk_find_socket (st : State) (sat : sockaddr_at) : Option Nat :=
  atalk_find_socket_loop st sat st.atalk_socket_list

/-- The function `atalk_destroy_socket(sk)`: the socket is unlinked and its
receive queue is emptied, each buffer giving its bytes back (`kfree_skb`); the
object is then freed, at once or from the timer, which changes no table. -/
def atalk_destroy_socket (st : State) (sk : Nat) : State :=
  let st1 := atalk_remove_socket st sk
  sock_set st1 sk
    { sock_at st1 sk with
      receive_queue := [],
      rmem_alloc := (sock_at st1 sk).rmem_alloc -
        ((sock_at st1 sk).receive_queue.map (·.len)).sum }

/-- The socket object that `atalk_create` initialises. -/
def atalk_create_sock (type : Nat) : atalk_socket :=
  { type := type, src_net := 0, src_node := 0, src_port := 0, dest_net := 0,
    dest_node := 0, dest_port := 0, state := TCP_CLOSE, zapped := 1, no_check := 0,
    dead := 0, err := 0, rcvbuf := SK_RMEM_MAX, rmem_alloc := 0, receive_queue := [],
    wakeups := 0 }

/-- The function `atalk_create(sock, protocol)` for a socket of type `type`; the
result is the C return value. The new object is the last of `socks`, its
pointer is the old `socks.length`. `kmalloc` is taken to succeed. -/
def atalk_create (st : State) (type : Nat) : State × Int :=
  if type = SOCK_RAW ∨ type = SOCK_DGRAM then
    ({ st with socks := st.socks ++ [atalk_create_sock type] }, 0)
  else (st, -ESOCKTNOSUPPORT)

/-- The function `atalk_release(sock, peer)` for `sock->data = sk`. -/
def atalk_release (st : State) (sk : Nat) : State × Int :=
  let st1 := sock_set st sk { sock_at st sk with dead := 1 }
  (atalk_destroy_socket st1 sk, 0)

/-- The first loop of `atalk_find_primary`: the address of the first interface
whose device is not a loopback device. -/
def atalk_find_primary_loop : List atalk_iface → Option at_addr
  | [] => none
  | iface :: next =>
    if ¬ flag_set iface.dev.flags IFF_LOOPBACK then some iface.address
    else atalk_find_primary_loop next

/-- The function `atalk_find_primary()`. -/
def atalk_find_primary (st : State) : Option at_addr :=
  match atalk_find_primary_loop st.atalk_iface_list with
  | some a => some a
  | none =>
    match st.atalk_iface_list with
    | iface :: _ => some iface.address
    | [] => none

/-- The loop of `atalk_pick_port`, entered with `sat->sat_port = port`; `fuel`
bounds the number of iterations. -/
def atalk_pick_port_loop (st : State) (sat : sockaddr_at) : Nat → Nat → Option Nat
  | 0, _ => none
  | fuel + 1, port =>
    if port < ATPORT_LAST then
      if atalk_find_socket st { sat with sat_port := port } = none then some port
      else atalk_pick_port_loop st sat fuel (port + 1)
    else none

/-- The function `atalk_pick_port(sat)`: the port found, `none` for `-EBUSY`. The
loop starts at `ATPORT_RESERVED` and makes at most `ATPORT_LAST` iterations. -/
def atalk_pick_port (st : State) (sat : sockaddr_at) : Option Nat :=
  atalk_pick_port_loop st sat ATPORT_LAST ATPORT_RESERVED

/-- The function `atalk_autobind(sk)`; the result is the C return value. -/
def atalk_autobind (st : State) (sk : Nat) : State × Int :=
  match atalk_find_primary st with
  | none => (st, -EADDRNOTAVAIL)
  | some ap =>
    if ap.s_net = htons ATADDR_ANYNET then (st, -EADDRNOTAVAIL)
    else
      let st1 := sock_set st sk { sock_at st sk with src_net := ap.s_net, src_node := ap.s_node }
      let sat : sockaddr_at := { sat_family := 0, sat_port := 0, sat_addr := ap }
      match atalk_pick_port st1 sat with
      | none => (st1, -EBUSY)
      | some n =>
        let st2 := sock_set st1 sk { sock_at st1 sk with src_port := n }
        let st3 := atalk_insert_socket st2 sk
        (sock_set st3 sk { sock_at st3 sk with zapped := 0 }, 0)

/-- The function `atalk_bind(sock, uaddr, addr_len)` for `sock->data = sk`; the
result is the C return value. -/
def atalk_bind (st : State) (sk : Nat) (addr : sockaddr_at) (addr_len : Nat) : State × Int :=
  if (sock_at st sk).zapped = 0 then (st, - EIO)
  else if addr_len ≠ sizeof_sockaddr_at then (st, -EINVAL)
  else if addr.sat_family ≠ AF_APPLETALK then (st, -EAFNOSUPPORT)
  else
    -- the address part: `addr1` is `*addr` after it, `st1` the tables
    let part1 : Option (State × sockaddr_at) :=
      if addr.sat_addr.s_net = htons ATADDR_ANYNET then
        match atalk_find_primary st with
        | none => none
        | some ap =>
          some (sock_set st sk { sock_at st sk with src_net := ap.s_net, src_node := ap.s_node },
                { addr with sat_addr := ap })
      else
        match atalk_find_interface st addr.sat_addr.s_net addr.sat_addr.s_node with
        | none => none
        | some _ =>
          let a := addr.sat_addr
          some (sock_set st sk { sock_at st sk with src_net := a.s_net, src_node := a.s_node },
                addr)
    match part1 with
    | none => (st, -EADDRNOTAVAIL)
    | some (st1, addr1) =>
      -- the port part
      let part2 : Option (State × sockaddr_at) :=
        if addr1.sat_port = ATADDR_ANYPORT then
          match atalk_pick_port st1 addr1 with
          | none => none
          | some n =>
            some (sock_set st1 sk { sock_at st1 sk with src_port := n },
                  { addr1 with sat_port := n })
        else some (sock_set st1 sk { sock_at st1 sk with src_port := addr1.sat_port }, addr1)
      match part2 with
      | none => (st1, -EBUSY)
      | some (st2, addr2) =>
        if atalk_find_socket st2 addr2 ≠ none then (st2, -EADDRINUSE)
        else
          let st3 := atalk_insert_socket st2 sk
          (sock_set st3 sk { sock_at st3 sk with zapped := 0 }, 0)

/-! ## Reachable socket tables -/

/-- The local address of a socket: `(src_net, src_node, src_port)`. -/
def socket_key (s : atalk_socket) : Nat × Nat × Nat := (s.src_net, s.src_node, s.src_port)

/-- The test of `atalk_find_interface` on an interface: the node is `BCAST` or
the node of the interface, the net is the net of the interface, and the
interface is not probing. -/
def atalk_find_interface_matches (net node : Nat) (iface : atalk_iface) : Bool :=
  (node == ATADDR_BCAST || iface.address.s_node == node) && (iface.address.s_net == net) &&
    !flag_set iface.status ATIF_PROBE

/-- One call of a socket operation: `atalk_create`, `atalk_bind`, the call
`atalk_autobind(sk)` that `atalk_connect`, `atalk_sendto` and `atalk_getname` make
when `sk->zapped` is set, or `atalk_release`. -/
inductive socket_op : State → State → Prop where
  | create (st : State) (type : Nat) : socket_op st (atalk_create st type).1
  | bind (st : State) (sk : Nat) (addr : sockaddr_at) (addr_len : Nat) :
      socket_op st (atalk_bind st sk addr addr_len).1
  | autobind (st : State) (sk : Nat) (hz : (sock_at st sk).zapped ≠ 0) :
      socket_op st (atalk_autobind st sk).1
  | release (st : State) (sk : Nat) : socket_op st (atalk_release st sk).1

/-- Any operation on the other tables (interfaces, routes, default route, AARP):
the socket objects and the socket list are as before. -/
def table_op (st st1 : State) : Prop :=
  st1.socks = st.socks ∧ st1.atalk_socket_list = st.atalk_socket_list

/-- The states reached from `st0` by finitely many steps. -/
inductive reachable (step : State → State → Prop) (st0 : State) : State → Prop where
  | start : reachable step st0 st0
  | next (st st1 : State) : reachable step st0 st → step st st1 → reachable step st0 st1

/-- The shape of the socket list that the socket operations keep: every
pointer in the list is an allocated object with `zapped = 0`, no pointer is
linked twice, and no two linked sockets have the same local address. -/
def sock_inv (st : State) : Prop :=
  (∀ p ∈ st.atalk_socket_list, p < st.socks.length ∧ (sock_at st p).zapped = 0) ∧
  st.atalk_socket_list.Nodup ∧
  (st.atalk_socket_list.map (fun p => socket_key (sock_at st p))).Nodup

/-- Every linked socket has the net of some interface and either the node of
that interface or the node `BCAST`. -/
def addr_inv (st : State) : Prop :=
  ∀ p ∈ st.atalk_socket_list, ∃ iface ∈ st.atalk_iface_list,
    iface.address.s_net = (sock_at st p).src_net ∧
    ((sock_at st p).src_node = iface.address.s_node ∨ (sock_at st p).src_node = ATADDR_BCAST)

/-- The address that the first part of `atalk_bind` gives the socket: the
primary address when the net of `addr` is `ANYNET`, the address of `addr` when
`atalk_find_interface` finds an interface for it, `none` when the call returns
`-EADDRNOTAVAIL`. -/
def atalk_bind_addr (st : State) (addr : sockaddr_at) : Option at_addr :=
  if addr.sat_addr.s_net = htons ATADDR_ANYNET then atalk_find_primary st
  else
    match atalk_find_interface st addr.sat_addr.s_net addr.sat_addr.s_node with
    | none => none
    | some _ => some addr.sat_addr

/-- The port that the second part of `atalk_bind` gives the socket: the port
picked when the port of `addr` is `ANYPORT`, the port of `addr` otherwise,
`none` when `atalk_pick_port` fails. -/
def atalk_bind_port (st : State) (addr : sockaddr_at) : Option Nat :=
  if addr.sat_port = ATADDR_ANYPORT then atalk_pick_port st addr else some addr.sat_port

/-- The tables after a bind is committed: the object `v` behind `sk`, and `sk`
linked at the head of the socket list. -/
def sock_commit (st : State) (sk : Nat) (v : atalk_socket) : State :=
  { st with socks := st.socks.set sk v, atalk_socket_list := sk :: st.atalk_socket_list }

/-- The tables with the interface `eth0` at 1000.5 and no socket. -/
def eth0_state : State := { State.init with atalk_iface_list := [eth0_iface] }

/-- The tables after a datagram socket is created in `eth0_state` and bound to
1000.5.128 with `atalk_bind`. -/
def bound_state : State :=
  (atalk_bind (atalk_create eth0_state SOCK_DGRAM).1 0 usat_a sizeof_sockaddr_at).1

/-- The destination net 1000, node `BCAST`, port 128. -/
def usat_bcast : sockaddr_at :=
  { sat_family := AF_APPLETALK, sat_port := 128,
    sat_addr := { s_net := htons 1000, s_node := ATADDR_BCAST } }

/-- The tables after a datagram socket is created in `eth0_state` and bound to
net 1000, node `BCAST`, port 128 with `atalk_bind`. -/
def bcast_bound_state : State :=
  (atalk_bind (atalk_create eth0_state SOCK_DGRAM).1 0 usat_bcast sizeof_sockaddr_at).1

/-! ## Interface configuration: probing and `atif_ioctl` -/

/-- The ioctl numbers of linux/sockios.h (not under src/). -/
def SIOCGIFADDR : Nat := 0x8915

def SIOCSIFADDR : Nat := 0x8916

def SIOCGIFBRDADDR : Nat := 0x8919

/-- The hardware type `ARPHRD_ETHER` of linux/if_arp.h (not under src/). -/
def ARPHRD_ETHER : Nat := 1

/-- Modelled from the spec: `AARP_RETRANSMIT_LIMIT` (net/atalk.h is not under
src/), 3 probes for each candidate address. -/
def AARP_RETRANSMIT_LIMIT : Nat := 3

/-- The error numbers of linux/errno.h used below (not under src/). -/
def EPERM : Int := 1

def ENODEV : Int := 19

def EPROTONOSUPPORT : Int := 93

/-- What the probing thread meets outside ddp.c: `jiffies k` is the clock when
the thread has slept `k` times, and `conflict k addr` says whether AARP sets
`ATIF_PROBE_FAIL` in the interface status during sleep number `k` (counted from
0), while `addr` is the address being probed. -/
structure probe_env where
  jiffies : Nat → Nat
  conflict : Nat → at_addr → Bool

/-- The probing thread of `atif_probe_device`: the interface it writes to, the
number of sleeps so far, and the addresses passed to `aarp_send_probe`, in
order. -/
structure probe_run where
  atif : atalk_iface
  sleeps : Nat
  sent : List at_addr
deriving DecidableEq, Repr

/-- The loop `for(ct=0;ct<AARP_RETRANSMIT_LIMIT;ct++)` of `atif_probe_device`
with `n` iterations left: send a probe, sleep, leave when `ATIF_PROBE_FAIL` is
set. -/
def atif_probe_send (env : probe_env) : Nat → probe_run → probe_run
  | 0, r => r
  | n + 1, r =>
    let status1 :=
      if env.conflict r.sleeps r.atif.address then r.atif.status ||| ATIF_PROBE_FAIL
      else r.atif.status
    let r1 : probe_run :=
      { atif := { r.atif with status := status1 },
        sleeps := r.sleeps + 1,
        sent := r.sent ++ [r.atif.address] }
    if flag_set r1.atif.status ATIF_PROBE_FAIL then r1 else atif_probe_send env n r1

/-- The loop `for(nodect=0;nodect<256;nodect++)` of `atif_probe_device` with `n`
iterations left; `true` stands for `return 0`. -/
def atif_probe_nodes (env : probe_env) (nodeoff : Nat) : Nat → Nat → probe_run → Bool × probe_run
  | 0, _, r => (false, r)
  | n + 1, nodect, r =>
    let node := (nodect + nodeoff) % 256
    let r1 : probe_run :=
      { r with atif := { r.atif with address := { r.atif.address with s_node := node } } }
    let r2 := if node > 0 ∧ node < 254 then atif_probe_send env AARP_RETRANSMIT_LIMIT r1 else r1
    if node > 0 ∧ node < 254 ∧ ¬ flag_set r2.atif.status ATIF_PROBE_FAIL then (true, r2)
    else
      -- atif->status&=~ATIF_PROBE_FAIL
      let r3 : probe_run :=
        { r2 with atif :=
          { r2.atif with status := r2.atif.status ^^^ (r2.atif.status &&& ATIF_PROBE_FAIL) } }
      atif_probe_nodes env nodeoff n (nodect + 1) r3

/-- The loop `for(netct=0;netct<=netrange;netct++)` of `atif_probe_device` with
`n` iterations left; `first` and `last` are the ends of the net range in host
order; `true` stands for `return 0`. -/
def atif_probe_nets (env : probe_env) (first last : Nat) :
    Nat → Nat → probe_run → Bool × probe_run
  | 0, _, r => (false, r)
  | n + 1, probe_net, r =>
    let nodeoff := env.jiffies r.sleeps % 256
    let r1 : probe_run :=
      { r with atif := { r.atif with address := { r.atif.address with s_net := htons probe_net } } }
    match atif_probe_nodes env nodeoff 256 0 r1 with
    | (true, r2) => (true, r2)
    | (false, r2) =>
      let probe_net1 := if probe_net + 1 > last then first else probe_net + 1
      atif_probe_nets env first last n probe_net1 r2

/-- The function `atif_probe_device(atif)`: the C return value and the state of
the probing thread at the return. `netrange` is an `int`; when it is negative
the loop over the nets makes no iteration. -/
def atif_probe_device (env : probe_env) (atif : atalk_iface) : Int × probe_run :=
  let first := ntohs atif.nets.nr_firstnet
  let last := ntohs atif.nets.nr_lastnet
  let netrange : Int := (last : Int) - (first : Int) + 1
  let run0 : probe_run := { atif := atif, sleeps := 0, sent := [] }
  if netrange < 0 then (-EADDRINUSE, run0)
  else
    let probe_net :=
      if ntohs atif.address.s_net = ATADDR_ANYNET then
        if netrange = 0 then first else first + env.jiffies 0 % netrange.toNat
      else ntohs atif.address.s_net
    match atif_probe_nets env first last (netrange.toNat + 1) probe_net run0 with
    | (true, r) => (0, r)
    | (false, r) => (-EADDRINUSE, r)

/-- The loop of `atalk_find_dev`: the first interface on `dev`. -/
def atalk_find_dev_loop (dev : device) : List atalk_iface → Option atalk_iface
  | [] => none
  | iface :: next => if iface.dev = dev then some iface else atalk_find_dev_loop dev next

/-- The function `atalk_find_dev(dev)`. -/
def atalk_find_dev (st : State) (dev : device) : Option atalk_iface :=
  atalk_find_dev_loop dev st.atalk_iface_list

/-- Assignment through the pointer that `atalk_find_dev(dev)` returns: the first
interface on `dev` becomes `v`. -/
def atif_store (dev : device) (v : atalk_iface) : List atalk_iface → List atalk_iface
  | [] => []
  | iface :: next => if iface.dev = dev then v :: next else iface :: atif_store dev v next

/-- The function `atif_add_device(dev, sa)`: a new interface is linked at the
head of the list. The code does not initialise `nets`; the caller assigns it
next. `kmalloc` is taken to succeed. -/
def atif_add_device (st : State) (dev : device) (sa : at_addr) : State :=
  { st with atalk_iface_list :=
      { dev := dev, address := sa, status := 0,
        nets := { nr_phase := 0, nr_firstnet := 0, nr_lastnet := 0 } } :: st.atalk_iface_list }

/-- The loop `for(ct=ntohs(nr->nr_firstnet);ct<=limit;ct++)` of `atif_ioctl` with
`n` iterations left: one `atrtr_create(&rtdef, dev)` for each net. -/
def atif_ioctl_routes (rtdef : rtentry) (dev : device) : Nat → Nat → State → State
  | 0, _, st => st
  | n + 1, ct, st =>
    let r : rtentry :=
      { rtdef with rt_dst := { rtdef.rt_dst with
          sat_addr := { rtdef.rt_dst.sat_addr with s_net := htons ct } } }
    atif_ioctl_routes rtdef dev n (ct + 1) (atrtr_create st r (some dev)).1

/-- The end of the `SIOCSIFADDR` case of `atif_ioctl`, from `Hey it worked - add
the direct routes`: `atif` is the interface after probing, `nr` the net range of
the request. `dev_mc_add` belongs to the link layer and changes no table of
ddp.c. -/
def atif_ioctl_add_routes (st : State) (dev : device) (atif : atalk_iface) (nr : netrange) :
    State × Int :=
  let flags := if flag_set dev.flags IFF_LOOPBACK then RTF_UP ||| RTF_HOST else RTF_UP
  let rtdef : rtentry :=
    { rt_gateway := { sat_family := AF_APPLETALK, sat_port := 0, sat_addr := atif.address },
      rt_dst := { sat_family := AF_APPLETALK, sat_port := 0,
                  sat_addr := { s_net := 0, s_node := ATADDR_ANYNODE } },
      rt_flags := flags }
  if nr.nr_firstnet = htons 0 ∧ nr.nr_lastnet = htons 0xFFFE then
    let r : rtentry :=
      { rtdef with rt_dst := { rtdef.rt_dst with
          sat_addr := { rtdef.rt_dst.sat_addr with s_net := atif.address.s_net } } }
    (atrtr_set_default (atrtr_create st r (some dev)).1 (some dev), 0)
  else
    let limit := ntohs nr.nr_lastnet
    let first := ntohs nr.nr_firstnet
    if (limit : Int) - (first : Int) > 256 then (st, -EINVAL)
    else (atif_ioctl_routes rtdef dev (limit + 1 - first) first st, 0)

/-- The `SIOCSIFADDR` case of `atif_ioctl` after the checks of the request:
`atif` is the result of `atalk_find_dev(dev)`. -/
def atif_ioctl_set (env : probe_env) (st : State) (dev : device) (sa : sockaddr_at)
    (nr : netrange) (atif : Option atalk_iface) : State × Int :=
  -- the interface after `atif->nets= *nr`, and the tables around it
  let start : Option (State × atalk_iface) :=
    match atif with
    | some a =>
      if flag_set a.status ATIF_PROBE then none
      else
        let a1 : atalk_iface := { a with address := sa.sat_addr, nets := nr }
        let a0 : atalk_iface := { a with address := sa.sat_addr }
        let st1 := { st with atalk_iface_list := atif_store dev a0 st.atalk_iface_list }
        let st2 := atrtr_device_down st1 dev
        some ({ st2 with atalk_iface_list := atif_store dev a1 st2.atalk_iface_list }, a1)
    | none =>
      let st1 := atif_add_device st dev sa.sat_addr
      let a1 : atalk_iface := { dev := dev, address := sa.sat_addr, status := 0, nets := nr }
      some ({ st1 with atalk_iface_list := atif_store dev a1 st1.atalk_iface_list }, a1)
  match start with
  | none => (st, -EBUSY)
  | some (st2, a1) =>
    if flag_set dev.flags IFF_LOOPBACK then atif_ioctl_add_routes st2 dev a1 nr
    else
      let res := atif_probe_device env a1
      let st3 := { st2 with atalk_iface_list := atif_store dev res.2.atif st2.atalk_iface_list }
      if res.1 < 0 then (atif_drop_device st3 dev, -EADDRINUSE)
      else atif_ioctl_add_routes st3 dev res.2.atif nr

/-- The function `atif_ioctl(cmd, arg)`: `dev` is the result of
`dev_get(atreq.ifr_name)`, `sa` the address and `nr` the net range of the
request copied from user space, `suser` the result of `suser()`. The result is
the C return value and the address copied back to user space. -/
def atif_ioctl (env : probe_env) (st : State) (cmd : Nat) (dev : Option device)
    (sa : sockaddr_at) (nr : netrange) (suser : Bool) : State × Int × Option sockaddr_at :=
  match dev with
  | none => (st, -ENODEV, none)
  | some dev =>
    let atif := atalk_find_dev st dev
    if cmd = SIOCSIFADDR then
      if ¬ suser then (st, -EPERM, none)
      else if sa.sat_family ≠ AF_APPLETALK then (st, -EINVAL, none)
      else if dev.type ≠ ARPHRD_ETHER then (st, -EPROTONOSUPPORT, none)
      else if nr.nr_phase ≠ 2 then (st, -EPROTONOSUPPORT, none)
      else if sa.sat_addr.s_node = ATADDR_BCAST ∨ sa.sat_addr.s_node = 254 then
        (st, -EINVAL, none)
      else
        let r := atif_ioctl_set env st dev sa nr atif
        (r.1, r.2, none)
    else if cmd = SIOCGIFADDR then
      match atif with
      | none => (st, -EADDRNOTAVAIL, none)
      | some a => (st, 0, some { sa with sat_family := AF_APPLETALK, sat_addr := a.address })
    else if cmd = SIOCGIFBRDADDR then
      match atif with
      | none => (st, -EADDRNOTAVAIL, none)
      | some a =>
        (st, 0, some { sa with sat_family := AF_APPLETALK,
                               sat_addr := { s_net := a.address.s_net, s_node := ATADDR_BCAST } })
    else (st, 0, some sa)

/-- A loopback device: `ARPHRD_ETHER` with `IFF_LOOPBACK` set, the device that the
test `dev->flags&IFF_LOOPBACK` of `atif_ioctl` is for. -/
def lo : device := { name := 1, flags := IFF_LOOPBACK, type := ARPHRD_ETHER, hard_header_len := 14 }

/-- An environment in which the clock stands still and AARP never reports a
conflict. -/
def quiet_env : probe_env := { jiffies := fun _ => 0, conflict := fun _ _ => false }

/-- The request `65280.0` on nets [65280, 65280], phase 2: node 0 is `ANYNODE`. -/
def lo_request : sockaddr_at :=
  { sat_family := AF_APPLETALK, sat_port := 0,
    sat_addr := { s_net := htons 65280, s_node := 0 } }

def lo_nets : netrange :=
  { nr_phase := 2, nr_firstnet := htons 65280, nr_lastnet := htons 65280 }

/-- The tables after `SIOCSIFADDR` for `lo` with `lo_request` on empty tables. -/
def lo_state : State := (atif_ioctl quiet_env State.init SIOCSIFADDR (some lo) lo_request lo_nets true).1

/-- The address 65280.0, port 200. -/
def usat_lo : sockaddr_at :=
  { sat_family := AF_APPLETALK, sat_port := 200,
    sat_addr := { s_net := htons 65280, s_node := 0 } }

/-- The tables after `atalk_create` and `atalk_bind` to 65280.0 port 200 on
`lo_state`: socket 0. -/
def lo_bound : State × Int :=
  atalk_bind (atalk_create lo_state SOCK_DGRAM).1 0 usat_lo sizeof_sockaddr_at

/-- The tables after a second `atalk_create` and `atalk_autobind` of the new
socket 1. -/
def lo_autobound : State × Int :=
  atalk_autobind (atalk_create lo_bound.1 SOCK_DGRAM).1 1

/-- The tables after the same `SIOCSIFADDR` request for `eth0`, a device without
`IFF_LOOPBACK`. -/
def eth0_anynode_state : State :=
  (atif_ioctl quiet_env State.init SIOCSIFADDR (some eth0) lo_request lo_nets true).1

/-! ## Connect -/

/-- The states of `struct socket` in linux/net.h (not under src/). -/
def SS_UNCONNECTED : Nat := 1

def SS_CONNECTED : Nat := 3

/-- The error numbers of linux/errno.h used below (not under src/). -/
def EMSGSIZE : Int := 90

def ENOTCONN : Int := 107

/-- The function `atrtr_get_dev(sa)`: the device of the route found, `none` for
NULL. -/
def atrtr_get_dev (st : State) (sa : at_addr) : Option device :=
  match atrtr_find st sa with
  | none => none
  | some atr => atr.dev

/-- The call `atalk_autobind(sk)` that `atalk_connect`, `atalk_sendto` and
`atalk_getname` make under `if(sk->zapped)`: the tables and the value the test
`<0` is made on (0 when the call is not made). -/
def autobind_if_zapped (st : State) (sk : Nat) : State × Int :=
  if (sock_at st sk).zapped ≠ 0 then atalk_autobind st sk else (st, 0)

/-- The function `atalk_connect(sock, uaddr, addr_len, flags)` for
`sock->data = sk`: the tables, the C return value, and the value of
`sock->state` at the return. -/
def atalk_connect (st : State) (sk : Nat) (addr : sockaddr_at) (addr_len : Nat) :
    State × Int × Nat :=
  let st1 := sock_set st sk { sock_at st sk with state := TCP_CLOSE }
  if addr_len ≠ sizeof_sockaddr_at then (st1, -EINVAL, SS_UNCONNECTED)
  else if addr.sat_family ≠ AF_APPLETALK then (st1, -EAFNOSUPPORT, SS_UNCONNECTED)
  else
    let r := autobind_if_zapped st1 sk
    if r.2 < 0 then (r.1, -EBUSY, SS_UNCONNECTED)
    else
      match atrtr_get_dev r.1 addr.sat_addr with
      | none => (r.1, -ENETUNREACH, SS_UNCONNECTED)
      | some _ =>
        (sock_set r.1 sk
          { sock_at r.1 sk with dest_port := addr.sat_port,
                                dest_net := addr.sat_addr.s_net,
                                dest_node := addr.sat_addr.s_node,
                                state := TCP_ESTABLISHED }, 0, SS_CONNECTED)

/-- Every entry of the routing list has a device: `atrtr_create` stores
`devhint`, which is not NULL when the entry is filled in. -/
def routes_have_dev (st : State) : Prop :=
  ∀ r ∈ st.atalk_router_list, r.dev ≠ none

/-! ## Send -/

/-- What `atalk_sendto` meets outside ddp.c: `header_length` is
`ddp_dl->header_length`, `type_octet` the content of the new buffer at offset 12
of the DDP header, `alloc_err` the outcome of `sock_alloc_send_skb` (`none` for a
buffer, `some e` for NULL with `*err = e`), `clone_ok` whether `skb_clone`
returns a buffer. -/
structure send_env where
  header_length : Nat
  type_octet : u8
  alloc_err : Option Int
  clone_ok : Bool
deriving DecidableEq, Repr

/-- The outcome of one `atalk_sendto`: the tables at the return, the C return
value, the calls `aarp_send_ddp` that `atalk_sendto` itself made and the calls
`atalk_rcv(skb, dev, NULL)` that it made, each in order. -/
structure send_result where
  st : State
  ret : Int
  aarp : List aarp_call
  rcv : List (sk_buff × device)
deriving DecidableEq, Repr

/-- A return of `atalk_sendto` before any buffer is handed on. -/
def send_return (st : State) (ret : Int) : send_result :=
  { st := st, ret := ret, aarp := [], rcv := [] }

/-- The address `atalk_sendto` looks up with `atrtr_find`: the destination when
its net is not 0 or its node is `ANYNODE`, the hint `(sk->at.src_net, 0)`
otherwise. -/
def atalk_sendto_target (sk : atalk_socket) (usat : sockaddr_at) : at_addr :=
  if usat.sat_addr.s_net ≠ 0 ∨ usat.sat_addr.s_node = ATADDR_ANYNODE then usat.sat_addr
  else { s_node := 0, s_net := sk.src_net }

/-- The part of `atalk_sendto` from `sock_alloc_send_skb` on, for the route `rt`
found and its device `dev`. A buffer is `skb->len` and the memory from
`skb->h.raw`; `skb_clone` makes a copy of the buffer. The result is `none` when
the checksum loop leaves the buffer. -/
def atalk_sendto_xmit (env : send_env) (st : State) (sk : Nat) (ubuf : List u8)
    (usat : sockaddr_at) (rt : atalk_route) (dev : device) : Option send_result :=
  match env.alloc_err with
  | some e => some (send_return st e)
  | none =>
    match atalk_sendto_build (sock_at st sk) usat ubuf env.type_octet with
    | none => none
    | some ddp =>
      let size := sizeof_ddpehdr + ubuf.length + env.header_length + dev.hard_header_len
      let skb : sk_buff := { len := size, data := ddp }
      -- the clone of a broadcast: `loopback=1` and the copy goes to AARP
      let loopback : Bool :=
        deh_dnode ddp = ATADDR_BCAST ∧ ¬ flag_set rt.flags RTF_GATEWAY ∧
          ¬ flag_set dev.flags IFF_LOOPBACK ∧ env.clone_ok
      let st1 := if loopback then aarp_send_ddp st dev skb usat.sat_addr else st
      let aarp1 : List aarp_call :=
        if loopback then [{ dev := dev, skb := skb, target := usat.sat_addr }] else []
      if flag_set dev.flags IFF_LOOPBACK ∨ loopback then
        let skb1 : sk_buff := { skb with len := skb.len - env.header_length - dev.hard_header_len }
        some { st := (atalk_rcv st1 skb1 dev).1, ret := ubuf.length, aarp := aarp1,
               rcv := [(skb1, dev)] }
      else
        let target := if flag_set rt.flags RTF_GATEWAY then rt.gateway else usat.sat_addr
        some { st := aarp_send_ddp st1 dev skb target, ret := ubuf.length,
               aarp := aarp1 ++ [{ dev := dev, skb := skb, target := target }], rcv := [] }

/-- The part of `atalk_sendto` from the route selection on, for the destination
`usat`. The result is `none` when the route found has a NULL device, which the
code dereferences. -/
def atalk_sendto_route (env : send_env) (st : State) (sk : Nat) (ubuf : List u8)
    (usat : sockaddr_at) : Option send_result :=
  match atrtr_find st (atalk_sendto_target (sock_at st sk) usat) with
  | none => some (send_return st (-ENETUNREACH))
  | some rt =>
    match rt.dev with
    | none => none
    | some dev => atalk_sendto_xmit env st sk ubuf usat rt dev

/-- The part of `atalk_sendto` after the tests of `flags` and `len`: the
destination is `*sat` (after the autobind of a socket with `zapped` set) or the
connected peer. -/
def atalk_sendto_dest (env : send_env) (st : State) (sk : Nat) (ubuf : List u8)
    (usat : Option sockaddr_at) (addr_len : Nat) : Option send_result :=
  match usat with
  | some u =>
    let r := autobind_if_zapped st sk
    if r.2 < 0 then some (send_return r.1 (-EBUSY))
    else if addr_len < sizeof_sockaddr_at then some (send_return r.1 (-EINVAL))
    else if u.sat_family ≠ AF_APPLETALK then some (send_return r.1 (-EINVAL))
    else atalk_sendto_route env r.1 sk ubuf u
  | none =>
    if (sock_at st sk).state ≠ TCP_ESTABLISHED then some (send_return st (-ENOTCONN))
    else
      atalk_sendto_route env st sk ubuf
        { sat_family := AF_APPLETALK, sat_port := (sock_at st sk).dest_port,
          sat_addr := { s_net := (sock_at st sk).dest_net, s_node := (sock_at st sk).dest_node } }

/-- The function `atalk_sendto(sock, ubuf, len, noblock, flags, sat, addr_len)`
for `sock->data = sk`: `ubuf` is the user data, `len` its length, `usat` is
`none` for a NULL `sat`. The write-buffer accounting (`wmem_alloc`) belongs to
the buffer layer and is left out. -/
def atalk_sendto (env : send_env) (st : State) (sk : Nat) (ubuf : List u8) (flags : Nat)
    (usat : Option sockaddr_at) (addr_len : Nat) : Option send_result :=
  if flags ≠ 0 then some (send_return st (-EINVAL))
  else if ubuf.length > 587 then some (send_return st (-EMSGSIZE))
  else atalk_sendto_dest env st sk ubuf usat addr_len

/-! ## Receive on a socket -/

/-- The outcome of one `atalk_recvfrom`: the tables at the return, the C return
value, the bytes copied to `ubuf`, and `*sip` when `sip` is not NULL and was
assigned. -/
structure recv_result where
  st : State
  ret : Int
  ubuf : List u8
  sat : Option sockaddr_at
deriving DecidableEq, Repr

/-- Modelled from the spec: `skb_recv_datagram` (net/core/datagram.c is not under
src/) takes the first buffer of the receive queue, a FIFO; `none` stands for the
NULL return on an empty queue. -/
def skb_recv_datagram (sk : atalk_socket) : Option (sk_buff × atalk_socket) :=
  match sk.receive_queue with
  | [] => none
  | skb :: rest => some (skb, { sk with receive_queue := rest })

/-- Modelled from the spec: `skb_copy_datagram(skb, offset, to, size)` copies
`size` bytes from `skb->h.raw + offset`; `none` when `size` is negative or the
range is not inside the buffer. -/
def skb_copy_datagram (skb : sk_buff) (offset : Nat) (size : Int) : Option (List u8) :=
  if 0 ≤ size ∧ offset + size.toNat ≤ skb.data.length then
    some ((skb.data.drop offset).take size.toNat)
  else none

/-- Modelled from the spec: `skb_free_datagram` releases the buffer, which gives
its bytes back to the receive allowance of the socket. -/
def skb_free_datagram (sk : atalk_socket) (skb : sk_buff) : atalk_socket :=
  { sk with rmem_alloc := sk.rmem_alloc - skb.len }

/-- The value of `copied` in `atalk_recvfrom` before the copy. -/
def atalk_recvfrom_copied (type : Nat) (ddp : List u8) (size : Nat) : Int :=
  let copied : Int :=
    if type = SOCK_RAW then (deh_len ddp : Int) else (deh_len ddp : Int) - (sizeof_ddpehdr : Int)
  if copied > (size : Int) then (size : Int) else copied

/-- The function `atalk_recvfrom(sock, ubuf, size, noblock, flags, sip, addr_len)`
for `sock->data = sk`: `er` is the error `skb_recv_datagram` reports when it
returns NULL, `sip` tells whether the pointer `sip` is not NULL. The result is
`none` when the copy leaves the buffer. -/
def atalk_recvfrom (st : State) (sk : Nat) (size : Nat) (er : Int) ( sip : Bool) :
    Option recv_result :=
  let s := sock_at st sk
  if s.err ≠ 0 then
    some { st := sock_set st sk { s with err := 0 }, ret := -(s.err : Int), ubuf := [],
           sat := none }
  else
    match skb_recv_datagram s with
    | none => some { st := st, ret := er, ubuf := [], sat := none }
    | some (skb, s1) =>
      let ddp := skb.data
      let copied := atalk_recvfrom_copied s.type ddp size
      let offset := if s.type = SOCK_RAW then 0 else sizeof_ddpehdr
      match skb_copy_datagram skb offset copied with
      | none => none
      | some bytes =>
        let sat : sockaddr_at :=
          { sat_family := AF_APPLETALK, sat_port := deh_sport ddp,
            sat_addr := { s_net := deh_snet ddp, s_node := deh_snode ddp } }
        some { st := sock_set st sk (skb_free_datagram s1 skb), ret := copied, ubuf := bytes,
               sat := if sip then some sat else none }

/-- The primary interface address in the words of the specification: the
address of the first interface that is not a loopback interface, else of the
first interface, else none. -/
def spec_primary (l : List atalk_iface) : Option at_addr :=
  match l.find? (fun i => !flag_set i.dev.flags IFF_LOOPBACK) with
  | some i => some i.address
  | none => l.head?.map (fun i => i.address)

/-- The tables after a datagram socket is created in `eth0_state`. -/
def eth0_open_state : State := (atalk_create eth0_state SOCK_DGRAM).1

/-- What a send or a receive leaves of the tables: the socket list, the
interface and routing tables, the number of socket objects, and the local
address and `zapped` of every socket object. -/
def keeps_sockets (st st1 : State) : Prop :=
  st1.atalk_socket_list = st.atalk_socket_list ∧
  st1.atalk_iface_list = st.atalk_iface_list ∧
  st1.atalk_router_list = st.atalk_router_list ∧
  st1.atrtr_default = st.atrtr_default ∧
  st1.socks.length = st.socks.length ∧
  ∀ p, socket_key (sock_at st1 p) = socket_key (sock_at st p) ∧
    (sock_at st1 p).zapped = (sock_at st p).zapped

/-- One request of a send with a destination: the arguments of `atalk_sendto`
other than the socket, with `flags = 0`. -/
structure send_req where
  env : send_env
  ubuf : List u8
  usat : sockaddr_at
  addr_len : Nat
deriving DecidableEq, Repr

/-- Open a datagram socket with `atalk_create` and send once on it with
`atalk_sendto`, without a bind: the tables afterwards and the return value of the
send. -/
def open_and_send (st : State) (rq : send_req) : Option (State × Int) :=
  match atalk_sendto rq.env (atalk_create st SOCK_DGRAM).1 st.socks.length rq.ubuf 0
      (some rq.usat) rq.addr_len with
  | none => none
  | some r => some (r.st, r.ret)

/-- The requests of a list made one after the other with `open_and_send`: the
tables at the end and the return values in order. -/
def open_and_send_all : State → List send_req → Option (State × List Int)
  | st, [] => some (st, [])
  | st, rq :: rest =>
    match open_and_send st rq with
    | none => none
    | some (st1, ret) =>
      match open_and_send_all st1 rest with
      | none => none
      | some (st2, rets) => some (st2, ret :: rets)

/-- The socket table after `k` sockets were opened on tables with `base` socket
objects and an empty socket list, and each was bound by `atalk_autobind` at the
address `ap`: socket `base + i` has the port `ATPORT_RESERVED + i`, and the list
holds the sockets newest first. -/
def autobound (ap : at_addr) (base k : Nat) (st : State) : Prop :=
  st.socks.length = base + k ∧
  st.atalk_socket_list = ((List.range k).map (fun i => base + i)).reverse ∧
  ∀ i, i < k →
    socket_key (sock_at st (base + i)) = (ap.s_net, ap.s_node, ATPORT_RESERVED + i) ∧
    (sock_at st (base + i)).zapped = 0

/-- A request that sends the two octets `hi` to 1000.5.128, with a link header
of 8 octets; the allocation and the clone succeed. -/
def hi_request : send_req :=
  { env := { header_length := 8, type_octet := 0, alloc_err := none, clone_ok := true },
    ubuf := [0x68, 0x69], usat := usat_a, addr_len := sizeof_sockaddr_at }

/-- The tables with the interface `eth0` at 1000.5, a route to net 2000 through
`eth0`, and a socket bound to 1000.5.128. -/
def routed_bound_state : State :=
  (atrtr_create bound_state net_request (some eth0)).1

/-- The address 2000.20, port 130. -/
def usat_remote : sockaddr_at :=
  { sat_family := AF_APPLETALK, sat_port := 130,
    sat_addr := { s_net := htons 2000, s_node := 20 } }

/-- An environment in which the clock reads 5 and AARP never reports a
conflict: the probe starts at node 5. -/
def probe5_env : probe_env := { jiffies := fun _ => 5, conflict := fun _ _ => false }

/-- The request `1000.5` on nets [1000, 1000], phase 2. -/
def eth0_request : sockaddr_at :=
  { sat_family := AF_APPLETALK, sat_port := 0,
    sat_addr := { s_net := htons 1000, s_node := 5 } }

def eth0_nets : netrange :=
  { nr_phase := 2, nr_firstnet := htons 1000, nr_lastnet := htons 1000 }

/-- The tables after `SIOCSIFADDR` for `eth0` with `eth0_request` on empty
tables: the interface `eth0` at 1000.5 and the route to net 1000. -/
def eth0_up_state : State :=
  (atif_ioctl probe5_env State.init SIOCSIFADDR (some eth0) eth0_request eth0_nets true).1

/-- The address 1000.5, port 200. -/
def usat_b : sockaddr_at :=
  { sat_family := AF_APPLETALK, sat_port := 200,
    sat_addr := { s_net := htons 1000, s_node := 5 } }

/-- The tables of the broadcast scenario: on `eth0_up_state` socket A (pointer 0)
is created and bound to 1000.5.128, then socket B (pointer 1) is created and
bound to 1000.5.200. -/
def fanout_state : State :=
  (atalk_bind
    (atalk_create
      (atalk_bind (atalk_create eth0_up_state SOCK_DGRAM).1 0 usat_a sizeof_sockaddr_at).1
      SOCK_DGRAM).1
    1 usat_b sizeof_sockaddr_at).1

/-- The environment of a send with a link header of 8 octets in which the
allocation and the clone succeed. -/
def send_ok_env : send_env :=
  { header_length := 8, type_octet := 0, alloc_err := none, clone_ok := true }

/-- The destination `atalk_sendto` uses: `*sat` when `sat` is not NULL, the
connected peer `(dest_net, dest_node, dest_port)` of the socket otherwise. -/
def atalk_sendto_usat (sk : atalk_socket) (usat : Option sockaddr_at) : sockaddr_at :=
  match usat with
  | some u => u
  | none =>
    { sat_family := AF_APPLETALK, sat_port := sk.dest_port,
      sat_addr := { s_net := sk.dest_net, s_node := sk.dest_node } }

/-- The tables `atalk_sendto` selects the route on: those after the autobind of
a socket with `zapped` set when `sat` is not NULL, the tables of the call
otherwise. -/
def atalk_sendto_bound (st : State) (sk : Nat) (usat : Option sockaddr_at) : State :=
  match usat with
  | some _ => (autobind_if_zapped st sk).1
  | none => st

/-- The route to net 1000 that `SIOCSIFADDR` installs for `eth0` at 1000.5. -/
def eth0_route : atalk_route :=
  { dev := some eth0, target := { s_net := htons 1000, s_node := 0 },
    gateway := { s_net := htons 1000, s_node := 5 }, flags := RTF_UP }

/-- The wire frame `src=3000.1.10 -> dst=1000.5.128`, length 15, no checksum,
with the two octets `hi` behind the header. -/
def hi_frame : sk_buff :=
  { len := 15,
    data := [0x00, 0x3C, 0, 0, 0x03, 0xE8, 0x0B, 0xB8, 5, 1, 128, 10, 0, 0x68, 0x69] }

/-- The tables after `atalk_rcv` has queued `hi_frame` on the socket bound to
1000.5.128 in `local_state`. -/
def queued_state : State := (atalk_rcv local_state hi_frame eth0).1

/-- The flags of the direct routes `atif_ioctl` installs: `RTF_UP`, with
`RTF_HOST` added for a loopback device. -/
def direct_flags (dev : device) : Nat :=
  if flag_set dev.flags IFF_LOOPBACK then RTF_UP ||| RTF_HOST else RTF_UP

/-- The direct route `atif_ioctl` installs through `dev` for the net `net`
(network byte order): target `(net, ANYNODE)`, the gateway `gw`. -/
def direct_route (dev : device) (gw : at_addr) (flags : Nat) (net : Nat) : atalk_route :=
  { dev := some dev, target := { s_net := net, s_node := ATADDR_ANYNODE }, gateway := gw,
    flags := flags }

/-- The request of the loop of `atif_ioctl` for the net `ct` (host byte order):
`rtdef` with `sa->sat_addr.s_net=htons(ct)`. -/
def atif_ioctl_request (rtdef : rtentry) (ct : Nat) : rtentry :=
  { rtdef with rt_dst := { rtdef.rt_dst with
      sat_addr := { rtdef.rt_dst.sat_addr with s_net := htons ct } } }

/-- The routing list `L` while the loop of `atif_ioctl` runs, started at the
net `first` on the list `L0` and now at the net `hi`: every route through `dev`
is the route of a request made so far, each such route is in the list once, and
the routes through other devices were in `L0`. -/
def direct_inv (rtdef : rtentry) (dev : device) (first hi : Nat)
    (L0 L : List atalk_route) : Prop :=
  (∀ r ∈ L, r.dev = some dev →
    ∃ k, first ≤ k ∧ k < hi ∧ r = route_of (atif_ioctl_request rtdef k) dev) ∧
  (∀ k, first ≤ k → k < hi → L.count (route_of (atif_ioctl_request rtdef k) dev) = 1) ∧
  (∀ r ∈ L, r.dev ≠ some dev → r ∈ L0)

/-- The request `rtdef` that `atif_ioctl` fills in before the routes are made:
the gateway is the address of the interface, the target node `ANYNODE`, the
flags `RTF_UP`, with `RTF_HOST` for a loopback device. -/
def atif_ioctl_rtdef (dev : device) (atif : atalk_iface) : rtentry :=
  { rt_gateway := { sat_family := AF_APPLETALK, sat_port := 0, sat_addr := atif.address },
    rt_dst := { sat_family := AF_APPLETALK, sat_port := 0,
                sat_addr := { s_net := 0, s_node := ATADDR_ANYNODE } },
    rt_flags := if flag_set dev.flags IFF_LOOPBACK then RTF_UP ||| RTF_HOST else RTF_UP }

/-- The request `65280.1` on nets [65280, 65280] for the loopback device. -/
def lo1_request : sockaddr_at :=
  { sat_family := AF_APPLETALK, sat_port := 0,
    sat_addr := { s_net := htons 65280, s_node := 1 } }

/-- The tables after `SIOCSIFADDR` for `lo` with `lo1_request` on empty tables. -/
def lo1_state : State :=
  (atif_ioctl quiet_env State.init SIOCSIFADDR (some lo) lo1_request lo_nets true).1

/-! ## A router with two devices -/

/-- A second Ethernet device, not a loopback device. -/
def eth1 : device := { name := 2, flags := 0, type := 1, hard_header_len := 14 }

/-- The request `2000.5` on nets [2000, 2000], phase 2. -/
def eth1_request : sockaddr_at :=
  { sat_family := AF_APPLETALK, sat_port := 0,
    sat_addr := { s_net := htons 2000, s_node := 5 } }

def eth1_nets : netrange :=
  { nr_phase := 2, nr_firstnet := htons 2000, nr_lastnet := htons 2000 }

/-- The tables of a router: after `eth0_up_state`, `SIOCSIFADDR` for `eth1` with
`eth1_request`, which adds the interface `eth1` at 2000.5 and the route to net
2000 through `eth1`. -/
def two_dev_state : State :=
  (atif_ioctl probe5_env eth0_up_state SIOCSIFADDR (some eth1) eth1_request eth1_nets true).1

/-- The route to net 2000 that `SIOCSIFADDR` installs for `eth1` at 2000.5. -/
def eth1_route : atalk_route :=
  { dev := some eth1, target := { s_net := htons 2000, s_node := 0 },
    gateway := { s_net := htons 2000, s_node := 5 }, flags := RTF_UP }

/-- A wire frame of 13 bytes `src=3000.1.10 -> dst=1000.5.128` whose length field
is 1023 and whose checksum field is 1: the buffer holds the 13 bytes of the
frame. -/
def long_length_frame : sk_buff :=
  { len := 13, data := [0x0F, 0xFC, 0x00, 0x01, 0x03, 0xE8, 0x0B, 0xB8, 5, 1, 128, 10, 0] }

/-- The destination net 0 (`this network`), node 7, port 130. -/
def usat_this_net : sockaddr_at :=
  { sat_family := AF_APPLETALK, sat_port := 130, sat_addr := { s_net := 0, s_node := 7 } }

/-- An environment in which the clock stands still and AARP answers every probe
with a conflict. -/
def conflict_env : probe_env := { jiffies := fun _ => 0, conflict := fun _ _ => true }

/-- The net range [1000, 1300], phase 2: 301 nets. -/
def wide_nets : netrange :=
  { nr_phase := 2, nr_firstnet := htons 1000, nr_lastnet := htons 1300 }

/-! ## The loopback echo -/

/-- The error number `EAGAIN` of linux/errno.h (not under src/). -/
def EAGAIN : Int := 11

/-- The address 65280.1, port 200. -/
def usat_lo1 : sockaddr_at :=
  { sat_family := AF_APPLETALK, sat_port := 200,
    sat_addr := { s_net := htons 65280, s_node := 1 } }

/-- The tables after `atalk_create` and `atalk_bind` to 65280.1 port 200 on
`lo1_state` (socket 0), with the return value of the bind. -/
def lo1_bound : State × Int :=
  atalk_bind (atalk_create lo1_state SOCK_DGRAM).1 0 usat_lo1 sizeof_sockaddr_at

/-- A host route request for 65280.1 through the gateway 65280.1, the address of
the interface on `lo` (up, host). -/
def lo1_host_request : rtentry :=
  { rt_dst := { sat_family := AF_APPLETALK, sat_port := 0,
                sat_addr := { s_net := htons 65280, s_node := 1 } },
    rt_gateway := { sat_family := AF_APPLETALK, sat_port := 0,
                    sat_addr := { s_net := htons 65280, s_node := 1 } },
    rt_flags := RTF_UP ||| RTF_HOST }

/-- The tables after `lo1_host_request` is added to `lo1_bound` with
`atrtr_create(&rt, NULL)`, with the return value. -/
def lo1_routed : State × Int := atrtr_create lo1_bound.1 lo1_host_request none

/-- The net range [100, 100], phase 2. -/
def nets100 : netrange :=
  { nr_phase := 2, nr_firstnet := htons 100, nr_lastnet := htons 100 }

/-! ## The candidates of the probe -/

/-- The addresses on the net `net` (network byte order) with the nodes
`(c + off) mod 256` for `c = start, ..., start + n - 1`, without the nodes 0, 254
and 255: the candidates of a sweep over the nodes that starts at the offset
`off`, in the order of the sweep. -/
def probe_sweep_from (net off start n : Nat) : List at_addr :=
  (((List.range' start n).map (fun c => (c + off) % 256)).filter
    (fun node => decide (0 < node ∧ node < 254))).map (fun node => { s_net := net, s_node := node })

/-- The candidates of a full sweep over the nodes, `c = 0, ..., 255`. -/
def probe_sweep (net off : Nat) : List at_addr := probe_sweep_from net off 0 256

/-- The candidates of `n` sweeps in a row, the first on the net `probe_net` (host
byte order) with the clock read at sleep number `sleeps`; after a sweep the net
is the next one, or `first` after `last`, and one sleep has passed for each
candidate. -/
def probe_sweeps (env : probe_env) (first last : Nat) : Nat → Nat → Nat → List at_addr
  | 0, _, _ => []
  | n + 1, probe_net, sleeps =>
    probe_sweep (htons probe_net) (env.jiffies sleeps % 256) ++
      probe_sweeps env first last n (if probe_net + 1 > last then first else probe_net + 1)
        (sleeps + (probe_sweep (htons probe_net) (env.jiffies sleeps % 256)).length)

/-- The net on which `atif_probe_device` starts: the net of the address in host
byte order, or for `ANYNET` the first net of the range offset by the clock. -/
def probe_start (env : probe_env) (atif : atalk_iface) : Nat :=
  if ntohs atif.address.s_net = ATADDR_ANYNET then
    ntohs atif.nets.nr_firstnet + env.jiffies 0 %
      (ntohs atif.nets.nr_lastnet + 1 - ntohs atif.nets.nr_firstnet)
  else ntohs atif.address.s_net

/-- The interface `atif_probe_device` is given for a request with the address
`0.0` (net `ANYNET`, node `ANYNODE`) on the net range [100, 100], for `eth0`. -/
def iface100 : atalk_iface :=
  { dev := eth0, address := { s_net := 0, s_node := 0 }, status := 0, nets := nets100 }

/-! ## An address outside the net range -/

/-- The request `5.1`, phase 2: net 5 is not in the net range [10, 20]. -/
def net5_request : sockaddr_at :=
  { sat_family := AF_APPLETALK, sat_port := 0,
    sat_addr := { s_net := htons 5, s_node := 1 } }

/-- The net range [10, 20], phase 2. -/
def nets10_20 : netrange :=
  { nr_phase := 2, nr_firstnet := htons 10, nr_lastnet := htons 20 }

/-! ## The tables while `atif_probe_device` sleeps -/

/-- The interface as it stands in memory at each `schedule()` of the loop
`for(ct=0;ct<AARP_RETRANSMIT_LIMIT;ct++)`, in order, with `n` iterations left: the
probe is sent, the thread sleeps with the interface as it is, and AARP may set
`ATIF_PROBE_FAIL` during the sleep. -/
def atif_probe_send_sleeping (env : probe_env) : Nat → probe_run → List atalk_iface
  | 0, _ => []
  | n + 1, r =>
    let status1 :=
      if env.conflict r.sleeps r.atif.address then r.atif.status ||| ATIF_PROBE_FAIL
      else r.atif.status
    let r1 : probe_run :=
      { atif := { r.atif with status := status1 },
        sleeps := r.sleeps + 1,
        sent := r.sent ++ [r.atif.address] }
    r.atif :: (if flag_set r1.atif.status ATIF_PROBE_FAIL then []
      else atif_probe_send_sleeping env n r1)

/-- The interface at each `schedule()` of the loop `for(nodect=0;nodect<256;nodect++)`
with `n` iterations left. -/
def atif_probe_nodes_sleeping (env : probe_env) (nodeoff : Nat) :
    Nat → Nat → probe_run → List atalk_iface
  | 0, _, _ => []
  | n + 1, nodect, r =>
    let node := (nodect + nodeoff) % 256
    let r1 : probe_run :=
      { r with atif := { r.atif with address := { r.atif.address with s_node := node } } }
    let r2 := if node > 0 ∧ node < 254 then atif_probe_send env AARP_RETRANSMIT_LIMIT r1 else r1
    let here :=
      if node > 0 ∧ node < 254 then atif_probe_send_sleeping env AARP_RETRANSMIT_LIMIT r1 else []
    if node > 0 ∧ node < 254 ∧ ¬ flag_set r2.atif.status ATIF_PROBE_FAIL then here
    else
      let r3 : probe_run :=
        { r2 with atif :=
          { r2.atif with status := r2.atif.status ^^^ (r2.atif.status &&& ATIF_PROBE_FAIL) } }
      here ++ atif_probe_nodes_sleeping env nodeoff n (nodect + 1) r3

/-- The interface at each `schedule()` of the loop
`for(netct=0;netct<=netrange;netct++)` with `n` iterations left. -/
def atif_probe_nets_sleeping (env : probe_env) (first last : Nat) :
    Nat → Nat → probe_run → List atalk_iface
  | 0, _, _ => []
  | n + 1, probe_net, r =>
    let nodeoff := env.jiffies r.sleeps % 256
    let r1 : probe_run :=
      { r with atif := { r.atif with address := { r.atif.address with s_net := htons probe_net } } }
    let here := atif_probe_nodes_sleeping env nodeoff 256 0 r1
    match atif_probe_nodes env nodeoff 256 0 r1 with
    | (true, _) => here
    | (false, r2) =>
      let probe_net1 := if probe_net + 1 > last then first else probe_net + 1
      here ++ atif_probe_nets_sleeping env first last n probe_net1 r2

/-- The interface at each `schedule()` of `atif_probe_device(atif)`, in order. -/
def atif_probe_device_sleeping (env : probe_env) (atif : atalk_iface) : List atalk_iface :=
  let first := ntohs atif.nets.nr_firstnet
  let last := ntohs atif.nets.nr_lastnet
  let netrange : Int := (last : Int) - (first : Int) + 1
  let run0 : probe_run := { atif := atif, sleeps := 0, sent := [] }
  if netrange < 0 then []
  else
    let probe_net :=
      if ntohs atif.address.s_net = ATADDR_ANYNET then
        if netrange = 0 then first else first + env.jiffies 0 % netrange.toNat
      else ntohs atif.address.s_net
    atif_probe_nets_sleeping env first last (netrange.toNat + 1) probe_net run0

/-- The tables at each `schedule()` of the `SIOCSIFADDR` case of `atif_ioctl`, in
order: the interface of `dev` is linked in `atalk_iface_list` before
`atif_probe_device` is called, and the probing thread writes the address it
probes into it. `atif` is the result of `atalk_find_dev(dev)`. -/
def atif_ioctl_set_sleeping (env : probe_env) (st : State) (dev : device) (sa : sockaddr_at)
    (nr : netrange) (atif : Option atalk_iface) : List State :=
  let start : Option (State × atalk_iface) :=
    match atif with
    | some a =>
      if flag_set a.status ATIF_PROBE then none
      else
        let a1 : atalk_iface := { a with address := sa.sat_addr, nets := nr }
        let a0 : atalk_iface := { a with address := sa.sat_addr }
        let st1 := { st with atalk_iface_list := atif_store dev a0 st.atalk_iface_list }
        let st2 := atrtr_device_down st1 dev
        some ({ st2 with atalk_iface_list := atif_store dev a1 st2.atalk_iface_list }, a1)
    | none =>
      let st1 := atif_add_device st dev sa.sat_addr
      let a1 : atalk_iface := { dev := dev, address := sa.sat_addr, status := 0, nets := nr }
      some ({ st1 with atalk_iface_list := atif_store dev a1 st1.atalk_iface_list }, a1)
  match start with
  | none => []
  | some (st2, a1) =>
    if flag_set dev.flags IFF_LOOPBACK then []
    else
      (atif_probe_device_sleeping env a1).map
        (fun a => { st2 with atalk_iface_list := atif_store dev a st2.atalk_iface_list })

/-! ## Lemmas on memory accesses -/

theorem wr16_length (d : List u8) (i v : Nat) : (wr16 d i v).length = d.length := by
  simp [wr16]

theorem drop_wr16 (d : List u8) (i v k : Nat) (h : i + 2 ≤ k) :
    (wr16 d i v).drop k = d.drop k := by
  unfold wr16
  rw [List.drop_set_of_lt _ _ (by omega), List.drop_set_of_lt _ _ (by omega)]

theorem rd8_wr16_ne (d : List u8) (i v k : Nat) (h1 : k ≠ i) (h2 : k ≠ i + 1) :
    rd8 (wr16 d i v) k = rd8 d k := by
  unfold rd8 wr16
  simp [List.getElem?_set_ne (Ne.symm h1), List.getElem?_set_ne (Ne.symm h2)]

theorem rd16_wr16_same (d : List u8) (i v : Nat) (h : i + 1 < d.length) :
    rd16 (wr16 d i v) i = v % 65536 := by
  unfold rd16 rd8 wr16
  have h0 : i < d.length := by omega
  simp [List.getElem?_set_ne, h, h0, Fin.ofNat]
  omega

theorem ntohs_ntohs (w : Nat) (h : w < 65536) : ntohs (ntohs w) = w := by
  unfold ntohs
  have e1 : (w % 256 * 256 + w / 256 % 256) % 256 = w / 256 := by omega
  have e2 : (w % 256 * 256 + w / 256 % 256) / 256 = w % 256 := by omega
  rw [e1, e2]
  omega

theorem ntohs_le_bytes (b0 b1 : Nat) (h0 : b0 < 256) (h1 : b1 < 256) :
    ntohs (b0 + 256 * b1) = b0 * 256 + b1 := by
  unfold ntohs
  omega

theorem ntohs_be_bytes (hi lo : Nat) (h0 : hi < 256) (h1 : lo < 256) :
    ntohs (hi * 256 + lo) = lo * 256 + hi := by
  unfold ntohs
  omega

theorem ntohs_lt (w : Nat) : ntohs w < 65536 := by
  unfold ntohs
  omega

theorem rd16_lt (d : List u8) (i : Nat) : rd16 d i < 65536 := by
  unfold rd16 rd8
  have h1 := (d.getD i 0).isLt
  have h2 := (d.getD (i + 1) 0).isLt
  omega

theorem fix_first_word_length (d : List u8) : (fix_first_word d).length = d.length := by
  simp [fix_first_word, wr16_length]

theorem rd16_fix_first_word (d : List u8) (h : 2 ≤ d.length) :
    rd16 (fix_first_word d) 0 = ntohs (rd16 d 0) := by
  unfold fix_first_word
  rw [rd16_wr16_same d 0 _ (by omega)]
  exact Nat.mod_eq_of_lt (ntohs_lt _)

theorem fix_first_word_twice (d : List u8) (h : 2 ≤ d.length) :
    rd16 (fix_first_word (fix_first_word d)) 0 = rd16 d 0 := by
  rw [rd16_fix_first_word _ (by rw [fix_first_word_length]; exact h), rd16_fix_first_word _ h]
  exact ntohs_ntohs _ (rd16_lt d 0)

theorem rd8_wr16_lo (d : List u8) (i v : Nat) (h : i + 1 < d.length) :
    rd8 (wr16 d i v) i = v % 256 := by
  unfold rd8 wr16
  have h0 : i < d.length := by omega
  simp [List.getElem?_set_ne, h0, Fin.ofNat]

theorem rd8_wr16_hi (d : List u8) (i v : Nat) (h : i + 1 < d.length) :
    rd8 (wr16 d i v) (i + 1) = (v / 256) % 256 := by
  unfold rd8 wr16
  simp [h, Fin.ofNat]

theorem rd16_wr16_ne (d : List u8) (i v k : Nat) (h : k + 1 < i ∨ i + 1 < k) :
    rd16 (wr16 d i v) k = rd16 d k := by
  unfold rd16
  rw [rd8_wr16_ne d i v k (by omega) (by omega), rd8_wr16_ne d i v (k + 1) (by omega) (by omega)]

theorem rd8_set_ne (d : List u8) (i k : Nat) (x : u8) (h : i ≠ k) :
    rd8 (d.set i x) k = rd8 d k := by
  unfold rd8
  simp [List.getElem?_set_ne h]

theorem rd16_set_ne (d : List u8) (i k : Nat) (x : u8) (h1 : i ≠ k) (h2 : i ≠ k + 1) :
    rd16 (d.set i x) k = rd16 d k := by
  unfold rd16
  rw [rd8_set_ne d i k x h1, rd8_set_ne d i (k + 1) x h2]

theorem atalk_checksum_congr (d1 d2 : List u8) (len : Nat) (hl : d1.length = d2.length)
    (hd : d1.drop 4 = d2.drop 4) : atalk_checksum d1 len = atalk_checksum d2 len := by
  unfold atalk_checksum
  rw [hl, hd]

theorem rd8_fix_first_word_lo (d : List u8) (h : 2 ≤ d.length) :
    rd8 (fix_first_word d) 0 = ntohs (rd16 d 0) % 256 := by
  unfold fix_first_word
  exact rd8_wr16_lo d 0 _ (by omega)

theorem rd8_fix_first_word_hi (d : List u8) (h : 2 ≤ d.length) :
    rd8 (fix_first_word d) 1 = (ntohs (rd16 d 0) / 256) % 256 := by
  unfold fix_first_word
  exact rd8_wr16_hi d 0 _ (by omega)

theorem atalk_checksum_lt (d : List u8) (len c : Nat) (h : atalk_checksum d len = some c) :
    c < 65536 := by
  unfold atalk_checksum at h
  by_cases hb : 4 ≤ len ∧ len ≤ d.length
  · rw [if_pos hb] at h
    simp only at h
    by_cases hs : atalk_checksum_loop 0 ((d.drop 4).take (len - 4)) ≠ 0
    · rw [if_pos hs] at h
      simp only [Option.some.injEq] at h
      rw [← h]
      unfold htons
      omega
    · rw [if_neg hs] at h
      simp only [Option.some.injEq] at h
      omega
  · rw [if_neg hb] at h
    cases h

theorem atalk_checksum_in_bounds (d : List u8) (len : Nat) (h1 : 4 ≤ len) (h2 : len ≤ d.length) :
    ∃ c, atalk_checksum d len = some c := by
  unfold atalk_checksum
  rw [if_pos ⟨h1, h2⟩]
  simp only
  split_ifs
  · exact ⟨_, rfl⟩
  · exact ⟨_, rfl⟩

/-! ## Checksum -/

theorem spec_checksum_step_eq (s : Nat) (byte : u8) :
    spec_checksum_step s byte
      = (2 * ((s + byte.val) % 0x10000)) % 0x10000 + ((s + byte.val) % 0x10000) / 0x8000 := by
  unfold spec_checksum_step
  simp only
  have hlt : (s + byte.val) % 0x10000 < 0x10000 := Nat.mod_lt _ (by decide)
  generalize (s + byte.val) % 0x10000 = x at hlt
  have hr : x >>> 15 = x / 0x8000 := by
    rw [Nat.shiftRight_eq_div_pow]
  have hb : x / 0x8000 < 2 ^ 1 := by omega
  rw [hr, Nat.shiftLeft_eq, Nat.mul_comm x (2 ^ 1), ← Nat.mul_add_lt_is_or hb x,
    show (0xFFFF : Nat) = 2 ^ 16 - 1 from rfl, Nat.and_pow_two_sub_one_eq_mod]
  omega

theorem spec_checksum_step_lt (s : Nat) (byte : u8) : spec_checksum_step s byte < 0x10000 := by
  rw [spec_checksum_step_eq]
  omega

/-- The loop of `atalk_checksum` started on a `sum` whose bit 16 is clear: the low
16 bits of the `sum` at the end are the steps of the specification applied to the
low 16 bits at the start. Each turn leaves bit 16 clear, so a carry out of the
addition goes to bit 17 with the shift and stays above the low 16 bits. -/
theorem atalk_checksum_loop_low16 :
    ∀ (bytes : List u8) (sum : Nat), (sum / 0x10000) % 2 = 0 →
      atalk_checksum_loop sum bytes % 0x10000
        = bytes.foldl spec_checksum_step (sum % 0x10000) := by
  intro bytes
  induction bytes with
  | nil =>
    intro sum _
    rfl
  | cons b rest ih =>
    intro sum hbit
    have hb := b.isLt
    simp only [atalk_checksum_loop, List.foldl_cons]
    have hstep : spec_checksum_step (sum % 0x10000) b
        = (2 * ((sum + b.val) % 0x10000)) % 0x10000 + ((sum + b.val) % 0x10000) / 0x8000 := by
      rw [spec_checksum_step_eq]
      have e : (sum % 0x10000 + b.val) % 0x10000 = (sum + b.val) % 0x10000 := by omega
      rw [e]
    by_cases h16 : ((sum + b.val) % 2 ^ 32 * 2) % 2 ^ 32 / 0x10000 % 2 = 1
    · rw [if_pos h16]
      have hclear : ((((sum + b.val) % 2 ^ 32 * 2) % 2 ^ 32 + 1) % 2 ^ 32 % 0x10000) / 0x10000 % 2
          = 0 := by omega
      rw [ih _ hclear]
      congr 1
      rw [hstep]
      omega
    · rw [if_neg h16]
      have hclear : ((sum + b.val) % 2 ^ 32 * 2) % 2 ^ 32 / 0x10000 % 2 = 0 := by omega
      rw [ih _ hclear]
      congr 1
      rw [hstep]
      omega

/-- C1: for every buffer `b` and every `len` with `4 <= len <= |b|`, the low 16
bits of the `sum` that the loop of `atalk_checksum` ends with are the 16-bit value
of the specification: start from `s = 0` and apply the step
`s += byte; s = (s << 1) | (s >> 15); s &= 0xFFFF` to the bytes
`b[4], ..., b[len-1]` in order. `atalk_checksum` returns `htons` of that value when
`sum` is not 0 and `0xFFFF` when it is, so whenever the 16-bit value is not 0 the
result is the checksum of the specification. -/
theorem atalk_checksum_is_rotate16 (b : List u8) (len : Nat) (h1 : 4 ≤ len)
    (h2 : len ≤ b.length) :
    atalk_checksum_loop 0 ((b.drop 4).take (len - 4)) % 0x10000
      = ((b.drop 4).take (len - 4)).foldl spec_checksum_step 0 ∧
    atalk_checksum b len
      = some (if atalk_checksum_loop 0 ((b.drop 4).take (len - 4)) ≠ 0
          then htons (((b.drop 4).take (len - 4)).foldl spec_checksum_step 0) else 0xFFFF) ∧
    (atalk_checksum_loop 0 ((b.drop 4).take (len - 4)) = 0 →
      ((b.drop 4).take (len - 4)).foldl spec_checksum_step 0 = 0) ∧
    (((b.drop 4).take (len - 4)).foldl spec_checksum_step 0 ≠ 0 →
      atalk_checksum b len = some (spec_checksum b len)) := by
  have hlow := atalk_checksum_loop_low16 ((b.drop 4).take (len - 4)) 0 (by decide)
  have hlow2 : atalk_checksum_loop 0 ((b.drop 4).take (len - 4)) % 0x10000
      = ((b.drop 4).take (len - 4)).foldl spec_checksum_step 0 := hlow
  have hval : atalk_checksum b len
      = some (if atalk_checksum_loop 0 ((b.drop 4).take (len - 4)) ≠ 0
          then htons (((b.drop 4).take (len - 4)).foldl spec_checksum_step 0) else 0xFFFF) := by
    unfold atalk_checksum
    rw [if_pos ⟨h1, h2⟩]
    simp only
    rw [hlow2]
    split_ifs <;> rfl
  refine ⟨hlow2, hval, ?_, ?_⟩
  · intro h0
    rw [← hlow2, h0]
  · intro hne
    have hsum : atalk_checksum_loop 0 ((b.drop 4).take (len - 4)) ≠ 0 := by
      intro h0
      apply hne
      rw [← hlow2, h0]
    rw [hval, if_pos hsum]
    unfold spec_checksum
    simp only
    rw [if_pos hne]

set_option maxRecDepth 16000 in
theorem atalk_checksum_is_rotate16_witness :
    atalk_checksum_loop 0 ((carry_frame.drop 4).take (13 - 4)) = 0x200FC ∧
    ((carry_frame.drop 4).take (13 - 4)).foldl spec_checksum_step 0 = 0x00FC ∧
    atalk_checksum carry_frame 13 = some (spec_checksum carry_frame 13) ∧
    spec_checksum carry_frame 13 = htons 0x00FC ∧
    deh_sum carry_frame = htons 0x00FC ∧
    (atalk_sendto_build socket_a usat_a carry_payload 0).map deh_sum
      = some (spec_checksum (atalk_sendto_fill socket_a usat_a carry_payload 0) (11 + 13)) :=
  ⟨by decide, by decide,
   (atalk_checksum_is_rotate16 carry_frame 13 (by decide) (by decide)).2.2.2 (by decide),
   by decide, by decide, by decide⟩

set_option maxRecDepth 16000 in
/-- C2: on `zero_sum_frame` (13 bytes, `len = 13`) the loop of `atalk_checksum`
ends with `sum = 0x20000`, which is not 0 but is 0 in 16 bits, and the function
returns 0, the value that means `not checksummed`. The same happens on a send:
for the user data `dfoppukxzqb` sent from 1000.5.128 to 1000.5.128 with
`no_check = 0` the checksum field of the datagram built is 0. -/
theorem atalk_checksum_returns_zero :
    4 ≤ 13 ∧ 13 ≤ zero_sum_frame.length ∧
    atalk_checksum_loop 0 ((zero_sum_frame.drop 4).take (13 - 4)) = 0x20000 ∧
    atalk_checksum zero_sum_frame 13 = some 0 ∧
    socket_a.no_check = 0 ∧
    atalk_checksum (atalk_sendto_fill socket_a usat_a zero_sum_payload 0) (11 + 13) = some 0 ∧
    (atalk_sendto_build socket_a usat_a zero_sum_payload 0).map deh_sum = some 0 := by
  decide

/-! ## Forwarding target -/

/-- C7: with the route `2000.* via gateway 1000.7` (gateway flag set) and the
frame for 2000.2.20 with `hops = 14`, `atalk_rcv` forwards the frame with
`hops = 15` and hands it to AARP with target (2000, 2), the frame destination,
not with the route gateway (1000, 7). -/
theorem atalk_rcv_forward_ignores_gateway :
    atrtr_find forward_state { s_net := htons 2000, s_node := 2 }
      = some (route_of gw_request eth0) ∧
    flag_set (route_of gw_request eth0).flags RTF_GATEWAY = true ∧
    (route_of gw_request eth0).gateway = { s_net := htons 1000, s_node := 7 } ∧
    atalk_rcv forward_state forward_frame eth0 =
      ({ forward_state with aarp_sent :=
          [{ dev := eth0,
             skb := { len := 13,
                      data := [0xF0, 0x34, 0, 0, 0x07, 0xD0, 0x0B, 0xB8, 2, 1, 20, 10, 0] },
             target := { s_net := htons 2000, s_node := 2 } }] }, rcv_exit.forwarded) := by
  decide


/-! ## Route lookup -/

theorem atrtr_find_loop_eq_find (target : at_addr) (l : List atalk_route) :
    atrtr_find_loop target l = l.find? (route_matches target) := by
  induction l with
  | nil => rfl
  | cons r next ih =>
    simp only [atrtr_find_loop, List.find?_cons, route_matches]
    rw [ih]
    cases hup : flag_set r.flags RTF_UP <;> cases hh : flag_set r.flags RTF_HOST <;>
      cases hn : (r.target.s_net == target.s_net) <;>
      cases hd : (r.target.s_node == target.s_node) <;>
      simp_all

theorem atrtr_find_loop_first (target : at_addr) (pre post : List atalk_route) (r : atalk_route)
    (hr : route_matches target r = true) (hpre : ∀ x ∈ pre, route_matches target x = false) :
    atrtr_find_loop target (pre ++ r :: post) = some r := by
  rw [atrtr_find_loop_eq_find]
  induction pre with
  | nil => simp [List.find?_cons, hr]
  | cons x xs ih =>
    have hx : route_matches target x = false := hpre x (List.mem_cons_self _ _)
    simp only [List.cons_append, List.find?_cons, hx]
    exact ih (fun y hy => hpre y (List.mem_cons_of_mem _ hy))

theorem atrtr_find_loop_none (target : at_addr) (l : List atalk_route)
    (h : ∀ x ∈ l, route_matches target x = false) : atrtr_find_loop target l = none := by
  rw [atrtr_find_loop_eq_find, List.find?_eq_none]
  intro x hx
  simp [h x hx]

theorem atrtr_find_loop_some (target : at_addr) (l : List atalk_route) (r : atalk_route)
    (h : atrtr_find_loop target l = some r) : r ∈ l ∧ route_matches target r = true := by
  rw [atrtr_find_loop_eq_find] at h
  exact ⟨List.mem_of_find?_eq_some h, List.find?_some h⟩

theorem route_matches_up (target : at_addr) (r : atalk_route)
    (h : route_matches target r = true) : flag_set r.flags RTF_UP = true := by
  simp only [route_matches, Bool.and_eq_true] at h
  exact h.1.1

/-- C9: `atrtr_find(target)` returns the first route of the table that is up,
has the target net and is a net route or has the target node; when no route of
the table is such it returns the default route exactly when the default device
is set and nothing otherwise. A route returned from the table has the up flag,
and so has the default route when it is returned: its slot is either still
zeroed, with no device, or was written by `atrtr_set_default`, the only writer
of that slot, which sets the up flag. -/
theorem atrtr_find_first_up_match (st : State) (target : at_addr) :
    (∀ pre r post, st.atalk_router_list = pre ++ r :: post →
        route_matches target r = true → (∀ x ∈ pre, route_matches target x = false) →
        atrtr_find st target = some r) ∧
    ((∀ x ∈ st.atalk_router_list, route_matches target x = false) →
        (st.atrtr_default.dev.isSome = true → atrtr_find st target = some st.atrtr_default) ∧
        (st.atrtr_default.dev = none → atrtr_find st target = none)) ∧
    (∀ r, atrtr_find st target = some r →
        (r ∈ st.atalk_router_list ∧ route_matches target r = true) ∨
        (r = st.atrtr_default ∧ st.atrtr_default.dev.isSome = true ∧
          ∀ x ∈ st.atalk_router_list, route_matches target x = false)) ∧
    ((st.atrtr_default = atrtr_default_init ∨
        ∃ (st0 : State) (d : Option device),
          st.atrtr_default = (atrtr_set_default st0 d).atrtr_default) →
        ∀ r, atrtr_find st target = some r → flag_set r.flags RTF_UP = true) := by
  have key : ∀ r, atrtr_find st target = some r →
      (r ∈ st.atalk_router_list ∧ route_matches target r = true) ∨
      (r = st.atrtr_default ∧ st.atrtr_default.dev.isSome = true ∧
        ∀ x ∈ st.atalk_router_list, route_matches target x = false) := by
    intro r h
    unfold atrtr_find at h
    cases hl : atrtr_find_loop target st.atalk_router_list with
    | some r1 =>
      rw [hl] at h
      simp only [Option.some.injEq] at h
      subst h
      exact Or.inl (atrtr_find_loop_some _ _ _ hl)
    | none =>
      rw [hl] at h
      right
      rw [atrtr_find_loop_eq_find, List.find?_eq_none] at hl
      by_cases hd : st.atrtr_default.dev.isSome = true
      · simp only [hd, if_true, Option.some.injEq] at h
        exact ⟨h.symm, hd, fun x hx => by simpa using hl x hx⟩
      · simp [hd] at h
  refine ⟨?_, ?_, key, ?_⟩
  · intro pre r post hl hr hpre
    unfold atrtr_find
    rw [hl, atrtr_find_loop_first target pre post r hr hpre]
  · intro hnone
    have hl := atrtr_find_loop_none target _ hnone
    constructor
    · intro hd
      unfold atrtr_find
      rw [hl]
      simp [hd]
    · intro hd
      unfold atrtr_find
      rw [hl]
      simp [hd]
  · intro hdef r h
    rcases key r h with ⟨_, hm⟩ | ⟨heq, hdev, _⟩
    · exact route_matches_up target r hm
    · rcases hdef with hinit | ⟨st0, d, hset⟩
      · rw [hinit] at hdev
        simp [atrtr_default_init] at hdev
      · rw [heq, hset]
        show flag_set RTF_UP RTF_UP = true
        decide


/-- C9 at concrete tables: with the host route for 2000.20 ahead of the net route
for net 2000 the host route is returned; with an empty table and no default
device nothing is returned; with an empty table and a default device the
default route is returned, and it has the up flag. -/
theorem atrtr_find_first_up_match_witness :
    atrtr_find two_routes_state { s_net := htons 2000, s_node := 20 }
      = some (route_of host_request eth0) ∧
    atrtr_find State.init { s_net := htons 2000, s_node := 20 } = none ∧
    atrtr_find (atrtr_set_default State.init (some eth0)) { s_net := htons 2000, s_node := 20 }
      = some (atrtr_set_default State.init (some eth0)).atrtr_default ∧
    flag_set (atrtr_set_default State.init (some eth0)).atrtr_default.flags RTF_UP = true :=
  ⟨(atrtr_find_first_up_match two_routes_state _).1 [] (route_of host_request eth0)
      [route_of net_request eth0] (by decide) (by decide) (by simp),
   ((atrtr_find_first_up_match State.init _).2.1 (by simp [State.init])).2 rfl,
   ((atrtr_find_first_up_match (atrtr_set_default State.init (some eth0)) _).2.1
      (by simp [State.init, atrtr_set_default])).1 rfl,
   (atrtr_find_first_up_match (atrtr_set_default State.init (some eth0))
      { s_net := htons 2000, s_node := 20 }).2.2.2 (Or.inr ⟨State.init, some eth0, rfl⟩) _
      (by decide)⟩

theorem atrtr_create_new (st : State) (r : rtentry) (devhint : Option device)
    (hc : (atrtr_create st r devhint).2 = 0)
    (hn : atrtr_create_scan r st.atalk_router_list = none) :
    ∃ d, (atrtr_create st r devhint).1 =
      { st with atalk_router_list := route_of r d :: st.atalk_router_list } := by
  unfold atrtr_create at hc ⊢
  simp only [hn] at hc ⊢
  split_ifs at hc ⊢ with h1 h2
  · simp [EINVAL] at hc
  · simp [EINVAL] at hc
  · split at hc
    · simp [ENETUNREACH] at hc
    · next d hd =>
      refine ⟨d, ?_⟩
      simp only [hd]
      rfl

/-- C10 (as the code has it): `atrtr_create` links a new entry at the head of the
table and `atrtr_find` scans from the head, so when two successive
`atrtr_create` calls each create an up route matching a target, `atrtr_find`
returns the one created last. -/
theorem atrtr_find_newest_first (st : State) (r1 r2 : rtentry) (h1 h2 : Option device)
    (target : at_addr)
    (hc1 : (atrtr_create st r1 h1).2 = 0)
    (hn1 : atrtr_create_scan r1 st.atalk_router_list = none)
    (hc2 : (atrtr_create (atrtr_create st r1 h1).1 r2 h2).2 = 0)
    (hn2 : atrtr_create_scan r2 (atrtr_create st r1 h1).1.atalk_router_list = none)
    (hm1 : ∀ d, route_matches target (route_of r1 d) = true)
    (hm2 : ∀ d, route_matches target (route_of r2 d) = true) :
    ∃ d1 d2,
      (atrtr_create (atrtr_create st r1 h1).1 r2 h2).1.atalk_router_list
        = route_of r2 d2 :: route_of r1 d1 :: st.atalk_router_list ∧
      route_matches target (route_of r1 d1) = true ∧
      atrtr_find (atrtr_create (atrtr_create st r1 h1).1 r2 h2).1 target
        = some (route_of r2 d2) := by
  obtain ⟨d1, e1⟩ := atrtr_create_new st r1 h1 hc1 hn1
  obtain ⟨d2, e2⟩ := atrtr_create_new _ r2 h2 hc2 hn2
  refine ⟨d1, d2, ?_, hm1 d1, ?_⟩
  · rw [e2, e1]
  · unfold atrtr_find
    rw [e2]
    simp only
    have hfirst := atrtr_find_loop_first target [] (atrtr_create st r1 h1).1.atalk_router_list
      (route_of r2 d2) (hm2 d2) (by simp)
    simp only [List.nil_append] at hfirst
    rw [hfirst]

/-- C10 at concrete tables: the net route for net 2000 is created first, the host
route for 2000.20 second, and the lookup of 2000.20 returns the host route. -/
theorem atrtr_find_newest_first_witness :
    ∃ d1 d2,
      (atrtr_create (atrtr_create State.init net_request (some eth0)).1 host_request
          (some eth0)).1.atalk_router_list
        = route_of host_request d2 :: route_of net_request d1 :: State.init.atalk_router_list ∧
      route_matches { s_net := htons 2000, s_node := 20 } (route_of net_request d1) = true ∧
      atrtr_find (atrtr_create (atrtr_create State.init net_request (some eth0)).1 host_request
          (some eth0)).1 { s_net := htons 2000, s_node := 20 }
        = some (route_of host_request d2) :=
  atrtr_find_newest_first State.init net_request host_request (some eth0) (some eth0)
    { s_net := htons 2000, s_node := 20 } (by decide) (by decide) (by decide) (by decide)
    (fun _ => by simp [route_matches, route_of, net_request]; decide)
    (fun _ => by simp [route_matches, route_of, host_request]; decide)

/-- C10 as stated fails: after the net route for net 2000 is created and then
the host route for 2000.20, both up and both matching 2000.20, `atrtr_find`
returns the host route, which was created second, not the net route, which
was created first. -/
theorem atrtr_find_not_creation_order :
    (atrtr_create State.init net_request (some eth0)).2 = 0 ∧
    (atrtr_create (atrtr_create State.init net_request (some eth0)).1 host_request
      (some eth0)).2 = 0 ∧
    two_routes_state.atalk_router_list
      = [route_of host_request eth0, route_of net_request eth0] ∧
    route_matches { s_net := htons 2000, s_node := 20 } (route_of net_request eth0) = true ∧
    route_matches { s_net := htons 2000, s_node := 20 } (route_of host_request eth0) = true ∧
    atrtr_find two_routes_state { s_net := htons 2000, s_node := 20 }
      = some (route_of host_request eth0) ∧
    atrtr_find two_routes_state { s_net := htons 2000, s_node := 20 }
      ≠ some (route_of net_request eth0) := by
  decide

/-! ## Receive path -/

theorem atalk_rcv_pass (st : State) (skb : sk_buff) (dev : device)
    (h1 : sizeof_ddpehdr ≤ skb.len) (h2 : sizeof_ddpehdr ≤ (atalk_rcv_trim skb).len)
    (h3 : atalk_rcv_checksum_fails (atalk_rcv_trim skb).data = some false) :
    atalk_rcv st skb dev = atalk_rcv_dispatch st (atalk_rcv_trim skb) dev := by
  unfold atalk_rcv
  rw [if_neg (by omega)]
  simp only
  rw [if_neg (by omega), h3]

/-- Every way `atalk_rcv_dispatch` can end: a drop that leaves the tables as
they were, one frame of the same length handed to AARP, or the buffer itself
appended to the receive queue of one socket. -/
theorem atalk_rcv_dispatch_cases (st : State) (skb : sk_buff) (dev : device) :
    atalk_rcv_dispatch st skb dev = (st, .not_routed) ∨
    atalk_rcv_dispatch st skb dev = (st, .no_socket) ∨
    atalk_rcv_dispatch st skb dev = (st, .queue_full) ∨
    (∃ out : sk_buff, out.len = skb.len ∧
      atalk_rcv_dispatch st skb dev =
        (aarp_send_ddp st dev out (atalk_rcv_ta skb.data), .forwarded)) ∨
    (∃ p sk1, sock_queue_rcv_skb (sock_at st p) skb = some sk1 ∧
      atalk_rcv_dispatch st skb dev = ({ st with socks := st.socks.set p sk1 }, .queued)) := by
  unfold atalk_rcv_dispatch
  simp only
  split
  · split
    · exact Or.inl rfl
    · split
      · exact Or.inl rfl
      · exact Or.inr (Or.inr (Or.inr (Or.inl
          ⟨{ skb with data := fix_first_word (set_deh_hops skb.data (deh_hops skb.data + 1)) },
            rfl, rfl⟩)))
  · split
    · exact Or.inr (Or.inl rfl)
    · next p _ =>
      split
      · exact Or.inr (Or.inr (Or.inl rfl))
      · next sk1 hq => exact Or.inr (Or.inr (Or.inr (Or.inr ⟨p, sk1, hq, rfl⟩)))

theorem atalk_rcv_dispatch_exit (st : State) (skb : sk_buff) (dev : device) :
    (atalk_rcv_dispatch st skb dev).2 ≠ .header_short ∧
    (atalk_rcv_dispatch st skb dev).2 ≠ .length_short ∧
    (atalk_rcv_dispatch st skb dev).2 ≠ .checksum_bad ∧
    (atalk_rcv_dispatch st skb dev).2 ≠ .checksum_fault := by
  rcases atalk_rcv_dispatch_cases st skb dev with h | h | h | ⟨_, _, h⟩ | ⟨_, _, _, h⟩ <;>
    rw [h] <;> simp

/-- C4: for a frame that passes both size checks, a stored checksum that is
non-zero and differs from the value `atalk_checksum` recomputes makes
`atalk_rcv` drop the frame with every table unchanged (no receive queue
changes, nothing is handed to AARP); a stored checksum of 0 is never verified:
the frame goes on to the interface match, and so does a frame whose non-zero
stored checksum equals the recomputed one. -/
theorem atalk_rcv_checksum_step (st : State) (skb : sk_buff) (dev : device)
    (h1 : sizeof_ddpehdr ≤ skb.len) (h2 : sizeof_ddpehdr ≤ (atalk_rcv_trim skb).len) :
    (∀ c, deh_sum (atalk_rcv_trim skb).data ≠ 0 →
        atalk_checksum (atalk_rcv_trim skb).data (deh_len (atalk_rcv_trim skb).data) = some c →
        c ≠ deh_sum (atalk_rcv_trim skb).data →
        atalk_rcv st skb dev = (st, .checksum_bad)) ∧
    (deh_sum (atalk_rcv_trim skb).data = 0 →
        atalk_rcv st skb dev = atalk_rcv_dispatch st (atalk_rcv_trim skb) dev ∧
        (atalk_rcv st skb dev).2 ≠ .checksum_bad ∧
        (atalk_rcv st skb dev).2 ≠ .checksum_fault) ∧
    (∀ c, atalk_checksum (atalk_rcv_trim skb).data (deh_len (atalk_rcv_trim skb).data) = some c →
        c = deh_sum (atalk_rcv_trim skb).data →
        atalk_rcv st skb dev = atalk_rcv_dispatch st (atalk_rcv_trim skb) dev) := by
  refine ⟨?_, ?_, ?_⟩
  · intro c hs hc hne
    unfold atalk_rcv
    rw [if_neg (by omega)]
    simp only
    rw [if_neg (by omega)]
    have : atalk_rcv_checksum_fails (atalk_rcv_trim skb).data = some true := by
      unfold atalk_rcv_checksum_fails
      rw [if_neg hs, hc]
      simp [hne]
    rw [this]
  · intro hs
    have h3 : atalk_rcv_checksum_fails (atalk_rcv_trim skb).data = some false := by
      unfold atalk_rcv_checksum_fails
      rw [if_pos hs]
    have hp := atalk_rcv_pass st skb dev h1 h2 h3
    have he := atalk_rcv_dispatch_exit st (atalk_rcv_trim skb) dev
    rw [hp]
    exact ⟨rfl, he.2.2.1, he.2.2.2⟩
  · intro c hc heq
    have h3 : atalk_rcv_checksum_fails (atalk_rcv_trim skb).data = some false := by
      unfold atalk_rcv_checksum_fails
      split_ifs with hs
      · rfl
      · rw [hc]
        simp [heq]
    exact atalk_rcv_pass st skb dev h1 h2 h3

/-- C5: a frame shorter than the 13-byte header is dropped with every table
unchanged; so is a frame whose header length field is below 13; for every other
frame the length after trimming is `min(skb->len, deh_len)`, and this is the
length of the buffer when it is handed to AARP or appended to a receive
queue. -/
theorem atalk_rcv_size_checks (st : State) (skb : sk_buff) (dev : device) :
    (skb.len < sizeof_ddpehdr → atalk_rcv st skb dev = (st, .header_short)) ∧
    (sizeof_ddpehdr ≤ skb.len → deh_len (fix_first_word skb.data) < sizeof_ddpehdr →
        atalk_rcv st skb dev = (st, .length_short)) ∧
    (sizeof_ddpehdr ≤ skb.len → sizeof_ddpehdr ≤ deh_len (fix_first_word skb.data) →
        (atalk_rcv_trim skb).len = min skb.len (deh_len (fix_first_word skb.data)) ∧
        sizeof_ddpehdr ≤ (atalk_rcv_trim skb).len ∧
        (atalk_rcv st skb dev).2 ≠ .header_short ∧
        (atalk_rcv st skb dev).2 ≠ .length_short ∧
        ((atalk_rcv st skb dev).2 = .forwarded →
          ∃ out : sk_buff, out.len = min skb.len (deh_len (fix_first_word skb.data)) ∧
            (atalk_rcv st skb dev).1 =
              aarp_send_ddp st dev out (atalk_rcv_ta (atalk_rcv_trim skb).data)) ∧
        ((atalk_rcv st skb dev).2 = .queued →
          ∃ p sk1, (atalk_rcv st skb dev).1 = { st with socks := st.socks.set p sk1 } ∧
            (atalk_rcv_trim skb).len = min skb.len (deh_len (fix_first_word skb.data)) ∧
            sk1.receive_queue = (sock_at st p).receive_queue ++ [atalk_rcv_trim skb])) := by
  refine ⟨?_, ?_, ?_⟩
  · intro h
    unfold atalk_rcv
    rw [if_pos h]
  · intro h1 h2
    unfold atalk_rcv
    rw [if_neg (by omega)]
    simp only
    have : (atalk_rcv_trim skb).len < sizeof_ddpehdr := by
      show min skb.len (deh_len (fix_first_word skb.data)) < sizeof_ddpehdr
      omega
    rw [if_pos this]
  · intro h1 h2
    have hlen : (atalk_rcv_trim skb).len = min skb.len (deh_len (fix_first_word skb.data)) := rfl
    have hge : sizeof_ddpehdr ≤ (atalk_rcv_trim skb).len := by
      rw [hlen]
      omega
    have hrcv : atalk_rcv st skb dev = (st, .checksum_fault) ∨
        atalk_rcv st skb dev = (st, .checksum_bad) ∨
        atalk_rcv st skb dev = atalk_rcv_dispatch st (atalk_rcv_trim skb) dev := by
      unfold atalk_rcv
      rw [if_neg (by omega)]
      simp only
      rw [if_neg (by omega)]
      split
      · exact Or.inl rfl
      · exact Or.inr (Or.inl rfl)
      · exact Or.inr (Or.inr rfl)
    refine ⟨hlen, hge, ?_, ?_, ?_, ?_⟩
    · rcases hrcv with h | h | h
      · rw [h]; simp
      · rw [h]; simp
      · rw [h]; exact (atalk_rcv_dispatch_exit _ _ _).1
    · rcases hrcv with h | h | h
      · rw [h]; simp
      · rw [h]; simp
      · rw [h]; exact (atalk_rcv_dispatch_exit _ _ _).2.1
    · intro hf
      rcases hrcv with h | h | h
      · rw [h] at hf; simp at hf
      · rw [h] at hf; simp at hf
      · rw [h] at hf ⊢
        rcases atalk_rcv_dispatch_cases st (atalk_rcv_trim skb) dev with
          hc | hc | hc | ⟨out, hol, hc⟩ | ⟨_, _, _, hc⟩
        · rw [hc] at hf; simp at hf
        · rw [hc] at hf; simp at hf
        · rw [hc] at hf; simp at hf
        · exact ⟨out, hol.trans hlen, by rw [hc]⟩
        · rw [hc] at hf; simp at hf
    · intro hf
      rcases hrcv with h | h | h
      · rw [h] at hf; simp at hf
      · rw [h] at hf; simp at hf
      · rw [h] at hf ⊢
        rcases atalk_rcv_dispatch_cases st (atalk_rcv_trim skb) dev with
          hc | hc | hc | ⟨_, _, hc⟩ | ⟨p, sk1, hq, hc⟩
        · rw [hc] at hf; simp at hf
        · rw [hc] at hf; simp at hf
        · rw [hc] at hf; simp at hf
        · rw [hc] at hf; simp at hf
        · refine ⟨p, sk1, by rw [hc], hlen, ?_⟩
          unfold sock_queue_rcv_skb at hq
          split_ifs at hq
          simp only [Option.some.injEq] at hq
          rw [← hq]

/-- C4 at concrete frames: `bad_checksum_frame` stores the checksum 1 while its
bytes give `0x9912`, and is dropped; `forward_frame` stores 0 and goes on to the
interface match. -/
theorem atalk_rcv_checksum_step_witness :
    atalk_rcv forward_state bad_checksum_frame eth0 = (forward_state, .checksum_bad) ∧
    atalk_rcv forward_state forward_frame eth0
      = atalk_rcv_dispatch forward_state (atalk_rcv_trim forward_frame) eth0 :=
  ⟨(atalk_rcv_checksum_step forward_state bad_checksum_frame eth0 (by decide) (by decide)).1
      0x9912 (by decide) (by decide) (by decide),
   ((atalk_rcv_checksum_step forward_state forward_frame eth0 (by decide) (by decide)).2.1
      (by decide)).1⟩

/-- C5 at concrete frames: a 12-byte frame and a 13-byte frame whose length
field is 12 are dropped; `forward_frame` is trimmed to `min 13 13`. -/
theorem atalk_rcv_size_checks_witness :
    atalk_rcv forward_state short_frame eth0 = (forward_state, .header_short) ∧
    atalk_rcv forward_state short_length_frame eth0 = (forward_state, .length_short) ∧
    (atalk_rcv_trim forward_frame).len = min 13 13 :=
  ⟨(atalk_rcv_size_checks forward_state short_frame eth0).1 (by decide),
   (atalk_rcv_size_checks forward_state short_length_frame eth0).2.1 (by decide) (by decide),
   ((atalk_rcv_size_checks forward_state forward_frame eth0).2.2 (by decide) (by decide)).1⟩

theorem sock_at_set_ne (st : State) (p q : Nat) (sk1 : atalk_socket) (h : q ≠ p) :
    sock_at { st with socks := st.socks.set p sk1 } q = sock_at st q := by
  unfold sock_at
  simp [List.getElem?_set_ne (Ne.symm h)]

/-- C8: for a frame that passes the size checks and the checksum test,
`atalk_rcv` selects the interface with `atalk_find_anynet(dest_node, dev)` when
`dest_net == 0` and with `atalk_find_interface(dest_net, dest_node)` otherwise.
When an interface `atif` is found and `atalk_search_socket` finds no socket for
`(dest_net, dest_node, dest_port)` the frame is dropped with every table
unchanged; when it returns the socket `p`, nothing is handed to AARP, every
other socket is unchanged, and `p` is the socket whose queue the frame is
offered to: the tables change exactly by the result of `sock_queue_rcv_skb` on
`p`, and not at all when that call refuses the frame. -/
theorem atalk_rcv_local_delivery (st : State) (skb : sk_buff) (dev : device)
    (h1 : sizeof_ddpehdr ≤ skb.len) (h2 : sizeof_ddpehdr ≤ (atalk_rcv_trim skb).len)
    (h3 : atalk_rcv_checksum_fails (atalk_rcv_trim skb).data = some false) :
    (deh_dnet (atalk_rcv_trim skb).data = 0 →
      atalk_rcv_atif st (atalk_rcv_trim skb).data dev
        = atalk_find_anynet st (deh_dnode (atalk_rcv_trim skb).data) dev) ∧
    (deh_dnet (atalk_rcv_trim skb).data ≠ 0 →
      atalk_rcv_atif st (atalk_rcv_trim skb).data dev
        = atalk_find_interface st (deh_dnet (atalk_rcv_trim skb).data)
            (deh_dnode (atalk_rcv_trim skb).data)) ∧
    (∀ atif, atalk_rcv_atif st (atalk_rcv_trim skb).data dev = some atif →
      (atalk_search_socket st (atalk_rcv_tosat (atalk_rcv_trim skb).data) atif = none →
        atalk_rcv st skb dev = (st, .no_socket)) ∧
      (∀ p, atalk_search_socket st (atalk_rcv_tosat (atalk_rcv_trim skb).data) atif = some p →
        (atalk_rcv st skb dev).1.aarp_sent = st.aarp_sent ∧
        (atalk_rcv st skb dev).2 ≠ .forwarded ∧
        (∀ q, q ≠ p → sock_at (atalk_rcv st skb dev).1 q = sock_at st q) ∧
        (sock_queue_rcv_skb (sock_at st p) (atalk_rcv_trim skb) = none →
          atalk_rcv st skb dev = (st, .queue_full)) ∧
        (∀ sk1, sock_queue_rcv_skb (sock_at st p) (atalk_rcv_trim skb) = some sk1 →
          atalk_rcv st skb dev = ({ st with socks := st.socks.set p sk1 }, .queued)))) := by
  have hp := atalk_rcv_pass st skb dev h1 h2 h3
  refine ⟨?_, ?_, ?_⟩
  · intro h
    unfold atalk_rcv_atif
    rw [if_pos h]
  · intro h
    unfold atalk_rcv_atif
    rw [if_neg h]
  · intro atif ha
    have hd : atalk_rcv_dispatch st (atalk_rcv_trim skb) dev =
        (match atalk_search_socket st (atalk_rcv_tosat (atalk_rcv_trim skb).data) atif with
          | none => (st, rcv_exit.no_socket)
          | some sock =>
            match sock_queue_rcv_skb (sock_at st sock) (atalk_rcv_trim skb) with
            | none => (st, rcv_exit.queue_full)
            | some sk1 => ({ st with socks := st.socks.set sock sk1 }, rcv_exit.queued)) := by
      unfold atalk_rcv_dispatch
      simp only [ha]
    rw [hp, hd]
    constructor
    · intro hs
      rw [hs]
    · intro p hs
      rw [hs]
      simp only
      cases hq : sock_queue_rcv_skb (sock_at st p) (atalk_rcv_trim skb) with
      | none => simp
      | some sk1 =>
        refine ⟨rfl, by simp, ?_, by simp, ?_⟩
        · intro q hq
          exact sock_at_set_ne st p q sk1 hq
        · intro sk2 h
          simp only [Option.some.injEq] at h
          rw [h]

/-- C8 at concrete tables: a frame for 1000.5.128 is appended to the queue of
`socket_a`, the socket bound there; a frame for 1000.5.129 is dropped. -/
theorem atalk_rcv_local_delivery_witness :
    atalk_rcv local_state unbound_port_frame eth0 = (local_state, .no_socket) ∧
    atalk_rcv local_state local_frame eth0 =
      ({ local_state with socks :=
          [{ socket_a with rmem_alloc := 13, receive_queue := [atalk_rcv_trim local_frame], wakeups := 1 }] },
        .queued) :=
  ⟨((atalk_rcv_local_delivery local_state unbound_port_frame eth0 (by decide) (by decide)
      (by decide)).2.2 eth0_iface (by decide)).1 (by decide),
   ((atalk_rcv_local_delivery local_state local_frame eth0 (by decide) (by decide)
      (by decide)).2.2 eth0_iface (by decide)).2 0 (by decide) |>.2.2.2.2
      { socket_a with rmem_alloc := 13, receive_queue := [atalk_rcv_trim local_frame], wakeups := 1 }
      (by decide)⟩

/-- C6: for a frame that passes the size checks and the checksum test and
matches no local interface: if `atrtr_find` finds no route or the hops field is
15 the frame is dropped with every table unchanged; otherwise exactly one
frame is handed to AARP, and in it the hops field is the received hops plus 1
(at most 15), the length and pad fields are those received, every byte after
the first word is unchanged, and the first word is back in wire byte order
(its second byte is the received one, its first byte the received one plus
one hop). -/
theorem atalk_rcv_forward (st : State) (skb : sk_buff) (dev : device)
    (hwf : skb.len ≤ skb.data.length)
    (h1 : sizeof_ddpehdr ≤ skb.len) (h2 : sizeof_ddpehdr ≤ (atalk_rcv_trim skb).len)
    (h3 : atalk_rcv_checksum_fails (atalk_rcv_trim skb).data = some false)
    (hatif : atalk_rcv_atif st (atalk_rcv_trim skb).data dev = none) :
    ((atrtr_find st (atalk_rcv_ta (atalk_rcv_trim skb).data) = none ∨
        deh_hops (atalk_rcv_trim skb).data = 15) →
      atalk_rcv st skb dev = (st, .not_routed)) ∧
    (atrtr_find st (atalk_rcv_ta (atalk_rcv_trim skb).data) ≠ none →
      deh_hops (atalk_rcv_trim skb).data ≠ 15 →
      ∃ out : sk_buff,
        atalk_rcv st skb dev =
          (aarp_send_ddp st dev out (atalk_rcv_ta (atalk_rcv_trim skb).data), .forwarded) ∧
        out.len = (atalk_rcv_trim skb).len ∧
        out.data.length = skb.data.length ∧
        deh_hops (fix_first_word out.data) = deh_hops (fix_first_word skb.data) + 1 ∧
        deh_hops (fix_first_word out.data) ≤ 15 ∧
        deh_len (fix_first_word out.data) = deh_len (fix_first_word skb.data) ∧
        deh_pad (fix_first_word out.data) = deh_pad (fix_first_word skb.data) ∧
        out.data.drop 2 = skb.data.drop 2 ∧
        rd8 out.data 0 = rd8 skb.data 0 + 16 ∧
        rd8 out.data 1 = rd8 skb.data 1) := by
  have hp := atalk_rcv_pass st skb dev h1 h2 h3
  have hlen : 2 ≤ skb.data.length := by
    unfold sizeof_ddpehdr at h1
    omega
  constructor
  · intro h
    rw [hp]
    unfold atalk_rcv_dispatch
    simp only [hatif]
    rcases h with h | h
    · rw [h]
    · split
      · rfl
      · rw [if_pos h]
  · intro hrt hh
    obtain ⟨rt, hrt⟩ := Option.ne_none_iff_exists'.mp hrt
    refine ⟨{ atalk_rcv_trim skb with
        data := fix_first_word (set_deh_hops (atalk_rcv_trim skb).data
          (deh_hops (atalk_rcv_trim skb).data + 1)) }, ?_, rfl, ?_, ?_⟩
    · rw [hp]
      unfold atalk_rcv_dispatch
      simp only [hatif, hrt]
      rw [if_neg hh]
    · simp [fix_first_word, set_deh_hops, wr16_length, atalk_rcv_trim]
    · -- the words involved
      have hd : (atalk_rcv_trim skb).data = fix_first_word skb.data := rfl
      have hl1 : 2 ≤ (fix_first_word skb.data).length := by
        rw [fix_first_word_length]; exact hlen
      have hW : rd16 (fix_first_word skb.data) 0 = ntohs (rd16 skb.data 0) :=
        rd16_fix_first_word _ hlen
      have hWlt : rd16 (fix_first_word skb.data) 0 < 65536 := rd16_lt _ _
      have hhops : deh_hops (fix_first_word skb.data) ≠ 15 := hh
      simp only [hd]
      -- the word after `deh_hops++`
      have hl2 : 2 ≤ (set_deh_hops (fix_first_word skb.data)
          (deh_hops (fix_first_word skb.data) + 1)).length := by
        simp [set_deh_hops, wr16_length]; exact hl1
      have hW1 : rd16 (set_deh_hops (fix_first_word skb.data)
          (deh_hops (fix_first_word skb.data) + 1)) 0
          = rd16 (fix_first_word skb.data) 0 + 4096 := by
        unfold set_deh_hops
        rw [rd16_wr16_same _ 0 _ (by omega)]
        unfold deh_hops at hhops ⊢
        omega
      -- the word handed on, as the next receiver normalizes it
      have hW2 : rd16 (fix_first_word (fix_first_word (set_deh_hops (fix_first_word skb.data)
          (deh_hops (fix_first_word skb.data) + 1)))) 0
          = rd16 (fix_first_word skb.data) 0 + 4096 := by
        rw [fix_first_word_twice _ hl2, hW1]
      have hb : rd16 skb.data 0 = rd8 skb.data 0 + 256 * rd8 skb.data 1 := rfl
      have hb0 : rd8 skb.data 0 < 256 := (skb.data.getD 0 0).isLt
      have hb1 : rd8 skb.data 1 < 256 := (skb.data.getD 1 0).isLt
      have hout0 : rd8 (fix_first_word (set_deh_hops (fix_first_word skb.data)
          (deh_hops (fix_first_word skb.data) + 1))) 0
          = ntohs (rd16 (fix_first_word skb.data) 0 + 4096) % 256 := by
        rw [rd8_fix_first_word_lo _ hl2, hW1]
      have hout1 : rd8 (fix_first_word (set_deh_hops (fix_first_word skb.data)
          (deh_hops (fix_first_word skb.data) + 1))) 1
          = (ntohs (rd16 (fix_first_word skb.data) 0 + 4096) / 256) % 256 := by
        rw [rd8_fix_first_word_hi _ hl2, hW1]
      refine ⟨?_, ?_, ?_, ?_, ?_, ?_, ?_⟩
      · have hW2a := hW2
        unfold deh_hops at hhops hW2a ⊢
        rw [hW2a]
        omega
      · unfold deh_hops
        omega
      · unfold deh_len
        rw [hW2]
        omega
      · unfold deh_pad
        rw [hW2]
        omega
      · unfold fix_first_word set_deh_hops
        rw [drop_wr16 _ 0 _ 2 (by omega), drop_wr16 _ 0 _ 2 (by omega),
          drop_wr16 _ 0 _ 2 (by omega)]
      · rw [hout0, hW]
        unfold deh_hops at hhops
        rw [hW, hb, ntohs_le_bytes _ _ hb0 hb1] at hhops
        rw [hb, ntohs_le_bytes _ _ hb0 hb1]
        have hj : rd8 skb.data 0 < 240 := by omega
        clear hhops
        have e : rd8 skb.data 0 * 256 + rd8 skb.data 1 + 4096
            = (rd8 skb.data 0 + 16) * 256 + rd8 skb.data 1 := by omega
        rw [e, ntohs_be_bytes _ _ (by omega) hb1]
        omega
      · rw [hout1, hW]
        unfold deh_hops at hhops
        rw [hW, hb, ntohs_le_bytes _ _ hb0 hb1] at hhops
        rw [hb, ntohs_le_bytes _ _ hb0 hb1]
        have hj : rd8 skb.data 0 < 240 := by omega
        clear hhops
        have e : rd8 skb.data 0 * 256 + rd8 skb.data 1 + 4096
            = (rd8 skb.data 0 + 16) * 256 + rd8 skb.data 1 := by omega
        rw [e, ntohs_be_bytes _ _ (by omega) hb1]
        omega

/-- C6 at concrete frames, with the route `2000.* via 1000.7`: the frame for
2000.2.20 with `hops = 15` is dropped; the one with `hops = 14` is handed to AARP
with first byte `0xF0` (`hops = 15`) and the other bytes as received. -/
theorem atalk_rcv_forward_witness :
    forward_frame.len ≤ forward_frame.data.length ∧
    atalk_rcv forward_state hops15_frame eth0 = (forward_state, .not_routed) ∧
    ∃ out : sk_buff,
      atalk_rcv forward_state forward_frame eth0 =
        (aarp_send_ddp forward_state eth0 out
          (atalk_rcv_ta (atalk_rcv_trim forward_frame).data), .forwarded) ∧
      rd8 out.data 0 = rd8 forward_frame.data 0 + 16 ∧
      out.data.drop 2 = forward_frame.data.drop 2 := by
  refine ⟨by decide, ?_, ?_⟩
  · exact (atalk_rcv_forward forward_state hops15_frame eth0 (by decide) (by decide)
      (by decide) (by decide) (by decide)).1 (Or.inr (by decide))
  · obtain ⟨out, h, _, _, _, _, _, _, hd, h0, _⟩ :=
      (atalk_rcv_forward forward_state forward_frame eth0 (by decide) (by decide)
        (by decide) (by decide) (by decide)).2 (by decide) (by decide)
    exact ⟨out, h, h0, hd⟩

/-! ## Send path -/

theorem atalk_sendto_fill_length (sk : atalk_socket) (usat : sockaddr_at) (ubuf : List u8)
    (t : u8) : (atalk_sendto_fill sk usat ubuf t).length = sizeof_ddpehdr + ubuf.length := by
  simp only [atalk_sendto_fill, wr16_length, fix_first_word_length, sizeof_ddpehdr,
    List.length_set, List.length_append, List.length_replicate, List.length_cons,
    List.length_nil]

theorem atalk_sendto_fill_payload (sk : atalk_socket) (usat : sockaddr_at) (ubuf : List u8)
    (t : u8) : (atalk_sendto_fill sk usat ubuf t).drop sizeof_ddpehdr = ubuf := by
  unfold atalk_sendto_fill sizeof_ddpehdr
  simp only
  rw [List.drop_set_of_lt _ _ (by omega), List.drop_set_of_lt _ _ (by omega),
    List.drop_set_of_lt _ _ (by omega), List.drop_set_of_lt _ _ (by omega),
    drop_wr16 _ 6 _ 13 (by omega), drop_wr16 _ 4 _ 13 (by omega)]
  unfold fix_first_word
  rw [drop_wr16 _ 0 _ 13 (by omega), drop_wr16 _ 0 _ 13 (by omega)]
  simp

theorem atalk_sendto_fill_word (sk : atalk_socket) (usat : sockaddr_at) (ubuf : List u8)
    (t : u8) :
    rd16 (atalk_sendto_fill sk usat ubuf t) 0
      = ntohs (((ubuf.length + sizeof_ddpehdr) % 1024) * 4) := by
  unfold atalk_sendto_fill
  simp only
  rw [rd16_set_ne _ 11 0 _ (by omega) (by omega), rd16_set_ne _ 10 0 _ (by omega) (by omega),
    rd16_set_ne _ 9 0 _ (by omega) (by omega), rd16_set_ne _ 8 0 _ (by omega) (by omega),
    rd16_wr16_ne _ 6 _ 0 (by omega), rd16_wr16_ne _ 4 _ 0 (by omega)]
  rw [rd16_fix_first_word _ (by simp [wr16_length])]
  rw [rd16_wr16_same _ 0 _ (by simp)]
  congr 1
  omega

/-- The receive side of the round trip, for any filled buffer `F` of
`13 + |p|` bytes that carries `p` behind the header and the length `13 + |p|`
in its first word, once the checksum `c` of `F` is stored in `deh_sum`. -/
theorem atalk_rcv_accepts_built (st : State) (dev : device) (F p : List u8) (c : Nat)
    (hp : p.length ≤ 586)
    (hFl : F.length = sizeof_ddpehdr + p.length)
    (hFp : F.drop sizeof_ddpehdr = p)
    (hFw : rd16 F 0 = ntohs (((p.length + sizeof_ddpehdr) % 1024) * 4))
    (hc : atalk_checksum F (p.length + sizeof_ddpehdr) = some c) :
    (wr16 F 2 c).length = sizeof_ddpehdr + p.length ∧
    atalk_checksum (wr16 F 2 c) (p.length + sizeof_ddpehdr) = some c ∧
    deh_sum (wr16 F 2 c) = c ∧
    (wr16 F 2 c).drop sizeof_ddpehdr = p ∧
    (atalk_rcv_trim { len := (wr16 F 2 c).length, data := wr16 F 2 c }).len
      = sizeof_ddpehdr + p.length ∧
    atalk_rcv_checksum_fails
      (atalk_rcv_trim { len := (wr16 F 2 c).length, data := wr16 F 2 c }).data = some false ∧
    atalk_rcv st { len := (wr16 F 2 c).length, data := wr16 F 2 c } dev
      = atalk_rcv_dispatch st
          (atalk_rcv_trim { len := (wr16 F 2 c).length, data := wr16 F 2 c }) dev ∧
    (atalk_rcv_trim { len := (wr16 F 2 c).length, data := wr16 F 2 c }).data.drop
      sizeof_ddpehdr = p := by
  have hsz : sizeof_ddpehdr = 13 := rfl
  have hclt := atalk_checksum_lt _ _ _ hc
  have hlen : (wr16 F 2 c).length = sizeof_ddpehdr + p.length := by
    rw [wr16_length, hFl]
  have hsum : atalk_checksum (wr16 F 2 c) (p.length + sizeof_ddpehdr) = some c := by
    rw [atalk_checksum_congr _ F _ (wr16_length _ _ _) (drop_wr16 _ 2 _ 4 (by omega)), hc]
  have hstored : deh_sum (wr16 F 2 c) = c := by
    unfold deh_sum
    rw [rd16_wr16_same _ 2 _ (by omega)]
    exact Nat.mod_eq_of_lt hclt
  have hpay : (wr16 F 2 c).drop sizeof_ddpehdr = p := by
    rw [hsz, drop_wr16 _ 2 _ 13 (by omega), ← hsz, hFp]
  have hword : rd16 (fix_first_word (wr16 F 2 c)) 0 = (p.length + sizeof_ddpehdr) * 4 := by
    rw [rd16_fix_first_word _ (by omega), rd16_wr16_ne _ 2 _ 0 (by omega), hFw,
      ntohs_ntohs _ (by omega)]
    omega
  have hdl : deh_len (fix_first_word (wr16 F 2 c)) = sizeof_ddpehdr + p.length := by
    unfold deh_len
    rw [hword]
    omega
  have htl : (atalk_rcv_trim { len := (wr16 F 2 c).length, data := wr16 F 2 c }).len
      = sizeof_ddpehdr + p.length := by
    show min _ (deh_len (fix_first_word _)) = _
    rw [hdl, hlen]
    simp
  have hrsum : deh_sum (fix_first_word (wr16 F 2 c)) = c := by
    unfold deh_sum fix_first_word
    rw [rd16_wr16_ne _ 0 _ 2 (by omega)]
    exact hstored
  have hck : atalk_rcv_checksum_fails
      (atalk_rcv_trim { len := (wr16 F 2 c).length, data := wr16 F 2 c }).data
        = some false := by
    show atalk_rcv_checksum_fails (fix_first_word (wr16 F 2 c)) = some false
    unfold atalk_rcv_checksum_fails
    rw [hrsum, hdl]
    split_ifs with h0
    · rfl
    · have : atalk_checksum (fix_first_word (wr16 F 2 c)) (sizeof_ddpehdr + p.length)
          = some c := by
        rw [atalk_checksum_congr _ (wr16 F 2 c) _ (fix_first_word_length _)
          (drop_wr16 _ 0 _ 4 (by omega)), Nat.add_comm, hsum]
      rw [this]
      simp
  have hpass := atalk_rcv_pass st { len := (wr16 F 2 c).length, data := wr16 F 2 c } dev
    (by show sizeof_ddpehdr ≤ (wr16 F 2 c).length; omega) (by rw [htl]; omega) hck
  refine ⟨hlen, hsum, hstored, hpay, htl, hck, hpass, ?_⟩
  show (fix_first_word (wr16 F 2 c)).drop sizeof_ddpehdr = p
  unfold fix_first_word
  rw [hsz, drop_wr16 _ 0 _ 13 (by omega), ← hsz, hpay]

/-- C3: for a payload `p` of at most 586 bytes and a socket with `no_check = 0`,
`atalk_sendto` builds a datagram of `13 + |p|` bytes whose checksum field is
the value of `atalk_checksum` over the datagram and whose bytes after the
13-byte header are `p`; handed to `atalk_rcv`, that datagram passes both size
checks (nothing is trimmed) and the checksum test, so it reaches the interface
match, and the bytes after the 13-byte header of the buffer are still `p`. -/
theorem atalk_sendto_rcv_roundtrip (st : State) (sk : atalk_socket) (usat : sockaddr_at)
    (p : List u8) (t : u8) (dev : device) (hp : p.length ≤ 586) (hnc : sk.no_check = 0) :
    ∃ ddp c,
      atalk_sendto_build sk usat p t = some ddp ∧
      ddp.length = sizeof_ddpehdr + p.length ∧
      atalk_checksum ddp (p.length + sizeof_ddpehdr) = some c ∧
      deh_sum ddp = c ∧
      ddp.drop sizeof_ddpehdr = p ∧
      (atalk_rcv_trim { len := ddp.length, data := ddp }).len = sizeof_ddpehdr + p.length ∧
      atalk_rcv_checksum_fails (atalk_rcv_trim { len := ddp.length, data := ddp }).data
        = some false ∧
      atalk_rcv st { len := ddp.length, data := ddp } dev
        = atalk_rcv_dispatch st (atalk_rcv_trim { len := ddp.length, data := ddp }) dev ∧
      (atalk_rcv st { len := ddp.length, data := ddp } dev).2 ≠ .header_short ∧
      (atalk_rcv st { len := ddp.length, data := ddp } dev).2 ≠ .length_short ∧
      (atalk_rcv st { len := ddp.length, data := ddp } dev).2 ≠ .checksum_bad ∧
      (atalk_rcv st { len := ddp.length, data := ddp } dev).2 ≠ .checksum_fault ∧
      (atalk_rcv_trim { len := ddp.length, data := ddp }).data.drop sizeof_ddpehdr = p := by
  have hFl := atalk_sendto_fill_length sk usat p t
  have hsz : sizeof_ddpehdr = 13 := rfl
  obtain ⟨c, hc⟩ := atalk_checksum_in_bounds (atalk_sendto_fill sk usat p t)
    (p.length + sizeof_ddpehdr) (by omega) (by omega)
  obtain ⟨hlen, hsum, hstored, hpay, htl, hck, hpass, hrp⟩ :=
    atalk_rcv_accepts_built st dev (atalk_sendto_fill sk usat p t) p c hp hFl
      (atalk_sendto_fill_payload sk usat p t) (atalk_sendto_fill_word sk usat p t) hc
  have hex := atalk_rcv_dispatch_exit st
    (atalk_rcv_trim { len := (wr16 (atalk_sendto_fill sk usat p t) 2 c).length,
                      data := wr16 (atalk_sendto_fill sk usat p t) 2 c }) dev
  refine ⟨wr16 (atalk_sendto_fill sk usat p t) 2 c, c, ?_, hlen, hsum, hstored, hpay,
    htl, hck, hpass, ?_, ?_, ?_, ?_, hrp⟩
  · unfold atalk_sendto_build
    simp only
    rw [if_neg (by omega), hc]
  · rw [hpass]; exact hex.1
  · rw [hpass]; exact hex.2.1
  · rw [hpass]; exact hex.2.2.1
  · rw [hpass]; exact hex.2.2.2

/-- C3 at a concrete send: the payload `hi` sent from `socket_a` to 1000.5.128
is built, accepted by `atalk_rcv` up to the interface match, and found behind
the header. -/
theorem atalk_sendto_rcv_roundtrip_witness :
    ([0x68, 0x69] : List u8).length ≤ 586 ∧ socket_a.no_check = 0 ∧
    ∃ ddp : List u8,
      atalk_sendto_build socket_a usat_a [0x68, 0x69] 0 = some ddp ∧
      ddp.drop sizeof_ddpehdr = [0x68, 0x69] ∧
      atalk_rcv local_state { len := ddp.length, data := ddp } eth0
        = atalk_rcv_dispatch local_state (atalk_rcv_trim { len := ddp.length, data := ddp })
            eth0 ∧
      (atalk_rcv_trim { len := ddp.length, data := ddp }).data.drop sizeof_ddpehdr
        = [0x68, 0x69] := by
  refine ⟨by decide, by decide, ?_⟩
  obtain ⟨ddp, _, hb, _, _, _, hp, _, _, hr, _, _, _, _, hq⟩ :=
    atalk_sendto_rcv_roundtrip local_state socket_a usat_a [0x68, 0x69] 0 eth0
      (by decide) (by decide)
  exact ⟨ddp, hb, hp, hr, hq⟩

/-! ## Route creation -/

theorem atrtr_create_scan_first (r : rtentry) (pre post : List atalk_route) (rt : atalk_route)
    (hrt : atrtr_create_duplicates r rt = true)
    (hpre : ∀ x ∈ pre, atrtr_create_duplicates r x = false) :
    atrtr_create_scan r (pre ++ rt :: post) = some pre.length := by
  induction pre with
  | nil =>
    simp only [atrtr_create_duplicates, Bool.and_eq_true, beq_iff_eq, Bool.or_eq_true,
      Bool.not_eq_true'] at hrt
    obtain ⟨⟨hf, hn⟩, hh⟩ := hrt
    simp only [List.nil_append, atrtr_create_scan, List.length_nil]
    rw [if_neg (by simpa using hf), if_pos]
    refine ⟨hn, ?_⟩
    rcases hh with hh | hh
    · left; simp [hh]
    · right; exact hh
  | cons x xs ih =>
    have hx := hpre x (List.mem_cons_self _ _)
    have ih1 := ih (fun y hy => hpre y (List.mem_cons_of_mem _ hy))
    simp only [List.cons_append, atrtr_create_scan, List.length_cons]
    by_cases hf : r.rt_flags ≠ x.flags
    · rw [if_pos hf]
      exact congrArg (Option.map (· + 1)) ih1
    · rw [if_neg hf]
      have hf1 : r.rt_flags = x.flags := by simpa using hf
      rw [if_neg]
      · exact congrArg (Option.map (· + 1)) ih1
      intro hc
      simp only [atrtr_create_duplicates, hf1, beq_self_eq_true, Bool.true_and] at hx
      rcases hc with ⟨hn, hh⟩
      rcases hh with hh | hh
      · simp [hn, hh] at hx
      · simp [hn, hh] at hx

theorem atrtr_create_scan_none (r : rtentry) (l : List atalk_route)
    (h : ∀ x ∈ l, atrtr_create_duplicates r x = false) : atrtr_create_scan r l = none := by
  induction l with
  | nil => rfl
  | cons x xs ih =>
    have hx := h x (List.mem_cons_self _ _)
    have ih1 := ih (fun y hy => h y (List.mem_cons_of_mem _ hy))
    simp only [atrtr_create_scan]
    by_cases hf : r.rt_flags ≠ x.flags
    · rw [if_pos hf, ih1]; rfl
    · rw [if_neg hf]
      have hf1 : r.rt_flags = x.flags := by simpa using hf
      rw [if_neg, ih1]; rfl
      intro hc
      simp only [atrtr_create_duplicates, hf1, beq_self_eq_true, Bool.true_and] at hx
      rcases hc with ⟨hn, hh⟩
      rcases hh with hh | hh
      · simp [hn, hh] at hx
      · simp [hn, hh] at hx

theorem set_append_cons {α : Type} (pre post : List α) (x e : α) :
    (pre ++ x :: post).set pre.length e = pre ++ e :: post := by
  induction pre with
  | nil => rfl
  | cons y ys ih => simp [ih]

theorem atrtr_create_riface_spec (ga : sockaddr_at) (l : List atalk_iface) :
    ∀ acc : Option atalk_iface,
      (atrtr_create_riface ga acc l = none ↔
        acc = none ∧ ∀ i ∈ l, atrtr_create_reaches ga i = false) ∧
      (∀ x, atrtr_create_riface ga acc l = some x →
        acc = some x ∨ (x ∈ l ∧ atrtr_create_reaches ga x = true)) := by
  induction l with
  | nil =>
    intro acc
    simp [atrtr_create_riface]
  | cons i is ih =>
    intro acc
    simp only [atrtr_create_riface]
    by_cases h2 : ga.sat_addr.s_net = i.address.s_net ∧ ga.sat_addr.s_node = i.address.s_node
    · have hr : atrtr_create_reaches ga i = true := by
        simp [atrtr_create_reaches, h2.1, h2.2]
      rw [if_pos h2]
      obtain ⟨ih1, ih2⟩ := ih (some i)
      constructor
      · constructor
        · intro h
          simp [ih1] at h
        · rintro ⟨_, h⟩
          have := h i (List.mem_cons_self _ _)
          rw [hr] at this
          cases this
      · intro x hx
        rcases ih2 x hx with h | ⟨h, hh⟩
        · right
          simp only [Option.some.injEq] at h
          subst h
          exact ⟨List.mem_cons_self _ _, hr⟩
        · exact Or.inr ⟨List.mem_cons_of_mem _ h, hh⟩
    · rw [if_neg h2]
      by_cases h1 : acc = none ∧ ntohs ga.sat_addr.s_net ≥ ntohs i.nets.nr_firstnet ∧
          ntohs ga.sat_addr.s_net ≤ ntohs i.nets.nr_lastnet
      · have hr : atrtr_create_reaches ga i = true := by
          simp [atrtr_create_reaches, h1.2.1, h1.2.2]
        rw [if_pos h1]
        obtain ⟨ih1, ih2⟩ := ih (some i)
        constructor
        · constructor
          · intro h
            simp [ih1] at h
          · rintro ⟨_, h⟩
            have := h i (List.mem_cons_self _ _)
            rw [hr] at this
            cases this
        · intro x hx
          rcases ih2 x hx with h | ⟨h, hh⟩
          · right
            simp only [Option.some.injEq] at h
            subst h
            exact ⟨List.mem_cons_self _ _, hr⟩
          · exact Or.inr ⟨List.mem_cons_of_mem _ h, hh⟩
      · rw [if_neg h1]
        obtain ⟨ih1, ih2⟩ := ih acc
        constructor
        · rw [ih1]
          constructor
          · rintro ⟨ha, h⟩
            refine ⟨ha, ?_⟩
            intro j hj
            rcases List.mem_cons.mp hj with hj | hj
            · subst hj
              have h1a : ¬ (ntohs ga.sat_addr.s_net ≥ ntohs j.nets.nr_firstnet ∧
                  ntohs ga.sat_addr.s_net ≤ ntohs j.nets.nr_lastnet) := fun hc => h1 ⟨ha, hc⟩
              simp only [atrtr_create_reaches, Bool.or_eq_false_iff, Bool.and_eq_false_iff,
                decide_eq_false_iff_not, beq_eq_false_iff_ne, ne_eq]
              constructor
              · by_cases hc : ntohs ga.sat_addr.s_net ≥ ntohs j.nets.nr_firstnet
                · right; exact fun hd => h1a ⟨hc, hd⟩
                · left; exact hc
              · by_cases hc : ga.sat_addr.s_net = j.address.s_net
                · right; exact fun hd => h2 ⟨hc, hd⟩
                · left; exact hc
            · exact h j hj
          · rintro ⟨ha, h⟩
            exact ⟨ha, fun j hj => h j (List.mem_cons_of_mem _ hj)⟩
        · intro x hx
          rcases ih2 x hx with h | ⟨h, hh⟩
          · exact Or.inl h
          · exact Or.inr ⟨List.mem_cons_of_mem _ h, hh⟩

theorem atrtr_create_result (st : State) (r : rtentry) (devhint : Option device) :
    (r.rt_dst.sat_family ≠ AF_APPLETALK → atrtr_create st r devhint = (st, -EINVAL)) ∧
    (r.rt_dst.sat_family = AF_APPLETALK → devhint = none →
      r.rt_gateway.sat_family ≠ AF_APPLETALK → atrtr_create st r devhint = (st, -EINVAL)) ∧
    (r.rt_dst.sat_family = AF_APPLETALK → devhint = none →
      r.rt_gateway.sat_family = AF_APPLETALK →
      atrtr_create_riface r.rt_gateway none st.atalk_iface_list = none →
      atrtr_create st r devhint = (st, -ENETUNREACH)) ∧
    (∀ d, r.rt_dst.sat_family = AF_APPLETALK →
      (devhint = some d ∨ (devhint = none ∧ r.rt_gateway.sat_family = AF_APPLETALK ∧
        ∃ iface, atrtr_create_riface r.rt_gateway none st.atalk_iface_list = some iface ∧
          iface.dev = d)) →
      atrtr_create st r devhint =
        (match atrtr_create_scan r st.atalk_router_list with
          | none => { st with atalk_router_list := route_of r d :: st.atalk_router_list }
          | some i => { st with atalk_router_list := st.atalk_router_list.set i (route_of r d) },
         0)) := by
  refine ⟨?_, ?_, ?_, ?_⟩
  · intro h
    unfold atrtr_create
    simp only
    rw [if_pos h]
  · intro h1 h2 h3
    unfold atrtr_create
    simp only
    rw [if_neg (by simpa using h1), if_pos ⟨h2, h3⟩]
  · intro h1 h2 h3 h4
    unfold atrtr_create
    simp only
    rw [if_neg (by simpa using h1), if_neg (by simp [h3])]
    subst h2
    simp only [h4, Option.map_none']
  · intro d h1 h
    unfold atrtr_create
    simp only
    rw [if_neg (by simpa using h1)]
    rcases h with h | ⟨h2, h3, iface, h4, h5⟩
    · subst h
      rw [if_neg (by simp)]
      simp only
      cases atrtr_create_scan r st.atalk_router_list <;> rfl
    · subst h2
      rw [if_neg (by simp [h3])]
      simp only [h4, Option.map_some', h5]
      cases atrtr_create_scan r st.atalk_router_list <;> rfl

/-- The errors of `atrtr_create` are negative, so a call that returns 0 went
through to the table update, with the device hint or the device of the
interface found for the gateway. -/
theorem atrtr_create_ok (st : State) (r : rtentry) (devhint : Option device)
    (hok : (atrtr_create st r devhint).2 = 0) :
    ∃ d, r.rt_dst.sat_family = AF_APPLETALK ∧
      (devhint = some d ∨ (devhint = none ∧ r.rt_gateway.sat_family = AF_APPLETALK ∧
        ∃ iface, atrtr_create_riface r.rt_gateway none st.atalk_iface_list = some iface ∧
          iface.dev = d)) := by
  obtain ⟨e1, e2, e3, _⟩ := atrtr_create_result st r devhint
  by_cases h1 : r.rt_dst.sat_family = AF_APPLETALK
  · cases hd : devhint with
    | some d => exact ⟨d, h1, Or.inl rfl⟩
    | none =>
      by_cases h3 : r.rt_gateway.sat_family = AF_APPLETALK
      · cases h4 : atrtr_create_riface r.rt_gateway none st.atalk_iface_list with
        | none =>
          rw [e3 h1 hd h3 h4] at hok
          simp [ENETUNREACH] at hok
        | some iface => exact ⟨iface.dev, h1, Or.inr ⟨rfl, h3, iface, rfl, rfl⟩⟩
      · rw [e2 h1 hd h3] at hok
        simp [EINVAL] at hok
  · rw [e1 h1] at hok
    simp [EINVAL] at hok

/-- C11: for every `atrtr_create` that returns 0, with `d` the device used (the
hint, or the device of the interface found for the gateway): if the table
holds an entry with the flags of the request, its target net and (when the
entry is a host route) its target node, the first such entry is overwritten
with the target, device, flags and gateway of the request, the number of
routes and every other entry stay as they were; if the table holds no such
entry, one entry is linked at the head and all existing entries are unchanged.
No other table changes. -/
theorem atrtr_create_update_or_add (st : State) (r : rtentry) (devhint : Option device)
    (hok : (atrtr_create st r devhint).2 = 0) :
    ∃ d,
      (devhint = some d ∨ (devhint = none ∧
        ∃ iface ∈ st.atalk_iface_list, iface.dev = d)) ∧
      (∀ pre rt post, st.atalk_router_list = pre ++ rt :: post →
        atrtr_create_duplicates r rt = true →
        (∀ x ∈ pre, atrtr_create_duplicates r x = false) →
        (atrtr_create st r devhint).1.atalk_router_list = pre ++ route_of r d :: post ∧
        (atrtr_create st r devhint).1.atalk_router_list.length
          = st.atalk_router_list.length) ∧
      ((∀ x ∈ st.atalk_router_list, atrtr_create_duplicates r x = false) →
        (atrtr_create st r devhint).1.atalk_router_list
          = route_of r d :: st.atalk_router_list) ∧
      (atrtr_create st r devhint).1.atrtr_default = st.atrtr_default ∧
      (atrtr_create st r devhint).1.atalk_iface_list = st.atalk_iface_list ∧
      (atrtr_create st r devhint).1.socks = st.socks ∧
      (atrtr_create st r devhint).1.atalk_socket_list = st.atalk_socket_list ∧
      (atrtr_create st r devhint).1.aarp_sent = st.aarp_sent := by
  obtain ⟨d, h1, hd⟩ := atrtr_create_ok st r devhint hok
  have he := (atrtr_create_result st r devhint).2.2.2 d h1 hd
  refine ⟨d, ?_, ?_, ?_, ?_, ?_, ?_, ?_, ?_⟩
  · rcases hd with hd | ⟨hd, _, iface, hi, hdev⟩
    · exact Or.inl hd
    · right
      refine ⟨hd, iface, ?_, hdev⟩
      rcases (atrtr_create_riface_spec r.rt_gateway st.atalk_iface_list none).2 iface hi with h | h
      · cases h
      · exact h.1
  · intro pre rt post hl hdup hpre
    rw [he, hl, atrtr_create_scan_first r pre post rt hdup hpre]
    simp only [set_append_cons]
    simp
  · intro hnone
    rw [he, atrtr_create_scan_none r _ hnone]
  all_goals
    rw [he]
    cases atrtr_create_scan r st.atalk_router_list <;> rfl

/-- C11 at concrete tables: adding `host_request` to the table that holds the
route of `net_request` links a second entry; adding `net_request` again, now
through another gateway, overwrites the entry in place. -/
theorem atrtr_create_update_or_add_witness :
    (atrtr_create (atrtr_create State.init net_request (some eth0)).1 host_request
      (some eth0)).1.atalk_router_list
      = [route_of host_request eth0, route_of net_request eth0] ∧
    (atrtr_create two_routes_state { net_request with rt_gateway := gw_request.rt_gateway }
      (some eth0)).1.atalk_router_list
      = [route_of host_request eth0,
         route_of { net_request with rt_gateway := gw_request.rt_gateway } eth0] := by
  constructor
  · obtain ⟨d, hd, _, h, _⟩ := atrtr_create_update_or_add
      (atrtr_create State.init net_request (some eth0)).1 host_request (some eth0) (by decide)
    rcases hd with hd | hd
    · cases hd
      exact h (by decide)
    · cases hd.1
  · obtain ⟨d, hd, h, _⟩ := atrtr_create_update_or_add two_routes_state
      { net_request with rt_gateway := gw_request.rt_gateway } (some eth0) (by decide)
    rcases hd with hd | hd
    · cases hd
      exact (h [route_of host_request eth0] (route_of net_request eth0) [] (by decide)
        (by decide) (by decide)).1
    · cases hd.1

theorem atrtr_create_scan_lt (r : rtentry) (l : List atalk_route) :
    ∀ i, atrtr_create_scan r l = some i → i < l.length := by
  induction l with
  | nil =>
    intro i h
    simp [atrtr_create_scan] at h
  | cons x xs ih =>
    intro i h
    simp only [atrtr_create_scan] at h
    simp only [List.length_cons]
    cases hxs : atrtr_create_scan r xs with
    | none =>
      rw [hxs] at h
      split_ifs at h
      · cases h
      · simp only [Option.some.injEq] at h
        omega
      · cases h
    | some j =>
      rw [hxs] at h
      have hj := ih j hxs
      split_ifs at h
      · simp only [Option.map_some', Option.some.injEq] at h
        omega
      · simp only [Option.some.injEq] at h
        omega
      · simp only [Option.map_some', Option.some.injEq] at h
        omega

/-- C12: a request whose destination family is not AppleTalk returns `-EINVAL`
and changes nothing. For a request with AppleTalk families and no device hint,
`atrtr_create` returns `-ENETUNREACH` exactly when no interface has the gateway
net within its net range (host byte order) or the gateway as its address, and
then changes nothing; otherwise it returns 0 and the route written has the
device of an interface that satisfies that condition. -/
theorem atrtr_create_gateway_reachable (st : State) (r : rtentry) (devhint : Option device) :
    (r.rt_dst.sat_family ≠ AF_APPLETALK → atrtr_create st r devhint = (st, -EINVAL)) ∧
    (r.rt_dst.sat_family = AF_APPLETALK → r.rt_gateway.sat_family = AF_APPLETALK →
      devhint = none →
      ((atrtr_create st r devhint).2 = -ENETUNREACH ↔
        ∀ iface ∈ st.atalk_iface_list, atrtr_create_reaches r.rt_gateway iface = false) ∧
      ((atrtr_create st r devhint).2 = -ENETUNREACH → (atrtr_create st r devhint).1 = st) ∧
      ((atrtr_create st r devhint).2 ≠ -ENETUNREACH →
        (atrtr_create st r devhint).2 = 0 ∧
        ∃ iface ∈ st.atalk_iface_list, atrtr_create_reaches r.rt_gateway iface = true ∧
          route_of r iface.dev ∈ (atrtr_create st r devhint).1.atalk_router_list)) := by
  obtain ⟨e1, _, e3, e4⟩ := atrtr_create_result st r devhint
  refine ⟨e1, ?_⟩
  intro h1 h3 hd
  obtain ⟨s1, s2⟩ := atrtr_create_riface_spec r.rt_gateway st.atalk_iface_list none
  cases h4 : atrtr_create_riface r.rt_gateway none st.atalk_iface_list with
  | none =>
    have hn := (s1.mp h4).2
    rw [e3 h1 hd h3 h4]
    exact ⟨⟨fun _ => hn, fun _ => rfl⟩, fun _ => rfl, fun h => absurd rfl h⟩
  | some iface =>
    have he := e4 iface.dev h1 (Or.inr ⟨hd, h3, iface, h4, rfl⟩)
    have hm : iface ∈ st.atalk_iface_list ∧ atrtr_create_reaches r.rt_gateway iface = true := by
      rcases s2 iface h4 with h | h
      · cases h
      · exact h
    have hne : (atrtr_create st r devhint).2 ≠ -ENETUNREACH := by
      rw [he]
      simp [ENETUNREACH]
    refine ⟨⟨fun h => absurd h hne, ?_⟩, fun h => absurd h hne, ?_⟩
    · intro hall
      have := hall iface hm.1
      rw [hm.2] at this
      cases this
    · intro _
      refine ⟨by rw [he], iface, hm.1, hm.2, ?_⟩
      rw [he]
      cases hs : atrtr_create_scan r st.atalk_router_list with
      | none => simp
      | some i =>
        simp only
        have hlt := atrtr_create_scan_lt r st.atalk_router_list i hs
        exact List.mem_iff_getElem.mpr ⟨i, by simpa using hlt, by simp⟩

/-- C12 at concrete tables: with `eth0` at 1000.5 serving nets [1000, 1000], the
request `2000.* via 1000.7` without a device hint is accepted through `eth0`;
with no interface at all it returns `-ENETUNREACH`; a destination of another
family returns `-EINVAL`. -/
theorem atrtr_create_gateway_reachable_witness :
    atrtr_create State.init { gw_request with rt_dst := { gw_request.rt_dst with sat_family := 2 } }
      none = (State.init, -EINVAL) ∧
    (atrtr_create State.init gw_request none).2 = -ENETUNREACH ∧
    (atrtr_create { State.init with atalk_iface_list := [eth0_iface] } gw_request none).2 = 0 :=
  ⟨(atrtr_create_gateway_reachable State.init
      { gw_request with rt_dst := { gw_request.rt_dst with sat_family := 2 } } none).1
      (by decide),
   (((atrtr_create_gateway_reachable State.init gw_request none).2 rfl rfl rfl).1).mpr
      (by simp [State.init]),
   ((((atrtr_create_gateway_reachable { State.init with atalk_iface_list := [eth0_iface] }
      gw_request none).2 rfl rfl rfl).2.2) (by decide)).1⟩

/-! ## Route deletion -/

theorem atrtr_delete_loop_first (addr : at_addr) (pre post : List atalk_route) (r : atalk_route)
    (hr : atrtr_delete_matches addr r = true)
    (hpre : ∀ x ∈ pre, atrtr_delete_matches addr x = false) :
    atrtr_delete_loop addr (pre ++ r :: post) = some (pre ++ post) := by
  induction pre with
  | nil => simp [atrtr_delete_loop, hr]
  | cons x xs ih =>
    have hx := hpre x (List.mem_cons_self _ _)
    have ih1 := ih (fun y hy => hpre y (List.mem_cons_of_mem _ hy))
    simp only [List.cons_append, atrtr_delete_loop, hx]
    exact congrArg (Option.map (x :: ·)) ih1

theorem atrtr_delete_loop_none (addr : at_addr) (l : List atalk_route)
    (h : ∀ x ∈ l, atrtr_delete_matches addr x = false) : atrtr_delete_loop addr l = none := by
  induction l with
  | nil => rfl
  | cons x xs ih =>
    have hx := h x (List.mem_cons_self _ _)
    have ih1 := ih (fun y hy => h y (List.mem_cons_of_mem _ hy))
    simp [atrtr_delete_loop, hx, ih1]

theorem atrtr_delete_loop_some (addr : at_addr) (l : List atalk_route) :
    ∀ l1, atrtr_delete_loop addr l = some l1 →
      ∃ pre r post, l = pre ++ r :: post ∧ l1 = pre ++ post ∧
        atrtr_delete_matches addr r = true ∧
        ∀ x ∈ pre, atrtr_delete_matches addr x = false := by
  induction l with
  | nil =>
    intro l1 h
    simp [atrtr_delete_loop] at h
  | cons x xs ih =>
    intro l1 h
    simp only [atrtr_delete_loop] at h
    by_cases hx : atrtr_delete_matches addr x = true
    · rw [if_pos hx] at h
      simp only [Option.some.injEq] at h
      exact ⟨[], x, xs, rfl, by simp [h], hx, by simp⟩
    · rw [if_neg hx] at h
      cases hxs : atrtr_delete_loop addr xs with
      | none => rw [hxs] at h; cases h
      | some l2 =>
        rw [hxs] at h
        simp only [Option.map_some', Option.some.injEq] at h
        obtain ⟨pre, r, post, e1, e2, hr, hpre⟩ := ih l2 hxs
        refine ⟨x :: pre, r, post, by simp [e1], by simp [← h, e2], hr, ?_⟩
        intro y hy
        rcases List.mem_cons.mp hy with hy | hy
        · subst hy
          simpa using hx
        · exact hpre y hy

/-- C13: `atrtr_delete(addr)` unlinks the first entry of the table whose target
net is `addr.net` and which lacks the gateway flag or has the target node
`addr.node`: every other entry stays, in its order, and the function returns
0; when no entry is such it returns `-ENOENT` and the table is unchanged. A
return of 0 only comes about in the first way. The default route and the
other tables are never touched. -/
theorem atrtr_delete_first_match (st : State) (addr : at_addr) :
    (∀ pre r post, st.atalk_router_list = pre ++ r :: post →
      atrtr_delete_matches addr r = true →
      (∀ x ∈ pre, atrtr_delete_matches addr x = false) →
      atrtr_delete st addr = ({ st with atalk_router_list := pre ++ post }, 0)) ∧
    ((∀ x ∈ st.atalk_router_list, atrtr_delete_matches addr x = false) →
      atrtr_delete st addr = (st, -ENOENT)) ∧
    ((atrtr_delete st addr).2 = 0 →
      ∃ pre r post, st.atalk_router_list = pre ++ r :: post ∧
        atrtr_delete_matches addr r = true ∧
        (∀ x ∈ pre, atrtr_delete_matches addr x = false) ∧
        (atrtr_delete st addr).1.atalk_router_list = pre ++ post) ∧
    (atrtr_delete st addr).1.atrtr_default = st.atrtr_default ∧
    (atrtr_delete st addr).1.atalk_iface_list = st.atalk_iface_list ∧
    (atrtr_delete st addr).1.socks = st.socks ∧
    (atrtr_delete st addr).1.atalk_socket_list = st.atalk_socket_list := by
  refine ⟨?_, ?_, ?_, ?_, ?_, ?_, ?_⟩
  · intro pre r post hl hr hpre
    unfold atrtr_delete
    rw [hl, atrtr_delete_loop_first addr pre post r hr hpre]
  · intro h
    unfold atrtr_delete
    rw [atrtr_delete_loop_none addr _ h]
  · intro h
    unfold atrtr_delete at h ⊢
    cases hl : atrtr_delete_loop addr st.atalk_router_list with
    | none =>
      rw [hl] at h
      simp [ENOENT] at h
    | some l1 =>
      obtain ⟨pre, r, post, e1, e2, hr, hpre⟩ := atrtr_delete_loop_some addr _ l1 hl
      exact ⟨pre, r, post, e1, hr, hpre, e2⟩
  all_goals
    unfold atrtr_delete
    cases atrtr_delete_loop addr st.atalk_router_list <;> rfl

/-- C13 at concrete tables: deleting 2000.20 from the table that holds the host
route for 2000.20 ahead of the net route for net 2000 leaves the net route;
deleting 3000.1 finds nothing. -/
theorem atrtr_delete_first_match_witness :
    atrtr_delete two_routes_state { s_net := htons 2000, s_node := 20 } =
      ({ two_routes_state with atalk_router_list := [] ++ [route_of net_request eth0] }, 0) ∧
    atrtr_delete two_routes_state { s_net := htons 3000, s_node := 1 }
      = (two_routes_state, -ENOENT) :=
  ⟨(atrtr_delete_first_match two_routes_state { s_net := htons 2000, s_node := 20 }).1 []
      (route_of host_request eth0) [route_of net_request eth0] (by decide) (by decide)
      (by simp),
   (atrtr_delete_first_match two_routes_state { s_net := htons 3000, s_node := 1 }).2.1
      (by decide)⟩

/-- C14 as stated fails: the table holds two routes with the target 2000.0 (one
up, one up and gateway, both added with `atrtr_create`); `atrtr_delete(2000.0)`
returns 0 and unlinks the first, and the other, whose target is 2000.0 and
which matches the address, is still in the table. -/
theorem atrtr_delete_leaves_matching_route :
    same_target_state.atalk_router_list
      = [route_of gw_request eth0, route_of net_request eth0] ∧
    (atrtr_delete same_target_state { s_net := htons 2000, s_node := 0 }).2 = 0 ∧
    (atrtr_delete same_target_state { s_net := htons 2000, s_node := 0 }).1.atalk_router_list
      = [route_of net_request eth0] ∧
    (route_of net_request eth0).target = { s_net := htons 2000, s_node := 0 } ∧
    atrtr_delete_matches { s_net := htons 2000, s_node := 0 } (route_of net_request eth0)
      = true := by
  decide

/-- C14 (as the code has it): a successful `atrtr_delete(addr)` unlinks one
entry, the first that matches, so the number of entries matching `addr` goes
down by exactly one; no matching entry remains if and only if the table held
exactly one before the call. -/
theorem atrtr_delete_removes_one (st : State) (addr : at_addr)
    (hok : (atrtr_delete st addr).2 = 0) :
    (atrtr_delete st addr).1.atalk_router_list.countP (atrtr_delete_matches addr) + 1
      = st.atalk_router_list.countP (atrtr_delete_matches addr) ∧
    ((∀ x ∈ (atrtr_delete st addr).1.atalk_router_list, atrtr_delete_matches addr x = false) ↔
      st.atalk_router_list.countP (atrtr_delete_matches addr) = 1) := by
  obtain ⟨pre, r, post, e1, hr, hpre, e2⟩ := (atrtr_delete_first_match st addr).2.2.1 hok
  have hc : (atrtr_delete st addr).1.atalk_router_list.countP (atrtr_delete_matches addr) + 1
      = st.atalk_router_list.countP (atrtr_delete_matches addr) := by
    rw [e1, e2]
    simp [List.countP_append, List.countP_cons, hr]
    omega
  refine ⟨hc, ?_⟩
  rw [← hc]
  constructor
  · intro h
    have : (atrtr_delete st addr).1.atalk_router_list.countP (atrtr_delete_matches addr) = 0 := by
      rw [List.countP_eq_zero]
      intro x hx
      simp [h x hx]
    omega
  · intro h
    have h0 : (atrtr_delete st addr).1.atalk_router_list.countP (atrtr_delete_matches addr) = 0 := by
      omega
    rw [List.countP_eq_zero] at h0
    intro x hx
    simpa using h0 x hx

/-- C14 at concrete tables: deleting 2000.20 from the table with the host route
for 2000.20 and the net route for net 2000 takes the count of matching routes
from 2 to 1. -/
theorem atrtr_delete_removes_one_witness :
    (atrtr_delete two_routes_state { s_net := htons 2000, s_node := 20 }).1.atalk_router_list.countP
        (atrtr_delete_matches { s_net := htons 2000, s_node := 20 }) + 1
      = two_routes_state.atalk_router_list.countP
        (atrtr_delete_matches { s_net := htons 2000, s_node := 20 }) :=
  (atrtr_delete_removes_one two_routes_state { s_net := htons 2000, s_node := 20 }
    (by decide)).1

/-! ## Device-down -/

theorem atrtr_device_down_loop_eq_filter (dev : device) (l : List atalk_route) :
    atrtr_device_down_loop dev l = l.filter (fun r => decide (r.dev ≠ some dev)) := by
  induction l with
  | nil => rfl
  | cons x xs ih =>
    simp only [atrtr_device_down_loop, List.filter_cons]
    by_cases h : x.dev = some dev
    · simp [h, ih]
    · simp [h, ih]

theorem atif_drop_device_loop_eq_filter (dev : device) (l : List atalk_iface) :
    atif_drop_device_loop dev l = l.filter (fun i => decide (i.dev ≠ dev)) := by
  induction l with
  | nil => rfl
  | cons x xs ih =>
    simp only [atif_drop_device_loop, List.filter_cons]
    by_cases h : x.dev = dev
    · simp [h, ih]
    · simp [h, ih]

/-- C15: after `ddp_device_event(NETDEV_DOWN, dev)` the route table is the old
one without the entries on `dev` (the others in their order), the interface
table is the old one without the interfaces on `dev` (the others in their
order), so no route and no interface has device `dev`; the default route does
not point at `dev`, and it is untouched when it did not point at `dev` before;
the socket tables are untouched. Any other event changes nothing. -/
theorem ddp_device_event_purges (st : State) (event : Nat) (dev : device) :
    (event ≠ NETDEV_DOWN → ddp_device_event st event dev = (st, NOTIFY_DONE)) ∧
    (ddp_device_event st NETDEV_DOWN dev).1.atalk_router_list
      = st.atalk_router_list.filter (fun r => decide (r.dev ≠ some dev)) ∧
    (ddp_device_event st NETDEV_DOWN dev).1.atalk_iface_list
      = st.atalk_iface_list.filter (fun i => decide (i.dev ≠ dev)) ∧
    (∀ r ∈ (ddp_device_event st NETDEV_DOWN dev).1.atalk_router_list, r.dev ≠ some dev) ∧
    (∀ i ∈ (ddp_device_event st NETDEV_DOWN dev).1.atalk_iface_list, i.dev ≠ dev) ∧
    (ddp_device_event st NETDEV_DOWN dev).1.atrtr_default.dev ≠ some dev ∧
    (st.atrtr_default.dev ≠ some dev →
      (ddp_device_event st NETDEV_DOWN dev).1.atrtr_default = st.atrtr_default) ∧
    (ddp_device_event st NETDEV_DOWN dev).1.socks = st.socks ∧
    (ddp_device_event st NETDEV_DOWN dev).1.atalk_socket_list = st.atalk_socket_list := by
  have hr : (ddp_device_event st NETDEV_DOWN dev).1.atalk_router_list
      = st.atalk_router_list.filter (fun r => decide (r.dev ≠ some dev)) := by
    simp only [ddp_device_event, if_true, atif_drop_device, atrtr_device_down]
    split_ifs <;> simp [atrtr_set_default, atrtr_device_down_loop_eq_filter]
  have hi : (ddp_device_event st NETDEV_DOWN dev).1.atalk_iface_list
      = st.atalk_iface_list.filter (fun i => decide (i.dev ≠ dev)) := by
    simp only [ddp_device_event, if_true, atif_drop_device, atrtr_device_down]
    split_ifs <;> simp [atrtr_set_default, atif_drop_device_loop_eq_filter]
  refine ⟨?_, hr, hi, ?_, ?_, ?_, ?_, ?_, ?_⟩
  · intro h
    unfold ddp_device_event
    rw [if_neg h]
  · intro r hmem
    rw [hr] at hmem
    simpa using (List.mem_filter.mp hmem).2
  · intro i hmem
    rw [hi] at hmem
    simpa using (List.mem_filter.mp hmem).2
  · simp only [ddp_device_event, if_true, atif_drop_device, atrtr_device_down]
    split_ifs with h
    · simp [atrtr_set_default]
    · exact h
  · intro h
    simp only [ddp_device_event, if_true, atif_drop_device, atrtr_device_down]
    rw [if_neg h]
  · simp only [ddp_device_event, if_true, atif_drop_device, atrtr_device_down]
    split_ifs <;> rfl
  · simp only [ddp_device_event, if_true, atif_drop_device, atrtr_device_down]
    split_ifs <;> rfl

/-- C15 at concrete tables: an event other than `NETDEV_DOWN` leaves the tables
of `forward_state` as they are. -/
theorem ddp_device_event_purges_witness :
    ddp_device_event forward_state 1 eth0 = (forward_state, NOTIFY_DONE) ∧
    (ddp_device_event forward_state NETDEV_DOWN eth0).1.atalk_router_list = [] ∧
    (ddp_device_event forward_state NETDEV_DOWN eth0).1.atalk_iface_list = [] :=
  ⟨(ddp_device_event_purges forward_state 1 eth0).1 (by decide),
   (ddp_device_event_purges forward_state NETDEV_DOWN eth0).2.1.trans (by decide),
   (ddp_device_event_purges forward_state NETDEV_DOWN eth0).2.2.1.trans (by decide)⟩

/-! ## Socket search -/

theorem atalk_search_socket_loop_eq_find (st : State) (tosat : sockaddr_at) (atif : atalk_iface)
    (l : List Nat) :
    atalk_search_socket_loop st tosat atif l
      = l.find? (fun p => atalk_search_matches tosat atif (sock_at st p)) := by
  induction l with
  | nil => rfl
  | cons s next ih =>
    simp only [atalk_search_socket_loop, List.find?_cons]
    rw [ih]
    generalize List.find? (fun p => atalk_search_matches tosat atif (sock_at st p)) next = rest
    simp only [atalk_search_matches]
    cases hp : (tosat.sat_port == (sock_at st s).src_port) <;>
      cases hn : (tosat.sat_addr.s_net == (sock_at st s).src_net) <;>
      cases hd : (tosat.sat_addr.s_node == (sock_at st s).src_node) <;>
      cases h0 : (tosat.sat_addr.s_net == 0) <;>
      cases hb : (tosat.sat_addr.s_node == ATADDR_BCAST) <;>
      cases ha : ((sock_at st s).src_net == atif.address.s_net) <;>
      simp_all

/-- C16: `atalk_search_socket(to, atif)` returns the first socket of the table
whose port is the destination port and which either has the destination net
and node, or has the net of `atif` while the destination is net 0, node
`BCAST`; it returns nothing if and only if no socket of the table is such, and
a socket it returns is in the table and is such. -/
theorem atalk_search_socket_first_match (st : State) (tosat : sockaddr_at)
    (atif : atalk_iface) :
    (∀ pre p post, st.atalk_socket_list = pre ++ p :: post →
      atalk_search_matches tosat atif (sock_at st p) = true →
      (∀ q ∈ pre, atalk_search_matches tosat atif (sock_at st q) = false) →
      atalk_search_socket st tosat atif = some p) ∧
    (atalk_search_socket st tosat atif = none ↔
      ∀ q ∈ st.atalk_socket_list, atalk_search_matches tosat atif (sock_at st q) = false) ∧
    (∀ p, atalk_search_socket st tosat atif = some p →
      ∃ pre post, st.atalk_socket_list = pre ++ p :: post ∧
        atalk_search_matches tosat atif (sock_at st p) = true ∧
        ∀ q ∈ pre, atalk_search_matches tosat atif (sock_at st q) = false) := by
  unfold atalk_search_socket
  rw [atalk_search_socket_loop_eq_find]
  refine ⟨?_, ?_, ?_⟩
  · intro pre p post hl hp hpre
    rw [hl, List.find?_eq_some]
    exact ⟨hp, pre, post, rfl, fun q hq => by simp [hpre q hq]⟩
  · rw [List.find?_eq_none]
    simp
  · intro p h
    rw [List.find?_eq_some] at h
    obtain ⟨hp, pre, post, hl, hpre⟩ := h
    exact ⟨pre, post, hl, hp, fun q hq => by simpa using hpre q hq⟩

/-- C16 at concrete tables: in `local_state` the search for 1000.5.128 returns
the socket bound there and the search for 1000.5.129 returns nothing. -/
theorem atalk_search_socket_first_match_witness :
    atalk_search_socket local_state usat_a eth0_iface = some 0 ∧
    atalk_search_socket local_state { usat_a with sat_port := 129 } eth0_iface = none :=
  ⟨(atalk_search_socket_first_match local_state usat_a eth0_iface).1 [] 0 [] rfl (by decide)
      (by simp),
   (atalk_search_socket_first_match local_state { usat_a with sat_port := 129 }
      eth0_iface).2.1.mpr (by decide)⟩

/-! ## Socket objects -/

theorem sock_at_sock_set_same (st : State) (p : Nat) (v : atalk_socket)
    (h : p < st.socks.length) : sock_at (sock_set st p v) p = v := by
  unfold sock_at sock_set
  simp [h]

theorem sock_at_sock_set_ne (st : State) (p q : Nat) (v : atalk_socket) (h : q ≠ p) :
    sock_at (sock_set st p v) q = sock_at st q := by
  unfold sock_at sock_set
  simp [List.getElem?_set_ne (Ne.symm h)]

theorem sock_set_sock_set (st : State) (p : Nat) (v w : atalk_socket) :
    sock_set (sock_set st p v) p w = sock_set st p w := by
  unfold sock_set
  simp [List.set_set]

theorem sock_at_insert (st : State) (p q : Nat) :
    sock_at (atalk_insert_socket st p) q = sock_at st q := rfl

theorem sock_at_valid_of_zapped (st : State) (p : Nat) (h : (sock_at st p).zapped ≠ 0) :
    p < st.socks.length := by
  by_contra hlt
  apply h
  unfold sock_at
  rw [List.getD_eq_default _ _ (by omega)]

theorem atalk_find_socket_loop_congr (st st1 : State) (sat : sockaddr_at) (l : List Nat)
    (h : ∀ q ∈ l, sock_at st1 q = sock_at st q) :
    atalk_find_socket_loop st1 sat l = atalk_find_socket_loop st sat l := by
  induction l with
  | nil => rfl
  | cons x xs ih =>
    simp only [atalk_find_socket_loop]
    rw [h x (List.mem_cons_self _ _), ih (fun q hq => h q (List.mem_cons_of_mem _ hq))]

theorem atalk_find_socket_loop_none (st : State) (sat : sockaddr_at) (l : List Nat) :
    atalk_find_socket_loop st sat l = none ↔
      ∀ q ∈ l, socket_key (sock_at st q)
        ≠ (sat.sat_addr.s_net, sat.sat_addr.s_node, sat.sat_port) := by
  induction l with
  | nil => simp [atalk_find_socket_loop]
  | cons x xs ih =>
    simp only [atalk_find_socket_loop, List.mem_cons, forall_eq_or_imp, socket_key, ne_eq,
      Prod.mk.injEq, not_and]
    by_cases h1 : (sock_at st x).src_net = sat.sat_addr.s_net
    · by_cases h2 : (sock_at st x).src_node = sat.sat_addr.s_node
      · by_cases h3 : (sock_at st x).src_port = sat.sat_port
        · simp [h1, h2, h3]
        · simp only [h1, h2, h3, not_true_eq_false, if_false, not_false_eq_true, if_true,
            implies_true, true_and]
          rw [ih]
          simp [socket_key]
      · simp only [h1, h2, not_true_eq_false, if_false, not_false_eq_true, if_true,
          false_implies, implies_true, true_and]
        rw [ih]
        simp [socket_key]
    · simp only [h1, not_false_eq_true, if_true, false_implies, true_and]
      rw [ih]
      simp [socket_key]

theorem atalk_find_socket_loop_some (st : State) (sat : sockaddr_at) (l : List Nat) :
    ∀ p, atalk_find_socket_loop st sat l = some p →
      p ∈ l ∧ socket_key (sock_at st p)
        = (sat.sat_addr.s_net, sat.sat_addr.s_node, sat.sat_port) := by
  induction l with
  | nil =>
    intro p h
    simp [atalk_find_socket_loop] at h
  | cons x xs ih =>
    intro p h
    simp only [atalk_find_socket_loop] at h
    split_ifs at h with h1 h2 h3
    · exact ⟨List.mem_cons_of_mem _ (ih p h).1, (ih p h).2⟩
    · exact ⟨List.mem_cons_of_mem _ (ih p h).1, (ih p h).2⟩
    · exact ⟨List.mem_cons_of_mem _ (ih p h).1, (ih p h).2⟩
    · simp only [Option.some.injEq] at h
      subst h
      refine ⟨List.mem_cons_self _ _, ?_⟩
      simp only [socket_key, Prod.mk.injEq]
      exact ⟨by simpa using h1, by simpa using h2, by simpa using h3⟩

theorem atalk_remove_socket_loop_eq_erase (sk : Nat) (l : List Nat) :
    atalk_remove_socket_loop sk l = l.erase sk := by
  induction l with
  | nil => rfl
  | cons x xs ih =>
    simp only [atalk_remove_socket_loop, List.erase_cons]
    by_cases h : x = sk
    · simp [h]
    · simp [h, ih]

theorem atalk_find_interface_loop_eq_find (net node : Nat) (l : List atalk_iface) :
    atalk_find_interface_loop net node l
      = l.find? (atalk_find_interface_matches net node) := by
  induction l with
  | nil => rfl
  | cons x xs ih =>
    simp only [atalk_find_interface_loop, List.find?_cons]
    rw [ih]
    generalize List.find? (atalk_find_interface_matches net node) xs = rest
    simp only [atalk_find_interface_matches]
    cases hb : (node == ATADDR_BCAST) <;>
      cases hn : (x.address.s_node == node) <;>
      cases hnet : (x.address.s_net == net) <;>
      cases hp : flag_set x.status ATIF_PROBE <;>
      simp_all

theorem atalk_find_primary_mem (st : State) (ap : at_addr) (h : atalk_find_primary st = some ap) :
    ∃ iface ∈ st.atalk_iface_list, iface.address = ap := by
  unfold atalk_find_primary at h
  have hloop : ∀ l : List atalk_iface, ∀ a, atalk_find_primary_loop l = some a →
      ∃ iface ∈ l, iface.address = a := by
    intro l
    induction l with
    | nil =>
      intro a ha
      simp [atalk_find_primary_loop] at ha
    | cons x xs ih =>
      intro a ha
      simp only [atalk_find_primary_loop] at ha
      split_ifs at ha with hx
      · obtain ⟨i, hi, he⟩ := ih a ha
        exact ⟨i, List.mem_cons_of_mem _ hi, he⟩
      · simp only [Option.some.injEq] at ha
        exact ⟨x, List.mem_cons_self _ _, ha⟩
  cases hl : atalk_find_primary_loop st.atalk_iface_list with
  | some a =>
    rw [hl] at h
    simp only [Option.some.injEq] at h
    subst h
    exact hloop _ _ hl
  | none =>
    rw [hl] at h
    cases hi : st.atalk_iface_list with
    | nil =>
      rw [hi] at h
      cases h
    | cons x xs =>
      rw [hi] at h
      simp only [Option.some.injEq] at h
      exact ⟨x, List.mem_cons_self _ _, h⟩

theorem sockaddr_at_eta (addr : sockaddr_at) : { addr with sat_addr := addr.sat_addr } = addr := by
  cases addr
  rfl

theorem sock_commit_eq (st : State) (sk : Nat) (v w : atalk_socket) :
    sock_set (atalk_insert_socket (sock_set st sk v) sk) sk w = sock_commit st sk w := by
  unfold sock_set atalk_insert_socket sock_commit
  simp [List.set_set]

/-- The function `atalk_bind` on a socket with `zapped` set, written with the
object it stores: the address part, the port part, the test for a socket
already at the address, and the commit. -/
theorem atalk_bind_eq (st : State) (sk : Nat) (addr : sockaddr_at) (addr_len : Nat)
    (hz : (sock_at st sk).zapped ≠ 0) (hlen : addr_len = sizeof_sockaddr_at)
    (hfam : addr.sat_family = AF_APPLETALK) :
    atalk_bind st sk addr addr_len =
      match atalk_bind_addr st addr with
      | none => (st, -EADDRNOTAVAIL)
      | some a =>
        match atalk_bind_port
            (sock_set st sk { sock_at st sk with src_net := a.s_net, src_node := a.s_node })
            { addr with sat_addr := a } with
        | none =>
          (sock_set st sk { sock_at st sk with src_net := a.s_net, src_node := a.s_node },
            -EBUSY)
        | some n =>
          if atalk_find_socket
              (sock_set st sk
                { sock_at st sk with src_net := a.s_net, src_node := a.s_node, src_port := n })
              { addr with sat_addr := a, sat_port := n } ≠ none then
            (sock_set st sk
              { sock_at st sk with src_net := a.s_net, src_node := a.s_node, src_port := n },
              -EADDRINUSE)
          else
            (sock_commit st sk
              { sock_at st sk with src_net := a.s_net, src_node := a.s_node, src_port := n,
                                   zapped := 0 }, 0) := by
  have hv := sock_at_valid_of_zapped st sk hz
  unfold atalk_bind
  rw [if_neg hz, if_neg (by simp [hlen]), if_neg (by simp [hfam])]
  unfold atalk_bind_addr
  by_cases hnet : addr.sat_addr.s_net = htons ATADDR_ANYNET
  · simp only [if_pos hnet]
    cases hp : atalk_find_primary st with
    | none => rfl
    | some ap =>
      simp only
      unfold atalk_bind_port
      by_cases hport : addr.sat_port = ATADDR_ANYPORT
      · simp only [if_pos hport]
        cases hpp : atalk_pick_port (sock_set st sk
            { sock_at st sk with src_net := ap.s_net, src_node := ap.s_node })
            { addr with sat_addr := ap } with
        | none => rfl
        | some n =>
          simp only [sock_at_sock_set_same st sk _ hv, sock_set_sock_set, sock_at_insert,
            sock_commit_eq]
      · simp only [if_neg hport]
        simp only [sock_at_sock_set_same st sk _ hv, sock_set_sock_set, sock_at_insert,
          sock_commit_eq]
  · simp only [if_neg hnet]
    cases hi : atalk_find_interface st addr.sat_addr.s_net addr.sat_addr.s_node with
    | none => rfl
    | some iface =>
      simp only [sockaddr_at_eta]
      unfold atalk_bind_port
      by_cases hport : addr.sat_port = ATADDR_ANYPORT
      · simp only [if_pos hport]
        cases hpp : atalk_pick_port (sock_set st sk
            { sock_at st sk with src_net := addr.sat_addr.s_net,
                                 src_node := addr.sat_addr.s_node }) addr with
        | none => rfl
        | some n =>
          simp only [sock_at_sock_set_same st sk _ hv, sock_set_sock_set, sock_at_insert,
            sock_commit_eq]
      · simp only [if_neg hport]
        simp only [sock_at_sock_set_same st sk _ hv, sock_set_sock_set, sock_at_insert,
          sock_commit_eq]

theorem atalk_pick_port_loop_some (st : State) (sat : sockaddr_at) :
    ∀ fuel port n, atalk_pick_port_loop st sat fuel port = some n →
      port ≤ n ∧ n < ATPORT_LAST ∧ atalk_find_socket st { sat with sat_port := n } = none ∧
      ∀ m, port ≤ m → m < n → atalk_find_socket st { sat with sat_port := m } ≠ none := by
  intro fuel
  induction fuel with
  | zero =>
    intro port n h
    simp [atalk_pick_port_loop] at h
  | succ k ih =>
    intro port n h
    simp only [atalk_pick_port_loop] at h
    split_ifs at h with h1 h2
    · simp only [Option.some.injEq] at h
      subst h
      exact ⟨le_refl _, h1, h2, fun m hm1 hm2 => absurd hm1 (by omega)⟩
    · obtain ⟨i1, i2, i3, i4⟩ := ih (port + 1) n h
      refine ⟨by omega, i2, i3, ?_⟩
      intro m hm1 hm2
      by_cases hm : m = port
      · subst hm
        exact h2
      · exact i4 m (by omega) hm2

theorem atalk_autobind_eq (st : State) (sk : Nat) (hz : (sock_at st sk).zapped ≠ 0) :
    atalk_autobind st sk =
      match atalk_find_primary st with
      | none => (st, -EADDRNOTAVAIL)
      | some ap =>
        if ap.s_net = htons ATADDR_ANYNET then (st, -EADDRNOTAVAIL)
        else
          match atalk_pick_port
              (sock_set st sk { sock_at st sk with src_net := ap.s_net, src_node := ap.s_node })
              { sat_family := 0, sat_port := 0, sat_addr := ap } with
          | none =>
            (sock_set st sk { sock_at st sk with src_net := ap.s_net, src_node := ap.s_node },
              -EBUSY)
          | some n =>
            (sock_commit st sk
              { sock_at st sk with src_net := ap.s_net, src_node := ap.s_node, src_port := n,
                                   zapped := 0 }, 0) := by
  have hv := sock_at_valid_of_zapped st sk hz
  unfold atalk_autobind
  cases hp : atalk_find_primary st with
  | none => rfl
  | some ap =>
    simp only
    by_cases hnet : ap.s_net = htons ATADDR_ANYNET
    · rw [if_pos hnet, if_pos hnet]
    · rw [if_neg hnet, if_neg hnet]
      cases hpp : atalk_pick_port
          (sock_set st sk { sock_at st sk with src_net := ap.s_net, src_node := ap.s_node })
          { sat_family := 0, sat_port := 0, sat_addr := ap } with
      | none => rfl
      | some n =>
        simp only [sock_at_sock_set_same st sk _ hv, sock_set_sock_set, sock_at_insert,
          sock_commit_eq]

/-- The invariant `sock_inv` carries over to a state whose socket list is a
sublist of the old one, whose heap is not shorter, and in which the linked
sockets are the objects they were. -/
theorem sock_inv_mono (st st1 : State) (hinv : sock_inv st)
    (hsub : st1.atalk_socket_list.Sublist st.atalk_socket_list)
    (hlen : st.socks.length ≤ st1.socks.length)
    (hsame : ∀ q ∈ st1.atalk_socket_list, sock_at st1 q = sock_at st q) : sock_inv st1 := by
  obtain ⟨h1, h2, h3⟩ := hinv
  refine ⟨?_, h2.sublist hsub, ?_⟩
  · intro p hp
    have := h1 p (hsub.subset hp)
    rw [hsame p hp]
    exact ⟨by omega, this.2⟩
  · have e : st1.atalk_socket_list.map (fun p => socket_key (sock_at st1 p))
        = st1.atalk_socket_list.map (fun p => socket_key (sock_at st p)) :=
      List.map_congr_left (fun p hp => by rw [hsame p hp])
    rw [e]
    exact h3.sublist (hsub.map _)

theorem sock_inv_commit (st : State) (sk : Nat) (v : atalk_socket) (hinv : sock_inv st)
    (hn : sk ∉ st.atalk_socket_list) (hv : sk < st.socks.length) (hz : v.zapped = 0)
    (hk : ∀ q ∈ st.atalk_socket_list, socket_key (sock_at st q) ≠ socket_key v) :
    sock_inv (sock_commit st sk v) := by
  obtain ⟨h1, h2, h3⟩ := hinv
  have hat : sock_at (sock_commit st sk v) sk = v := by
    unfold sock_at sock_commit
    simp [hv]
  have hne : ∀ q, q ≠ sk → sock_at (sock_commit st sk v) q = sock_at st q := by
    intro q hq
    unfold sock_at sock_commit
    simp [List.getElem?_set_ne (Ne.symm hq)]
  have hmem : ∀ q ∈ st.atalk_socket_list, sock_at (sock_commit st sk v) q = sock_at st q :=
    fun q hq => hne q (fun h => hn (h ▸ hq))
  have elen : (sock_commit st sk v).socks.length = st.socks.length := by
    simp [sock_commit]
  have elist : (sock_commit st sk v).atalk_socket_list = sk :: st.atalk_socket_list := rfl
  refine ⟨?_, ?_, ?_⟩
  · intro p hp
    rw [elist] at hp
    rw [elen]
    rcases List.mem_cons.mp hp with hp | hp
    · subst hp
      rw [hat]
      exact ⟨hv, hz⟩
    · rw [hmem p hp]
      exact h1 p hp
  · rw [elist]
    exact List.nodup_cons.mpr ⟨hn, h2⟩
  · rw [elist, List.map_cons, hat]
    have e : st.atalk_socket_list.map (fun p => socket_key (sock_at (sock_commit st sk v) p))
        = st.atalk_socket_list.map (fun p => socket_key (sock_at st p)) :=
      List.map_congr_left (fun p hp => by rw [hmem p hp])
    rw [e]
    refine List.nodup_cons.mpr ⟨?_, h3⟩
    intro hin
    obtain ⟨q, hq, hqk⟩ := List.mem_map.mp hin
    exact hk q hq hqk

theorem sock_inv_not_mem (st : State) (sk : Nat) (hinv : sock_inv st)
    (hz : (sock_at st sk).zapped ≠ 0) : sk ∉ st.atalk_socket_list :=
  fun h => hz (hinv.1 sk h).2

theorem sock_inv_set (st : State) (sk : Nat) (v : atalk_socket) (hinv : sock_inv st)
    (hn : sk ∉ st.atalk_socket_list) : sock_inv (sock_set st sk v) := by
  refine sock_inv_mono st (sock_set st sk v) hinv (List.Sublist.refl _) ?_ ?_
  · simp [sock_set]
  · intro q hq
    exact sock_at_sock_set_ne st sk q v (fun h => hn (h ▸ hq))

theorem sock_key_free (st : State) (sk : Nat) (v : atalk_socket) (sat : sockaddr_at)
    (hn : sk ∉ st.atalk_socket_list)
    (hf : atalk_find_socket (sock_set st sk v) sat = none) :
    ∀ q ∈ st.atalk_socket_list, socket_key (sock_at st q)
      ≠ (sat.sat_addr.s_net, sat.sat_addr.s_node, sat.sat_port) := by
  intro q hq
  have := (atalk_find_socket_loop_none (sock_set st sk v) sat st.atalk_socket_list).mp hf q hq
  rwa [sock_at_sock_set_ne st sk q v (fun h => hn (h ▸ hq))] at this

theorem atalk_bind_sock_inv (st : State) (sk : Nat) (addr : sockaddr_at) (addr_len : Nat)
    (hinv : sock_inv st) : sock_inv (atalk_bind st sk addr addr_len).1 := by
  by_cases hz : (sock_at st sk).zapped = 0
  · unfold atalk_bind
    rw [if_pos hz]
    exact hinv
  by_cases hlen : addr_len = sizeof_sockaddr_at
  swap
  · unfold atalk_bind
    rw [if_neg hz, if_pos hlen]
    exact hinv
  by_cases hfam : addr.sat_family = AF_APPLETALK
  swap
  · unfold atalk_bind
    rw [if_neg hz, if_neg (by simp [hlen]), if_pos hfam]
    exact hinv
  have hn := sock_inv_not_mem st sk hinv hz
  have hv := sock_at_valid_of_zapped st sk hz
  rw [atalk_bind_eq st sk addr addr_len hz hlen hfam]
  cases atalk_bind_addr st addr with
  | none => exact hinv
  | some a =>
    simp only
    cases atalk_bind_port
        (sock_set st sk { sock_at st sk with src_net := a.s_net, src_node := a.s_node })
        { addr with sat_addr := a } with
    | none => exact sock_inv_set st sk _ hinv hn
    | some n =>
      simp only
      split_ifs with hf
      · exact sock_inv_set st sk _ hinv hn
      · exact sock_inv_commit st sk _ hinv hn hv rfl
          (sock_key_free st sk _ _ hn (by simpa using hf))

theorem atalk_autobind_sock_inv (st : State) (sk : Nat) (hz : (sock_at st sk).zapped ≠ 0)
    (hinv : sock_inv st) : sock_inv (atalk_autobind st sk).1 := by
  have hn := sock_inv_not_mem st sk hinv hz
  have hv := sock_at_valid_of_zapped st sk hz
  rw [atalk_autobind_eq st sk hz]
  cases atalk_find_primary st with
  | none => exact hinv
  | some ap =>
    simp only
    split_ifs with hnet
    · exact hinv
    · cases hpp : atalk_pick_port
          (sock_set st sk { sock_at st sk with src_net := ap.s_net, src_node := ap.s_node })
          { sat_family := 0, sat_port := 0, sat_addr := ap } with
      | none => exact sock_inv_set st sk _ hinv hn
      | some n =>
        have hfree := (atalk_pick_port_loop_some _ _ _ _ _ hpp).2.2.1
        exact sock_inv_commit st sk _ hinv hn hv rfl (sock_key_free st sk _ _ hn hfree)

theorem atalk_create_sock_inv (st : State) (type : Nat) (hinv : sock_inv st) :
    sock_inv (atalk_create st type).1 := by
  unfold atalk_create
  split_ifs
  · refine sock_inv_mono st { st with socks := st.socks ++ [atalk_create_sock type] } hinv
      (List.Sublist.refl _) ?_ ?_
    · simp
    · intro q hq
      have hq1 : q < st.socks.length := (hinv.1 q hq).1
      unfold sock_at
      simp [List.getElem?_append_left hq1]
  · exact hinv

theorem atalk_release_sock_inv (st : State) (sk : Nat) (hinv : sock_inv st) :
    sock_inv (atalk_release st sk).1 := by
  have hlist : (atalk_release st sk).1.atalk_socket_list = st.atalk_socket_list.erase sk := by
    simp [atalk_release, atalk_destroy_socket, sock_set, atalk_remove_socket,
      atalk_remove_socket_loop_eq_erase]
  refine sock_inv_mono st (atalk_release st sk).1 hinv ?_ ?_ ?_
  · rw [hlist]
    exact List.erase_sublist _ _
  · simp [atalk_release, atalk_destroy_socket, sock_set, atalk_remove_socket]
  · intro q hq
    rw [hlist] at hq
    have hne : q ≠ sk := fun h => by
      subst h
      exact (List.Nodup.mem_erase_iff hinv.2.1).mp hq |>.1 rfl
    unfold atalk_release atalk_destroy_socket
    simp only
    rw [sock_at_sock_set_ne _ sk q _ hne]
    show sock_at (sock_set st sk _) q = sock_at st q
    exact sock_at_sock_set_ne st sk q _ hne

theorem socket_op_sock_inv (st st1 : State) (h : socket_op st st1) (hinv : sock_inv st) :
    sock_inv st1 := by
  cases h with
  | create type => exact atalk_create_sock_inv st type hinv
  | bind sk addr addr_len => exact atalk_bind_sock_inv st sk addr addr_len hinv
  | autobind sk hz => exact atalk_autobind_sock_inv st sk hz hinv
  | release sk => exact atalk_release_sock_inv st sk hinv

theorem table_op_sock_inv (st st1 : State) (h : table_op st st1) (hinv : sock_inv st) :
    sock_inv st1 := by
  obtain ⟨h1, h2⟩ := h
  refine sock_inv_mono st st1 hinv (by rw [h2]) (by rw [h1]) ?_
  intro q _
  unfold sock_at
  rw [h1]

/-- C17: in every state reached from tables with an empty socket list by
`atalk_create`, `atalk_bind`, the autobind of a socket with `zapped` set and
`atalk_release`, in any order and mixed with any operations on the interface
and route tables, no two sockets of the socket list have the same
`(src_net, src_node, src_port)`; also no socket is linked twice and every
linked socket has `zapped = 0`. -/
theorem socket_keys_unique (st0 st : State) (h0 : st0.atalk_socket_list = [])
    (hr : reachable (fun a b => socket_op a b ∨ table_op a b) st0 st) :
    (st.atalk_socket_list.map (fun p => socket_key (sock_at st p))).Nodup ∧
    (∀ p ∈ st.atalk_socket_list, ∀ q ∈ st.atalk_socket_list,
      p ≠ q → socket_key (sock_at st p) ≠ socket_key (sock_at st q)) ∧
    st.atalk_socket_list.Nodup ∧
    (∀ p ∈ st.atalk_socket_list, (sock_at st p).zapped = 0) := by
  have hinv : sock_inv st := by
    induction hr with
    | start =>
      refine ⟨?_, ?_, ?_⟩ <;> simp [h0]
    | next a b _ hstep ih =>
      rcases hstep with hstep | hstep
      · exact socket_op_sock_inv a b hstep ih
      · exact table_op_sock_inv a b hstep ih
  refine ⟨hinv.2.2, ?_, hinv.2.1, fun p hp => (hinv.1 p hp).2⟩
  intro p hp q hq hne heq
  exact hne (List.inj_on_of_nodup_map hinv.2.2 hp hq heq)

/-- C17 at concrete tables: after a socket is created and bound to 1000.5.128 and
a second socket is created and bound to the same address (which fails), the
socket list holds one socket and the local addresses in it are distinct. -/
theorem socket_keys_unique_witness :
    ((atalk_bind (atalk_create bound_state SOCK_DGRAM).1 1 usat_a
        sizeof_sockaddr_at).1.atalk_socket_list.map
      (fun p => socket_key (sock_at (atalk_bind (atalk_create bound_state SOCK_DGRAM).1 1
        usat_a sizeof_sockaddr_at).1 p))).Nodup ∧
    (atalk_bind (atalk_create bound_state SOCK_DGRAM).1 1 usat_a sizeof_sockaddr_at).2
      = -EADDRINUSE :=
  ⟨(socket_keys_unique eth0_state _ rfl
      (reachable.next _ _
        (reachable.next _ _
          (reachable.next _ _
            (reachable.next _ _ reachable.start (Or.inl (socket_op.create _ SOCK_DGRAM)))
            (Or.inl (socket_op.bind _ 0 usat_a sizeof_sockaddr_at)))
          (Or.inl (socket_op.create _ SOCK_DGRAM)))
        (Or.inl (socket_op.bind _ 1 usat_a sizeof_sockaddr_at)))).1,
   by decide⟩

/-! ## Bound sockets and interface addresses -/

theorem addr_inv_mono (st st1 : State) (hinv : addr_inv st)
    (hsub : ∀ q ∈ st1.atalk_socket_list, q ∈ st.atalk_socket_list)
    (hsame : ∀ q ∈ st1.atalk_socket_list, sock_at st1 q = sock_at st q)
    (hif : st1.atalk_iface_list = st.atalk_iface_list) : addr_inv st1 := by
  intro p hp
  rw [hsame p hp, hif]
  exact hinv p (hsub p hp)

theorem addr_inv_commit (st : State) (sk : Nat) (v : atalk_socket) (hinv : addr_inv st)
    (hn : sk ∉ st.atalk_socket_list) (hv : sk < st.socks.length)
    (hi : ∃ iface ∈ st.atalk_iface_list, iface.address.s_net = v.src_net ∧
      (v.src_node = iface.address.s_node ∨ v.src_node = ATADDR_BCAST)) :
    addr_inv (sock_commit st sk v) := by
  have hat : sock_at (sock_commit st sk v) sk = v := by
    unfold sock_at sock_commit
    simp [hv]
  have hne : ∀ q, q ≠ sk → sock_at (sock_commit st sk v) q = sock_at st q := by
    intro q hq
    unfold sock_at sock_commit
    simp [List.getElem?_set_ne (Ne.symm hq)]
  intro p hp
  have hp1 : p = sk ∨ p ∈ st.atalk_socket_list := List.mem_cons.mp hp
  show ∃ iface ∈ st.atalk_iface_list, _
  rcases hp1 with hp1 | hp1
  · subst hp1
    rw [hat]
    exact hi
  · rw [hne p (fun h => hn (h ▸ hp1))]
    exact hinv p hp1

theorem addr_inv_set (st : State) (sk : Nat) (v : atalk_socket) (hinv : addr_inv st)
    (hn : sk ∉ st.atalk_socket_list) : addr_inv (sock_set st sk v) :=
  addr_inv_mono st (sock_set st sk v) hinv (fun _ hq => hq)
    (fun q hq => sock_at_sock_set_ne st sk q v (fun h => hn (h ▸ hq))) rfl

theorem atalk_find_interface_some (st : State) (net node : Nat) (iface : atalk_iface)
    (h : atalk_find_interface st net node = some iface) :
    iface ∈ st.atalk_iface_list ∧ atalk_find_interface_matches net node iface = true := by
  unfold atalk_find_interface at h
  rw [atalk_find_interface_loop_eq_find] at h
  exact ⟨List.mem_of_find?_eq_some h, List.find?_some h⟩

theorem atalk_find_interface_none (st : State) (net node : Nat) :
    atalk_find_interface st net node = none ↔
      ∀ iface ∈ st.atalk_iface_list, atalk_find_interface_matches net node iface = false := by
  unfold atalk_find_interface
  rw [atalk_find_interface_loop_eq_find, List.find?_eq_none]
  simp

theorem atalk_bind_addr_iface (st : State) (addr : sockaddr_at) (a : at_addr)
    (h : atalk_bind_addr st addr = some a) :
    ∃ iface ∈ st.atalk_iface_list, iface.address.s_net = a.s_net ∧
      (a.s_node = iface.address.s_node ∨ a.s_node = ATADDR_BCAST) := by
  unfold atalk_bind_addr at h
  split_ifs at h with hnet
  · obtain ⟨iface, hi, he⟩ := atalk_find_primary_mem st a h
    exact ⟨iface, hi, by rw [he], Or.inl (by rw [he])⟩
  · cases hf : atalk_find_interface st addr.sat_addr.s_net addr.sat_addr.s_node with
    | none =>
      rw [hf] at h
      cases h
    | some iface =>
      rw [hf] at h
      simp only [Option.some.injEq] at h
      subst h
      obtain ⟨hi, hm⟩ := atalk_find_interface_some st _ _ iface hf
      simp only [atalk_find_interface_matches, Bool.and_eq_true, Bool.or_eq_true, beq_iff_eq,
        Bool.not_eq_true'] at hm
      refine ⟨iface, hi, hm.1.2, ?_⟩
      rcases hm.1.1 with h1 | h1
      · exact Or.inr h1
      · exact Or.inl h1.symm

theorem socket_op_addr_inv (st st1 : State) (h : socket_op st st1) (hs : sock_inv st)
    (hinv : addr_inv st) :
    addr_inv st1 ∧ st1.atalk_iface_list = st.atalk_iface_list := by
  cases h with
  | create type =>
    unfold atalk_create
    split_ifs
    · refine ⟨addr_inv_mono st _ hinv (fun _ hq => hq) ?_ rfl, rfl⟩
      intro q hq
      have hq1 : q < st.socks.length := (hs.1 q hq).1
      unfold sock_at
      simp [List.getElem?_append_left hq1]
    · exact ⟨hinv, rfl⟩
  | bind sk addr addr_len =>
    by_cases hz : (sock_at st sk).zapped = 0
    · unfold atalk_bind
      rw [if_pos hz]
      exact ⟨hinv, rfl⟩
    by_cases hlen : addr_len = sizeof_sockaddr_at
    swap
    · unfold atalk_bind
      rw [if_neg hz, if_pos hlen]
      exact ⟨hinv, rfl⟩
    by_cases hfam : addr.sat_family = AF_APPLETALK
    swap
    · unfold atalk_bind
      rw [if_neg hz, if_neg (by simp [hlen]), if_pos hfam]
      exact ⟨hinv, rfl⟩
    have hn := sock_inv_not_mem st sk hs hz
    have hv := sock_at_valid_of_zapped st sk hz
    rw [atalk_bind_eq st sk addr addr_len hz hlen hfam]
    cases ha : atalk_bind_addr st addr with
    | none => exact ⟨hinv, rfl⟩
    | some a =>
      simp only
      cases atalk_bind_port
          (sock_set st sk { sock_at st sk with src_net := a.s_net, src_node := a.s_node })
          { addr with sat_addr := a } with
      | none => exact ⟨addr_inv_set st sk _ hinv hn, rfl⟩
      | some n =>
        simp only
        split_ifs with hf
        · exact ⟨addr_inv_set st sk _ hinv hn, rfl⟩
        · exact ⟨addr_inv_commit st sk _ hinv hn hv (atalk_bind_addr_iface st addr a ha), rfl⟩
  | autobind sk hz =>
    have hn := sock_inv_not_mem st sk hs hz
    have hv := sock_at_valid_of_zapped st sk hz
    rw [atalk_autobind_eq st sk hz]
    cases hp : atalk_find_primary st with
    | none => exact ⟨hinv, rfl⟩
    | some ap =>
      simp only
      split_ifs with hnet
      · exact ⟨hinv, rfl⟩
      · cases atalk_pick_port
            (sock_set st sk { sock_at st sk with src_net := ap.s_net, src_node := ap.s_node })
            { sat_family := 0, sat_port := 0, sat_addr := ap } with
        | none => exact ⟨addr_inv_set st sk _ hinv hn, rfl⟩
        | some n =>
          obtain ⟨iface, hi, he⟩ := atalk_find_primary_mem st ap hp
          exact ⟨addr_inv_commit st sk _ hinv hn hv
            ⟨iface, hi, by rw [he], Or.inl (by rw [he])⟩, rfl⟩
  | release sk =>
    have hlist : (atalk_release st sk).1.atalk_socket_list = st.atalk_socket_list.erase sk := by
      simp [atalk_release, atalk_destroy_socket, sock_set, atalk_remove_socket,
        atalk_remove_socket_loop_eq_erase]
    refine ⟨addr_inv_mono st _ hinv ?_ ?_ rfl, rfl⟩
    · intro q hq
      rw [hlist] at hq
      exact List.mem_of_mem_erase hq
    · intro q hq
      rw [hlist] at hq
      have hne : q ≠ sk := fun h => by
        subst h
        exact (List.Nodup.mem_erase_iff hs.2.1).mp hq |>.1 rfl
      unfold atalk_release atalk_destroy_socket
      simp only
      rw [sock_at_sock_set_ne _ sk q _ hne]
      show sock_at (sock_set st sk _) q = sock_at st q
      exact sock_at_sock_set_ne st sk q _ hne

/-- C18 as stated fails, in two ways. After a socket is bound to 1000.5.128 on
the interface `eth0` at 1000.5, the event `NETDEV_DOWN` for `eth0` empties the
interface table and leaves the socket bound. And `atalk_bind` to net 1000, node
`BCAST` succeeds on that interface, so the bound socket has node 255 while the
only interface has node 5. -/
theorem bound_socket_without_interface :
    bound_state.atalk_socket_list = [0] ∧
    socket_key (sock_at bound_state 0) = (htons 1000, 5, 128) ∧
    (ddp_device_event bound_state NETDEV_DOWN eth0).1.atalk_socket_list = [0] ∧
    socket_key (sock_at (ddp_device_event bound_state NETDEV_DOWN eth0).1 0)
      = (htons 1000, 5, 128) ∧
    (ddp_device_event bound_state NETDEV_DOWN eth0).1.atalk_iface_list = [] ∧
    (atalk_bind (atalk_create eth0_state SOCK_DGRAM).1 0 usat_bcast sizeof_sockaddr_at).2 = 0 ∧
    bcast_bound_state.atalk_socket_list = [0] ∧
    socket_key (sock_at bcast_bound_state 0) = (htons 1000, 255, 128) ∧
    bcast_bound_state.atalk_iface_list = [eth0_iface] ∧
    eth0_iface.address = { s_net := htons 1000, s_node := 5 } := by
  decide

/-- C18 (as the code has it): in every state reached from tables with an empty
socket list by `atalk_create`, `atalk_bind`, the autobind of a socket with
`zapped` set and `atalk_release` (operations that leave the interface table as
it is), every socket of the socket list has the net of some interface of the
interface table and either the node of that interface or the node `BCAST`. -/
theorem bound_socket_on_interface_net (st0 st : State) (h0 : st0.atalk_socket_list = [])
    (hr : reachable socket_op st0 st) :
    (∀ p ∈ st.atalk_socket_list, ∃ iface ∈ st.atalk_iface_list,
      iface.address.s_net = (sock_at st p).src_net ∧
      ((sock_at st p).src_node = iface.address.s_node ∨
        (sock_at st p).src_node = ATADDR_BCAST)) ∧
    st.atalk_iface_list = st0.atalk_iface_list := by
  have h : sock_inv st ∧ addr_inv st ∧ st.atalk_iface_list = st0.atalk_iface_list := by
    induction hr with
    | start =>
      refine ⟨⟨?_, ?_, ?_⟩, ?_, rfl⟩
      · simp [h0]
      · simp [h0]
      · simp [h0]
      · intro p hp
        simp [h0] at hp
    | next a b _ hstep ih =>
      obtain ⟨i1, i2, i3⟩ := ih
      obtain ⟨j1, j2⟩ := socket_op_addr_inv a b hstep i1 i2
      exact ⟨socket_op_sock_inv a b hstep i1, j1, j2.trans i3⟩
  exact ⟨h.2.1, h.2.2⟩

/-- C18 at concrete tables: the socket bound to 1000.5.128 in `bound_state` has
the net and node of the interface `eth0`. -/
theorem bound_socket_on_interface_net_witness :
    eth0_state.atalk_socket_list = [] ∧ 0 ∈ bound_state.atalk_socket_list ∧
    ∃ iface ∈ bound_state.atalk_iface_list,
      iface.address.s_net = (sock_at bound_state 0).src_net ∧
      ((sock_at bound_state 0).src_node = iface.address.s_node ∨
        (sock_at bound_state 0).src_node = ATADDR_BCAST) :=
  ⟨rfl, by decide,
    (bound_socket_on_interface_net eth0_state bound_state rfl
      (reachable.next _ _
        (reachable.next _ _ reachable.start (socket_op.create _ SOCK_DGRAM))
        (socket_op.bind _ 0 usat_a sizeof_sockaddr_at))).1 0 (by decide)⟩

/-! ## Bind -/

theorem atalk_find_socket_set_none (st : State) (sk : Nat) (v : atalk_socket) (sat : sockaddr_at)
    (hn : sk ∉ st.atalk_socket_list) :
    atalk_find_socket (sock_set st sk v) sat = none ↔
      ∀ q ∈ st.atalk_socket_list, socket_key (sock_at st q)
        ≠ (sat.sat_addr.s_net, sat.sat_addr.s_node, sat.sat_port) := by
  have e : atalk_find_socket (sock_set st sk v) sat
      = atalk_find_socket_loop st sat st.atalk_socket_list := by
    show atalk_find_socket_loop (sock_set st sk v) sat st.atalk_socket_list = _
    exact atalk_find_socket_loop_congr st (sock_set st sk v) sat _
      (fun q hq => sock_at_sock_set_ne st sk q v (fun h => hn (h ▸ hq)))
  rw [e]
  exact atalk_find_socket_loop_none st sat _

/-- C20 as stated fails: with the single interface `eth0` at 1000.5, `atalk_bind`
of an unbound socket to net 1000, node 255, port 128 returns 0, although
(1000, 255) is not the address of an interface. -/
theorem atalk_bind_accepts_bcast_node :
    (sock_at (atalk_create eth0_state SOCK_DGRAM).1 0).zapped = 1 ∧
    usat_bcast.sat_addr = { s_net := htons 1000, s_node := 255 } ∧
    (atalk_create eth0_state SOCK_DGRAM).1.atalk_iface_list = [eth0_iface] ∧
    eth0_iface.address ≠ usat_bcast.sat_addr ∧
    (atalk_bind (atalk_create eth0_state SOCK_DGRAM).1 0 usat_bcast sizeof_sockaddr_at).2 = 0 ∧
    (atalk_bind (atalk_create eth0_state SOCK_DGRAM).1 0 usat_bcast sizeof_sockaddr_at).2
      ≠ -EADDRNOTAVAIL := by
  decide

/-- C20 (as the code has it): for an AppleTalk address `(net, node, port)` of the
correct length with `net != ANYNET` and `port != ANYPORT`, `atalk_bind` on a
socket with `zapped = 0` (already bound) returns `-EIO` and changes nothing. On
an unbound socket (not in the socket list) it returns `-EADDRNOTAVAIL`, changing
nothing, if and only if no interface that is not probing has the net `net` and
either the node `node` or any node when `node` is `BCAST`; otherwise it returns
`-EADDRINUSE`, leaving the socket list as it was, if and only if a socket of the
list has `(net, node, port)`; and otherwise it returns 0, after which the
socket is at the head of the socket list, has `zapped = 0` and has the local
address `(net, node, port)`. -/
theorem atalk_bind_outcomes (st : State) (sk : Nat) (addr : sockaddr_at)
    (hfam : addr.sat_family = AF_APPLETALK)
    (hnet : addr.sat_addr.s_net ≠ htons ATADDR_ANYNET)
    (hport : addr.sat_port ≠ ATADDR_ANYPORT) :
    ((sock_at st sk).zapped = 0 →
      atalk_bind st sk addr sizeof_sockaddr_at = (st, - EIO)) ∧
    ((sock_at st sk).zapped ≠ 0 → sk ∉ st.atalk_socket_list →
      ((atalk_bind st sk addr sizeof_sockaddr_at).2 = -EADDRNOTAVAIL ↔
        ∀ iface ∈ st.atalk_iface_list,
          atalk_find_interface_matches addr.sat_addr.s_net addr.sat_addr.s_node iface
            = false) ∧
      ((atalk_bind st sk addr sizeof_sockaddr_at).2 = -EADDRNOTAVAIL →
        (atalk_bind st sk addr sizeof_sockaddr_at).1 = st) ∧
      ((∃ iface ∈ st.atalk_iface_list,
          atalk_find_interface_matches addr.sat_addr.s_net addr.sat_addr.s_node iface
            = true) →
        ((atalk_bind st sk addr sizeof_sockaddr_at).2 = -EADDRINUSE ↔
          ∃ q ∈ st.atalk_socket_list, socket_key (sock_at st q)
            = (addr.sat_addr.s_net, addr.sat_addr.s_node, addr.sat_port)) ∧
        ((atalk_bind st sk addr sizeof_sockaddr_at).2 = -EADDRINUSE →
          (atalk_bind st sk addr sizeof_sockaddr_at).1.atalk_socket_list
            = st.atalk_socket_list) ∧
        ((∀ q ∈ st.atalk_socket_list, socket_key (sock_at st q)
            ≠ (addr.sat_addr.s_net, addr.sat_addr.s_node, addr.sat_port)) →
          atalk_bind st sk addr sizeof_sockaddr_at =
            (sock_commit st sk
              { sock_at st sk with src_net := addr.sat_addr.s_net,
                                   src_node := addr.sat_addr.s_node,
                                   src_port := addr.sat_port, zapped := 0 }, 0) ∧
          (atalk_bind st sk addr sizeof_sockaddr_at).1.atalk_socket_list
            = sk :: st.atalk_socket_list ∧
          (sock_at (atalk_bind st sk addr sizeof_sockaddr_at).1 sk).zapped = 0 ∧
          socket_key (sock_at (atalk_bind st sk addr sizeof_sockaddr_at).1 sk)
            = (addr.sat_addr.s_net, addr.sat_addr.s_node, addr.sat_port)))) := by
  constructor
  · intro hz
    unfold atalk_bind
    rw [if_pos hz]
  intro hz hn
  have hv := sock_at_valid_of_zapped st sk hz
  have he := atalk_bind_eq st sk addr sizeof_sockaddr_at hz rfl hfam
  have hport1 : ∀ s : State, atalk_bind_port s { addr with sat_addr := addr.sat_addr }
      = some addr.sat_port := by
    intro s
    unfold atalk_bind_port
    rw [if_neg hport]
  have hsat : ({ addr with sat_addr := addr.sat_addr, sat_port := addr.sat_port } : sockaddr_at)
      = addr := by
    cases addr
    rfl
  cases hf : atalk_find_interface st addr.sat_addr.s_net addr.sat_addr.s_node with
  | none =>
    have ha : atalk_bind_addr st addr = none := by
      unfold atalk_bind_addr
      rw [if_neg hnet, hf]
    have hall := (atalk_find_interface_none st _ _).mp hf
    rw [ha] at he
    simp only at he
    rw [he]
    refine ⟨⟨fun _ => hall, fun _ => rfl⟩, fun _ => rfl, ?_⟩
    rintro ⟨iface, hi, hm⟩
    rw [hall iface hi] at hm
    cases hm
  | some iface =>
    have ha : atalk_bind_addr st addr = some addr.sat_addr := by
      unfold atalk_bind_addr
      rw [if_neg hnet, hf]
    obtain ⟨hi, hm⟩ := atalk_find_interface_some st _ _ iface hf
    rw [ha] at he
    simp only [hport1, hsat] at he
    have hfree := atalk_find_socket_set_none st sk
      { sock_at st sk with src_net := addr.sat_addr.s_net, src_node := addr.sat_addr.s_node,
                           src_port := addr.sat_port } addr hn
    by_cases hfs : atalk_find_socket
        (sock_set st sk
          { sock_at st sk with src_net := addr.sat_addr.s_net,
                               src_node := addr.sat_addr.s_node,
                               src_port := addr.sat_port }) addr = none
    · rw [if_neg (by simp [hfs])] at he
      have hfree1 := hfree.mp hfs
      rw [he]
      refine ⟨⟨fun h => by simp [EADDRNOTAVAIL] at h, ?_⟩,
        fun h => by simp [EADDRNOTAVAIL] at h, ?_⟩
      · intro hall
        rw [hall iface hi] at hm
        cases hm
      · intro _
        refine ⟨⟨fun h => by simp [EADDRINUSE] at h, ?_⟩, fun h => by simp [EADDRINUSE] at h, ?_⟩
        · rintro ⟨q, hq, hk⟩
          exact absurd hk (hfree1 q hq)
        · intro _
          refine ⟨rfl, rfl, ?_, ?_⟩
          · unfold sock_at sock_commit
            simp [hv]
          · unfold sock_at sock_commit
            simp [hv, socket_key]
    · rw [if_pos hfs] at he
      rw [he]
      refine ⟨⟨fun h => by simp [EADDRNOTAVAIL, EADDRINUSE] at h, ?_⟩,
        fun h => by simp [EADDRNOTAVAIL, EADDRINUSE] at h, ?_⟩
      · intro hall
        rw [hall iface hi] at hm
        cases hm
      · intro _
        refine ⟨⟨fun _ => ?_, fun _ => rfl⟩, fun _ => rfl, ?_⟩
        · by_contra hno
          apply hfs
          rw [hfree]
          intro q hq hk
          exact hno ⟨q, hq, hk⟩
        · intro hall
          exact absurd (hfree.mpr hall) hfs

/-- C20 at concrete tables: in `eth0_state` a new socket binds to 1000.5.128; a
second socket is refused there with `-EADDRINUSE`, and is refused at 2000.5.128
with `-EADDRNOTAVAIL`; binding the bound socket again returns `-EIO`. -/
theorem atalk_bind_outcomes_witness :
    (atalk_bind (atalk_create eth0_state SOCK_DGRAM).1 0 usat_a sizeof_sockaddr_at).2 = 0 ∧
    (atalk_bind (atalk_create bound_state SOCK_DGRAM).1 1 usat_a sizeof_sockaddr_at).2
      = -EADDRINUSE ∧
    (atalk_bind (atalk_create bound_state SOCK_DGRAM).1 1
      { usat_a with sat_addr := { s_net := htons 2000, s_node := 5 } } sizeof_sockaddr_at).2
      = -EADDRNOTAVAIL ∧
    atalk_bind bound_state 0 usat_a sizeof_sockaddr_at = (bound_state, - EIO) := by
  refine ⟨?_, ?_, ?_, ?_⟩
  · have h := ((atalk_bind_outcomes (atalk_create eth0_state SOCK_DGRAM).1 0 usat_a rfl
      (by decide) (by decide)).2 (by decide) (by decide)).2.2 ⟨eth0_iface, by decide, by decide⟩
    rw [(h.2.2 (by decide)).1]
  · have h := ((atalk_bind_outcomes (atalk_create bound_state SOCK_DGRAM).1 1 usat_a rfl
      (by decide) (by decide)).2 (by decide) (by decide)).2.2 ⟨eth0_iface, by decide, by decide⟩
    exact h.1.mpr ⟨0, by decide, by decide⟩
  · exact (((atalk_bind_outcomes (atalk_create bound_state SOCK_DGRAM).1 1
      { usat_a with sat_addr := { s_net := htons 2000, s_node := 5 } } rfl
      (by decide) (by decide)).2 (by decide) (by decide)).1).mpr (by decide)
  · exact (atalk_bind_outcomes bound_state 0 usat_a rfl (by decide) (by decide)).1 (by decide)


/-! ## Reserved nodes -/

set_option maxRecDepth 16000 in
/-- C19: a socket gets bound to the reserved node 0x00. On empty tables
`SIOCSIFADDR` for the loopback device `lo` with the address 65280.0 returns 0 and
leaves an interface with node 0, because the probe that chooses a node in 1..253
is skipped when `IFF_LOOPBACK` is set (the same request for `eth0` ends with node
1). Then `atalk_bind` to 65280.0 port 200 returns 0 and links socket 0 with
`src_node = 0`, and `atalk_autobind` of a second socket returns 0 and links it
with `src_node = 0` as well. -/
theorem reserved_node_zero_bound :
    (atif_ioctl quiet_env State.init SIOCSIFADDR (some lo) lo_request lo_nets true).2.1 = 0 ∧
    (atalk_find_dev lo_state lo).map (fun a => a.address.s_node) = some 0 ∧
    (atalk_find_dev eth0_anynode_state eth0).map (fun a => a.address.s_node) = some 1 ∧
    lo_bound.2 = 0 ∧ lo_bound.1.atalk_socket_list = [0] ∧
    (sock_at lo_bound.1 0).zapped = 0 ∧ (sock_at lo_bound.1 0).src_node = 0 ∧
    lo_autobound.2 = 0 ∧ lo_autobound.1.atalk_socket_list = [1, 0] ∧
    (sock_at lo_autobound.1 1).zapped = 0 ∧ (sock_at lo_autobound.1 1).src_node = 0 := by
  decide


/-! ## Autobind -/

theorem atalk_find_primary_loop_eq_find (l : List atalk_iface) :
    atalk_find_primary_loop l
      = (l.find? (fun i => !flag_set i.dev.flags IFF_LOOPBACK)).map (fun i => i.address) := by
  induction l with
  | nil => rfl
  | cons x xs ih =>
    simp only [atalk_find_primary_loop, List.find?_cons]
    cases hx : flag_set x.dev.flags IFF_LOOPBACK with
    | true => simp [ih]
    | false => simp

theorem atalk_find_primary_eq_spec (st : State) :
    atalk_find_primary st = spec_primary st.atalk_iface_list := by
  unfold atalk_find_primary spec_primary
  rw [atalk_find_primary_loop_eq_find]
  cases hf : List.find? (fun i => !flag_set i.dev.flags IFF_LOOPBACK) st.atalk_iface_list with
  | some i => rfl
  | none =>
    cases hl : st.atalk_iface_list with
    | nil => rfl
    | cons x xs => rfl

/-- The port `atalk_pick_port` returns on tables in which the socket `sk` is not
linked and was just assigned an address: the lowest port of
`[ATPORT_RESERVED, ATPORT_LAST)` that no linked socket has at `sat`. -/
theorem atalk_pick_port_set_some (st : State) (sk : Nat) (v : atalk_socket) (sat : sockaddr_at)
    (n : Nat) (hn : sk ∉ st.atalk_socket_list)
    (h : atalk_pick_port (sock_set st sk v) sat = some n) :
    ATPORT_RESERVED ≤ n ∧ n < ATPORT_LAST ∧
    (∀ q ∈ st.atalk_socket_list,
      socket_key (sock_at st q) ≠ (sat.sat_addr.s_net, sat.sat_addr.s_node, n)) ∧
    (∀ m, ATPORT_RESERVED ≤ m → m < n → ∃ q ∈ st.atalk_socket_list,
      socket_key (sock_at st q) = (sat.sat_addr.s_net, sat.sat_addr.s_node, m)) := by
  obtain ⟨h1, h2, h3, h4⟩ := atalk_pick_port_loop_some _ _ _ _ _ h
  refine ⟨h1, h2, ?_, ?_⟩
  · exact (atalk_find_socket_set_none st sk v { sat with sat_port := n } hn).mp h3
  · intro m hm1 hm2
    have hne := h4 m hm1 hm2
    by_contra hcon
    apply hne
    apply (atalk_find_socket_set_none st sk v { sat with sat_port := m } hn).mpr
    intro q hq hk
    exact hcon ⟨q, hq, hk⟩

/-- C21: for a socket with `zapped` set that is not in the socket list,
`atalk_find_primary` is the address of the first interface that is not a
loopback interface, else of the first interface; `atalk_autobind` returns
`-EADDRNOTAVAIL` and changes nothing when there is no primary address; and when
it returns 0 the socket has the net and node of the primary address, its port is
the lowest port of `[0x80, 0xFE]` that no socket of the list has at that net and
node, the socket is at the head of the socket list and `zapped` is 0. -/
theorem atalk_autobind_primary_lowest_port (st : State) (sk : Nat)
    (hz : (sock_at st sk).zapped ≠ 0) (hn : sk ∉ st.atalk_socket_list) :
    atalk_find_primary st = spec_primary st.atalk_iface_list ∧
    (spec_primary st.atalk_iface_list = none →
      atalk_autobind st sk = (st, -EADDRNOTAVAIL)) ∧
    ((atalk_autobind st sk).2 = 0 →
      ∃ ap n, spec_primary st.atalk_iface_list = some ap ∧
        (sock_at (atalk_autobind st sk).1 sk).src_net = ap.s_net ∧
        (sock_at (atalk_autobind st sk).1 sk).src_node = ap.s_node ∧
        (sock_at (atalk_autobind st sk).1 sk).src_port = n ∧
        0x80 ≤ n ∧ n ≤ 0xFE ∧
        (∀ q ∈ st.atalk_socket_list,
          socket_key (sock_at st q) ≠ (ap.s_net, ap.s_node, n)) ∧
        (∀ m, 0x80 ≤ m → m < n → ∃ q ∈ st.atalk_socket_list,
          socket_key (sock_at st q) = (ap.s_net, ap.s_node, m)) ∧
        (atalk_autobind st sk).1.atalk_socket_list = sk :: st.atalk_socket_list ∧
        (sock_at (atalk_autobind st sk).1 sk).zapped = 0) := by
  have hv := sock_at_valid_of_zapped st sk hz
  have hspec := atalk_find_primary_eq_spec st
  refine ⟨hspec, ?_, ?_⟩
  · intro hnone
    rw [← hspec] at hnone
    rw [atalk_autobind_eq st sk hz, hnone]
  · rw [← hspec, atalk_autobind_eq st sk hz]
    cases hp : atalk_find_primary st with
    | none =>
      intro h
      simp [EADDRNOTAVAIL] at h
    | some ap =>
      simp only
      by_cases hnet : ap.s_net = htons ATADDR_ANYNET
      · rw [if_pos hnet]
        intro h
        simp [EADDRNOTAVAIL] at h
      · rw [if_neg hnet]
        cases hpp : atalk_pick_port
            (sock_set st sk { sock_at st sk with src_net := ap.s_net, src_node := ap.s_node })
            { sat_family := 0, sat_port := 0, sat_addr := ap } with
        | none =>
          intro h
          simp [EBUSY] at h
        | some n =>
          intro _
          obtain ⟨p1, p2, p3, p4⟩ := atalk_pick_port_set_some st sk _ _ n hn hpp
          have hat : sock_at (sock_commit st sk
              { sock_at st sk with src_net := ap.s_net, src_node := ap.s_node, src_port := n,
                                   zapped := 0 }) sk
              = { sock_at st sk with src_net := ap.s_net, src_node := ap.s_node, src_port := n,
                                     zapped := 0 } := by
            unfold sock_at sock_commit
            simp [hv]
          refine ⟨ap, n, rfl, ?_, ?_, ?_, p1, ?_, p3, p4, rfl, ?_⟩
          · simp only [hat]
          · simp only [hat]
          · simp only [hat]
          · have : n < 255 := p2
            omega
          · simp only [hat]

/-- C21 at concrete tables: with the single interface `eth0` at 1000.5 and an
empty socket list, the autobind of a new socket returns 0 and gives it the
address 1000.5 and the port 128. -/
theorem atalk_autobind_primary_lowest_port_witness :
    (sock_at eth0_open_state 0).zapped ≠ 0 ∧ 0 ∉ eth0_open_state.atalk_socket_list ∧
    ∃ ap n, spec_primary eth0_open_state.atalk_iface_list = some ap ∧
      (sock_at (atalk_autobind eth0_open_state 0).1 0).src_net = ap.s_net ∧
      (sock_at (atalk_autobind eth0_open_state 0).1 0).src_node = ap.s_node ∧
      (sock_at (atalk_autobind eth0_open_state 0).1 0).src_port = n ∧
      0x80 ≤ n ∧ n ≤ 0xFE ∧
      (atalk_autobind eth0_open_state 0).1.atalk_socket_list
        = 0 :: eth0_open_state.atalk_socket_list ∧
      (sock_at (atalk_autobind eth0_open_state 0).1 0).zapped = 0 := by
  refine ⟨by decide, by decide, ?_⟩
  obtain ⟨ap, n, h1, h2, h3, h4, h5, h6, _, _, h9, h10⟩ :=
    (atalk_autobind_primary_lowest_port eth0_open_state 0 (by decide) (by decide)).2.2
      (by decide)
  exact ⟨ap, n, h1, h2, h3, h4, h5, h6, h9, h10⟩


/-! ## What a send leaves of the socket table -/

theorem keeps_sockets_refl (st : State) : keeps_sockets st st :=
  ⟨rfl, rfl, rfl, rfl, rfl, fun _ => ⟨rfl, rfl⟩⟩

theorem keeps_sockets_trans (a b c : State) (h1 : keeps_sockets a b) (h2 : keeps_sockets b c) :
    keeps_sockets a c := by
  refine ⟨h2.1.trans h1.1, h2.2.1.trans h1.2.1, h2.2.2.1.trans h1.2.2.1,
    h2.2.2.2.1.trans h1.2.2.2.1, h2.2.2.2.2.1.trans h1.2.2.2.2.1, ?_⟩
  intro p
  have hb := h2.2.2.2.2.2 p
  have ha := h1.2.2.2.2.2 p
  exact ⟨hb.1.trans ha.1, hb.2.trans ha.2⟩

theorem keeps_sockets_aarp (st : State) (dev : device) (skb : sk_buff) (target : at_addr) :
    keeps_sockets st (aarp_send_ddp st dev skb target) :=
  ⟨rfl, rfl, rfl, rfl, rfl, fun _ => ⟨rfl, rfl⟩⟩

theorem sock_set_out_of_range (st : State) (p : Nat) (v : atalk_socket)
    (h : st.socks.length ≤ p) : sock_set st p v = st := by
  unfold sock_set
  rw [List.set_eq_of_length_le h]

theorem keeps_sockets_set (st : State) (sock : Nat) (v : atalk_socket)
    (hk : socket_key v = socket_key (sock_at st sock))
    (hz : v.zapped = (sock_at st sock).zapped) :
    keeps_sockets st (sock_set st sock v) := by
  refine ⟨rfl, rfl, rfl, rfl, by simp [sock_set], ?_⟩
  intro p
  by_cases hp : p = sock
  · subst hp
    by_cases hlt : p < st.socks.length
    · rw [sock_at_sock_set_same st p v hlt]
      exact ⟨hk, hz⟩
    · rw [sock_set_out_of_range st p v (by omega)]
      exact ⟨rfl, rfl⟩
  · rw [sock_at_sock_set_ne st sock p v hp]
    exact ⟨rfl, rfl⟩

theorem keeps_sockets_dispatch (st : State) (skb : sk_buff) (dev : device) :
    keeps_sockets st (atalk_rcv_dispatch st skb dev).1 := by
  unfold atalk_rcv_dispatch
  simp only
  cases h1 : atalk_rcv_atif st skb.data dev with
  | none =>
    simp only
    cases h2 : atrtr_find st (atalk_rcv_ta skb.data) with
    | none => exact keeps_sockets_refl st
    | some r =>
      simp only
      split_ifs
      · exact keeps_sockets_refl st
      · exact keeps_sockets_aarp st _ _ _
  | some atif =>
    simp only
    cases h2 : atalk_search_socket st (atalk_rcv_tosat skb.data) atif with
    | none => exact keeps_sockets_refl st
    | some sock =>
      simp only
      cases h3 : sock_queue_rcv_skb (sock_at st sock) skb with
      | none => exact keeps_sockets_refl st
      | some sk1 =>
        simp only
        unfold sock_queue_rcv_skb at h3
        split_ifs at h3
        simp only [Option.some.injEq] at h3
        subst h3
        exact keeps_sockets_set st sock _ rfl rfl

theorem keeps_sockets_rcv (st : State) (skb : sk_buff) (dev : device) :
    keeps_sockets st (atalk_rcv st skb dev).1 := by
  unfold atalk_rcv
  by_cases h1 : skb.len < sizeof_ddpehdr
  · rw [if_pos h1]
    exact keeps_sockets_refl st
  · rw [if_neg h1]
    simp only
    by_cases h2 : (atalk_rcv_trim skb).len < sizeof_ddpehdr
    · rw [if_pos h2]
      exact keeps_sockets_refl st
    · rw [if_neg h2]
      cases h : atalk_rcv_checksum_fails (atalk_rcv_trim skb).data with
      | none => exact keeps_sockets_refl st
      | some b =>
        cases b
        · exact keeps_sockets_dispatch st _ dev
        · exact keeps_sockets_refl st


theorem atrtr_find_has_dev (st : State) (t : at_addr) (rt : atalk_route)
    (hr : routes_have_dev st) (h : atrtr_find st t = some rt) : ∃ dev, rt.dev = some dev := by
  unfold atrtr_find at h
  cases hl : atrtr_find_loop t st.atalk_router_list with
  | some r =>
    rw [hl] at h
    simp only [Option.some.injEq] at h
    subst h
    have := hr r (atrtr_find_loop_some t _ r hl).1
    cases hd : r.dev with
    | none => exact absurd hd this
    | some d => exact ⟨d, rfl⟩
  | none =>
    rw [hl] at h
    simp only at h
    split_ifs at h with hd
    simp only [Option.some.injEq] at h
    subst h
    exact Option.isSome_iff_exists.mp hd

theorem atalk_sendto_build_some (sk : atalk_socket) (usat : sockaddr_at) (ubuf : List u8)
    (t : u8) : ∃ ddp, atalk_sendto_build sk usat ubuf t = some ddp := by
  unfold atalk_sendto_build
  simp only
  split_ifs
  · exact ⟨_, rfl⟩
  · obtain ⟨c, hc⟩ := atalk_checksum_in_bounds (atalk_sendto_fill sk usat ubuf t)
      (ubuf.length + sizeof_ddpehdr) (by unfold sizeof_ddpehdr; omega)
      (by rw [atalk_sendto_fill_length]; omega)
    rw [hc]
    exact ⟨_, rfl⟩

/-- The part of `atalk_sendto` from the allocation on returns, keeps the socket
table, and its return value is the length of the user data or the error of the
allocation. -/
theorem atalk_sendto_xmit_keeps (env : send_env) (st : State) (sk : Nat) (ubuf : List u8)
    (usat : sockaddr_at) (rt : atalk_route) (dev : device) :
    ∃ r, atalk_sendto_xmit env st sk ubuf usat rt dev = some r ∧ keeps_sockets st r.st ∧
      (r.ret = (ubuf.length : Int) ∨ env.alloc_err = some r.ret) := by
  unfold atalk_sendto_xmit
  cases ha : env.alloc_err with
  | some e => exact ⟨_, rfl, keeps_sockets_refl st, Or.inr rfl⟩
  | none =>
    obtain ⟨ddp, hd⟩ := atalk_sendto_build_some (sock_at st sk) usat ubuf env.type_octet
    simp only [hd]
    split_ifs <;> refine ⟨_, rfl, ?_, Or.inl rfl⟩ <;>
      first
      | exact keeps_sockets_rcv _ _ _
      | exact keeps_sockets_aarp _ _ _ _

theorem atalk_sendto_route_keeps (env : send_env) (st : State) (sk : Nat) (ubuf : List u8)
    (usat : sockaddr_at) (hr : routes_have_dev st) :
    ∃ r, atalk_sendto_route env st sk ubuf usat = some r ∧ keeps_sockets st r.st ∧
      (r.ret = -ENETUNREACH ∨ r.ret = (ubuf.length : Int) ∨ env.alloc_err = some r.ret) := by
  unfold atalk_sendto_route
  cases hf : atrtr_find st (atalk_sendto_target (sock_at st sk) usat) with
  | none => exact ⟨_, rfl, keeps_sockets_refl st, Or.inl rfl⟩
  | some rt =>
    obtain ⟨dev, hdev⟩ := atrtr_find_has_dev st _ rt hr hf
    simp only [hdev]
    obtain ⟨r, h1, h2, h3⟩ := atalk_sendto_xmit_keeps env st sk ubuf usat rt dev
    exact ⟨r, h1, h2, Or.inr h3⟩


/-! ## Autobind exhaustion -/

theorem atalk_pick_port_loop_first_free (st : State) (sat : sockaddr_at) :
    ∀ fuel port n, port ≤ n → n < ATPORT_LAST → n - port < fuel →
      (∀ m, port ≤ m → m < n → atalk_find_socket st { sat with sat_port := m } ≠ none) →
      atalk_find_socket st { sat with sat_port := n } = none →
      atalk_pick_port_loop st sat fuel port = some n := by
  intro fuel
  induction fuel with
  | zero =>
    intro port n _ _ h
    omega
  | succ f ih =>
    intro port n h1 h2 h3 h4 h5
    simp only [atalk_pick_port_loop]
    rw [if_pos (by omega)]
    by_cases hpn : port = n
    · subst hpn
      rw [if_pos h5]
    · rw [if_neg (h4 port (le_refl _) (by omega))]
      exact ih (port + 1) n (by omega) h2 (by omega)
        (fun m hm1 hm2 => h4 m (by omega) hm2) h5

theorem atalk_pick_port_loop_full (st : State) (sat : sockaddr_at) :
    ∀ fuel port,
      (∀ m, port ≤ m → m < ATPORT_LAST →
        atalk_find_socket st { sat with sat_port := m } ≠ none) →
      atalk_pick_port_loop st sat fuel port = none := by
  intro fuel
  induction fuel with
  | zero =>
    intro port _
    rfl
  | succ f ih =>
    intro port h
    simp only [atalk_pick_port_loop]
    by_cases hp : port < ATPORT_LAST
    · rw [if_pos hp, if_neg (h port (le_refl _) hp)]
      exact ih (port + 1) (fun m hm1 hm2 => h m (by omega) hm2)
    · rw [if_neg hp]

theorem sock_at_create_old (st : State) (type : Nat) (q : Nat) (h : q < st.socks.length) :
    sock_at { st with socks := st.socks ++ [atalk_create_sock type] } q = sock_at st q := by
  unfold sock_at
  simp [List.getD_eq_getElem?_getD, List.getElem?_append_left h]

theorem sock_at_create_new (st : State) (type : Nat) :
    sock_at { st with socks := st.socks ++ [atalk_create_sock type] } st.socks.length
      = atalk_create_sock type := by
  unfold sock_at
  simp [List.getD_eq_getElem?_getD]

theorem atalk_find_primary_congr (st st1 : State)
    (h : st1.atalk_iface_list = st.atalk_iface_list) :
    atalk_find_primary st1 = atalk_find_primary st := by
  unfold atalk_find_primary
  rw [h]

theorem autobound_mem (ap : at_addr) (base k : Nat) (st : State) (h : autobound ap base k st)
    (q : Nat) : q ∈ st.atalk_socket_list ↔ ∃ i, i < k ∧ q = base + i := by
  rw [h.2.1]
  simp only [List.mem_reverse, List.mem_map, List.mem_range]
  constructor
  · rintro ⟨i, hi, rfl⟩
    exact ⟨i, hi, rfl⟩
  · rintro ⟨i, hi, rfl⟩
    exact ⟨i, hi, rfl⟩

/-- The port search of the autobind of a new socket on a table that holds `k`
autobound sockets: the ports `ATPORT_RESERVED + i` with `i < k` are taken and
the port `ATPORT_RESERVED + k` is free. -/
theorem autobound_find (ap : at_addr) (base k : Nat) (st : State)
    (h : autobound ap base k st) (v : atalk_socket) (m : Nat) :
    atalk_find_socket
        (sock_set { st with socks := st.socks ++ [atalk_create_sock SOCK_DGRAM] }
          st.socks.length v)
        { sat_family := 0, sat_port := m, sat_addr := ap } = none ↔
      ¬ (ATPORT_RESERVED ≤ m ∧ m < ATPORT_RESERVED + k) := by
  have hn : st.socks.length ∉
      ({ st with socks := st.socks ++ [atalk_create_sock SOCK_DGRAM] } : State).atalk_socket_list := by
    intro hin
    obtain ⟨i, hi, he⟩ := (autobound_mem ap base k st h _).mp hin
    have := h.1
    omega
  rw [atalk_find_socket_set_none _ _ v _ hn]
  constructor
  · intro hall hm
    have hi : m - ATPORT_RESERVED < k := by omega
    have hq : base + (m - ATPORT_RESERVED) ∈ st.atalk_socket_list :=
      (autobound_mem ap base k st h _).mpr ⟨_, hi, rfl⟩
    apply hall _ hq
    rw [sock_at_create_old st _ _ (by have := h.1; omega), (h.2.2 _ hi).1]
    simp only [Prod.mk.injEq, true_and]
    omega
  · intro hm q hq hk
    obtain ⟨i, hi, he⟩ := (autobound_mem ap base k st h q).mp hq
    subst he
    rw [sock_at_create_old st _ _ (by have := h.1; omega), (h.2.2 _ hi).1] at hk
    simp only [Prod.mk.injEq, true_and] at hk
    omega


theorem atalk_create_dgram (st : State) :
    (atalk_create st SOCK_DGRAM).1
      = { st with socks := st.socks ++ [atalk_create_sock SOCK_DGRAM] } := by
  unfold atalk_create
  rw [if_pos (Or.inr rfl)]

/-- The autobind of a new socket on a table that holds `k` autobound sockets:
with `k < 127` it takes the port `ATPORT_RESERVED + k`, with `k = 127` it leaves
with `-EBUSY` and the socket is not linked. -/
theorem atalk_autobind_autobound (ap : at_addr) (base k : Nat) (st : State)
    (h : autobound ap base k st) (hprim : atalk_find_primary st = some ap)
    (hnet : ap.s_net ≠ htons ATADDR_ANYNET) :
    (k < 127 →
      atalk_autobind (atalk_create st SOCK_DGRAM).1 st.socks.length =
        (sock_commit (atalk_create st SOCK_DGRAM).1 st.socks.length
          { atalk_create_sock SOCK_DGRAM with
            src_net := ap.s_net, src_node := ap.s_node, src_port := ATPORT_RESERVED + k,
            zapped := 0 }, 0)) ∧
    (k = 127 →
      (atalk_autobind (atalk_create st SOCK_DGRAM).1 st.socks.length).2 = -EBUSY ∧
      (atalk_autobind (atalk_create st SOCK_DGRAM).1 st.socks.length).1.atalk_socket_list
        = st.atalk_socket_list) := by
  rw [atalk_create_dgram]
  have hz : (sock_at { st with socks := st.socks ++ [atalk_create_sock SOCK_DGRAM] }
      st.socks.length).zapped ≠ 0 := by
    rw [sock_at_create_new]
    decide
  have hp : atalk_find_primary { st with socks := st.socks ++ [atalk_create_sock SOCK_DGRAM] }
      = some ap := by
    exact (atalk_find_primary_congr st _ rfl).trans hprim
  rw [atalk_autobind_eq _ _ hz, hp]
  simp only
  rw [if_neg hnet, sock_at_create_new]
  constructor
  · intro hk
    have hpick : atalk_pick_port
        (sock_set { st with socks := st.socks ++ [atalk_create_sock SOCK_DGRAM] }
          st.socks.length
          { atalk_create_sock SOCK_DGRAM with src_net := ap.s_net, src_node := ap.s_node })
        { sat_family := 0, sat_port := 0, sat_addr := ap } = some (ATPORT_RESERVED + k) := by
      unfold atalk_pick_port
      apply atalk_pick_port_loop_first_free
      · omega
      · unfold ATPORT_RESERVED ATPORT_LAST
        omega
      · unfold ATPORT_LAST
        omega
      · intro m hm1 hm2
        intro hcon
        exact ((autobound_find ap base k st h _ m).mp hcon) ⟨hm1, hm2⟩
      · exact (autobound_find ap base k st h _ _).mpr (by omega)
    rw [hpick]
  · intro hk
    have hpick : atalk_pick_port
        (sock_set { st with socks := st.socks ++ [atalk_create_sock SOCK_DGRAM] }
          st.socks.length
          { atalk_create_sock SOCK_DGRAM with src_net := ap.s_net, src_node := ap.s_node })
        { sat_family := 0, sat_port := 0, sat_addr := ap } = none := by
      unfold atalk_pick_port
      apply atalk_pick_port_loop_full
      intro m hm1 hm2 hcon
      apply (autobound_find ap base k st h _ m).mp hcon
      unfold ATPORT_LAST ATPORT_RESERVED at *
      omega
    rw [hpick]
    exact ⟨rfl, rfl⟩


theorem routes_have_dev_congr (st st1 : State)
    (h : st1.atalk_router_list = st.atalk_router_list) (hd : routes_have_dev st) :
    routes_have_dev st1 := by
  unfold routes_have_dev
  rw [h]
  exact hd

/-- A send with a destination on a socket that the autobind has just bound to
the tables `B`: the call returns, keeps the socket table of `B`, and its return
value is `-EINVAL`, `-ENETUNREACH`, the length of the user data or the error of
the allocation. -/
theorem atalk_sendto_after_autobind (env : send_env) (C B : State) (sk : Nat) (ubuf : List u8)
    (usat : sockaddr_at) (addr_len : Nat)
    (hauto : autobind_if_zapped C sk = (B, 0)) (hdev : routes_have_dev B)
    (hsize : ubuf.length ≤ 587) :
    ∃ r, atalk_sendto env C sk ubuf 0 (some usat) addr_len = some r ∧ keeps_sockets B r.st ∧
      (r.ret = -EINVAL ∨ r.ret = -ENETUNREACH ∨ r.ret = (ubuf.length : Int) ∨
        env.alloc_err = some r.ret) := by
  unfold atalk_sendto
  rw [if_neg (by simp), if_neg (by omega)]
  unfold atalk_sendto_dest
  simp only [hauto]
  rw [if_neg (by decide)]
  split_ifs with h1 h2
  · exact ⟨_, rfl, keeps_sockets_refl B, Or.inl rfl⟩
  · exact ⟨_, rfl, keeps_sockets_refl B, Or.inl rfl⟩
  · obtain ⟨r, e1, e2, e3⟩ := atalk_sendto_route_keeps env B sk ubuf usat hdev
    exact ⟨r, e1, e2, Or.inr e3⟩

theorem open_and_send_autobound (ap : at_addr) (base k : Nat) (st : State) (rq : send_req)
    (h : autobound ap base k st) (hprim : atalk_find_primary st = some ap)
    (hnet : ap.s_net ≠ htons ATADDR_ANYNET) (hdev : routes_have_dev st) (hk : k < 127)
    (hsize : rq.ubuf.length ≤ 587) :
    ∃ st1 ret, open_and_send st rq = some (st1, ret) ∧ autobound ap base (k + 1) st1 ∧
      st1.atalk_iface_list = st.atalk_iface_list ∧
      st1.atalk_router_list = st.atalk_router_list ∧
      (rq.env.alloc_err = none → ret ≠ -EBUSY) := by
  have hauto := (atalk_autobind_autobound ap base k st h hprim hnet).1 hk
  have hlen := h.1
  have hz : (sock_at (atalk_create st SOCK_DGRAM).1 st.socks.length).zapped ≠ 0 := by
    rw [atalk_create_dgram, sock_at_create_new]
    decide
  have hif : autobind_if_zapped (atalk_create st SOCK_DGRAM).1 st.socks.length
      = (sock_commit (atalk_create st SOCK_DGRAM).1 st.socks.length
          { atalk_create_sock SOCK_DGRAM with
            src_net := ap.s_net, src_node := ap.s_node, src_port := ATPORT_RESERVED + k,
            zapped := 0 }, 0) := by
    unfold autobind_if_zapped
    rw [if_pos hz, hauto]
  have hdevB : routes_have_dev (sock_commit (atalk_create st SOCK_DGRAM).1 st.socks.length
      { atalk_create_sock SOCK_DGRAM with
        src_net := ap.s_net, src_node := ap.s_node, src_port := ATPORT_RESERVED + k,
        zapped := 0 }) := by
    apply routes_have_dev_congr st _ _ hdev
    rw [atalk_create_dgram]
    rfl
  obtain ⟨r, hr, hkeep, hret⟩ := atalk_sendto_after_autobind rq.env _ _ st.socks.length rq.ubuf
    rq.usat rq.addr_len hif hdevB hsize
  obtain ⟨k1, k2, k3, _, k5, k6⟩ := hkeep
  refine ⟨r.st, r.ret, ?_, ⟨?_, ?_, ?_⟩, ?_, ?_, ?_⟩
  · unfold open_and_send
    rw [hr]
  · rw [k5, atalk_create_dgram]
    simp only [sock_commit, List.length_set, List.length_append, List.length_singleton]
    omega
  · rw [k1, atalk_create_dgram]
    simp only [sock_commit]
    rw [h.2.1, hlen, List.range_succ]
    simp
  · intro i hi
    rw [(k6 (base + i)).1, (k6 (base + i)).2, atalk_create_dgram]
    by_cases hik : i = k
    · subst hik
      have e : sock_at (sock_commit { st with socks := st.socks ++ [atalk_create_sock SOCK_DGRAM] }
          st.socks.length
          { atalk_create_sock SOCK_DGRAM with
            src_net := ap.s_net, src_node := ap.s_node, src_port := ATPORT_RESERVED + i,
            zapped := 0 }) (base + i)
          = { atalk_create_sock SOCK_DGRAM with
              src_net := ap.s_net, src_node := ap.s_node, src_port := ATPORT_RESERVED + i,
              zapped := 0 } := by
        rw [← hlen]
        unfold sock_at sock_commit
        simp
      rw [e]
      exact ⟨rfl, rfl⟩
    · have hi2 : i < k := by omega
      have e : sock_at (sock_commit { st with socks := st.socks ++ [atalk_create_sock SOCK_DGRAM] }
          st.socks.length
          { atalk_create_sock SOCK_DGRAM with
            src_net := ap.s_net, src_node := ap.s_node, src_port := ATPORT_RESERVED + k,
            zapped := 0 }) (base + i) = sock_at st (base + i) := by
        have e1 := sock_at_sock_set_ne
          { st with socks := st.socks ++ [atalk_create_sock SOCK_DGRAM] } st.socks.length
          (base + i)
          { atalk_create_sock SOCK_DGRAM with
            src_net := ap.s_net, src_node := ap.s_node, src_port := ATPORT_RESERVED + k,
            zapped := 0 } (by omega)
        have e2 := sock_at_create_old st SOCK_DGRAM (base + i) (by omega)
        rw [← e2, ← e1]
        rfl
      rw [e]
      exact h.2.2 i hi2
  · rw [k2, atalk_create_dgram]
    rfl
  · rw [k3, atalk_create_dgram]
    rfl
  · intro ha
    rcases hret with e | e | e | e
    · rw [e]
      decide
    · rw [e]
      decide
    · rw [e]
      unfold EBUSY
      omega
    · rw [ha] at e
      cases e


theorem open_and_send_all_autobound (ap : at_addr) (base : Nat)
    (hnet : ap.s_net ≠ htons ATADDR_ANYNET) :
    ∀ (reqs : List send_req) (k : Nat) (st : State),
      autobound ap base k st → atalk_find_primary st = some ap → routes_have_dev st →
      k + reqs.length ≤ 127 → (∀ rq ∈ reqs, rq.ubuf.length ≤ 587) →
      ∃ st1 rets, open_and_send_all st reqs = some (st1, rets) ∧
        autobound ap base (k + reqs.length) st1 ∧ atalk_find_primary st1 = some ap ∧
        routes_have_dev st1 ∧ rets.length = reqs.length ∧
        ((∀ rq ∈ reqs, rq.env.alloc_err = none) → ∀ ret ∈ rets, ret ≠ -EBUSY) := by
  intro reqs
  induction reqs with
  | nil =>
    intro k st h hp hd _ _
    exact ⟨st, [], rfl, h, hp, hd, rfl, fun _ ret hret => absurd hret (List.not_mem_nil _)⟩
  | cons rq rest ih =>
    intro k st h hp hd hk hs
    simp only [List.length_cons] at hk
    obtain ⟨st1, ret, e1, e2, e3, e4, e5⟩ := open_and_send_autobound ap base k st rq h hp hnet hd
      (by omega) (hs rq (List.mem_cons_self _ _))
    obtain ⟨st2, rets, f1, f2, f3, f4, f5, f6⟩ := ih (k + 1) st1 e2
      ((atalk_find_primary_congr st st1 e3).trans hp) (routes_have_dev_congr st st1 e4 hd)
      (by omega) (fun x hx => hs x (List.mem_cons_of_mem _ hx))
    refine ⟨st2, ret :: rets, ?_, ?_, f3, f4, ?_, ?_⟩
    · simp only [open_and_send_all, e1, f1]
    · have e : k + (rest.length + 1) = k + 1 + rest.length := by omega
      simp only [List.length_cons]
      rw [e]
      exact f2
    · simp [f5]
    · intro ha x hx
      rcases List.mem_cons.mp hx with hx | hx
      · rw [hx]
        exact e5 (ha rq (List.mem_cons_self _ _))
      · exact f6 (fun y hy => ha y (List.mem_cons_of_mem _ hy)) x hx

theorem open_and_send_full (ap : at_addr) (base : Nat) (st : State) (rq : send_req)
    (h : autobound ap base 127 st) (hprim : atalk_find_primary st = some ap)
    (hnet : ap.s_net ≠ htons ATADDR_ANYNET) (hsize : rq.ubuf.length ≤ 587) :
    ∃ st2, open_and_send st rq = some (st2, -EBUSY) ∧
      st2.atalk_socket_list = st.atalk_socket_list := by
  obtain ⟨h1, h2⟩ := (atalk_autobind_autobound ap base 127 st h hprim hnet).2 rfl
  have hz : (sock_at (atalk_create st SOCK_DGRAM).1 st.socks.length).zapped ≠ 0 := by
    rw [atalk_create_dgram, sock_at_create_new]
    decide
  refine ⟨(atalk_autobind (atalk_create st SOCK_DGRAM).1 st.socks.length).1, ?_, h2⟩
  unfold open_and_send atalk_sendto
  rw [if_neg (by simp), if_neg (by omega)]
  unfold atalk_sendto_dest autobind_if_zapped
  simp only
  rw [if_pos hz, if_pos (by rw [h1]; decide)]
  rfl

/-- C22: on tables with an empty socket list, a primary address `ap` whose net
is not 0 (such as 1000.5) and a routing list whose entries have a device, 127
requests made one after the other, each opening a datagram socket and sending
once on it with a destination and at most 587 octets, all return; socket number
`i` (counted from 0) is then bound to `ap` with the port `0x80 + i`, so the
ports `0x80, ..., 0xFE` are taken in order, and no send returns `-EBUSY` when
the allocations succeed. A 128th such request returns `-EBUSY`, the value of
`atalk_pick_port` for a full range, and links no socket. -/
theorem autobind_exhaustion (st0 : State) (ap : at_addr) (reqs : List send_req)
    (last : send_req)
    (hlist : st0.atalk_socket_list = [])
    (hprim : spec_primary st0.atalk_iface_list = some ap)
    (hnet : ap.s_net ≠ htons ATADDR_ANYNET)
    (hdev : routes_have_dev st0)
    (hlen : reqs.length = 127)
    (hsize : ∀ rq ∈ reqs, rq.ubuf.length ≤ 587)
    (halloc : ∀ rq ∈ reqs, rq.env.alloc_err = none)
    (hlast : last.ubuf.length ≤ 587) :
    ∃ st1 rets, open_and_send_all st0 reqs = some (st1, rets) ∧ rets.length = 127 ∧
      (∀ ret ∈ rets, ret ≠ -EBUSY) ∧
      (∀ i, i < 127 →
        st0.socks.length + i ∈ st1.atalk_socket_list ∧
        (sock_at st1 (st0.socks.length + i)).zapped = 0 ∧
        socket_key (sock_at st1 (st0.socks.length + i)) = (ap.s_net, ap.s_node, 0x80 + i)) ∧
      ∃ st2, open_and_send st1 last = some (st2, -EBUSY) ∧
        st2.atalk_socket_list = st1.atalk_socket_list := by
  have hp : atalk_find_primary st0 = some ap := by
    rw [atalk_find_primary_eq_spec, hprim]
  have h0 : autobound ap st0.socks.length 0 st0 := by
    refine ⟨rfl, ?_, ?_⟩
    · rw [hlist]
      rfl
    · intro i hi
      omega
  obtain ⟨st1, rets, f1, f2, f3, _, f5, f6⟩ :=
    open_and_send_all_autobound ap st0.socks.length hnet reqs 0 st0 h0 hp hdev (by omega) hsize
  rw [hlen] at f2 f5
  simp only [Nat.zero_add] at f2
  refine ⟨st1, rets, f1, f5, f6 halloc, ?_, open_and_send_full ap _ st1 last f2 f3 hnet hlast⟩
  intro i hi
  exact ⟨(autobound_mem ap _ 127 st1 f2 _).mpr ⟨i, hi, rfl⟩, (f2.2.2 i hi).2, (f2.2.2 i hi).1⟩

/-- C22 at concrete tables: with the single interface `eth0` at 1000.5 and no
socket, 127 requests `hi_request` bind the last socket opened, number 126, to
1000.5 with the port `0xFE`, and one more request returns `-EBUSY`. -/
theorem autobind_exhaustion_witness :
    eth0_state.atalk_socket_list = [] ∧
    spec_primary eth0_state.atalk_iface_list = some { s_net := htons 1000, s_node := 5 } ∧
    (List.replicate 127 hi_request).length = 127 ∧
    ∃ st1 rets st2, open_and_send_all eth0_state (List.replicate 127 hi_request)
        = some (st1, rets) ∧
      socket_key (sock_at st1 126) = (htons 1000, 5, 0xFE) ∧
      open_and_send st1 hi_request = some (st2, -EBUSY) := by
  refine ⟨rfl, by decide, by simp, ?_⟩
  obtain ⟨st1, rets, h1, _, _, h4, st2, h5, _⟩ :=
    autobind_exhaustion eth0_state { s_net := htons 1000, s_node := 5 }
      (List.replicate 127 hi_request) hi_request rfl (by decide) (by decide)
      (fun r hr => absurd hr (List.not_mem_nil _)) (by simp)
      (fun rq hrq => by rw [List.eq_of_mem_replicate hrq]; decide)
      (fun rq hrq => by rw [List.eq_of_mem_replicate hrq]; rfl)
      (by decide)
  refine ⟨st1, rets, st2, h1, ?_, h5⟩
  have := (h4 126 (by omega)).2.2
  simpa using this


/-! ## Connect -/

theorem autobind_if_zapped_pos (st : State) (sk : Nat) (h : (sock_at st sk).zapped ≠ 0) :
    autobind_if_zapped st sk = atalk_autobind st sk := by
  unfold autobind_if_zapped
  rw [if_pos h]

theorem autobind_if_zapped_neg (st : State) (sk : Nat) (h : (sock_at st sk).zapped = 0) :
    autobind_if_zapped st sk = (st, 0) := by
  unfold autobind_if_zapped
  rw [if_neg (by simpa using h)]

theorem atrtr_find_congr (st st1 : State) (t : at_addr)
    (h1 : st1.atalk_router_list = st.atalk_router_list)
    (h2 : st1.atrtr_default = st.atrtr_default) : atrtr_find st1 t = atrtr_find st t := by
  unfold atrtr_find
  rw [h1, h2]

theorem atrtr_get_dev_none (st : State) (t : at_addr) (hdev : routes_have_dev st) :
    atrtr_get_dev st t = none ↔ atrtr_find st t = none := by
  unfold atrtr_get_dev
  cases hf : atrtr_find st t with
  | none => simp
  | some rt =>
    obtain ⟨d, hd⟩ := atrtr_find_has_dev st t rt hdev hf
    simp [hd]

/-- C23: on tables whose routing entries have a device, for a bound socket (a
socket object with `zapped = 0`) and an address of the size of `sockaddr_at` with
the family `AF_APPLETALK`, `atalk_connect` returns 0 if and only if `atrtr_find`
finds a route to the address; it then has stored the net, node and port of the
address as the destination of the socket and set `sk->state` to
`TCP_ESTABLISHED` and `sock->state` to `SS_CONNECTED`; when no route is found it
returns `-ENETUNREACH`. For an address of that size with another family it
returns `-EAFNOSUPPORT`, and for a socket with `zapped` set whose autobind
returns a negative value it returns `-EBUSY`. -/
theorem atalk_connect_outcomes (st : State) (sk : Nat) (addr : sockaddr_at)
    (hdev : routes_have_dev st) :
    ((sock_at st sk).zapped = 0 → sk < st.socks.length →
      addr.sat_family = AF_APPLETALK →
      ((atalk_connect st sk addr sizeof_sockaddr_at).2.1 = 0 ↔
        atrtr_find st addr.sat_addr ≠ none) ∧
      (atrtr_find st addr.sat_addr ≠ none →
        (sock_at (atalk_connect st sk addr sizeof_sockaddr_at).1 sk).dest_net
          = addr.sat_addr.s_net ∧
        (sock_at (atalk_connect st sk addr sizeof_sockaddr_at).1 sk).dest_node
          = addr.sat_addr.s_node ∧
        (sock_at (atalk_connect st sk addr sizeof_sockaddr_at).1 sk).dest_port
          = addr.sat_port ∧
        (sock_at (atalk_connect st sk addr sizeof_sockaddr_at).1 sk).state = TCP_ESTABLISHED ∧
        (atalk_connect st sk addr sizeof_sockaddr_at).2.2 = SS_CONNECTED) ∧
      (atrtr_find st addr.sat_addr = none →
        (atalk_connect st sk addr sizeof_sockaddr_at).2.1 = -ENETUNREACH)) ∧
    (addr.sat_family ≠ AF_APPLETALK →
      (atalk_connect st sk addr sizeof_sockaddr_at).2.1 = -EAFNOSUPPORT) ∧
    ((sock_at st sk).zapped ≠ 0 → addr.sat_family = AF_APPLETALK →
      (atalk_autobind (sock_set st sk { sock_at st sk with state := TCP_CLOSE }) sk).2 < 0 →
      (atalk_connect st sk addr sizeof_sockaddr_at).2.1 = -EBUSY) := by
  refine ⟨?_, ?_, ?_⟩
  · intro hz hv hfam
    have hat : sock_at (sock_set st sk { sock_at st sk with state := TCP_CLOSE }) sk
        = { sock_at st sk with state := TCP_CLOSE } := sock_at_sock_set_same st sk _ hv
    have hif : autobind_if_zapped (sock_set st sk { sock_at st sk with state := TCP_CLOSE }) sk
        = (sock_set st sk { sock_at st sk with state := TCP_CLOSE }, 0) := by
      unfold autobind_if_zapped
      rw [hat, if_neg (by simpa using hz)]
    have hfind : atrtr_find (sock_set st sk { sock_at st sk with state := TCP_CLOSE })
        addr.sat_addr = atrtr_find st addr.sat_addr := atrtr_find_congr st _ _ rfl rfl
    have hget : atrtr_get_dev (sock_set st sk { sock_at st sk with state := TCP_CLOSE })
        addr.sat_addr = atrtr_get_dev st addr.sat_addr := by
      unfold atrtr_get_dev
      rw [hfind]
    have hc : atalk_connect st sk addr sizeof_sockaddr_at =
        match atrtr_get_dev st addr.sat_addr with
        | none =>
          (sock_set st sk { sock_at st sk with state := TCP_CLOSE }, -ENETUNREACH,
            SS_UNCONNECTED)
        | some _ =>
          (sock_set st sk
            { sock_at st sk with dest_port := addr.sat_port,
                                 dest_net := addr.sat_addr.s_net,
                                 dest_node := addr.sat_addr.s_node,
                                 state := TCP_ESTABLISHED }, 0, SS_CONNECTED) := by
      unfold atalk_connect
      simp only
      rw [if_neg (by simp), if_neg (by simpa using hfam), hif]
      simp only
      rw [if_neg (by decide), hget]
      cases hg : atrtr_get_dev st addr.sat_addr with
      | none => rfl
      | some d =>
        simp only [hat, sock_set_sock_set]
    rw [hc]
    have hnone := atrtr_get_dev_none st addr.sat_addr hdev
    cases hg : atrtr_get_dev st addr.sat_addr with
    | none =>
      have hf := hnone.mp hg
      refine ⟨?_, fun h => absurd hf h, fun _ => rfl⟩
      simp [hf, ENETUNREACH]
    | some d =>
      have hf : atrtr_find st addr.sat_addr ≠ none := by
        intro hcon
        rw [hnone.mpr hcon] at hg
        cases hg
      refine ⟨?_, ?_, fun h => absurd h hf⟩
      · simp [hf]
      · intro _
        rw [sock_at_sock_set_same st sk _ hv]
        exact ⟨rfl, rfl, rfl, rfl, rfl⟩
  · intro hfam
    unfold atalk_connect
    simp only
    rw [if_neg (by simp), if_pos hfam]
  · intro hz hfam hneg
    have hv := sock_at_valid_of_zapped st sk hz
    have hat : sock_at (sock_set st sk { sock_at st sk with state := TCP_CLOSE }) sk
        = { sock_at st sk with state := TCP_CLOSE } := sock_at_sock_set_same st sk _ hv
    have hz1 : (sock_at (sock_set st sk { sock_at st sk with state := TCP_CLOSE }) sk).zapped
        ≠ 0 := by
      rw [hat]
      exact hz
    unfold atalk_connect
    simp only
    rw [if_neg (by simp), if_neg (by simpa using hfam), autobind_if_zapped_pos _ _ hz1,
      if_pos hneg]

/-- C23 at concrete tables: the socket bound to 1000.5.128 connects to 2000.20
port 130 through the route to net 2000, and is refused with `-ENETUNREACH` when
there is no route. -/
theorem atalk_connect_outcomes_witness :
    (sock_at routed_bound_state 0).zapped = 0 ∧
    (atalk_connect routed_bound_state 0 usat_remote sizeof_sockaddr_at).2.1 = 0 ∧
    (sock_at (atalk_connect routed_bound_state 0 usat_remote sizeof_sockaddr_at).1 0).dest_port
      = 130 ∧
    (atalk_connect bound_state 0 usat_remote sizeof_sockaddr_at).2.1 = -ENETUNREACH := by
  have hd1 : routes_have_dev routed_bound_state := by
    intro r hr
    have hl : routed_bound_state.atalk_router_list = [route_of net_request eth0] := by decide
    rw [hl, List.mem_singleton] at hr
    rw [hr]
    decide
  have hd2 : routes_have_dev bound_state := fun r hr => absurd hr (List.not_mem_nil _)
  have h1 := (atalk_connect_outcomes routed_bound_state 0 usat_remote hd1).1 (by decide)
    (by decide) rfl
  have h2 := (atalk_connect_outcomes bound_state 0 usat_remote hd2).1 (by decide)
    (by decide) rfl
  exact ⟨by decide, h1.1.mpr (by decide), (h1.2.1 (by decide)).2.2.1, h2.2.2 (by decide)⟩


/-! ## Send: the datagram built -/

theorem rd8_set_same (d : List u8) (i : Nat) (x : u8) (h : i < d.length) :
    rd8 (d.set i x) i = x.val := by
  unfold rd8
  simp [List.getD_eq_getElem?_getD, h]

theorem u8_ofNat_val (n : Nat) : (Fin.ofNat n : u8).val = n % 256 := rfl

/-- The address fields of the buffer `atalk_sendto` fills are the destination
and the local address of the socket, each cut to the width of its field. -/
theorem atalk_sendto_fill_fields (sk : atalk_socket) (usat : sockaddr_at) (ubuf : List u8)
    (t : u8) :
    deh_dnet (atalk_sendto_fill sk usat ubuf t) = usat.sat_addr.s_net % 65536 ∧
    deh_snet (atalk_sendto_fill sk usat ubuf t) = sk.src_net % 65536 ∧
    deh_dnode (atalk_sendto_fill sk usat ubuf t) = usat.sat_addr.s_node % 256 ∧
    deh_snode (atalk_sendto_fill sk usat ubuf t) = sk.src_node % 256 ∧
    deh_dport (atalk_sendto_fill sk usat ubuf t) = usat.sat_port % 256 ∧
    deh_sport (atalk_sendto_fill sk usat ubuf t) = sk.src_port % 256 := by
  unfold atalk_sendto_fill deh_dnet deh_snet deh_dnode deh_snode deh_dport deh_sport
  simp only
  refine ⟨?_, ?_, ?_, ?_, ?_, ?_⟩
  · rw [rd16_set_ne _ 11 4 _ (by omega) (by omega), rd16_set_ne _ 10 4 _ (by omega) (by omega),
      rd16_set_ne _ 9 4 _ (by omega) (by omega), rd16_set_ne _ 8 4 _ (by omega) (by omega),
      rd16_wr16_ne _ 6 _ 4 (by omega), rd16_wr16_same _ 4 _ (by
        simp only [fix_first_word_length, wr16_length, List.length_append,
          List.length_replicate, List.length_cons, List.length_nil]
        omega)]
    omega
  · rw [rd16_set_ne _ 11 6 _ (by omega) (by omega), rd16_set_ne _ 10 6 _ (by omega) (by omega),
      rd16_set_ne _ 9 6 _ (by omega) (by omega), rd16_set_ne _ 8 6 _ (by omega) (by omega),
      rd16_wr16_same _ 6 _ (by
        simp only [fix_first_word_length, wr16_length, List.length_append,
          List.length_replicate, List.length_cons, List.length_nil]
        omega)]
    omega
  · rw [rd8_set_ne _ 11 8 _ (by omega), rd8_set_ne _ 10 8 _ (by omega),
      rd8_set_ne _ 9 8 _ (by omega), rd8_set_same _ 8 _ (by
        simp only [List.length_set, wr16_length, fix_first_word_length, List.length_append,
          List.length_replicate, List.length_cons, List.length_nil]
        omega),
      u8_ofNat_val]
  · rw [rd8_set_ne _ 11 9 _ (by omega), rd8_set_ne _ 10 9 _ (by omega),
      rd8_set_same _ 9 _ (by
        simp only [List.length_set, wr16_length, fix_first_word_length, List.length_append,
          List.length_replicate, List.length_cons, List.length_nil]
        omega),
      u8_ofNat_val]
  · rw [rd8_set_ne _ 11 10 _ (by omega),
      rd8_set_same _ 10 _ (by
        simp only [List.length_set, wr16_length, fix_first_word_length, List.length_append,
          List.length_replicate, List.length_cons, List.length_nil]
        omega),
      u8_ofNat_val]
  · rw [rd8_set_same _ 11 _ (by
        simp only [List.length_set, wr16_length, fix_first_word_length, List.length_append,
          List.length_replicate, List.length_cons, List.length_nil]
        omega),
      u8_ofNat_val]


/-- The datagram `atalk_sendto` builds for user data of at most 587 octets: the
header read back as `atalk_rcv` reads it has `hops = 0`, `pad = 0` and the
length `13 + len`; the address fields are those of the filled buffer; the user
data follows the header; the checksum field is 0 when `no_check` is 1 and the
value of `atalk_checksum` over the datagram otherwise. -/
theorem atalk_sendto_build_spec (sk : atalk_socket) (usat : sockaddr_at) (ubuf : List u8)
    (t : u8) (hlen : ubuf.length ≤ 587) :
    ∃ ddp, atalk_sendto_build sk usat ubuf t = some ddp ∧
      ddp.length = sizeof_ddpehdr + ubuf.length ∧
      deh_hops (fix_first_word ddp) = 0 ∧
      deh_pad (fix_first_word ddp) = 0 ∧
      deh_len (fix_first_word ddp) = sizeof_ddpehdr + ubuf.length ∧
      deh_dnet ddp = usat.sat_addr.s_net % 65536 ∧
      deh_snet ddp = sk.src_net % 65536 ∧
      deh_dnode ddp = usat.sat_addr.s_node % 256 ∧
      deh_snode ddp = sk.src_node % 256 ∧
      deh_dport ddp = usat.sat_port % 256 ∧
      deh_sport ddp = sk.src_port % 256 ∧
      ddp.drop sizeof_ddpehdr = ubuf ∧
      (sk.no_check = 1 → deh_sum ddp = 0) ∧
      (sk.no_check ≠ 1 →
        atalk_checksum ddp (ubuf.length + sizeof_ddpehdr) = some (deh_sum ddp)) := by
  have hsz : sizeof_ddpehdr = 13 := rfl
  have hFl := atalk_sendto_fill_length sk usat ubuf t
  have hFp := atalk_sendto_fill_payload sk usat ubuf t
  have hFw := atalk_sendto_fill_word sk usat ubuf t
  obtain ⟨f1, f2, f3, f4, f5, f6⟩ := atalk_sendto_fill_fields sk usat ubuf t
  -- the properties of the buffer once any value `c` is stored in `deh_sum`
  have key : ∀ c : Nat, c < 65536 →
      (wr16 (atalk_sendto_fill sk usat ubuf t) 2 c).length = sizeof_ddpehdr + ubuf.length ∧
      deh_hops (fix_first_word (wr16 (atalk_sendto_fill sk usat ubuf t) 2 c)) = 0 ∧
      deh_pad (fix_first_word (wr16 (atalk_sendto_fill sk usat ubuf t) 2 c)) = 0 ∧
      deh_len (fix_first_word (wr16 (atalk_sendto_fill sk usat ubuf t) 2 c))
        = sizeof_ddpehdr + ubuf.length ∧
      deh_dnet (wr16 (atalk_sendto_fill sk usat ubuf t) 2 c) = usat.sat_addr.s_net % 65536 ∧
      deh_snet (wr16 (atalk_sendto_fill sk usat ubuf t) 2 c) = sk.src_net % 65536 ∧
      deh_dnode (wr16 (atalk_sendto_fill sk usat ubuf t) 2 c) = usat.sat_addr.s_node % 256 ∧
      deh_snode (wr16 (atalk_sendto_fill sk usat ubuf t) 2 c) = sk.src_node % 256 ∧
      deh_dport (wr16 (atalk_sendto_fill sk usat ubuf t) 2 c) = usat.sat_port % 256 ∧
      deh_sport (wr16 (atalk_sendto_fill sk usat ubuf t) 2 c) = sk.src_port % 256 ∧
      (wr16 (atalk_sendto_fill sk usat ubuf t) 2 c).drop sizeof_ddpehdr = ubuf ∧
      deh_sum (wr16 (atalk_sendto_fill sk usat ubuf t) 2 c) = c := by
    intro c hc
    have hword : rd16 (fix_first_word (wr16 (atalk_sendto_fill sk usat ubuf t) 2 c)) 0
        = (ubuf.length + sizeof_ddpehdr) * 4 := by
      rw [rd16_fix_first_word _ (by rw [wr16_length, hFl]; omega),
        rd16_wr16_ne _ 2 _ 0 (by omega), hFw, ntohs_ntohs _ (by omega)]
      omega
    refine ⟨by rw [wr16_length, hFl], ?_, ?_, ?_, ?_, ?_, ?_, ?_, ?_, ?_, ?_, ?_⟩
    · unfold deh_hops
      rw [hword]
      omega
    · unfold deh_pad
      rw [hword]
      omega
    · unfold deh_len
      rw [hword]
      omega
    · unfold deh_dnet at f1 ⊢
      rw [rd16_wr16_ne _ 2 _ 4 (by omega), f1]
    · unfold deh_snet at f2 ⊢
      rw [rd16_wr16_ne _ 2 _ 6 (by omega), f2]
    · unfold deh_dnode at f3 ⊢
      rw [rd8_wr16_ne _ 2 _ 8 (by omega) (by omega), f3]
    · unfold deh_snode at f4 ⊢
      rw [rd8_wr16_ne _ 2 _ 9 (by omega) (by omega), f4]
    · unfold deh_dport at f5 ⊢
      rw [rd8_wr16_ne _ 2 _ 10 (by omega) (by omega), f5]
    · unfold deh_sport at f6 ⊢
      rw [rd8_wr16_ne _ 2 _ 11 (by omega) (by omega), f6]
    · rw [hsz, drop_wr16 _ 2 _ 13 (by omega), ← hsz, hFp]
    · unfold deh_sum
      rw [rd16_wr16_same _ 2 _ (by rw [hFl]; omega)]
      exact Nat.mod_eq_of_lt hc
  unfold atalk_sendto_build
  simp only
  by_cases hnc : sk.no_check = 1
  · rw [if_pos hnc]
    obtain ⟨k1, k2, k3, k4, k5, k6, k7, k8, k9, k10, k11, k12⟩ := key 0 (by omega)
    exact ⟨_, rfl, k1, k2, k3, k4, k5, k6, k7, k8, k9, k10, k11, fun _ => k12,
      fun h => absurd hnc h⟩
  · rw [if_neg hnc]
    obtain ⟨c, hc⟩ := atalk_checksum_in_bounds (atalk_sendto_fill sk usat ubuf t)
      (ubuf.length + sizeof_ddpehdr) (by omega) (by omega)
    rw [hc]
    obtain ⟨k1, k2, k3, k4, k5, k6, k7, k8, k9, k10, k11, k12⟩ :=
      key c (atalk_checksum_lt _ _ _ hc)
    refine ⟨_, rfl, k1, k2, k3, k4, k5, k6, k7, k8, k9, k10, k11, fun h => absurd h hnc, ?_⟩
    intro _
    rw [atalk_checksum_congr _ (atalk_sendto_fill sk usat ubuf t) _ (wr16_length _ _ _)
      (drop_wr16 _ 2 _ 4 (by omega)), hc, k12]


/-! ## Send: from the call to the buffers handed on -/

theorem send_return_neg (st : State) (e : Int) (r : send_result) (n : Nat)
    (h : some (send_return st e) = some r) (he : e < 0) : r.ret ≠ (n : Int) := by
  simp only [Option.some.injEq] at h
  subst h
  simp only [send_return]
  omega

/-- A send that returns the length of the user data has passed the tests of
`flags` and `len`, found a route with a device on the tables after the autobind,
and is the result of the part of `atalk_sendto` from the allocation on. -/
theorem atalk_sendto_accepted (env : send_env) (st : State) (sk : Nat) (ubuf : List u8)
    (flags : Nat) (usat : Option sockaddr_at) (addr_len : Nat) (r : send_result)
    (hs : atalk_sendto env st sk ubuf flags usat addr_len = some r)
    (hacc : r.ret = (ubuf.length : Int)) :
    flags = 0 ∧ ubuf.length ≤ 587 ∧
    ∃ rt dev,
      atrtr_find (atalk_sendto_bound st sk usat)
        (atalk_sendto_target (sock_at (atalk_sendto_bound st sk usat) sk)
          (atalk_sendto_usat (sock_at st sk) usat)) = some rt ∧
      rt.dev = some dev ∧
      atalk_sendto_xmit env (atalk_sendto_bound st sk usat) sk ubuf
        (atalk_sendto_usat (sock_at st sk) usat) rt dev = some r := by
  unfold atalk_sendto at hs
  by_cases hf : flags ≠ 0
  · rw [if_pos hf] at hs
    exact absurd hacc (send_return_neg _ _ r _ hs (by decide))
  · rw [if_neg hf] at hs
    by_cases hl : ubuf.length > 587
    · rw [if_pos hl] at hs
      exact absurd hacc (send_return_neg _ _ r _ hs (by decide))
    · rw [if_neg hl] at hs
      refine ⟨by simpa using hf, by omega, ?_⟩
      have route : ∀ (B : State) (u : sockaddr_at),
          atalk_sendto_route env B sk ubuf u = some r →
          ∃ rt dev, atrtr_find B (atalk_sendto_target (sock_at B sk) u) = some rt ∧
            rt.dev = some dev ∧ atalk_sendto_xmit env B sk ubuf u rt dev = some r := by
        intro B u hr
        unfold atalk_sendto_route at hr
        cases hfind : atrtr_find B (atalk_sendto_target (sock_at B sk) u) with
        | none =>
          rw [hfind] at hr
          exact absurd hacc (send_return_neg _ _ r _ hr (by decide))
        | some rt =>
          rw [hfind] at hr
          simp only at hr
          cases hdev : rt.dev with
          | none =>
            rw [hdev] at hr
            cases hr
          | some dev =>
            rw [hdev] at hr
            exact ⟨rt, dev, rfl, hdev, hr⟩
      unfold atalk_sendto_dest at hs
      cases usat with
      | some u =>
        simp only at hs
        split_ifs at hs with h1 h2 h3
        · exact absurd hacc (send_return_neg _ _ r _ hs (by decide))
        · exact absurd hacc (send_return_neg _ _ r _ hs (by decide))
        · exact absurd hacc (send_return_neg _ _ r _ hs (by decide))
        · exact route _ u hs
      | none =>
        simp only at hs
        split_ifs at hs with h1
        · exact absurd hacc (send_return_neg _ _ r _ hs (by decide))
        · exact route st _ hs

/-- The three ways the part of `atalk_sendto` from the allocation on ends when
the allocation succeeds, for the datagram `ddp` built: a broadcast on a route
that is not a gateway route through a device that is not a loopback device,
with a clone, gives the clone to AARP for the destination and the original to
`atalk_rcv`; otherwise a loopback device gives the buffer to `atalk_rcv` only,
and any other device gives it to AARP only, for the gateway of a gateway route
and for the destination otherwise. -/
theorem atalk_sendto_xmit_eq (env : send_env) (st : State) (sk : Nat) (ubuf : List u8)
    (usat : sockaddr_at) (rt : atalk_route) (dev : device) (ddp : List u8)
    (ha : env.alloc_err = none)
    (hd : atalk_sendto_build (sock_at st sk) usat ubuf env.type_octet = some ddp) :
    ((deh_dnode ddp = ATADDR_BCAST ∧ flag_set rt.flags RTF_GATEWAY = false ∧
        flag_set dev.flags IFF_LOOPBACK = false ∧ env.clone_ok = true) →
      atalk_sendto_xmit env st sk ubuf usat rt dev = some
        { st := (atalk_rcv
            (aarp_send_ddp st dev
              { len := sizeof_ddpehdr + ubuf.length + env.header_length + dev.hard_header_len,
                data := ddp } usat.sat_addr)
            { len := sizeof_ddpehdr + ubuf.length, data := ddp } dev).1,
          ret := ubuf.length,
          aarp := [{ dev := dev,
                     skb := { len := sizeof_ddpehdr + ubuf.length + env.header_length
                                + dev.hard_header_len, data := ddp },
                     target := usat.sat_addr }],
          rcv := [({ len := sizeof_ddpehdr + ubuf.length, data := ddp }, dev)] }) ∧
    (¬ (deh_dnode ddp = ATADDR_BCAST ∧ flag_set rt.flags RTF_GATEWAY = false ∧
        flag_set dev.flags IFF_LOOPBACK = false ∧ env.clone_ok = true) →
      flag_set dev.flags IFF_LOOPBACK = true →
      atalk_sendto_xmit env st sk ubuf usat rt dev = some
        { st := (atalk_rcv st { len := sizeof_ddpehdr + ubuf.length, data := ddp } dev).1,
          ret := ubuf.length, aarp := [],
          rcv := [({ len := sizeof_ddpehdr + ubuf.length, data := ddp }, dev)] }) ∧
    (¬ (deh_dnode ddp = ATADDR_BCAST ∧ flag_set rt.flags RTF_GATEWAY = false ∧
        flag_set dev.flags IFF_LOOPBACK = false ∧ env.clone_ok = true) →
      flag_set dev.flags IFF_LOOPBACK = false →
      atalk_sendto_xmit env st sk ubuf usat rt dev = some
        { st := aarp_send_ddp st dev
            { len := sizeof_ddpehdr + ubuf.length + env.header_length + dev.hard_header_len,
              data := ddp }
            (if flag_set rt.flags RTF_GATEWAY then rt.gateway else usat.sat_addr),
          ret := ubuf.length,
          aarp := [{ dev := dev,
                     skb := { len := sizeof_ddpehdr + ubuf.length + env.header_length
                                + dev.hard_header_len, data := ddp },
                     target := if flag_set rt.flags RTF_GATEWAY then rt.gateway
                               else usat.sat_addr }],
          rcv := [] }) := by
  have hsub : sizeof_ddpehdr + ubuf.length + env.header_length + dev.hard_header_len
      - env.header_length - dev.hard_header_len = sizeof_ddpehdr + ubuf.length := by omega
  refine ⟨?_, ?_, ?_⟩
  · rintro ⟨h1, h2, h3, h4⟩
    unfold atalk_sendto_xmit
    simp only [ha, hd, h1, h2, h3, h4, hsub]
    simp
  · intro hn hlo
    unfold atalk_sendto_xmit
    simp only [ha, hd, hlo, hsub]
    simp
  · intro hn hlo
    have hn2 : ¬ (deh_dnode ddp = ATADDR_BCAST ∧ flag_set rt.flags RTF_GATEWAY = false ∧
        env.clone_ok = true) := fun h => hn ⟨h.1, h.2.1, hlo, h.2.2⟩
    unfold atalk_sendto_xmit
    simp only [ha, hd, hlo]
    simp [hn2]


/-! ## Send: the size test -/

/-- A send on a bound socket with `flags = 0`, at most 587 octets and a valid
destination (or a connected peer) is the route selection and what follows it. -/
theorem atalk_sendto_bound_eq (env : send_env) (st : State) (sk : Nat) (ubuf : List u8)
    (usat : Option sockaddr_at) (addr_len : Nat)
    (hlen : ubuf.length ≤ 587) (hz : (sock_at st sk).zapped = 0)
    (hu : ∀ u, usat = some u → sizeof_sockaddr_at ≤ addr_len ∧ u.sat_family = AF_APPLETALK)
    (hn : usat = none → (sock_at st sk).state = TCP_ESTABLISHED) :
    atalk_sendto env st sk ubuf 0 usat addr_len
      = atalk_sendto_route env st sk ubuf (atalk_sendto_usat (sock_at st sk) usat) := by
  unfold atalk_sendto
  rw [if_neg (by simp), if_neg (by omega)]
  unfold atalk_sendto_dest
  cases usat with
  | some u =>
    obtain ⟨h1, h2⟩ := hu u rfl
    simp only [autobind_if_zapped_neg st sk hz]
    rw [if_neg (by decide), if_neg (by omega), if_neg (by simpa using h2)]
    rfl
  | none =>
    simp only
    rw [if_neg (by simpa using hn rfl)]
    rfl

theorem atalk_sendto_route_ret (env : send_env) (st : State) (sk : Nat) (ubuf : List u8)
    (usat : sockaddr_at) (r : send_result)
    (h : atalk_sendto_route env st sk ubuf usat = some r) :
    r.ret = -ENETUNREACH ∨ r.ret = (ubuf.length : Int) ∨ env.alloc_err = some r.ret := by
  unfold atalk_sendto_route at h
  cases hf : atrtr_find st (atalk_sendto_target (sock_at st sk) usat) with
  | none =>
    rw [hf] at h
    simp only [Option.some.injEq] at h
    subst h
    exact Or.inl rfl
  | some rt =>
    rw [hf] at h
    simp only at h
    cases hd : rt.dev with
    | none =>
      rw [hd] at h
      cases h
    | some dev =>
      rw [hd] at h
      simp only at h
      obtain ⟨r1, e1, _, e3⟩ := atalk_sendto_xmit_keeps env st sk ubuf usat rt dev
      rw [e1] at h
      simp only [Option.some.injEq] at h
      subst h
      exact Or.inr e3

theorem atalk_sendto_dest_ret (env : send_env) (st : State) (sk : Nat) (ubuf : List u8)
    (usat : Option sockaddr_at) (addr_len : Nat) (r : send_result)
    (h : atalk_sendto_dest env st sk ubuf usat addr_len = some r) :
    r.ret = -EBUSY ∨ r.ret = -EINVAL ∨ r.ret = -ENOTCONN ∨ r.ret = -ENETUNREACH ∨
      r.ret = (ubuf.length : Int) ∨ env.alloc_err = some r.ret := by
  unfold atalk_sendto_dest at h
  cases usat with
  | some u =>
    simp only at h
    split_ifs at h with h1 h2 h3
    · simp only [Option.some.injEq] at h
      subst h
      exact Or.inl rfl
    · simp only [Option.some.injEq] at h
      subst h
      exact Or.inr (Or.inl rfl)
    · simp only [Option.some.injEq] at h
      subst h
      exact Or.inr (Or.inl rfl)
    · exact Or.inr (Or.inr (Or.inr (atalk_sendto_route_ret env _ sk ubuf u r h)))
  | none =>
    simp only at h
    split_ifs at h with h1
    · simp only [Option.some.injEq] at h
      subst h
      exact Or.inr (Or.inr (Or.inl rfl))
    · exact Or.inr (Or.inr (Or.inr (atalk_sendto_route_ret env _ sk ubuf _ r h)))

/-- C24 as stated fails: on the tables of the broadcast scenario a send of 587
octets from socket A to 1000.5.128 is not refused for its size; it returns 587
and hands one buffer of 13 + 587 octets plus the link headers to AARP. -/
theorem atalk_sendto_accepts_587 :
    (List.replicate 587 (0 : u8)).length = 587 ∧
    ∃ r, atalk_sendto send_ok_env fanout_state 0 (List.replicate 587 0) 0 (some usat_a)
        sizeof_sockaddr_at = some r ∧
      r.ret = 587 ∧ r.ret ≠ -EMSGSIZE ∧
      r.aarp.map (fun c => c.skb.len) = [13 + 587 + 8 + 14] ∧ r.rcv = [] := by
  have hl : (List.replicate 587 (0 : u8)).length = 587 := List.length_replicate _ _
  refine ⟨hl, ?_⟩
  rw [atalk_sendto_bound_eq send_ok_env fanout_state 0 _ (some usat_a) sizeof_sockaddr_at
    (by omega) (by decide)
    (fun u hu => by
      simp only [Option.some.injEq] at hu
      subst hu
      exact ⟨le_refl _, rfl⟩)
    (fun h => by cases h)]
  have hfind : atrtr_find fanout_state
      (atalk_sendto_target (sock_at fanout_state 0)
        (atalk_sendto_usat (sock_at fanout_state 0) (some usat_a))) = some eth0_route := by
    decide
  obtain ⟨ddp, hb, _, _, _, _, _, _, hnode, _⟩ :=
    atalk_sendto_build_spec (sock_at fanout_state 0) usat_a (List.replicate 587 0)
      send_ok_env.type_octet (by omega)
  have hx := (atalk_sendto_xmit_eq send_ok_env fanout_state 0 (List.replicate 587 0) usat_a
    eth0_route eth0 ddp rfl hb).2.2
    (by
      rintro ⟨h1, _⟩
      rw [hnode] at h1
      revert h1
      decide)
    (by decide)
  rw [hl] at hx
  unfold atalk_sendto_route
  rw [hfind]
  show ∃ r, atalk_sendto_xmit send_ok_env fanout_state 0 (List.replicate 587 0) usat_a
    eth0_route eth0 = some r ∧ _
  rw [hx]
  refine ⟨_, rfl, rfl, ?_, rfl, rfl⟩
  show ((587 : Nat) : Int) ≠ -EMSGSIZE
  unfold EMSGSIZE
  omega

/-- C24 (as the code has it): with `flags = 0`, `atalk_sendto` returns
`-EMSGSIZE` for user data of more than 587 octets, hands no buffer on and leaves
the tables as they are; for user data of at most 587 octets the call is the
rest of the function, and a return value `-EMSGSIZE` can then only be the error
of the buffer allocation. -/
theorem atalk_sendto_size_check (env : send_env) (st : State) (sk : Nat) (ubuf : List u8)
    (usat : Option sockaddr_at) (addr_len : Nat) :
    (587 < ubuf.length →
      atalk_sendto env st sk ubuf 0 usat addr_len
        = some { st := st, ret := -EMSGSIZE, aarp := [], rcv := [] }) ∧
    (ubuf.length ≤ 587 →
      atalk_sendto env st sk ubuf 0 usat addr_len
        = atalk_sendto_dest env st sk ubuf usat addr_len) ∧
    (ubuf.length ≤ 587 → ∀ r, atalk_sendto env st sk ubuf 0 usat addr_len = some r →
      r.ret = -EMSGSIZE → env.alloc_err = some (-EMSGSIZE)) := by
  refine ⟨?_, ?_, ?_⟩
  · intro h
    unfold atalk_sendto
    rw [if_neg (by simp), if_pos h]
    rfl
  · intro h
    unfold atalk_sendto
    rw [if_neg (by simp), if_neg (by omega)]
  · intro h r hr hret
    unfold atalk_sendto at hr
    rw [if_neg (by simp), if_neg (by omega)] at hr
    rcases atalk_sendto_dest_ret env st sk ubuf usat addr_len r hr with e | e | e | e | e | e
    · rw [e] at hret
      exact absurd hret (by decide)
    · rw [e] at hret
      exact absurd hret (by decide)
    · rw [e] at hret
      exact absurd hret (by decide)
    · rw [e] at hret
      exact absurd hret (by decide)
    · rw [e] at hret
      unfold EMSGSIZE at hret
      omega
    · rw [hret] at e
      exact e

/-- C24 at a concrete send: on the tables of the broadcast scenario a send of 588
octets from socket A is refused with `-EMSGSIZE`. -/
theorem atalk_sendto_size_check_witness :
    587 < (List.replicate 588 (0 : u8)).length ∧
    atalk_sendto send_ok_env fanout_state 0 (List.replicate 588 0) 0 (some usat_a)
        sizeof_sockaddr_at
      = some { st := fanout_state, ret := -EMSGSIZE, aarp := [], rcv := [] } :=
  ⟨by rw [List.length_replicate]; omega,
    (atalk_sendto_size_check send_ok_env fanout_state 0 (List.replicate 588 0)
      (some usat_a) sizeof_sockaddr_at).1 (by rw [List.length_replicate]; omega)⟩


/-! ## Send: the route selection -/

/-- When the allocation succeeds the part of `atalk_sendto` from the allocation
on returns the length of the user data and hands the buffer on at least once,
every time with the device `dev`. -/
theorem atalk_sendto_xmit_dev (env : send_env) (st : State) (sk : Nat) (ubuf : List u8)
    (usat : sockaddr_at) (rt : atalk_route) (dev : device) (ha : env.alloc_err = none) :
    ∃ r, atalk_sendto_xmit env st sk ubuf usat rt dev = some r ∧
      r.ret = (ubuf.length : Int) ∧ (r.aarp ≠ [] ∨ r.rcv ≠ []) ∧
      (∀ c ∈ r.aarp, c.dev = dev) ∧ (∀ x ∈ r.rcv, x.2 = dev) := by
  obtain ⟨ddp, hd⟩ := atalk_sendto_build_some (sock_at st sk) usat ubuf env.type_octet
  obtain ⟨x1, x2, x3⟩ := atalk_sendto_xmit_eq env st sk ubuf usat rt dev ddp ha hd
  by_cases hfan : deh_dnode ddp = ATADDR_BCAST ∧ flag_set rt.flags RTF_GATEWAY = false ∧
      flag_set dev.flags IFF_LOOPBACK = false ∧ env.clone_ok = true
  · refine ⟨_, x1 hfan, rfl, Or.inl (by simp), ?_, ?_⟩
    · intro c hc
      simp only [List.mem_singleton] at hc
      rw [hc]
    · intro x hx
      simp only [List.mem_singleton] at hx
      rw [hx]
  · cases hlo : flag_set dev.flags IFF_LOOPBACK with
    | true =>
      refine ⟨_, x2 hfan hlo, rfl, Or.inr (by simp), ?_, ?_⟩
      · intro c hc
        cases hc
      · intro x hx
        simp only [List.mem_singleton] at hx
        rw [hx]
    | false =>
      refine ⟨_, x3 hfan hlo, rfl, Or.inl (by simp), ?_, ?_⟩
      · intro c hc
        simp only [List.mem_singleton] at hc
        rw [hc]
      · intro x hx
        cases hx

/-- C25: for a bound socket, user data of at most 587 octets, `flags = 0`, a
destination given with a valid length and the family `AF_APPLETALK` (or the
connected peer of a connected socket), a successful allocation and a routing
list whose entries have a device: `atalk_sendto` looks up, with `atrtr_find`,
the destination when its net is not 0 or its node is `ANYNODE`, and the address
`(sk->at.src_net, 0)` otherwise; it returns `-ENETUNREACH` if and only if the
lookup finds no route, and otherwise it returns the length and hands the buffer
on, every time with the device of the route found. -/
theorem atalk_sendto_route_selection (env : send_env) (st : State) (sk : Nat)
    (ubuf : List u8) (usat : Option sockaddr_at) (addr_len : Nat) (key : at_addr)
    (hlen : ubuf.length ≤ 587) (hz : (sock_at st sk).zapped = 0)
    (hu : ∀ u, usat = some u → sizeof_sockaddr_at ≤ addr_len ∧ u.sat_family = AF_APPLETALK)
    (hn : usat = none → (sock_at st sk).state = TCP_ESTABLISHED)
    (hdev : routes_have_dev st) (ha : env.alloc_err = none)
    (hkey1 : (atalk_sendto_usat (sock_at st sk) usat).sat_addr.s_net ≠ 0 ∨
        (atalk_sendto_usat (sock_at st sk) usat).sat_addr.s_node = ATADDR_ANYNODE →
      key = (atalk_sendto_usat (sock_at st sk) usat).sat_addr)
    (hkey2 : ¬ ((atalk_sendto_usat (sock_at st sk) usat).sat_addr.s_net ≠ 0 ∨
        (atalk_sendto_usat (sock_at st sk) usat).sat_addr.s_node = ATADDR_ANYNODE) →
      key = { s_net := (sock_at st sk).src_net, s_node := 0 }) :
    ∃ r, atalk_sendto env st sk ubuf 0 usat addr_len = some r ∧
      (r.ret = -ENETUNREACH ↔ atrtr_find st key = none) ∧
      (atrtr_find st key = none → r.st = st ∧ r.aarp = [] ∧ r.rcv = []) ∧
      (∀ rt, atrtr_find st key = some rt →
        r.ret = (ubuf.length : Int) ∧ (r.aarp ≠ [] ∨ r.rcv ≠ []) ∧
        (∀ c ∈ r.aarp, rt.dev = some c.dev) ∧ (∀ x ∈ r.rcv, rt.dev = some x.2)) := by
  have hk : key = atalk_sendto_target (sock_at st sk)
      (atalk_sendto_usat (sock_at st sk) usat) := by
    unfold atalk_sendto_target
    split_ifs with h
    · exact hkey1 h
    · exact hkey2 h
  rw [atalk_sendto_bound_eq env st sk ubuf usat addr_len hlen hz hu hn, hk]
  unfold atalk_sendto_route
  cases hf : atrtr_find st (atalk_sendto_target (sock_at st sk)
      (atalk_sendto_usat (sock_at st sk) usat)) with
  | none =>
    refine ⟨_, rfl, ?_, fun _ => ⟨rfl, rfl, rfl⟩, ?_⟩
    · simp [send_return]
    · intro rt hrt
      cases hrt
  | some rt =>
    obtain ⟨dev, hd⟩ := atrtr_find_has_dev st _ rt hdev hf
    simp only [hd]
    obtain ⟨r, e1, e2, e3, e4, e5⟩ := atalk_sendto_xmit_dev env st sk ubuf
      (atalk_sendto_usat (sock_at st sk) usat) rt dev ha
    refine ⟨r, e1, ?_, ?_, ?_⟩
    · constructor
      · intro h
        rw [e2] at h
        unfold ENETUNREACH at h
        omega
      · intro h
        cases h
    · intro h
      cases h
    · intro rt1 hrt1
      simp only [Option.some.injEq] at hrt1
      subst hrt1
      refine ⟨e2, e3, ?_, ?_⟩
      · intro c hc
        rw [hd, e4 c hc]
      · intro x hx
        rw [hd, e5 x hx]

/-- C25 at a concrete send: on the tables of the broadcast scenario socket A
sends `hi` to 1000.5.128; the route to net 1000 is found and the buffer goes to
AARP with its device `eth0`. A send to 2000.20 finds no route and returns
`-ENETUNREACH`. -/
theorem atalk_sendto_route_selection_witness :
    (sock_at fanout_state 0).zapped = 0 ∧
    atrtr_find fanout_state usat_a.sat_addr = some eth0_route ∧
    atrtr_find fanout_state usat_remote.sat_addr = none ∧
    (∃ r, atalk_sendto send_ok_env fanout_state 0 [0x68, 0x69] 0 (some usat_a)
        sizeof_sockaddr_at = some r ∧ r.ret = 2) ∧
    (∃ r, atalk_sendto send_ok_env fanout_state 0 [0x68, 0x69] 0 (some usat_remote)
        sizeof_sockaddr_at = some r ∧ r.ret = -ENETUNREACH) := by
  have hdev : routes_have_dev fanout_state := by
    intro r hr
    have hl : fanout_state.atalk_router_list = [eth0_route] := by decide
    rw [hl, List.mem_singleton] at hr
    rw [hr]
    decide
  have hu : ∀ d : sockaddr_at, d.sat_family = AF_APPLETALK →
      ∀ u, some d = some u → sizeof_sockaddr_at ≤ sizeof_sockaddr_at ∧
        u.sat_family = AF_APPLETALK := by
    intro d hd u hu
    simp only [Option.some.injEq] at hu
    subst hu
    exact ⟨le_refl _, hd⟩
  have f1 : atrtr_find fanout_state usat_a.sat_addr = some eth0_route := by decide
  have f2 : atrtr_find fanout_state usat_remote.sat_addr = none := by decide
  obtain ⟨r1, a1, _, _, a3⟩ := atalk_sendto_route_selection send_ok_env fanout_state 0
    [0x68, 0x69] (some usat_a) sizeof_sockaddr_at usat_a.sat_addr (by decide) (by decide)
    (hu usat_a rfl) (fun h => by cases h) hdev rfl (fun _ => rfl)
    (fun h => absurd (Or.inl (by decide)) h)
  obtain ⟨r2, b1, b2, _, _⟩ := atalk_sendto_route_selection send_ok_env fanout_state 0
    [0x68, 0x69] (some usat_remote) sizeof_sockaddr_at usat_remote.sat_addr (by decide)
    (by decide) (hu usat_remote rfl) (fun h => by cases h) hdev rfl (fun _ => rfl)
    (fun h => absurd (Or.inl (by decide)) h)
  exact ⟨by decide, f1, f2, ⟨r1, a1, (a3 _ f1).1⟩, ⟨r2, b1, b2.mpr f2⟩⟩


/-! ## Send: the header of the datagram sent -/

theorem sock_set_no_check (st : State) (p q : Nat) (v : atalk_socket)
    (h : v.no_check = (sock_at st p).no_check) :
    (sock_at (sock_set st p v) q).no_check = (sock_at st q).no_check := by
  by_cases hq : q = p
  · subst hq
    by_cases hlt : q < st.socks.length
    · rw [sock_at_sock_set_same st q v hlt, h]
    · rw [sock_set_out_of_range st q v (by omega)]
  · rw [sock_at_sock_set_ne st p q v hq]

theorem atalk_autobind_no_check (st : State) (sk q : Nat) :
    (sock_at (atalk_autobind st sk).1 q).no_check = (sock_at st q).no_check := by
  unfold atalk_autobind
  cases hp : atalk_find_primary st with
  | none => rfl
  | some ap =>
    simp only
    split_ifs with hnet
    · rfl
    · have h1 := sock_set_no_check st sk q
        { sock_at st sk with src_net := ap.s_net, src_node := ap.s_node } rfl
      cases hpp : atalk_pick_port
          (sock_set st sk { sock_at st sk with src_net := ap.s_net, src_node := ap.s_node })
          { sat_family := 0, sat_port := 0, sat_addr := ap } with
      | none => exact h1
      | some n =>
        simp only
        refine (sock_set_no_check _ sk q _ ?_).trans ?_
        · rfl
        · rw [sock_at_insert]
          refine (sock_set_no_check _ sk q _ ?_).trans h1
          rfl

theorem atalk_sendto_bound_no_check (st : State) (sk : Nat) (usat : Option sockaddr_at) :
    (sock_at (atalk_sendto_bound st sk usat) sk).no_check = (sock_at st sk).no_check := by
  unfold atalk_sendto_bound
  cases usat with
  | none => rfl
  | some u =>
    simp only
    unfold autobind_if_zapped
    split_ifs
    · exact atalk_autobind_no_check st sk sk
    · rfl

/-- C26: for every send that `atalk_sendto` accepts (the allocation succeeds and
the call returns the length `n` of the user data), there is one datagram that
every buffer handed on carries, and at least one buffer is handed on. Read as
`atalk_rcv` reads it, its header has `hops = 0`, `pad = 0` and the length
`13 + n`; its source net, node and port are the local address of the socket
and its destination net, node and port are those of the address given, or of
the connected peer when none is given (each value cut to the width of its
field); the user data follows the 13-octet header unchanged; and the checksum
field is 0 when `no_check` is 1 and the value of `atalk_checksum` over the
datagram otherwise. -/
theorem atalk_sendto_datagram (env : send_env) (st : State) (sk : Nat) (ubuf : List u8)
    (flags : Nat) (usat : Option sockaddr_at) (addr_len : Nat) (r : send_result)
    (hs : atalk_sendto env st sk ubuf flags usat addr_len = some r)
    (ha : env.alloc_err = none) (hacc : r.ret = (ubuf.length : Int)) :
    ∃ ddp, (r.aarp ≠ [] ∨ r.rcv ≠ []) ∧
      (∀ c ∈ r.aarp, c.skb.data = ddp) ∧ (∀ x ∈ r.rcv, x.1.data = ddp) ∧
      ddp.length = sizeof_ddpehdr + ubuf.length ∧
      deh_hops (fix_first_word ddp) = 0 ∧
      deh_pad (fix_first_word ddp) = 0 ∧
      deh_len (fix_first_word ddp) = sizeof_ddpehdr + ubuf.length ∧
      deh_snet ddp = (sock_at r.st sk).src_net % 65536 ∧
      deh_snode ddp = (sock_at r.st sk).src_node % 256 ∧
      deh_sport ddp = (sock_at r.st sk).src_port % 256 ∧
      deh_dnet ddp = (atalk_sendto_usat (sock_at st sk) usat).sat_addr.s_net % 65536 ∧
      deh_dnode ddp = (atalk_sendto_usat (sock_at st sk) usat).sat_addr.s_node % 256 ∧
      deh_dport ddp = (atalk_sendto_usat (sock_at st sk) usat).sat_port % 256 ∧
      ddp.drop sizeof_ddpehdr = ubuf ∧
      ((sock_at st sk).no_check = 1 → deh_sum ddp = 0) ∧
      ((sock_at st sk).no_check ≠ 1 →
        atalk_checksum ddp (ubuf.length + sizeof_ddpehdr) = some (deh_sum ddp)) := by
  obtain ⟨_, hlen, rt, dev, _, _, hx⟩ :=
    atalk_sendto_accepted env st sk ubuf flags usat addr_len r hs hacc
  obtain ⟨ddp, b0, b1, b2, b3, b4, b5, b6, b7, b8, b9, b10, b11, b12, b13⟩ :=
    atalk_sendto_build_spec (sock_at (atalk_sendto_bound st sk usat) sk)
      (atalk_sendto_usat (sock_at st sk) usat) ubuf env.type_octet hlen
  obtain ⟨r1, k1, k2, _⟩ := atalk_sendto_xmit_keeps env (atalk_sendto_bound st sk usat) sk ubuf
    (atalk_sendto_usat (sock_at st sk) usat) rt dev
  rw [hx] at k1
  simp only [Option.some.injEq] at k1
  subst k1
  have hkey := (k2.2.2.2.2.2 sk).1
  simp only [socket_key, Prod.mk.injEq] at hkey
  obtain ⟨x1, x2, x3⟩ := atalk_sendto_xmit_eq env (atalk_sendto_bound st sk usat) sk ubuf
    (atalk_sendto_usat (sock_at st sk) usat) rt dev ddp ha b0
  rw [atalk_sendto_bound_no_check] at b12 b13
  have hand : (r.aarp ≠ [] ∨ r.rcv ≠ []) ∧
      (∀ c ∈ r.aarp, c.skb.data = ddp) ∧ (∀ x ∈ r.rcv, x.1.data = ddp) := by
    by_cases hfan : deh_dnode ddp = ATADDR_BCAST ∧ flag_set rt.flags RTF_GATEWAY = false ∧
        flag_set dev.flags IFF_LOOPBACK = false ∧ env.clone_ok = true
    · have e := (x1 hfan).symm.trans hx
      simp only [Option.some.injEq] at e
      subst e
      refine ⟨Or.inl (by simp), ?_, ?_⟩
      · intro c hc
        simp only [List.mem_singleton] at hc
        rw [hc]
      · intro x hxm
        simp only [List.mem_singleton] at hxm
        rw [hxm]
    · cases hlo : flag_set dev.flags IFF_LOOPBACK with
      | true =>
        have e := (x2 hfan hlo).symm.trans hx
        simp only [Option.some.injEq] at e
        subst e
        refine ⟨Or.inr (by simp), ?_, ?_⟩
        · intro c hc
          cases hc
        · intro x hxm
          simp only [List.mem_singleton] at hxm
          rw [hxm]
      | false =>
        have e := (x3 hfan hlo).symm.trans hx
        simp only [Option.some.injEq] at e
        subst e
        refine ⟨Or.inl (by simp), ?_, ?_⟩
        · intro c hc
          simp only [List.mem_singleton] at hc
          rw [hc]
        · intro x hxm
          cases hxm
  refine ⟨ddp, hand.1, hand.2.1, hand.2.2, b1, b2, b3, b4, ?_, ?_, ?_, b5, b7, b9, b11,
    b12, b13⟩
  · rw [b6, hkey.1]
  · rw [b8, hkey.2.1]
  · rw [b10, hkey.2.2]


/-- C26 at a concrete send: on the tables of the broadcast scenario socket A
sends `hi` to 1000.5.128; the send returns 2 and the datagram has 15 octets,
`hops = 0`, the length field 15, the destination node 5 and port 128, and `hi`
behind the header. -/
theorem atalk_sendto_datagram_witness :
    send_ok_env.alloc_err = none ∧
    ∃ r ddp, atalk_sendto send_ok_env fanout_state 0 [0x68, 0x69] 0 (some usat_a)
        sizeof_sockaddr_at = some r ∧
      r.ret = 2 ∧ ddp.length = 15 ∧
      deh_hops (fix_first_word ddp) = 0 ∧ deh_len (fix_first_word ddp) = 15 ∧
      deh_dnode ddp = 5 ∧ deh_dport ddp = 128 ∧ ddp.drop sizeof_ddpehdr = [0x68, 0x69] := by
  refine ⟨rfl, ?_⟩
  have hsome : (atalk_sendto send_ok_env fanout_state 0 [0x68, 0x69] 0 (some usat_a)
      sizeof_sockaddr_at).map (fun r => r.ret) = some 2 := by decide
  cases hr : atalk_sendto send_ok_env fanout_state 0 [0x68, 0x69] 0 (some usat_a)
      sizeof_sockaddr_at with
  | none =>
    rw [hr] at hsome
    cases hsome
  | some r =>
    rw [hr] at hsome
    simp only [Option.map_some', Option.some.injEq] at hsome
    obtain ⟨ddp, _, _, _, h4, h5, _, h7, _, _, _, _, h12, h13, h14, _⟩ :=
      atalk_sendto_datagram send_ok_env fanout_state 0 [0x68, 0x69] 0 (some usat_a)
        sizeof_sockaddr_at r hr rfl hsome
    exact ⟨r, ddp, rfl, hsome, h4, h5, h7, h12, h13, h14⟩


/-! ## Send: broadcast fan-out -/

theorem atalk_recvfrom_copied_raw (ddp : List u8) (size : Nat) :
    atalk_recvfrom_copied SOCK_RAW ddp size = ((min size (deh_len ddp) : Nat) : Int) := by
  unfold atalk_recvfrom_copied
  simp only [if_true]
  split_ifs with h
  · rw [min_eq_left (by omega)]
  · rw [min_eq_right (by omega)]

theorem atalk_recvfrom_copied_dgram (type : Nat) (ddp : List u8) (size : Nat)
    (ht : type ≠ SOCK_RAW) (hl : sizeof_ddpehdr ≤ deh_len ddp) :
    atalk_recvfrom_copied type ddp size
      = ((min size (deh_len ddp - sizeof_ddpehdr) : Nat) : Int) := by
  unfold atalk_recvfrom_copied
  simp only [if_neg ht]
  split_ifs with h
  · rw [min_eq_left (by omega)]
  · rw [min_eq_right (by omega)]
    omega

theorem skb_copy_datagram_in_bounds (skb : sk_buff) (offset n : Nat)
    (h : offset + n ≤ skb.data.length) :
    skb_copy_datagram skb offset (n : Int) = some ((skb.data.drop offset).take n) := by
  unfold skb_copy_datagram
  rw [if_pos ⟨by omega, by simpa using h⟩]
  simp

/-- C29: for a socket with no pending error whose receive queue starts with the
buffer `skb`, with `L` the length field of its header and `size` the size of
the user buffer: the number of bytes `atalk_recvfrom` copies is `min(size, L)`
on a raw socket and `min(size, L - 13)` on any other socket (for `L` of at
least 13, which `atalk_rcv` ensures); when that range lies inside the buffer
the call returns this number, the bytes copied are those from the start of the
header on a raw socket and those after the 13-octet header otherwise, the
buffer is taken off the queue, and the address returned, when one is asked
for, is the source net, node and port of the header with the family
`AF_APPLETALK`, whatever the destination stored in the socket. -/
theorem atalk_recvfrom_copy (st : State) (sk size : Nat) (er : Int) ( sip : Bool)
    (skb : sk_buff) (rest : List sk_buff)
    (herr : (sock_at st sk).err = 0)
    (hq : (sock_at st sk).receive_queue = skb :: rest) :
    ((sock_at st sk).type = SOCK_RAW →
      atalk_recvfrom_copied (sock_at st sk).type skb.data size
        = ((min size (deh_len skb.data) : Nat) : Int) ∧
      (min size (deh_len skb.data) ≤ skb.data.length →
        atalk_recvfrom st sk size er sip = some
          { st := sock_set st sk
              { sock_at st sk with receive_queue := rest,
                                   rmem_alloc := (sock_at st sk).rmem_alloc - skb.len },
            ret := ((min size (deh_len skb.data) : Nat) : Int),
            ubuf := skb.data.take (min size (deh_len skb.data)),
            sat := if sip then some
                { sat_family := AF_APPLETALK, sat_port := deh_sport skb.data,
                  sat_addr := { s_net := deh_snet skb.data, s_node := deh_snode skb.data } }
              else none })) ∧
    ((sock_at st sk).type ≠ SOCK_RAW → sizeof_ddpehdr ≤ deh_len skb.data →
      atalk_recvfrom_copied (sock_at st sk).type skb.data size
        = ((min size (deh_len skb.data - sizeof_ddpehdr) : Nat) : Int) ∧
      (sizeof_ddpehdr + min size (deh_len skb.data - sizeof_ddpehdr) ≤ skb.data.length →
        atalk_recvfrom st sk size er sip = some
          { st := sock_set st sk
              { sock_at st sk with receive_queue := rest,
                                   rmem_alloc := (sock_at st sk).rmem_alloc - skb.len },
            ret := ((min size (deh_len skb.data - sizeof_ddpehdr) : Nat) : Int),
            ubuf := (skb.data.drop sizeof_ddpehdr).take
              (min size (deh_len skb.data - sizeof_ddpehdr)),
            sat := if sip then some
                { sat_family := AF_APPLETALK, sat_port := deh_sport skb.data,
                  sat_addr := { s_net := deh_snet skb.data, s_node := deh_snode skb.data } }
              else none })) := by
  have hrecv : skb_recv_datagram (sock_at st sk)
      = some (skb, { sock_at st sk with receive_queue := rest }) := by
    unfold skb_recv_datagram
    rw [hq]
  constructor
  · intro ht
    have hc := atalk_recvfrom_copied_raw skb.data size
    rw [← ht] at hc
    refine ⟨hc, ?_⟩
    intro hb
    unfold atalk_recvfrom
    simp only
    rw [if_neg (by simpa using herr), hrecv]
    simp only
    rw [hc, if_pos ht, skb_copy_datagram_in_bounds skb 0 _ (by omega)]
    simp [skb_free_datagram]
  · intro ht hl
    have hc := atalk_recvfrom_copied_dgram _ skb.data size ht hl
    refine ⟨hc, ?_⟩
    intro hb
    unfold atalk_recvfrom
    simp only
    rw [if_neg (by simpa using herr), hrecv]
    simp only
    rw [hc, if_neg ht, skb_copy_datagram_in_bounds skb sizeof_ddpehdr _ hb]
    simp [skb_free_datagram]

/-- C29 at a concrete receive: the datagram `hi` from 3000.1.10 queued on the
socket bound to 1000.5.128 is read into a buffer of 100 octets; the call
returns 2, copies `hi` and returns the address 3000.1, port 10. -/
theorem atalk_recvfrom_copy_witness :
    (sock_at queued_state 0).err = 0 ∧
    (sock_at queued_state 0).receive_queue = [atalk_rcv_trim hi_frame] ∧
    ∃ r, atalk_recvfrom queued_state 0 100 0 true = some r ∧
      r.ret = 2 ∧ r.ubuf = [0x68, 0x69] ∧
      r.sat = some { sat_family := AF_APPLETALK, sat_port := 10,
                     sat_addr := { s_net := htons 3000, s_node := 1 } } := by
  have h := ((atalk_recvfrom_copy queued_state 0 100 0 true (atalk_rcv_trim hi_frame) []
    (by decide) (by decide)).2 (by decide) (by decide)).2 (by decide)
  refine ⟨by decide, by decide, _, h, ?_, ?_, ?_⟩
  · decide
  · decide
  · decide


/-! ## Direct routes of an interface -/

theorem htons_htons (w : Nat) (h : w < 65536) : htons (htons w) = w := ntohs_ntohs w h

theorem htons_inj (a b : Nat) (ha : a < 65536) (hb : b < 65536) (h : htons a = htons b) :
    a = b := by
  rw [← htons_htons a ha, ← htons_htons b hb, h]

theorem atrtr_create_scan_some (r : rtentry) (l : List atalk_route) :
    ∀ i, atrtr_create_scan r l = some i →
      ∃ pre x post, l = pre ++ x :: post ∧ pre.length = i ∧
        atrtr_create_duplicates r x = true := by
  induction l with
  | nil =>
    intro i h
    simp [atrtr_create_scan] at h
  | cons y ys ih =>
    intro i h
    simp only [atrtr_create_scan] at h
    have rec : (atrtr_create_scan r ys).map (· + 1) = some i →
        ∃ pre x post, y :: ys = pre ++ x :: post ∧ pre.length = i ∧
          atrtr_create_duplicates r x = true := by
      intro hm
      cases hs : atrtr_create_scan r ys with
      | none =>
        rw [hs] at hm
        cases hm
      | some j =>
        rw [hs] at hm
        simp only [Option.map_some', Option.some.injEq] at hm
        obtain ⟨pre, x, post, e1, e2, e3⟩ := ih j hs
        exact ⟨y :: pre, x, post, by rw [e1]; rfl, by simp [e2, hm], e3⟩
    split_ifs at h with h1 h2
    · exact rec h
    · simp only [Option.some.injEq] at h
      refine ⟨[], y, ys, rfl, by simp [← h], ?_⟩
      simp only [atrtr_create_duplicates, Bool.and_eq_true, beq_iff_eq, Bool.or_eq_true,
        Bool.not_eq_true']
      refine ⟨⟨by simpa using h1, h2.1⟩, ?_⟩
      rcases h2.2 with h3 | h3
      · left
        simpa using h3
      · right
        exact h3
    · exact rec h

/-- The routing list after `atrtr_create(r, dev)` with a device hint and the
family `AF_APPLETALK`: the route of the request is linked at the head, or it
replaces the first entry that the request duplicates. -/
theorem atrtr_create_hint (st : State) (r : rtentry) (d : device)
    (hfam : r.rt_dst.sat_family = AF_APPLETALK) :
    (atrtr_create st r (some d)).2 = 0 ∧
    (atrtr_create st r (some d)).1.atalk_iface_list = st.atalk_iface_list ∧
    (atrtr_create st r (some d)).1.atrtr_default = st.atrtr_default ∧
    ((atrtr_create st r (some d)).1.atalk_router_list = route_of r d :: st.atalk_router_list ∨
      ∃ pre x post, st.atalk_router_list = pre ++ x :: post ∧
        atrtr_create_duplicates r x = true ∧
        (atrtr_create st r (some d)).1.atalk_router_list = pre ++ route_of r d :: post) := by
  have he := (atrtr_create_result st r (some d)).2.2.2 d hfam (Or.inl rfl)
  rw [he]
  cases hs : atrtr_create_scan r st.atalk_router_list with
  | none => exact ⟨rfl, rfl, rfl, Or.inl rfl⟩
  | some i =>
    obtain ⟨pre, x, post, e1, e2, e3⟩ := atrtr_create_scan_some r _ i hs
    refine ⟨rfl, rfl, rfl, Or.inr ⟨pre, x, post, e1, e3, ?_⟩⟩
    simp only
    rw [e1, ← e2, set_append_cons]


theorem route_of_request_inj (rtdef : rtentry) (dev : device) (k j : Nat)
    (hk : k < 65536) (hj : j < 65536)
    (h : route_of (atif_ioctl_request rtdef k) dev = route_of (atif_ioctl_request rtdef j) dev) :
    k = j := by
  have : (route_of (atif_ioctl_request rtdef k) dev).target.s_net
      = (route_of (atif_ioctl_request rtdef j) dev).target.s_net := by rw [h]
  exact htons_inj k j hk hj this

theorem direct_inv_step (rtdef : rtentry) (dev : device) (first ct : Nat)
    (L0 : List atalk_route) (st : State)
    (hfam : rtdef.rt_dst.sat_family = AF_APPLETALK) (hfirst : first ≤ ct) (hct : ct < 65536)
    (hinv : direct_inv rtdef dev first ct L0 st.atalk_router_list) :
    direct_inv rtdef dev first (ct + 1) L0
      (atrtr_create st (atif_ioctl_request rtdef ct) (some dev)).1.atalk_router_list := by
  obtain ⟨ia, ib, ic⟩ := hinv
  have hnew : route_of (atif_ioctl_request rtdef ct) dev ∉ st.atalk_router_list := by
    intro hin
    obtain ⟨k, _, hk2, hk3⟩ := ia _ hin rfl
    have := route_of_request_inj rtdef dev ct k hct (by omega) hk3
    omega
  have hne : ∀ k, k < ct →
      route_of (atif_ioctl_request rtdef ct) dev ≠ route_of (atif_ioctl_request rtdef k) dev := by
    intro k hk he
    have := route_of_request_inj rtdef dev ct k hct (by omega) he
    omega
  obtain ⟨_, _, _, hl⟩ := atrtr_create_hint st (atif_ioctl_request rtdef ct) dev hfam
  rcases hl with hl | ⟨pre, x, post, e1, e2, e3⟩
  · rw [hl]
    refine ⟨?_, ?_, ?_⟩
    · intro r hr hd
      rcases List.mem_cons.mp hr with h | h
      · exact ⟨ct, hfirst, by omega, h⟩
      · obtain ⟨k, k1, k2, k3⟩ := ia r h hd
        exact ⟨k, k1, by omega, k3⟩
    · intro k k1 k2
      by_cases hk : k = ct
      · subst hk
        rw [List.count_cons_self, List.count_eq_zero.mpr hnew]
      · rw [List.count_cons_of_ne (hne k (by omega)).symm]
        exact ib k k1 (by omega)
    · intro r hr hd
      rcases List.mem_cons.mp hr with h | h
      · exact absurd (by rw [h]; rfl) hd
      · exact ic r h hd
  · have hxnet : x.target.s_net = htons ct := by
      simp only [atrtr_create_duplicates, Bool.and_eq_true, beq_iff_eq] at e2
      exact e2.1.2.symm
    have hxin : x ∈ st.atalk_router_list := by
      rw [e1]
      simp
    have hxne : ∀ k, k < ct → x ≠ route_of (atif_ioctl_request rtdef k) dev := by
      intro k hk he
      rw [he] at hxnet
      have := htons_inj k ct (by omega) hct hxnet
      omega
    have hxnew : x ≠ route_of (atif_ioctl_request rtdef ct) dev := by
      intro he
      exact hnew (he ▸ hxin)
    rw [e3]
    refine ⟨?_, ?_, ?_⟩
    · intro r hr hd
      rcases List.mem_append.mp hr with h | h
      · obtain ⟨k, k1, k2, k3⟩ := ia r (by rw [e1]; exact List.mem_append_left _ h) hd
        exact ⟨k, k1, by omega, k3⟩
      · rcases List.mem_cons.mp h with h | h
        · exact ⟨ct, hfirst, by omega, h⟩
        · obtain ⟨k, k1, k2, k3⟩ := ia r
            (by rw [e1]; exact List.mem_append_right _ (List.mem_cons_of_mem _ h)) hd
          exact ⟨k, k1, by omega, k3⟩
    · intro k k1 k2
      by_cases hk : k = ct
      · subst hk
        have h0 := List.count_eq_zero.mpr hnew
        rw [e1, List.count_append, List.count_cons_of_ne hxnew.symm] at h0
        rw [List.count_append, List.count_cons_self]
        omega
      · have h1 := ib k k1 (by omega)
        rw [e1, List.count_append, List.count_cons_of_ne (hxne k (by omega)).symm] at h1
        rw [List.count_append, List.count_cons_of_ne (hne k (by omega)).symm]
        exact h1
    · intro r hr hd
      rcases List.mem_append.mp hr with h | h
      · exact ic r (by rw [e1]; exact List.mem_append_left _ h) hd
      · rcases List.mem_cons.mp h with h | h
        · exact absurd (by rw [h]; rfl) hd
        · exact ic r (by rw [e1]; exact List.mem_append_right _ (List.mem_cons_of_mem _ h)) hd

theorem atif_ioctl_routes_spec (rtdef : rtentry) (dev : device) (first : Nat)
    (L0 : List atalk_route) (hfam : rtdef.rt_dst.sat_family = AF_APPLETALK) :
    ∀ (n ct : Nat) (st : State), first ≤ ct → ct + n ≤ 65536 →
      direct_inv rtdef dev first ct L0 st.atalk_router_list →
      direct_inv rtdef dev first (ct + n) L0
        (atif_ioctl_routes rtdef dev n ct st).atalk_router_list ∧
      (atif_ioctl_routes rtdef dev n ct st).atalk_iface_list = st.atalk_iface_list ∧
      (atif_ioctl_routes rtdef dev n ct st).atrtr_default = st.atrtr_default := by
  intro n
  induction n with
  | zero =>
    intro ct st _ _ h
    exact ⟨h, rfl, rfl⟩
  | succ m ih =>
    intro ct st h1 h2 h
    have hstep := direct_inv_step rtdef dev first ct L0 st hfam h1 (by omega) h
    obtain ⟨_, c2, c3, _⟩ := atrtr_create_hint st (atif_ioctl_request rtdef ct) dev hfam
    obtain ⟨i1, i2, i3⟩ := ih (ct + 1)
      (atrtr_create st (atif_ioctl_request rtdef ct) (some dev)).1 (by omega) (by omega) hstep
    have e : ct + (m + 1) = ct + 1 + m := by omega
    rw [e]
    exact ⟨i1, i2.trans c2, i3.trans c3⟩


/-! ## The interface that `SIOCSIFADDR` leaves -/

theorem atif_probe_send_dev (env : probe_env) :
    ∀ (n : Nat) (r : probe_run), (atif_probe_send env n r).atif.dev = r.atif.dev := by
  intro n
  induction n with
  | zero =>
    intro r
    rfl
  | succ m ih =>
    intro r
    simp only [atif_probe_send]
    split_ifs <;> first | rfl | rw [ih]

theorem atif_probe_nodes_dev (env : probe_env) (nodeoff : Nat) :
    ∀ (n nodect : Nat) (r : probe_run),
      (atif_probe_nodes env nodeoff n nodect r).2.atif.dev = r.atif.dev := by
  intro n
  induction n with
  | zero =>
    intro nodect r
    rfl
  | succ m ih =>
    intro nodect r
    simp only [atif_probe_nodes]
    split_ifs
    · rw [atif_probe_send_dev]
    · rw [ih, atif_probe_send_dev]
    · exact absurd ‹_› (by tauto)
    · rw [ih]

theorem atif_probe_nets_dev (env : probe_env) (first last : Nat) :
    ∀ (n probe_net : Nat) (r : probe_run),
      (atif_probe_nets env first last n probe_net r).2.atif.dev = r.atif.dev := by
  intro n
  induction n with
  | zero =>
    intro pn r
    rfl
  | succ m ih =>
    intro pn r
    simp only [atif_probe_nets]
    have hn := atif_probe_nodes_dev env (env.jiffies r.sleeps % 256) 256 0
      { r with atif := { r.atif with address := { r.atif.address with s_net := htons pn } } }
    cases hp : atif_probe_nodes env (env.jiffies r.sleeps % 256) 256 0
      { r with atif := { r.atif with address := { r.atif.address with s_net := htons pn } } } with
    | mk b r2 =>
      rw [hp] at hn
      cases b
      · simp only
        rw [ih]
        exact hn
      · exact hn

theorem atif_probe_device_dev (env : probe_env) (atif : atalk_iface) :
    (atif_probe_device env atif).2.atif.dev = atif.dev := by
  have key : ∀ n pn : Nat,
      (match atif_probe_nets env (ntohs atif.nets.nr_firstnet) (ntohs atif.nets.nr_lastnet) n pn
          { atif := atif, sleeps := 0, sent := [] } with
        | (true, r) => ((0 : Int), r)
        | (false, r) => (-EADDRINUSE, r)).2.atif.dev = atif.dev := by
    intro n pn
    have hn := atif_probe_nets_dev env (ntohs atif.nets.nr_firstnet)
      (ntohs atif.nets.nr_lastnet) n pn { atif := atif, sleeps := 0, sent := [] }
    cases hp : atif_probe_nets env (ntohs atif.nets.nr_firstnet) (ntohs atif.nets.nr_lastnet)
        n pn { atif := atif, sleeps := 0, sent := [] } with
    | mk b r =>
      rw [hp] at hn
      cases b
      · exact hn
      · exact hn
  unfold atif_probe_device
  simp only
  split_ifs <;> first | rfl | exact key _ _

theorem atalk_find_dev_loop_some (dev : device) (l : List atalk_iface) (a : atalk_iface)
    (h : atalk_find_dev_loop dev l = some a) : a ∈ l ∧ a.dev = dev := by
  induction l with
  | nil => simp [atalk_find_dev_loop] at h
  | cons x xs ih =>
    simp only [atalk_find_dev_loop] at h
    split_ifs at h with hx
    · simp only [Option.some.injEq] at h
      subst h
      exact ⟨List.mem_cons_self _ _, hx⟩
    · exact ⟨List.mem_cons_of_mem _ (ih h).1, (ih h).2⟩

theorem atalk_find_dev_loop_store (dev : device) (v : atalk_iface) (l : List atalk_iface)
    (hv : v.dev = dev) (hex : ∃ i ∈ l, i.dev = dev) :
    atalk_find_dev_loop dev (atif_store dev v l) = some v := by
  induction l with
  | nil =>
    obtain ⟨i, hi, _⟩ := hex
    cases hi
  | cons x xs ih =>
    simp only [atif_store]
    by_cases hx : x.dev = dev
    · rw [if_pos hx]
      simp only [atalk_find_dev_loop]
      rw [if_pos hv]
    · rw [if_neg hx]
      simp only [atalk_find_dev_loop]
      rw [if_neg hx]
      apply ih
      obtain ⟨i, hi, hd⟩ := hex
      rcases List.mem_cons.mp hi with h | h
      · exact absurd (h ▸ hd) hx
      · exact ⟨i, h, hd⟩

theorem atif_store_has_dev (dev : device) (v : atalk_iface) (l : List atalk_iface)
    (hv : v.dev = dev) (hex : ∃ i ∈ l, i.dev = dev) :
    ∃ i ∈ atif_store dev v l, i.dev = dev :=
  ⟨v, (atalk_find_dev_loop_some dev _ v (atalk_find_dev_loop_store dev v l hv hex)).1, hv⟩


theorem atrtr_device_down_routes (st : State) (dev : device) :
    (atrtr_device_down st dev).atalk_router_list
      = st.atalk_router_list.filter (fun r => decide (r.dev ≠ some dev)) := by
  unfold atrtr_device_down
  simp only
  split_ifs
  · exact atrtr_device_down_loop_eq_filter dev _
  · exact atrtr_device_down_loop_eq_filter dev _

theorem atrtr_device_down_ifaces (st : State) (dev : device) :
    (atrtr_device_down st dev).atalk_iface_list = st.atalk_iface_list := by
  unfold atrtr_device_down
  simp only
  split_ifs
  · rfl
  · rfl

/-- A `SIOCSIFADDR` that returns 0 ends in `atif_ioctl_add_routes`, on tables with
no route through `dev` whose routes were all there before, and with the
interface that `atalk_find_dev(dev)` finds on those tables. -/
theorem atif_ioctl_set_ok (env : probe_env) (st : State) (dev : device) (sa : sockaddr_at)
    (nr : netrange)
    (hfresh : atalk_find_dev st dev = none → ∀ r ∈ st.atalk_router_list, r.dev ≠ some dev)
    (hok : (atif_ioctl_set env st dev sa nr (atalk_find_dev st dev)).2 = 0) :
    ∃ st' a,
      atif_ioctl_set env st dev sa nr (atalk_find_dev st dev)
        = atif_ioctl_add_routes st' dev a nr ∧
      atalk_find_dev st' dev = some a ∧
      (∀ r ∈ st'.atalk_router_list, r.dev ≠ some dev) ∧
      (∀ r ∈ st'.atalk_router_list, r ∈ st.atalk_router_list) := by
  -- the two ends of the function, for the tables `st2` and the interface `a1` before the probe
  have tail : ∀ (st2 : State) (a1 : atalk_iface),
      a1.dev = dev → (∃ i ∈ st2.atalk_iface_list, i.dev = dev) →
      atalk_find_dev st2 dev = some a1 →
      (∀ r ∈ st2.atalk_router_list, r.dev ≠ some dev) →
      (∀ r ∈ st2.atalk_router_list, r ∈ st.atalk_router_list) →
      ((if flag_set dev.flags IFF_LOOPBACK then atif_ioctl_add_routes st2 dev a1 nr
        else
          if (atif_probe_device env a1).1 < 0 then
            (atif_drop_device
              { st2 with atalk_iface_list :=
                  atif_store dev (atif_probe_device env a1).2.atif st2.atalk_iface_list } dev,
              -EADDRINUSE)
          else
            atif_ioctl_add_routes
              { st2 with atalk_iface_list :=
                  atif_store dev (atif_probe_device env a1).2.atif st2.atalk_iface_list }
              dev (atif_probe_device env a1).2.atif nr).2 = 0) →
      ∃ st' a,
        (if flag_set dev.flags IFF_LOOPBACK then atif_ioctl_add_routes st2 dev a1 nr
        else
          if (atif_probe_device env a1).1 < 0 then
            (atif_drop_device
              { st2 with atalk_iface_list :=
                  atif_store dev (atif_probe_device env a1).2.atif st2.atalk_iface_list } dev,
              -EADDRINUSE)
          else
            atif_ioctl_add_routes
              { st2 with atalk_iface_list :=
                  atif_store dev (atif_probe_device env a1).2.atif st2.atalk_iface_list }
              dev (atif_probe_device env a1).2.atif nr)
          = atif_ioctl_add_routes st' dev a nr ∧
        atalk_find_dev st' dev = some a ∧
        (∀ r ∈ st'.atalk_router_list, r.dev ≠ some dev) ∧
        (∀ r ∈ st'.atalk_router_list, r ∈ st.atalk_router_list) := by
    intro st2 a1 hdev hex hfind hno hsub h
    by_cases hlo : flag_set dev.flags IFF_LOOPBACK = true
    · rw [if_pos hlo]
      exact ⟨st2, a1, rfl, hfind, hno, hsub⟩
    · rw [if_neg hlo] at h ⊢
      by_cases hneg : (atif_probe_device env a1).1 < 0
      · rw [if_pos hneg] at h
        have h0 : (-EADDRINUSE : Int) = 0 := h
        exact absurd h0 (by decide)
      · rw [if_neg hneg]
        refine ⟨_, _, rfl, ?_, hno, hsub⟩
        exact atalk_find_dev_loop_store dev _ _
          ((atif_probe_device_dev env a1).trans hdev) hex
  unfold atif_ioctl_set at hok ⊢
  cases hfd : atalk_find_dev st dev with
  | none =>
    rw [hfd] at hok
    simp only at hok ⊢
    apply tail _ _ rfl
    · exact atif_store_has_dev dev _ _ rfl
        ⟨_, List.mem_cons_self _ _, rfl⟩
    · exact atalk_find_dev_loop_store dev _ _ rfl ⟨_, List.mem_cons_self _ _, rfl⟩
    · exact hfresh hfd
    · intro r hr
      exact hr
    · exact hok
  | some a0 =>
    rw [hfd] at hok
    obtain ⟨hmem, ha0⟩ := atalk_find_dev_loop_some dev _ a0 hfd
    simp only at hok ⊢
    by_cases hp : flag_set a0.status ATIF_PROBE = true
    · rw [if_pos hp] at hok
      have h0 : (-EBUSY : Int) = 0 := hok
      exact absurd h0 (by decide)
    · rw [if_neg hp] at hok ⊢
      simp only at hok ⊢
      have hex0 : ∃ i ∈ atif_store dev { a0 with address := sa.sat_addr } st.atalk_iface_list,
          i.dev = dev := atif_store_has_dev dev _ _ ha0 ⟨a0, hmem, ha0⟩
      apply tail
        { atrtr_device_down
            { st with atalk_iface_list :=
                atif_store dev { a0 with address := sa.sat_addr } st.atalk_iface_list } dev with
          atalk_iface_list := atif_store dev { a0 with address := sa.sat_addr, nets := nr }
            (atrtr_device_down
              { st with atalk_iface_list :=
                  atif_store dev { a0 with address := sa.sat_addr } st.atalk_iface_list }
              dev).atalk_iface_list }
        { a0 with address := sa.sat_addr, nets := nr } ha0
      · refine atif_store_has_dev dev _ _ ha0 ?_
        rw [atrtr_device_down_ifaces]
        exact hex0
      · refine atalk_find_dev_loop_store dev _ _ ha0 ?_
        rw [atrtr_device_down_ifaces]
        exact hex0
      · intro r hr
        have hr2 : r ∈ (atrtr_device_down
            { st with atalk_iface_list :=
                atif_store dev { a0 with address := sa.sat_addr } st.atalk_iface_list }
            dev).atalk_router_list := hr
        rw [atrtr_device_down_routes] at hr2
        simpa using (List.mem_filter.mp hr2).2
      · intro r hr
        have hr2 : r ∈ (atrtr_device_down
            { st with atalk_iface_list :=
                atif_store dev { a0 with address := sa.sat_addr } st.atalk_iface_list }
            dev).atalk_router_list := hr
        rw [atrtr_device_down_routes] at hr2
        exact (List.mem_filter.mp hr2).1
      · exact hok


/-! ## The routes that `SIOCSIFADDR` installs -/

theorem direct_route_eq (dev : device) (a : atalk_iface) (ct : Nat) :
    route_of (atif_ioctl_request (atif_ioctl_rtdef dev a) ct) dev
      = direct_route dev a.address (direct_flags dev) (htons ct) := rfl

/-- The routes of a range that is not the routerless range: with no route
through `dev` before, the call fails with `-EINVAL` on a range wider than 257
nets and otherwise leaves the list described by `direct_inv`. -/
theorem atif_ioctl_add_routes_range (st : State) (dev : device) (a : atalk_iface)
    (nr : netrange)
    (hno : ∀ r ∈ st.atalk_router_list, r.dev ≠ some dev)
    (hnr : ¬ (nr.nr_firstnet = htons 0 ∧ nr.nr_lastnet = htons 0xFFFE)) :
    ((ntohs nr.nr_lastnet : Int) - (ntohs nr.nr_firstnet : Int) > 256 →
      atif_ioctl_add_routes st dev a nr = (st, -EINVAL)) ∧
    (¬ (ntohs nr.nr_lastnet : Int) - (ntohs nr.nr_firstnet : Int) > 256 →
      (atif_ioctl_add_routes st dev a nr).2 = 0 ∧
      (atif_ioctl_add_routes st dev a nr).1.atalk_iface_list = st.atalk_iface_list ∧
      direct_inv (atif_ioctl_rtdef dev a) dev (ntohs nr.nr_firstnet) (ntohs nr.nr_lastnet + 1)
        st.atalk_router_list (atif_ioctl_add_routes st dev a nr).1.atalk_router_list) := by
  constructor
  · intro h
    unfold atif_ioctl_add_routes
    simp only
    rw [if_neg hnr, if_pos h]
  · intro h
    have hl := ntohs_lt nr.nr_lastnet
    have hf := ntohs_lt nr.nr_firstnet
    have h0 : direct_inv (atif_ioctl_rtdef dev a) dev (ntohs nr.nr_firstnet)
        (ntohs nr.nr_firstnet) st.atalk_router_list st.atalk_router_list := by
      refine ⟨?_, ?_, ?_⟩
      · intro r hr hd
        exact absurd hd (hno r hr)
      · intro k k1 k2
        omega
      · intro r hr _
        exact hr
    obtain ⟨i1, i2, _⟩ := atif_ioctl_routes_spec (atif_ioctl_rtdef dev a) dev
      (ntohs nr.nr_firstnet) st.atalk_router_list rfl
      (ntohs nr.nr_lastnet + 1 - ntohs nr.nr_firstnet) (ntohs nr.nr_firstnet) st (le_refl _)
      (by omega) h0
    have e : atif_ioctl_add_routes st dev a nr
        = (atif_ioctl_routes (atif_ioctl_rtdef dev a) dev
            (ntohs nr.nr_lastnet + 1 - ntohs nr.nr_firstnet) (ntohs nr.nr_firstnet) st, 0) := by
      unfold atif_ioctl_add_routes
      simp only
      rw [if_neg hnr, if_neg h]
      rfl
    rw [e]
    refine ⟨rfl, i2, ?_⟩
    by_cases hle : ntohs nr.nr_firstnet ≤ ntohs nr.nr_lastnet + 1
    · have e2 : ntohs nr.nr_firstnet + (ntohs nr.nr_lastnet + 1 - ntohs nr.nr_firstnet)
          = ntohs nr.nr_lastnet + 1 := by omega
      rw [e2] at i1
      exact i1
    · have e2 : ntohs nr.nr_lastnet + 1 - ntohs nr.nr_firstnet = 0 := by omega
      rw [e2]
      refine ⟨?_, ?_, ?_⟩
      · intro r hr hd
        exact absurd hd (hno r hr)
      · intro k k1 k2
        omega
      · intro r hr _
        exact hr

/-- The routes of the routerless range: with no route through `dev` before, one
route through `dev` is in the list afterwards, to the net of the interface, and
the default route is through `dev`. -/
theorem atif_ioctl_add_routes_routerless (st : State) (dev : device) (a : atalk_iface)
    (nr : netrange)
    (hno : ∀ r ∈ st.atalk_router_list, r.dev ≠ some dev)
    (hnr : nr.nr_firstnet = htons 0 ∧ nr.nr_lastnet = htons 0xFFFE) :
    (atif_ioctl_add_routes st dev a nr).2 = 0 ∧
    (atif_ioctl_add_routes st dev a nr).1.atalk_iface_list = st.atalk_iface_list ∧
    (atif_ioctl_add_routes st dev a nr).1.atrtr_default.dev = some dev ∧
    (atif_ioctl_add_routes st dev a nr).1.atrtr_default.flags = RTF_UP ∧
    (atif_ioctl_add_routes st dev a nr).1.atalk_router_list.countP
      (fun r => decide (r.dev = some dev)) = 1 ∧
    direct_route dev a.address (direct_flags dev) a.address.s_net
      ∈ (atif_ioctl_add_routes st dev a nr).1.atalk_router_list ∧
    (∀ r ∈ (atif_ioctl_add_routes st dev a nr).1.atalk_router_list, r.dev = some dev →
      r = direct_route dev a.address (direct_flags dev) a.address.s_net) := by
  have hz : ∀ l : List atalk_route, (∀ r ∈ l, r.dev ≠ some dev) →
      l.countP (fun r => decide (r.dev = some dev)) = 0 := by
    intro l hl
    rw [List.countP_eq_zero]
    intro r hr
    simpa using hl r hr
  have e : atif_ioctl_add_routes st dev a nr
      = (atrtr_set_default
          (atrtr_create st
            { atif_ioctl_rtdef dev a with
              rt_dst := { (atif_ioctl_rtdef dev a).rt_dst with
                sat_addr := { (atif_ioctl_rtdef dev a).rt_dst.sat_addr with
                  s_net := a.address.s_net } } } (some dev)).1 (some dev), 0) := by
    unfold atif_ioctl_add_routes
    simp only
    rw [if_pos hnr]
    rfl
  obtain ⟨_, c2, _, c4⟩ := atrtr_create_hint st
    { atif_ioctl_rtdef dev a with
      rt_dst := { (atif_ioctl_rtdef dev a).rt_dst with
        sat_addr := { (atif_ioctl_rtdef dev a).rt_dst.sat_addr with
          s_net := a.address.s_net } } } dev rfl
  rw [e]
  refine ⟨rfl, c2, rfl, rfl, ?_⟩
  show List.countP _ (atrtr_create st _ (some dev)).1.atalk_router_list = 1 ∧
    _ ∈ (atrtr_create st _ (some dev)).1.atalk_router_list ∧
    ∀ r ∈ (atrtr_create st _ (some dev)).1.atalk_router_list, _
  rcases c4 with hl | ⟨pre, x, post, e1, _, e3⟩
  · rw [hl]
    refine ⟨?_, List.mem_cons_self _ _, ?_⟩
    · rw [List.countP_cons_of_pos _ _ (by simp [route_of]), hz _ hno]
    · intro r hr hd
      rcases List.mem_cons.mp hr with h | h
      · exact h
      · exact absurd hd (hno r h)
  · have hpre : ∀ r ∈ pre, r.dev ≠ some dev := fun r hr =>
      hno r (by rw [e1]; exact List.mem_append_left _ hr)
    have hpost : ∀ r ∈ post, r.dev ≠ some dev := fun r hr =>
      hno r (by rw [e1]; exact List.mem_append_right _ (List.mem_cons_of_mem _ hr))
    rw [e3]
    refine ⟨?_, List.mem_append_right _ (List.mem_cons_self _ _), ?_⟩
    · rw [List.countP_append, List.countP_cons_of_pos _ _ (by simp [route_of]), hz _ hpre,
        hz _ hpost]
    · intro r hr hd
      rcases List.mem_append.mp hr with h | h
      · exact absurd hd (hpre r h)
      · rcases List.mem_cons.mp h with h | h
        · exact h
        · exact absurd hd (hpost r h)


theorem atif_ioctl_set_iface (env : probe_env) (st : State) (dev : device) (sa : sockaddr_at)
    (nr : netrange)
    (hok : (atif_ioctl env st SIOCSIFADDR (some dev) sa nr true).2.1 = 0) :
    (atif_ioctl env st SIOCSIFADDR (some dev) sa nr true).1
      = (atif_ioctl_set env st dev sa nr (atalk_find_dev st dev)).1 ∧
    (atif_ioctl_set env st dev sa nr (atalk_find_dev st dev)).2 = 0 := by
  unfold atif_ioctl at hok ⊢
  simp only [if_true, not_true_eq_false, if_false] at hok ⊢
  by_cases h1 : sa.sat_family ≠ AF_APPLETALK
  · rw [if_pos h1] at hok
    exact absurd (show (-EINVAL : Int) = 0 from hok) (by decide)
  · rw [if_neg h1] at hok ⊢
    by_cases h2 : dev.type ≠ ARPHRD_ETHER
    · rw [if_pos h2] at hok
      exact absurd (show (-EPROTONOSUPPORT : Int) = 0 from hok) (by decide)
    · rw [if_neg h2] at hok ⊢
      by_cases h3 : nr.nr_phase ≠ 2
      · rw [if_pos h3] at hok
        exact absurd (show (-EPROTONOSUPPORT : Int) = 0 from hok) (by decide)
      · rw [if_neg h3] at hok ⊢
        by_cases h4 : sa.sat_addr.s_node = ATADDR_BCAST ∨ sa.sat_addr.s_node = 254
        · rw [if_pos h4] at hok
          exact absurd (show (-EINVAL : Int) = 0 from hok) (by decide)
        · rw [if_neg h4] at hok ⊢
          exact ⟨rfl, hok⟩

set_option maxRecDepth 16000 in
/-- C30 as stated fails: `SIOCSIFADDR` for the loopback device `lo` with the
address 65280.1 on nets [65280, 65280] returns 0 and installs one route to net
65280 through `lo`, but that route has the host flag and the target node 0, so
`atrtr_find` of 65280.1 finds no route. -/
theorem set_iface_loopback_host_route :
    (atif_ioctl quiet_env State.init SIOCSIFADDR (some lo) lo1_request lo_nets true).2.1 = 0 ∧
    lo1_state.atalk_router_list
      = [{ dev := some lo, target := { s_net := htons 65280, s_node := 0 },
           gateway := { s_net := htons 65280, s_node := 1 }, flags := RTF_UP ||| RTF_HOST }] ∧
    flag_set (RTF_UP ||| RTF_HOST) RTF_HOST = true ∧
    atrtr_find lo1_state { s_net := htons 65280, s_node := 1 } = none := by
  refine ⟨by decide, by decide, by decide, by decide⟩

/-- C30 (as the code has it): let `SIOCSIFADDR` for `dev` return 0, on tables
where a device without an interface has no route. With `a` the interface of
`dev` afterwards: for a range that is not the routerless range, the range spans
at most 257 nets and for each net of it the routing list holds exactly one
route through `dev`; this route has the target node `ANYNODE`, the address of
the interface as gateway and the flags `RTF_UP`, with `RTF_HOST` added when
`dev` is a loopback device; when `dev` is not a loopback device and no route
through another device had that net before, `atrtr_find` of any node of the net
returns this route. For the routerless range [0, 0xFFFE] the list holds exactly
one route through `dev`, to the net of the interface, and the default route is
up through `dev`. A range that is not routerless and spans more than 257 nets
makes the call return a value other than 0, and `-EINVAL` from the point where
the routes are made. -/
theorem atif_ioctl_direct_routes (env : probe_env) (st : State) (dev : device)
    (sa : sockaddr_at) (nr : netrange)
    (hfresh : atalk_find_dev st dev = none → ∀ r ∈ st.atalk_router_list, r.dev ≠ some dev) :
    ((atif_ioctl env st SIOCSIFADDR (some dev) sa nr true).2.1 = 0 →
      ∃ a, atalk_find_dev (atif_ioctl env st SIOCSIFADDR (some dev) sa nr true).1 dev = some a ∧
        (¬ (nr.nr_firstnet = htons 0 ∧ nr.nr_lastnet = htons 0xFFFE) →
          (ntohs nr.nr_lastnet : Int) - (ntohs nr.nr_firstnet : Int) ≤ 256 ∧
          ∀ ct, ntohs nr.nr_firstnet ≤ ct → ct ≤ ntohs nr.nr_lastnet →
            (atif_ioctl env st SIOCSIFADDR (some dev) sa nr true).1.atalk_router_list.countP
              (fun r => decide (r.dev = some dev ∧ r.target.s_net = htons ct)) = 1 ∧
            direct_route dev a.address (direct_flags dev) (htons ct)
              ∈ (atif_ioctl env st SIOCSIFADDR (some dev) sa nr true).1.atalk_router_list ∧
            (∀ r ∈ (atif_ioctl env st SIOCSIFADDR (some dev) sa nr true).1.atalk_router_list,
              r.dev = some dev → r.target.s_net = htons ct →
              r = direct_route dev a.address (direct_flags dev) (htons ct)) ∧
            (flag_set dev.flags IFF_LOOPBACK = false →
              (∀ r ∈ st.atalk_router_list, r.dev ≠ some dev → r.target.s_net ≠ htons ct) →
              ∀ node, atrtr_find (atif_ioctl env st SIOCSIFADDR (some dev) sa nr true).1
                  { s_net := htons ct, s_node := node }
                = some (direct_route dev a.address RTF_UP (htons ct)))) ∧
        ((nr.nr_firstnet = htons 0 ∧ nr.nr_lastnet = htons 0xFFFE) →
          (atif_ioctl env st SIOCSIFADDR (some dev) sa nr true).1.atalk_router_list.countP
            (fun r => decide (r.dev = some dev)) = 1 ∧
          direct_route dev a.address (direct_flags dev) a.address.s_net
            ∈ (atif_ioctl env st SIOCSIFADDR (some dev) sa nr true).1.atalk_router_list ∧
          (atif_ioctl env st SIOCSIFADDR (some dev) sa nr true).1.atrtr_default.dev
            = some dev ∧
          (atif_ioctl env st SIOCSIFADDR (some dev) sa nr true).1.atrtr_default.flags
            = RTF_UP)) ∧
    (¬ (nr.nr_firstnet = htons 0 ∧ nr.nr_lastnet = htons 0xFFFE) →
      (ntohs nr.nr_lastnet : Int) - (ntohs nr.nr_firstnet : Int) > 256 →
      (atif_ioctl env st SIOCSIFADDR (some dev) sa nr true).2.1 ≠ 0 ∧
      ∀ (st1 : State) (a : atalk_iface),
        atif_ioctl_add_routes st1 dev a nr = (st1, -EINVAL)) := by
  constructor
  · intro hok
    obtain ⟨e1, e2⟩ := atif_ioctl_set_iface env st dev sa nr hok
    obtain ⟨st1, a, f1, f2, f3, f4⟩ := atif_ioctl_set_ok env st dev sa nr hfresh e2
    rw [e1, f1]
    rw [f1] at e2
    refine ⟨a, ?_, ?_, ?_⟩
    · by_cases hnr : nr.nr_firstnet = htons 0 ∧ nr.nr_lastnet = htons 0xFFFE
      · have := (atif_ioctl_add_routes_routerless st1 dev a nr f3 hnr).2.1
        unfold atalk_find_dev at f2 ⊢
        rw [this]
        exact f2
      · by_cases hw : (ntohs nr.nr_lastnet : Int) - (ntohs nr.nr_firstnet : Int) > 256
        · rw [(atif_ioctl_add_routes_range st1 dev a nr f3 hnr).1 hw]
          exact f2
        · have := ((atif_ioctl_add_routes_range st1 dev a nr f3 hnr).2 hw).2.1
          unfold atalk_find_dev at f2 ⊢
          rw [this]
          exact f2
    · intro hnr
      have hw : ¬ (ntohs nr.nr_lastnet : Int) - (ntohs nr.nr_firstnet : Int) > 256 := by
        intro hw
        rw [(atif_ioctl_add_routes_range st1 dev a nr f3 hnr).1 hw] at e2
        exact absurd (show (-EINVAL : Int) = 0 from e2) (by decide)
      obtain ⟨_, _, ia, ib, ic⟩ := (atif_ioctl_add_routes_range st1 dev a nr f3 hnr).2 hw
      refine ⟨by omega, ?_⟩
      intro ct c1 c2
      have hlast := ntohs_lt nr.nr_lastnet
      have hcount := ib ct c1 (by omega)
      rw [direct_route_eq] at hcount
      have hmem : direct_route dev a.address (direct_flags dev) (htons ct)
          ∈ (atif_ioctl_add_routes st1 dev a nr).1.atalk_router_list :=
        List.count_pos_iff.mp (by omega)
      have huniq : ∀ r ∈ (atif_ioctl_add_routes st1 dev a nr).1.atalk_router_list,
          r.dev = some dev → r.target.s_net = htons ct →
          r = direct_route dev a.address (direct_flags dev) (htons ct) := by
        intro r hr hd hn
        obtain ⟨k, _, k2, k3⟩ := ia r hr hd
        rw [direct_route_eq] at k3
        rw [k3] at hn
        have : k = ct := htons_inj k ct (by omega) (by omega) hn
        rw [k3, this]
      refine ⟨?_, hmem, huniq, ?_⟩
      · rw [← hcount]
        show List.countP _ _ = List.countP _ _
        apply List.countP_congr
        intro r hr
        simp only [decide_eq_true_eq, beq_iff_eq]
        constructor
        · rintro ⟨hd, hn⟩
          exact huniq r hr hd hn
        · intro h
          rw [h]
          exact ⟨rfl, rfl⟩
      · intro hlo hother node
        have hflags : direct_flags dev = RTF_UP := by
          unfold direct_flags
          rw [if_neg (by simp [hlo])]
        rw [hflags] at hmem huniq
        have hmatch : route_matches { s_net := htons ct, s_node := node }
            (direct_route dev a.address RTF_UP (htons ct)) = true := by
          simp only [route_matches, direct_route, beq_self_eq_true, Bool.and_true,
            Bool.and_eq_true, Bool.or_eq_true, Bool.not_eq_true']
          exact ⟨by decide, Or.inl (by decide)⟩
        unfold atrtr_find
        rw [atrtr_find_loop_eq_find]
        cases hf : List.find? (route_matches { s_net := htons ct, s_node := node })
            (atif_ioctl_add_routes st1 dev a nr).1.atalk_router_list with
        | none =>
          have := List.find?_eq_none.mp hf _ hmem
          exact absurd hmatch this
        | some r0 =>
          simp only
          have hr0 := List.mem_of_find?_eq_some hf
          have hm0 := List.find?_some hf
          have hnet : r0.target.s_net = htons ct := by
            simp only [route_matches, Bool.and_eq_true, beq_iff_eq] at hm0
            exact hm0.1.2
          by_cases hd : r0.dev = some dev
          · rw [huniq r0 hr0 hd hnet]
          · exact absurd hnet (hother r0 (f4 r0 (ic r0 hr0 hd)) hd)
    · intro hnr
      obtain ⟨_, _, g3, g4, g5, g6, _⟩ := atif_ioctl_add_routes_routerless st1 dev a nr f3 hnr
      exact ⟨g5, g6, g3, g4⟩
  · intro hnr hw
    have hall : ∀ (st1 : State) (a : atalk_iface),
        atif_ioctl_add_routes st1 dev a nr = (st1, -EINVAL) := by
      intro st1 a
      unfold atif_ioctl_add_routes
      simp only
      rw [if_neg hnr, if_pos hw]
    refine ⟨?_, hall⟩
    intro hok
    obtain ⟨_, e2⟩ := atif_ioctl_set_iface env st dev sa nr hok
    obtain ⟨st1, a, f1, _, _, _⟩ := atif_ioctl_set_ok env st dev sa nr hfresh e2
    rw [f1, hall st1 a] at e2
    exact absurd (show (-EINVAL : Int) = 0 from e2) (by decide)


set_option maxRecDepth 16000 in
/-- C30 at a concrete call: `SIOCSIFADDR` for `eth0` with 1000.5 on nets
[1000, 1000] on empty tables returns 0; the list then holds one route through
`eth0` to net 1000, and `atrtr_find` of 1000.7 returns it. -/
theorem atif_ioctl_direct_routes_witness :
    (atif_ioctl probe5_env State.init SIOCSIFADDR (some eth0) eth0_request eth0_nets true).2.1
      = 0 ∧
    ∃ a, atalk_find_dev eth0_up_state eth0 = some a ∧
      eth0_up_state.atalk_router_list.countP
        (fun r => decide (r.dev = some eth0 ∧ r.target.s_net = htons 1000)) = 1 ∧
      atrtr_find eth0_up_state { s_net := htons 1000, s_node := 7 }
        = some (direct_route eth0 a.address RTF_UP (htons 1000)) := by
  have hok : (atif_ioctl probe5_env State.init SIOCSIFADDR (some eth0) eth0_request eth0_nets
      true).2.1 = 0 := by decide
  obtain ⟨a, ha, hr, _⟩ := (atif_ioctl_direct_routes probe5_env State.init eth0 eth0_request
    eth0_nets (fun _ r hr => absurd hr (List.not_mem_nil _))).1 hok
  have h := (hr (by decide)).2 1000 (by decide) (by decide)
  exact ⟨hok, a, ha, h.1,
    h.2.2.2 (by decide) (fun r hr => absurd hr (List.not_mem_nil _)) 7⟩


/-! ## Every route of the list has a device -/

theorem routes_have_dev_init : routes_have_dev State.init :=
  fun _ hr => absurd hr (List.not_mem_nil _)

theorem routes_have_dev_create (st : State) (r : rtentry) (devhint : Option device)
    (h : routes_have_dev st) : routes_have_dev (atrtr_create st r devhint).1 := by
  unfold atrtr_create
  simp only
  split_ifs
  · exact h
  · exact h
  · split
    · exact h
    · split
      · intro x hx
        rcases List.mem_cons.mp hx with hx | hx
        · rw [hx]
          simp
        · exact h x hx
      · intro x hx
        rcases List.mem_or_eq_of_mem_set hx with hx | hx
        · exact h x hx
        · rw [hx]
          simp

theorem routes_have_dev_delete (st : State) (addr : at_addr) (h : routes_have_dev st) :
    routes_have_dev (atrtr_delete st addr).1 := by
  unfold atrtr_delete
  cases hl : atrtr_delete_loop addr st.atalk_router_list with
  | none => exact h
  | some l1 =>
    obtain ⟨pre, x, post, e1, e2, _, _⟩ := atrtr_delete_loop_some addr _ l1 hl
    intro y hy
    apply h y
    rw [e1]
    have hy2 : y ∈ l1 := hy
    rw [e2] at hy2
    rcases List.mem_append.mp hy2 with hy3 | hy3
    · exact List.mem_append_left _ hy3
    · exact List.mem_append_right _ (List.mem_cons_of_mem _ hy3)

theorem routes_have_dev_device_down (st : State) (dev : device) (h : routes_have_dev st) :
    routes_have_dev (atrtr_device_down st dev) := by
  intro y hy
  rw [atrtr_device_down_routes] at hy
  exact h y (List.mem_filter.mp hy).1

/-! ## Byte-order normalization of the first header word -/

theorem fix_first_word_cons (a b : u8) (rest : List u8) :
    fix_first_word (a :: b :: rest) = b :: a :: rest := by
  obtain ⟨x, hx⟩ := a
  obtain ⟨y, hy⟩ := b
  have x1 : (x + 256 * y) % 256 * 256 + (x + 256 * y) / 256 % 256 = x * 256 + y := by omega
  have x2 : (x * 256 + y) % 256 = y := by omega
  have x3 : (x * 256 + y) / 256 % 256 = x := by omega
  simp only [fix_first_word, rd16, rd8, wr16, ntohs, List.getD_cons_zero, List.getD_cons_succ,
    List.set_cons_zero, List.set_cons_succ, zero_add, x1, x2, x3]
  simp [Fin.ofNat, Nat.mod_eq_of_lt hx, Nat.mod_eq_of_lt hy]

theorem fix_first_word_involution (d : List u8) (h : 2 ≤ d.length) :
    fix_first_word (fix_first_word d) = d := by
  match d, h with
  | a :: b :: rest, _ => rw [fix_first_word_cons, fix_first_word_cons]

/-- C34: the normalization `ntohs` of the first header word is an involution:
`ntohs (ntohs w) = w` for every 16-bit word `w`, and the statement
`*((__u16 *)ddp)=ntohs(*((__u16 *)ddp))` applied twice gives the buffer back. So
the header that `atalk_sendto` builds for a payload of at most 587 octets, whose
first word is stored normalized once, shows after the normalization of
`atalk_rcv` the fields that were stored: hops 0, length 13 + |payload| and
pad 0. -/
theorem first_word_normalization_involution (w n : Nat) (d : List u8) (sk : atalk_socket)
    (usat : sockaddr_at) (ubuf : List u8) (t : u8)
    (hw : w < 65536) (hd : 2 ≤ d.length) (hlen : ubuf.length ≤ 587) :
    ntohs (ntohs w) = w ∧
    fix_first_word (fix_first_word d) = d ∧
    deh_hops (fix_first_word (fix_first_word d)) = deh_hops d ∧
    deh_len (fix_first_word (fix_first_word d)) = deh_len d ∧
    deh_pad (fix_first_word (fix_first_word d)) = deh_pad d ∧
    ∃ ddp, atalk_sendto_build sk usat ubuf t = some ddp ∧
      rd16 ddp 0 = ntohs ((sizeof_ddpehdr + ubuf.length) * 4) ∧
      deh_hops (atalk_rcv_trim { len := n, data := ddp }).data = 0 ∧
      deh_len (atalk_rcv_trim { len := n, data := ddp }).data = sizeof_ddpehdr + ubuf.length ∧
      deh_pad (atalk_rcv_trim { len := n, data := ddp }).data = 0 := by
  have hinv := fix_first_word_involution d hd
  refine ⟨ntohs_ntohs w hw, hinv, by rw [hinv], by rw [hinv], by rw [hinv], ?_⟩
  obtain ⟨ddp, hb, hl, hh, hp, hn, _⟩ := atalk_sendto_build_spec sk usat ubuf t hlen
  have h2 : 2 ≤ ddp.length := by
    rw [hl]
    unfold sizeof_ddpehdr
    omega
  refine ⟨ddp, hb, ?_, hh, hn, hp⟩
  have hword : rd16 (fix_first_word ddp) 0 = (sizeof_ddpehdr + ubuf.length) * 4 := by
    have hlt := rd16_lt (fix_first_word ddp) 0
    unfold deh_hops at hh
    unfold deh_pad at hp
    unfold deh_len at hn
    unfold sizeof_ddpehdr at hn ⊢
    omega
  have hswap := rd16_fix_first_word ddp h2
  rw [← hword, hswap, ntohs_ntohs _ (rd16_lt ddp 0)]

theorem first_word_normalization_involution_witness :
    ntohs (ntohs 0x3C00) = 0x3C00 ∧
    fix_first_word (fix_first_word hi_frame.data) = hi_frame.data ∧
    ∃ ddp, atalk_sendto_build socket_a usat_a [0x68, 0x69] 0 = some ddp ∧
      rd16 ddp 0 = ntohs ((sizeof_ddpehdr + 2) * 4) ∧
      deh_len (atalk_rcv_trim { len := 15, data := ddp }).data = sizeof_ddpehdr + 2 := by
  obtain ⟨h1, h2, _, _, _, ddp, h3, h4, _, h5, _⟩ :=
    first_word_normalization_involution 0x3C00 15 hi_frame.data socket_a usat_a [0x68, 0x69] 0
      (by decide) (by decide) (by decide)
  exact ⟨h1, h2, ddp, h3, h4, h5⟩

/-! ## Forwarding device -/

set_option maxRecDepth 100000 in
/-- C38: on a router with `eth0` at 1000.5 and `eth1` at 2000.5, the route that
`atrtr_find` returns for the destination 2000.2 goes through `eth1`, yet
`atalk_rcv` hands the frame for 2000.2.20 that it received on `eth0` to AARP on
`eth0`, the receiving device, not on the device of the route. -/
theorem atalk_rcv_forward_on_receiving_device :
    atalk_rcv_atif two_dev_state (atalk_rcv_trim forward_frame).data eth0 = none ∧
    atrtr_find two_dev_state { s_net := htons 2000, s_node := 2 } = some eth1_route ∧
    eth1_route.dev = some eth1 ∧
    eth1 ≠ eth0 ∧
    atalk_rcv two_dev_state forward_frame eth0 =
      ({ two_dev_state with aarp_sent :=
          [{ dev := eth0,
             skb := { len := 13,
                      data := [0xF0, 0x34, 0, 0, 0x07, 0xD0, 0x0B, 0xB8, 2, 1, 20, 10, 0] },
             target := { s_net := htons 2000, s_node := 2 } }] }, rcv_exit.forwarded) := by
  refine ⟨by decide, by decide, by decide, by decide, by decide⟩

/-! ## The checksum range of `atalk_rcv` -/

/-- C36: the frame `long_length_frame` has 13 bytes and the length field 1023. It
passes both size checks of `atalk_rcv` (the trimmed length is 13) and carries a
checksum other than 0, and `atalk_rcv` calls `atalk_checksum(ddp, 1023)`: the loop
reads the offsets 4 to 1022, beyond the 13 bytes of the frame, so the model of the
checksum has no value and `atalk_rcv` leaves through the checksum fault. -/
theorem atalk_rcv_checksum_reads_past_frame :
    long_length_frame.data.length = 13 ∧
    ¬ (long_length_frame.len < sizeof_ddpehdr) ∧
    (atalk_rcv_trim long_length_frame).len = 13 ∧
    ¬ ((atalk_rcv_trim long_length_frame).len < sizeof_ddpehdr) ∧
    deh_sum (atalk_rcv_trim long_length_frame).data = 256 ∧
    deh_len (atalk_rcv_trim long_length_frame).data = 1023 ∧
    atalk_checksum (atalk_rcv_trim long_length_frame).data
      (deh_len (atalk_rcv_trim long_length_frame).data) = none ∧
    atalk_rcv local_state long_length_frame eth0 = (local_state, rcv_exit.checksum_fault) := by
  refine ⟨by decide, by decide, by decide, by decide, by decide, by decide, by decide,
    by decide⟩

/-! ## Reachability in connect and in send -/

set_option maxRecDepth 100000 in
/-- C37: on the tables with `eth0` at 1000.5, the route to net 1000 and socket A
bound to 1000.5.128, the destination `0.7` (net 0, this network) is refused by
`atalk_connect` with `-ENETUNREACH`, because `atrtr_get_dev` looks up `0.7` itself,
while `atalk_sendto` to the same destination looks up the hint `(src_net, 0)`,
finds the route to net 1000 and sends the datagram: it returns 2 and hands one
buffer to AARP for `0.7`. -/
theorem atalk_connect_refuses_sendto_destination :
    (sock_at fanout_state 0).zapped = 0 ∧
    atrtr_get_dev fanout_state usat_this_net.sat_addr = none ∧
    (atalk_connect fanout_state 0 usat_this_net sizeof_sockaddr_at).2 =
      (-ENETUNREACH, SS_UNCONNECTED) ∧
    atalk_sendto_target (sock_at fanout_state 0) usat_this_net =
      { s_net := htons 1000, s_node := 0 } ∧
    atrtr_find fanout_state (atalk_sendto_target (sock_at fanout_state 0) usat_this_net) =
      some eth0_route ∧
    (atalk_sendto send_ok_env fanout_state 0 [0x68, 0x69] 0 (some usat_this_net)
      sizeof_sockaddr_at).map (fun r => (r.ret, r.aarp.map (fun c => (c.dev, c.target)))) =
      some (2, [(eth0, { s_net := 0, s_node := 7 })]) := by
  refine ⟨by decide, by decide, by decide, by decide, by decide, by decide⟩

/-- Where `atalk_sendto` looks up the destination itself (its net is not 0, or
its node is `ANYNODE`), the test of `atalk_connect` and the route selection of
`atalk_sendto` fail on the same destinations. -/
theorem atrtr_get_dev_none_iff_sendto (st : State) (sk : atalk_socket) (usat : sockaddr_at)
    (hdev : routes_have_dev st)
    (h : usat.sat_addr.s_net ≠ 0 ∨ usat.sat_addr.s_node = ATADDR_ANYNODE) :
    atrtr_get_dev st usat.sat_addr = none ↔
      atrtr_find st (atalk_sendto_target sk usat) = none := by
  unfold atalk_sendto_target
  rw [if_pos h]
  exact atrtr_get_dev_none st usat.sat_addr hdev

/-! ## The loopback echo -/

set_option maxRecDepth 100000 in
/-- C31, the scenario as stated: after `SIOCSIFADDR` for `lo` with 65280.1 on
[65280, 65280] (return value 0) and a bind of socket 0 to 65280.1.200 (return
value 0), the only route is the host route to 65280.0, `atrtr_find` has no route
for 65280.1, and the send of `hi` to 65280.1.200 returns `-ENETUNREACH` with the
tables unchanged; a receive finds the queue empty. -/
theorem loopback_echo_unreachable :
    (atif_ioctl quiet_env State.init SIOCSIFADDR (some lo) lo1_request lo_nets true).2.1 = 0 ∧
    lo1_bound.2 = 0 ∧
    lo1_bound.1.atalk_router_list =
      [{ dev := some lo, target := { s_net := htons 65280, s_node := 0 },
         gateway := { s_net := htons 65280, s_node := 1 }, flags := RTF_UP ||| RTF_HOST }] ∧
    atrtr_find lo1_bound.1 usat_lo1.sat_addr = none ∧
    atalk_sendto send_ok_env lo1_bound.1 0 [0x68, 0x69] 0 (some usat_lo1) sizeof_sockaddr_at =
      some (send_return lo1_bound.1 (-ENETUNREACH)) ∧
    atalk_recvfrom lo1_bound.1 0 100 (-EAGAIN) true =
      some { st := lo1_bound.1, ret := -EAGAIN, ubuf := [], sat := none } := by
  refine ⟨by decide, by decide, by decide, by decide, by decide, by decide⟩

set_option maxRecDepth 100000 in
/-- C31, amended: once a host route to 65280.1 through `lo` is added with
`atrtr_create` (return value 0), the send of `hi` from the socket bound to
65280.1.200 to 65280.1.200 returns 2, hands nothing to AARP and queues one frame
on the socket, and the receive that follows returns 2 with the payload `hi` and
the peer 65280.1.200, and leaves the queue empty. -/
theorem loopback_echo_with_host_route :
    lo1_routed.2 = 0 ∧
    (atalk_sendto send_ok_env lo1_routed.1 0 [0x68, 0x69] 0 (some usat_lo1)
        sizeof_sockaddr_at).map
      (fun r => (r.ret, r.aarp, r.rcv.map (fun c => c.2),
        (sock_at r.st 0).receive_queue.map (fun b => b.len))) =
      some (2, [], [lo], [15]) ∧
    ((atalk_sendto send_ok_env lo1_routed.1 0 [0x68, 0x69] 0 (some usat_lo1)
        sizeof_sockaddr_at).bind
      (fun r => atalk_recvfrom r.st 0 100 (-EAGAIN) true)).map
      (fun q => (q.ret, q.ubuf, q.sat, (sock_at q.st 0).receive_queue)) =
      some (2, [0x68, 0x69], some usat_lo1, []) := by
  refine ⟨by decide, by decide, by decide⟩

/-! ## The probe of `atif_probe_device` -/

theorem flag_set_or_self (s m : Nat) (hm : m ≠ 0) : flag_set (s ||| m) m = true := by
  unfold flag_set
  have e : (s ||| m) &&& m = m := by
    apply Nat.eq_of_testBit_eq
    intro i
    rw [Nat.testBit_and, Nat.testBit_or]
    cases s.testBit i <;> cases m.testBit i <;> rfl
  rw [e]
  simpa using hm

theorem flag_set_xor_and (s m : Nat) : flag_set (s ^^^ (s &&& m)) m = false := by
  unfold flag_set
  have e : (s ^^^ (s &&& m)) &&& m = 0 := by
    apply Nat.eq_of_testBit_eq
    intro i
    rw [Nat.testBit_and, Nat.testBit_xor, Nat.testBit_and, Nat.zero_testBit]
    cases s.testBit i <;> cases m.testBit i <;> rfl
  rw [e]
  rfl

theorem atif_probe_send_address (env : probe_env) :
    ∀ (n : Nat) (r : probe_run), (atif_probe_send env n r).atif.address = r.atif.address := by
  intro n
  induction n with
  | zero =>
    intro r
    rfl
  | succ m ih =>
    intro r
    simp only [atif_probe_send]
    split_ifs <;> first | rfl | rw [ih]

theorem atif_probe_send_nets (env : probe_env) :
    ∀ (n : Nat) (r : probe_run), (atif_probe_send env n r).atif.nets = r.atif.nets := by
  intro n
  induction n with
  | zero =>
    intro r
    rfl
  | succ m ih =>
    intro r
    simp only [atif_probe_send]
    split_ifs <;> first | rfl | rw [ih]

/-- The sweep over the nodes leaves the net range and the net of the interface
as they were, and when it ends with `return 0` the node assigned is in 1..253. -/
theorem atif_probe_nodes_result (env : probe_env) (nodeoff : Nat) :
    ∀ (n nodect : Nat) (r : probe_run),
      (atif_probe_nodes env nodeoff n nodect r).2.atif.nets = r.atif.nets ∧
      (atif_probe_nodes env nodeoff n nodect r).2.atif.address.s_net = r.atif.address.s_net ∧
      ((atif_probe_nodes env nodeoff n nodect r).1 = true →
        0 < (atif_probe_nodes env nodeoff n nodect r).2.atif.address.s_node ∧
        (atif_probe_nodes env nodeoff n nodect r).2.atif.address.s_node < 254) := by
  intro n
  induction n with
  | zero =>
    intro nodect r
    exact ⟨rfl, rfl, fun h => absurd h (by simp [atif_probe_nodes])⟩
  | succ m ih =>
    intro nodect r
    simp only [atif_probe_nodes]
    split_ifs with h1 h2 h3
    · refine ⟨?_, ?_, fun _ => ?_⟩
      · rw [atif_probe_send_nets]
      · rw [atif_probe_send_address]
      · rw [atif_probe_send_address]
        exact ⟨h1.1, h1.2⟩
    · refine ⟨?_, ?_, fun h => (ih _ _).2.2 h⟩
      · rw [(ih _ _).1]
        show (atif_probe_send env AARP_RETRANSMIT_LIMIT _).atif.nets = _
        rw [atif_probe_send_nets]
      · rw [(ih _ _).2.1]
        show (atif_probe_send env AARP_RETRANSMIT_LIMIT _).atif.address.s_net = _
        rw [atif_probe_send_address]
    · exact absurd ‹_› (by tauto)
    · refine ⟨?_, ?_, fun h => (ih _ _).2.2 h⟩
      · rw [(ih _ _).1]
      · rw [(ih _ _).2.1]

/-- The scan over the nets: with `inv` a property of the net probed that the step
`probe_net++` with its wrap-around keeps, a scan that ends with `return 0` leaves
the interface on a net `htons q` with `inv q`, on a node in 1..253. -/
theorem atif_probe_nets_result (env : probe_env) (first last : Nat) (inv : Nat → Prop)
    (hstep : ∀ q, inv q → inv (if q + 1 > last then first else q + 1)) :
    ∀ (n pn : Nat) (r : probe_run), inv pn →
      (atif_probe_nets env first last n pn r).2.atif.nets = r.atif.nets ∧
      ((atif_probe_nets env first last n pn r).1 = true →
        (∃ q, inv q ∧
          (atif_probe_nets env first last n pn r).2.atif.address.s_net = htons q) ∧
        0 < (atif_probe_nets env first last n pn r).2.atif.address.s_node ∧
        (atif_probe_nets env first last n pn r).2.atif.address.s_node < 254) := by
  intro n
  induction n with
  | zero =>
    intro pn r _
    exact ⟨rfl, fun h => absurd h (by simp [atif_probe_nets])⟩
  | succ m ih =>
    intro pn r hpn
    simp only [atif_probe_nets]
    have hn := atif_probe_nodes_result env (env.jiffies r.sleeps % 256) 256 0
      { r with atif := { r.atif with address := { r.atif.address with s_net := htons pn } } }
    cases hp : atif_probe_nodes env (env.jiffies r.sleeps % 256) 256 0
      { r with atif := { r.atif with address := { r.atif.address with s_net := htons pn } } } with
    | mk b r2 =>
      rw [hp] at hn
      obtain ⟨n1, n2, n3⟩ := hn
      cases b
      · simp only
        obtain ⟨i1, i2⟩ := ih (if pn + 1 > last then first else pn + 1) r2 (hstep pn hpn)
        exact ⟨i1.trans n1, i2⟩
      · simp only
        exact ⟨n1, fun _ => ⟨⟨pn, hpn, n2⟩, n3 rfl⟩⟩

theorem ntohs_htons (q : Nat) (h : q < 65536) : ntohs (htons q) = q :=
  ntohs_ntohs q h

/-- The probe leaves the net range of the interface as it was and returns 0 or
`-EADDRINUSE`. When it returns 0 the node assigned is in 1..253, and when the net
range is not empty and the net asked for is `ANYNET` or lies in the range, the net
assigned lies in the range. -/
theorem atif_probe_device_result (env : probe_env) (atif : atalk_iface) :
    (atif_probe_device env atif).2.atif.nets = atif.nets ∧
    ((atif_probe_device env atif).1 = 0 ∨ (atif_probe_device env atif).1 = -EADDRINUSE) ∧
    ((atif_probe_device env atif).1 = 0 →
      0 < (atif_probe_device env atif).2.atif.address.s_node ∧
      (atif_probe_device env atif).2.atif.address.s_node < 254 ∧
      (ntohs atif.nets.nr_firstnet ≤ ntohs atif.nets.nr_lastnet →
        (ntohs atif.address.s_net = ATADDR_ANYNET ∨
          (ntohs atif.nets.nr_firstnet ≤ ntohs atif.address.s_net ∧
            ntohs atif.address.s_net ≤ ntohs atif.nets.nr_lastnet)) →
        ntohs atif.nets.nr_firstnet ≤ ntohs (atif_probe_device env atif).2.atif.address.s_net ∧
        ntohs (atif_probe_device env atif).2.atif.address.s_net ≤ ntohs atif.nets.nr_lastnet)) := by
  have hl := ntohs_lt atif.nets.nr_lastnet
  have key : ∀ (inv : Nat → Prop) (n pn : Nat),
      (∀ q, inv q → inv (if q + 1 > ntohs atif.nets.nr_lastnet then ntohs atif.nets.nr_firstnet
        else q + 1)) → inv pn →
      (match atif_probe_nets env (ntohs atif.nets.nr_firstnet) (ntohs atif.nets.nr_lastnet) n pn
          { atif := atif, sleeps := 0, sent := [] } with
        | (true, r) => ((0 : Int), r)
        | (false, r) => (-EADDRINUSE, r)).2.atif.nets = atif.nets ∧
      ((match atif_probe_nets env (ntohs atif.nets.nr_firstnet) (ntohs atif.nets.nr_lastnet) n pn
          { atif := atif, sleeps := 0, sent := [] } with
        | (true, r) => ((0 : Int), r)
        | (false, r) => (-EADDRINUSE, r)).1 = 0 ∨
       (match atif_probe_nets env (ntohs atif.nets.nr_firstnet) (ntohs atif.nets.nr_lastnet) n pn
          { atif := atif, sleeps := 0, sent := [] } with
        | (true, r) => ((0 : Int), r)
        | (false, r) => (-EADDRINUSE, r)).1 = -EADDRINUSE) ∧
      ((match atif_probe_nets env (ntohs atif.nets.nr_firstnet) (ntohs atif.nets.nr_lastnet) n pn
          { atif := atif, sleeps := 0, sent := [] } with
        | (true, r) => ((0 : Int), r)
        | (false, r) => (-EADDRINUSE, r)).1 = 0 →
        (∃ q, inv q ∧
          (match atif_probe_nets env (ntohs atif.nets.nr_firstnet) (ntohs atif.nets.nr_lastnet)
              n pn { atif := atif, sleeps := 0, sent := [] } with
            | (true, r) => ((0 : Int), r)
            | (false, r) => (-EADDRINUSE, r)).2.atif.address.s_net = htons q) ∧
        0 < (match atif_probe_nets env (ntohs atif.nets.nr_firstnet) (ntohs atif.nets.nr_lastnet)
              n pn { atif := atif, sleeps := 0, sent := [] } with
            | (true, r) => ((0 : Int), r)
            | (false, r) => (-EADDRINUSE, r)).2.atif.address.s_node ∧
        (match atif_probe_nets env (ntohs atif.nets.nr_firstnet) (ntohs atif.nets.nr_lastnet)
              n pn { atif := atif, sleeps := 0, sent := [] } with
            | (true, r) => ((0 : Int), r)
            | (false, r) => (-EADDRINUSE, r)).2.atif.address.s_node < 254) := by
    intro inv n pn hstep hpn
    have hn := atif_probe_nets_result env (ntohs atif.nets.nr_firstnet)
      (ntohs atif.nets.nr_lastnet) inv hstep n pn { atif := atif, sleeps := 0, sent := [] } hpn
    cases hp : atif_probe_nets env (ntohs atif.nets.nr_firstnet) (ntohs atif.nets.nr_lastnet)
        n pn { atif := atif, sleeps := 0, sent := [] } with
    | mk b r =>
      rw [hp] at hn
      cases b
      · exact ⟨hn.1, Or.inr rfl,
          fun h => absurd (show (-EADDRINUSE : Int) = 0 from h) (by decide)⟩
      · exact ⟨hn.1, Or.inl rfl, fun _ => hn.2 rfl⟩
  -- the range as the property kept by the scan
  have hrange : ∀ q, (ntohs atif.nets.nr_firstnet ≤ q ∧ q ≤ ntohs atif.nets.nr_lastnet) →
      (ntohs atif.nets.nr_firstnet ≤
          (if q + 1 > ntohs atif.nets.nr_lastnet then ntohs atif.nets.nr_firstnet else q + 1) ∧
        (if q + 1 > ntohs atif.nets.nr_lastnet then ntohs atif.nets.nr_firstnet else q + 1)
          ≤ ntohs atif.nets.nr_lastnet) := by
    intro q hq
    split_ifs <;> omega
  unfold atif_probe_device
  simp only
  by_cases hneg : (ntohs atif.nets.nr_lastnet : Int) - (ntohs atif.nets.nr_firstnet : Int) + 1 < 0
  · rw [if_pos hneg]
    exact ⟨rfl, Or.inr rfl, fun h => absurd (show (-EADDRINUSE : Int) = 0 from h) (by decide)⟩
  · rw [if_neg hneg]
    obtain ⟨k1, k2, k3⟩ := key (fun _ => True) _
      (if ntohs atif.address.s_net = ATADDR_ANYNET then
        if (ntohs atif.nets.nr_lastnet : Int) - (ntohs atif.nets.nr_firstnet : Int) + 1 = 0
        then ntohs atif.nets.nr_firstnet
        else ntohs atif.nets.nr_firstnet + env.jiffies 0 %
          ((ntohs atif.nets.nr_lastnet : Int) - (ntohs atif.nets.nr_firstnet : Int) + 1).toNat
      else ntohs atif.address.s_net) (fun _ _ => trivial) trivial
    refine ⟨k1, k2, fun h => ⟨(k3 h).2.1, (k3 h).2.2, fun hle hreq => ?_⟩⟩
    have hstart : ntohs atif.nets.nr_firstnet ≤
          (if ntohs atif.address.s_net = ATADDR_ANYNET then
            if (ntohs atif.nets.nr_lastnet : Int) - (ntohs atif.nets.nr_firstnet : Int) + 1 = 0
            then ntohs atif.nets.nr_firstnet
            else ntohs atif.nets.nr_firstnet + env.jiffies 0 %
              ((ntohs atif.nets.nr_lastnet : Int) - (ntohs atif.nets.nr_firstnet : Int)
                + 1).toNat
          else ntohs atif.address.s_net) ∧
        (if ntohs atif.address.s_net = ATADDR_ANYNET then
            if (ntohs atif.nets.nr_lastnet : Int) - (ntohs atif.nets.nr_firstnet : Int) + 1 = 0
            then ntohs atif.nets.nr_firstnet
            else ntohs atif.nets.nr_firstnet + env.jiffies 0 %
              ((ntohs atif.nets.nr_lastnet : Int) - (ntohs atif.nets.nr_firstnet : Int)
                + 1).toNat
          else ntohs atif.address.s_net) ≤ ntohs atif.nets.nr_lastnet := by
      by_cases h0 : ntohs atif.address.s_net = ATADDR_ANYNET
      · rw [if_pos h0]
        have hz : ¬ ((ntohs atif.nets.nr_lastnet : Int) - (ntohs atif.nets.nr_firstnet : Int)
            + 1 = 0) := by omega
        rw [if_neg hz]
        have hw : ((ntohs atif.nets.nr_lastnet : Int) - (ntohs atif.nets.nr_firstnet : Int)
            + 1).toNat = ntohs atif.nets.nr_lastnet - ntohs atif.nets.nr_firstnet + 1 := by
          omega
        rw [hw]
        have hm := Nat.mod_lt (env.jiffies 0)
          (show 0 < ntohs atif.nets.nr_lastnet - ntohs atif.nets.nr_firstnet + 1 by omega)
        omega
      · rw [if_neg h0]
        rcases hreq with h1 | h1
        · exact absurd h1 h0
        · exact h1
    obtain ⟨_, _, j3⟩ := key
      (fun q => ntohs atif.nets.nr_firstnet ≤ q ∧ q ≤ ntohs atif.nets.nr_lastnet) _ _
      hrange hstart
    obtain ⟨⟨q, hq, hnet⟩, _⟩ := j3 h
    rw [hnet, ntohs_htons q (by omega)]
    exact hq

/-! ## A probe that meets a conflict on every address -/

theorem atif_probe_send_conflict (env : probe_env) (hc : ∀ k a, env.conflict k a = true)
    (n : Nat) (r : probe_run) :
    flag_set (atif_probe_send env (n + 1) r).atif.status ATIF_PROBE_FAIL = true := by
  have hf : flag_set (r.atif.status ||| ATIF_PROBE_FAIL) ATIF_PROBE_FAIL = true :=
    flag_set_or_self _ _ (by decide)
  simp only [atif_probe_send, hc, if_true, hf]

theorem atif_probe_nodes_conflict (env : probe_env) (hc : ∀ k a, env.conflict k a = true)
    (nodeoff : Nat) :
    ∀ (n nodect : Nat) (r : probe_run), (atif_probe_nodes env nodeoff n nodect r).1 = false := by
  intro n
  induction n with
  | zero =>
    intro nodect r
    rfl
  | succ m ih =>
    intro nodect r
    simp only [atif_probe_nodes]
    split_ifs with h1 h2 h3
    · exact absurd (atif_probe_send_conflict env hc 2 _) h2.2.2
    · exact ih _ _
    · exact absurd ‹_› (by tauto)
    · exact ih _ _

theorem atif_probe_nets_conflict (env : probe_env) (hc : ∀ k a, env.conflict k a = true)
    (first last : Nat) :
    ∀ (n pn : Nat) (r : probe_run), (atif_probe_nets env first last n pn r).1 = false := by
  intro n
  induction n with
  | zero =>
    intro pn r
    rfl
  | succ m ih =>
    intro pn r
    simp only [atif_probe_nets]
    have hn := atif_probe_nodes_conflict env hc (env.jiffies r.sleeps % 256) 256 0
      { r with atif := { r.atif with address := { r.atif.address with s_net := htons pn } } }
    cases hp : atif_probe_nodes env (env.jiffies r.sleeps % 256) 256 0
      { r with atif := { r.atif with address := { r.atif.address with s_net := htons pn } } } with
    | mk b r2 =>
      rw [hp] at hn
      cases b
      · simp only
        exact ih _ _
      · exact absurd (show true = false from hn) (by decide)

/-- When AARP reports a conflict on every probe, `atif_probe_device` returns
`-EADDRINUSE`. -/
theorem atif_probe_device_conflict (env : probe_env) (hc : ∀ k a, env.conflict k a = true)
    (atif : atalk_iface) : (atif_probe_device env atif).1 = -EADDRINUSE := by
  have key : ∀ n pn : Nat,
      (match atif_probe_nets env (ntohs atif.nets.nr_firstnet) (ntohs atif.nets.nr_lastnet) n pn
          { atif := atif, sleeps := 0, sent := [] } with
        | (true, r) => ((0 : Int), r)
        | (false, r) => (-EADDRINUSE, r)).1 = -EADDRINUSE := by
    intro n pn
    have hn := atif_probe_nets_conflict env hc (ntohs atif.nets.nr_firstnet)
      (ntohs atif.nets.nr_lastnet) n pn { atif := atif, sleeps := 0, sent := [] }
    cases hp : atif_probe_nets env (ntohs atif.nets.nr_firstnet) (ntohs atif.nets.nr_lastnet)
        n pn { atif := atif, sleeps := 0, sent := [] } with
    | mk b r =>
      rw [hp] at hn
      cases b
      · rfl
      · exact absurd (show true = false from hn) (by decide)
  unfold atif_probe_device
  simp only
  split_ifs <;> first | rfl | exact key _ _

theorem atalk_find_dev_drop (st : State) (dev : device) :
    atalk_find_dev (atif_drop_device st dev) dev = none ∧
    (atif_drop_device st dev).atalk_iface_list
      = st.atalk_iface_list.filter (fun i => decide (i.dev ≠ dev)) := by
  have e : (atif_drop_device st dev).atalk_iface_list
      = st.atalk_iface_list.filter (fun i => decide (i.dev ≠ dev)) :=
    atif_drop_device_loop_eq_filter dev _
  refine ⟨?_, e⟩
  unfold atalk_find_dev
  rw [e]
  generalize st.atalk_iface_list = l
  induction l with
  | nil => rfl
  | cons x xs ih =>
    by_cases hx : x.dev = dev
    · simpa [List.filter, hx] using ih
    · simp only [List.filter, hx, ne_eq, not_false_eq_true, decide_True, atalk_find_dev_loop,
        if_false]
      exact ih

theorem atalk_find_dev_loop_filter (dev : device) (l : List atalk_iface) :
    atalk_find_dev_loop dev (l.filter (fun i => decide (i.dev ≠ dev))) = none := by
  induction l with
  | nil => rfl
  | cons x xs ih =>
    by_cases hx : x.dev = dev
    · simpa [List.filter, hx] using ih
    · simp only [List.filter, hx, ne_eq, not_false_eq_true, decide_True, atalk_find_dev_loop,
        if_false]
      exact ih

theorem atif_store_filter (dev : device) (v : atalk_iface) (l : List atalk_iface)
    (hv : v.dev = dev) :
    (atif_store dev v l).filter (fun i => decide (i.dev ≠ dev))
      = l.filter (fun i => decide (i.dev ≠ dev)) := by
  induction l with
  | nil => rfl
  | cons x xs ih =>
    simp only [atif_store]
    by_cases hx : x.dev = dev
    · rw [if_pos hx]
      simp [List.filter, hx, hv]
    · rw [if_neg hx]
      simp only [List.filter, hx, ne_eq, not_false_eq_true, decide_True]
      rw [ih]

/-- The `SIOCSIFADDR` case on a device that is not a loopback device, when AARP
reports a conflict on every probe: the call returns `-EADDRINUSE` and the
interface table is the table of the call without the interfaces of `dev`. -/
theorem atif_ioctl_set_conflict (env : probe_env) (st : State) (dev : device)
    (sa : sockaddr_at) (nr : netrange)
    (hc : ∀ k a, env.conflict k a = true)
    (hlo : flag_set dev.flags IFF_LOOPBACK = false)
    (hbusy : ∀ a, atalk_find_dev st dev = some a → flag_set a.status ATIF_PROBE = false) :
    (atif_ioctl_set env st dev sa nr (atalk_find_dev st dev)).2 = -EADDRINUSE ∧
    (atif_ioctl_set env st dev sa nr (atalk_find_dev st dev)).1.atalk_iface_list
      = st.atalk_iface_list.filter (fun i => decide (i.dev ≠ dev)) := by
  have hneg : ∀ a, (atif_probe_device env a).1 < 0 := by
    intro a
    rw [atif_probe_device_conflict env hc a]
    decide
  have hlo2 : ¬ (flag_set dev.flags IFF_LOOPBACK = true) := by
    rw [hlo]
    decide
  unfold atif_ioctl_set
  cases hfd : atalk_find_dev st dev with
  | none =>
    simp only
    rw [if_neg hlo2, if_pos (hneg _)]
    refine ⟨rfl, ?_⟩
    rw [(atalk_find_dev_drop _ dev).2]
    simp only
    rw [atif_store_filter dev _ _ (atif_probe_device_dev env _),
      atif_store_filter dev _ _ rfl]
    simp [atif_add_device, List.filter]
  | some a0 =>
    obtain ⟨_, ha0⟩ := atalk_find_dev_loop_some dev _ a0 hfd
    have hp : ¬ (flag_set a0.status ATIF_PROBE = true) := by
      rw [hbusy a0 hfd]
      decide
    simp only
    rw [if_neg hp]
    simp only
    rw [if_neg hlo2, if_pos (hneg _)]
    refine ⟨rfl, ?_⟩
    rw [(atalk_find_dev_drop _ dev).2]
    simp only
    rw [atif_store_filter dev _ _
        ((atif_probe_device_dev env { a0 with address := sa.sat_addr, nets := nr }).trans ha0),
      atif_store_filter dev { a0 with address := sa.sat_addr, nets := nr } _ ha0,
      atrtr_device_down_ifaces]
    simp only
    rw [atif_store_filter dev { a0 with address := sa.sat_addr } _ ha0]

/-- C33: for a device that is not a loopback device and the net range
[100, 100], when AARP answers every probe with a conflict, a `SIOCSIFADDR` that
passes the checks of the request returns `-EADDRINUSE`, and afterwards
`atalk_find_dev` finds no interface for the device: the interface table is the
table of the call without the interfaces of the device. -/
theorem set_iface_probe_conflict (env : probe_env) (st : State) (dev : device)
    (sa : sockaddr_at)
    (hc : ∀ k a, env.conflict k a = true)
    (hlo : flag_set dev.flags IFF_LOOPBACK = false)
    (hty : dev.type = ARPHRD_ETHER)
    (hfam : sa.sat_family = AF_APPLETALK)
    (hnode : sa.sat_addr.s_node ≠ ATADDR_BCAST ∧ sa.sat_addr.s_node ≠ 254)
    (hbusy : ∀ a, atalk_find_dev st dev = some a → flag_set a.status ATIF_PROBE = false) :
    (atif_ioctl env st SIOCSIFADDR (some dev) sa nets100 true).2.1 = -EADDRINUSE ∧
    atalk_find_dev (atif_ioctl env st SIOCSIFADDR (some dev) sa nets100 true).1 dev = none ∧
    (∀ i ∈ (atif_ioctl env st SIOCSIFADDR (some dev) sa nets100 true).1.atalk_iface_list,
      i.dev ≠ dev) ∧
    (atif_ioctl env st SIOCSIFADDR (some dev) sa nets100 true).1.atalk_iface_list
      = st.atalk_iface_list.filter (fun i => decide (i.dev ≠ dev)) := by
  obtain ⟨h1, h2⟩ := atif_ioctl_set_conflict env st dev sa nets100 hc hlo hbusy
  have e : atif_ioctl env st SIOCSIFADDR (some dev) sa nets100 true
      = ((atif_ioctl_set env st dev sa nets100 (atalk_find_dev st dev)).1,
         (atif_ioctl_set env st dev sa nets100 (atalk_find_dev st dev)).2, none) := by
    unfold atif_ioctl
    simp only [if_true]
    have hn : ¬ (sa.sat_addr.s_node = ATADDR_BCAST ∨ sa.sat_addr.s_node = 254) := by
      intro h
      rcases h with h | h
      · exact hnode.1 h
      · exact hnode.2 h
    have hph : ¬ (nets100.nr_phase ≠ 2) := by decide
    simp [hfam, hty, hn, hph]
  rw [e]
  refine ⟨h1, ?_, ?_, h2⟩
  · show atalk_find_dev_loop dev _ = none
    rw [h2]
    exact atalk_find_dev_loop_filter dev _
  · intro i hi
    rw [h2] at hi
    simpa using (List.mem_filter.mp hi).2

set_option maxRecDepth 100000 in
theorem set_iface_probe_conflict_witness :
    (atif_ioctl conflict_env eth0_up_state SIOCSIFADDR (some eth0) eth0_request nets100
      true).2.1 = -EADDRINUSE ∧
    atalk_find_dev (atif_ioctl conflict_env eth0_up_state SIOCSIFADDR (some eth0) eth0_request
      nets100 true).1 eth0 = none := by
  have h := set_iface_probe_conflict conflict_env eth0_up_state eth0 eth0_request
    (fun _ _ => rfl) (by decide) (by decide) (by decide) (by decide)
    (by
      intro a ha
      have e : atalk_find_dev eth0_up_state eth0 = some eth0_iface := by decide
      rw [e] at ha
      cases ha
      decide)
  exact ⟨h.1, h.2.1⟩

/-! ## The candidates of the probe -/

theorem atif_probe_send_conflict_eq (env : probe_env) (hc : ∀ k a, env.conflict k a = true)
    (n : Nat) (r : probe_run) :
    atif_probe_send env (n + 1) r =
      { atif := { r.atif with status := r.atif.status ||| ATIF_PROBE_FAIL },
        sleeps := r.sleeps + 1, sent := r.sent ++ [r.atif.address] } := by
  have hf : flag_set (r.atif.status ||| ATIF_PROBE_FAIL) ATIF_PROBE_FAIL = true :=
    flag_set_or_self _ _ (by decide)
  simp only [atif_probe_send, hc, if_true, hf]

theorem probe_sweep_from_succ (net off start n : Nat) :
    probe_sweep_from net off start (n + 1) =
      (if 0 < (start + off) % 256 ∧ (start + off) % 256 < 254 then
        [({ s_net := net, s_node := (start + off) % 256 } : at_addr)] else []) ++
      probe_sweep_from net off (start + 1) n := by
  unfold probe_sweep_from
  rw [List.range'_succ]
  simp only [List.map_cons, List.filter_cons]
  split_ifs with h1 h2 h2
  · rfl
  · exact absurd h2 (by simpa using h1)
  · exact absurd h1 (by simpa using h2)
  · rfl

/-- With a conflict on every probe, the sweep over the nodes probes the
candidates of `probe_sweep_from` in order, sleeps once for each, and ends without
an address. -/
theorem atif_probe_nodes_conflict_sent (env : probe_env)
    (hc : ∀ k a, env.conflict k a = true) (nodeoff : Nat) :
    ∀ (n nodect : Nat) (r : probe_run),
      (atif_probe_nodes env nodeoff n nodect r).2.sent
        = r.sent ++ probe_sweep_from r.atif.address.s_net nodeoff nodect n ∧
      (atif_probe_nodes env nodeoff n nodect r).2.sleeps
        = r.sleeps + (probe_sweep_from r.atif.address.s_net nodeoff nodect n).length := by
  intro n
  induction n with
  | zero =>
    intro nodect r
    simp [atif_probe_nodes, probe_sweep_from]
  | succ m ih =>
    intro nodect r
    rw [probe_sweep_from_succ]
    simp only [atif_probe_nodes]
    by_cases hv : 0 < (nodect + nodeoff) % 256 ∧ (nodect + nodeoff) % 256 < 254
    · have hgt : (nodect + nodeoff) % 256 > 0 ∧ (nodect + nodeoff) % 256 < 254 := hv
      have hnot : ¬ ((nodect + nodeoff) % 256 > 0 ∧ (nodect + nodeoff) % 256 < 254 ∧
          ¬ flag_set (atif_probe_send env AARP_RETRANSMIT_LIMIT
            { r with atif := { r.atif with address :=
                { r.atif.address with s_node := (nodect + nodeoff) % 256 } } }).atif.status
            ATIF_PROBE_FAIL = true) := by
        intro h
        exact h.2.2 (atif_probe_send_conflict env hc 2 _)
      rw [if_pos hgt, if_neg hnot, if_pos hv]
      obtain ⟨i1, i2⟩ := ih (nodect + 1)
        { atif_probe_send env AARP_RETRANSMIT_LIMIT
            { r with atif := { r.atif with address :=
                { r.atif.address with s_node := (nodect + nodeoff) % 256 } } } with
          atif :=
            { (atif_probe_send env AARP_RETRANSMIT_LIMIT
                { r with atif := { r.atif with address :=
                    { r.atif.address with s_node := (nodect + nodeoff) % 256 } } }).atif with
              status :=
                (atif_probe_send env AARP_RETRANSMIT_LIMIT
                  { r with atif := { r.atif with address :=
                      { r.atif.address with s_node := (nodect + nodeoff) % 256 } } }).atif.status ^^^
                ((atif_probe_send env AARP_RETRANSMIT_LIMIT
                  { r with atif := { r.atif with address :=
                      { r.atif.address with s_node := (nodect + nodeoff) % 256 } } }).atif.status &&&
                  ATIF_PROBE_FAIL) } }
      rw [i1, i2]
      have e := atif_probe_send_conflict_eq env hc 2
        { r with atif := { r.atif with address :=
            { r.atif.address with s_node := (nodect + nodeoff) % 256 } } }
      have e3 : AARP_RETRANSMIT_LIMIT = 2 + 1 := rfl
      rw [e3, e]
      constructor
      · simp
      · simp only [List.length_append, List.length_cons, List.length_nil]
        omega
    · have hgt : ¬ ((nodect + nodeoff) % 256 > 0 ∧ (nodect + nodeoff) % 256 < 254) := hv
      have hnot : ¬ ((nodect + nodeoff) % 256 > 0 ∧ (nodect + nodeoff) % 256 < 254 ∧
          ¬ flag_set r.atif.status ATIF_PROBE_FAIL = true) := by
        intro h
        exact hv ⟨h.1, h.2.1⟩
      rw [if_neg hgt, if_neg hnot, if_neg hv]
      obtain ⟨i1, i2⟩ := ih (nodect + 1)
        { r with atif :=
            { r.atif with
              address := { r.atif.address with s_node := (nodect + nodeoff) % 256 },
              status := r.atif.status ^^^ (r.atif.status &&& ATIF_PROBE_FAIL) } }
      rw [i1, i2]
      exact ⟨rfl, rfl⟩

/-- With a conflict on every probe, `n` turns of the loop over the nets probe
the candidates of `probe_sweeps` in order. -/
theorem atif_probe_nets_conflict_sent (env : probe_env)
    (hc : ∀ k a, env.conflict k a = true) (first last : Nat) :
    ∀ (n pn : Nat) (r : probe_run),
      (atif_probe_nets env first last n pn r).2.sent
        = r.sent ++ probe_sweeps env first last n pn r.sleeps := by
  intro n
  induction n with
  | zero =>
    intro pn r
    simp [atif_probe_nets, probe_sweeps]
  | succ m ih =>
    intro pn r
    simp only [atif_probe_nets, probe_sweeps]
    have hn := atif_probe_nodes_conflict_sent env hc (env.jiffies r.sleeps % 256) 256 0
      { r with atif := { r.atif with address := { r.atif.address with s_net := htons pn } } }
    have hb := atif_probe_nodes_conflict env hc (env.jiffies r.sleeps % 256) 256 0
      { r with atif := { r.atif with address := { r.atif.address with s_net := htons pn } } }
    cases hp : atif_probe_nodes env (env.jiffies r.sleeps % 256) 256 0
      { r with atif := { r.atif with address := { r.atif.address with s_net := htons pn } } } with
    | mk b r2 =>
      rw [hp] at hn hb
      cases b
      · simp only
        rw [ih, hn.1, hn.2]
        simp only [List.append_assoc]
        rfl
      · exact absurd (show true = false from hb) (by decide)

theorem countP_shift (p : Nat → Bool) (off : Nat) :
    (List.range 256).countP (fun c => p ((c + off) % 256)) = (List.range 256).countP p := by
  induction off with
  | zero =>
    apply List.countP_congr
    intro c hc
    have h := List.mem_range.mp hc
    simp [Nat.mod_eq_of_lt h]
  | succ k ih =>
    rw [← ih]
    have e1 : (List.range 256).countP (fun c => p ((c + (k + 1)) % 256))
        = (List.range 255).countP (fun c => p ((c + (k + 1)) % 256))
          + (if p ((255 + (k + 1)) % 256) then 1 else 0) := by
      rw [show (256 : Nat) = 255 + 1 from rfl, List.range_succ, List.countP_append]
      simp [List.countP_cons]
    have e2 : (List.range 256).countP (fun c => p ((c + k) % 256))
        = (if p ((0 + k) % 256) then 1 else 0)
          + (List.range 255).countP (fun c => p ((c + 1 + k) % 256)) := by
      rw [show (256 : Nat) = 255 + 1 from rfl, List.range_succ_eq_map, List.countP_cons,
        List.countP_map]
      rw [Nat.add_comm]
      rfl
    rw [e1, e2]
    have e3 : (255 + (k + 1)) % 256 = (0 + k) % 256 := by omega
    have e4 : (fun c => p ((c + (k + 1)) % 256)) = (fun c => p ((c + 1 + k) % 256)) := by
      funext c
      congr 2
      omega
    rw [e3, e4, Nat.add_comm]

set_option maxRecDepth 100000 in
theorem countP_valid_node :
    (List.range 256).countP (fun node => decide (0 < node ∧ node < 254)) = 253 := by
  decide

theorem probe_sweep_length (net off : Nat) : (probe_sweep net off).length = 253 := by
  unfold probe_sweep probe_sweep_from
  rw [List.length_map, ← List.countP_eq_length_filter, List.countP_map,
    ← List.range_eq_range']
  have h := countP_shift (fun node => decide (0 < node ∧ node < 254)) off
  rw [← countP_valid_node, ← h]
  rfl

theorem probe_sweep_node (net off : Nat) (a : at_addr) (ha : a ∈ probe_sweep net off) :
    a.s_net = net ∧ 0 < a.s_node ∧ a.s_node < 254 := by
  unfold probe_sweep probe_sweep_from at ha
  obtain ⟨node, hn, rfl⟩ := List.mem_map.mp ha
  have h := (List.mem_filter.mp hn).2
  exact ⟨rfl, by simpa using h⟩

theorem probe_sweeps_length (env : probe_env) (first last : Nat) :
    ∀ (n pn s : Nat), (probe_sweeps env first last n pn s).length = 253 * n := by
  intro n
  induction n with
  | zero =>
    intro pn s
    rfl
  | succ m ih =>
    intro pn s
    simp only [probe_sweeps, List.length_append, ih, probe_sweep_length]
    omega

theorem probe_sweeps_node (env : probe_env) (first last : Nat) :
    ∀ (n pn s : Nat) (a : at_addr), a ∈ probe_sweeps env first last n pn s →
      0 < a.s_node ∧ a.s_node < 254 := by
  intro n
  induction n with
  | zero =>
    intro pn s a ha
    simp [probe_sweeps] at ha
  | succ m ih =>
    intro pn s a ha
    simp only [probe_sweeps] at ha
    rcases List.mem_append.mp ha with h | h
    · exact (probe_sweep_node _ _ a h).2
    · exact ih _ _ a h

/-- C35: when AARP reports a conflict on every probe and the net range is not
empty, `atif_probe_device` returns `-EADDRINUSE` after the probes of
`last - first + 2` sweeps, one more than the nets of the range: the loop
`for(netct=0;netct<=netrange;netct++)` sweeps the net it starts on a second time.
That is 253 probes for each sweep, `253 * (last - first + 2)` in all and not
`253 * (last - first + 1)`; no probe is for the node 0, 254 or 255. -/
theorem atif_probe_device_sweeps (env : probe_env) (atif : atalk_iface)
    (hc : ∀ k a, env.conflict k a = true)
    (hle : ntohs atif.nets.nr_firstnet ≤ ntohs atif.nets.nr_lastnet) :
    (atif_probe_device env atif).1 = -EADDRINUSE ∧
    (atif_probe_device env atif).2.sent
      = probe_sweeps env (ntohs atif.nets.nr_firstnet) (ntohs atif.nets.nr_lastnet)
          (ntohs atif.nets.nr_lastnet - ntohs atif.nets.nr_firstnet + 2)
          (probe_start env atif) 0 ∧
    (atif_probe_device env atif).2.sent.length
      = 253 * (ntohs atif.nets.nr_lastnet - ntohs atif.nets.nr_firstnet + 2) ∧
    (∀ a ∈ (atif_probe_device env atif).2.sent, 0 < a.s_node ∧ a.s_node < 254) := by
  have key : ∀ n pn : Nat,
      (match atif_probe_nets env (ntohs atif.nets.nr_firstnet) (ntohs atif.nets.nr_lastnet) n pn
          { atif := atif, sleeps := 0, sent := [] } with
        | (true, r) => ((0 : Int), r)
        | (false, r) => (-EADDRINUSE, r)).2.sent
        = probe_sweeps env (ntohs atif.nets.nr_firstnet) (ntohs atif.nets.nr_lastnet) n pn 0 := by
    intro n pn
    have hn := atif_probe_nets_conflict_sent env hc (ntohs atif.nets.nr_firstnet)
      (ntohs atif.nets.nr_lastnet) n pn { atif := atif, sleeps := 0, sent := [] }
    cases hp : atif_probe_nets env (ntohs atif.nets.nr_firstnet) (ntohs atif.nets.nr_lastnet)
        n pn { atif := atif, sleeps := 0, sent := [] } with
    | mk b r =>
      rw [hp] at hn
      cases b
      · simpa using hn
      · simpa using hn
  have hsent : (atif_probe_device env atif).2.sent
      = probe_sweeps env (ntohs atif.nets.nr_firstnet) (ntohs atif.nets.nr_lastnet)
          (ntohs atif.nets.nr_lastnet - ntohs atif.nets.nr_firstnet + 2)
          (probe_start env atif) 0 := by
    unfold atif_probe_device probe_start
    simp only
    have hneg : ¬ ((ntohs atif.nets.nr_lastnet : Int) - (ntohs atif.nets.nr_firstnet : Int)
        + 1 < 0) := by omega
    have hz : ¬ ((ntohs atif.nets.nr_lastnet : Int) - (ntohs atif.nets.nr_firstnet : Int)
        + 1 = 0) := by omega
    have hw : ((ntohs atif.nets.nr_lastnet : Int) - (ntohs atif.nets.nr_firstnet : Int)
        + 1).toNat = ntohs atif.nets.nr_lastnet + 1 - ntohs atif.nets.nr_firstnet := by omega
    have hw2 : ntohs atif.nets.nr_lastnet + 1 - ntohs atif.nets.nr_firstnet + 1
        = ntohs atif.nets.nr_lastnet - ntohs atif.nets.nr_firstnet + 2 := by omega
    rw [if_neg hneg, if_neg hz, hw, hw2]
    exact key _ _
  refine ⟨atif_probe_device_conflict env hc atif, hsent, ?_, ?_⟩
  · rw [hsent, probe_sweeps_length]
  · intro a ha
    rw [hsent] at ha
    exact probe_sweeps_node _ _ _ _ _ _ a ha

set_option maxRecDepth 100000 in
theorem atif_probe_device_sweeps_witness :
    (atif_probe_device conflict_env iface100).1 = -EADDRINUSE ∧
    (atif_probe_device conflict_env iface100).2.sent.length = 506 ∧
    (atif_probe_device conflict_env iface100).2.sent.count { s_net := htons 100, s_node := 1 }
      = 2 := by
  have h := atif_probe_device_sweeps conflict_env iface100 (fun _ _ => rfl) (by decide)
  refine ⟨h.1, ?_, ?_⟩
  · rw [h.2.2.1]
    decide
  · rw [h.2.1]
    decide

/-! ## The net of a configured interface -/

theorem atrtr_create_ifaces (st : State) (r : rtentry) (devhint : Option device) :
    (atrtr_create st r devhint).1.atalk_iface_list = st.atalk_iface_list := by
  unfold atrtr_create
  simp only
  split_ifs
  · rfl
  · rfl
  · split
    · rfl
    · split <;> rfl

theorem atif_ioctl_routes_ifaces (rtdef : rtentry) (dev : device) :
    ∀ (n ct : Nat) (st : State),
      (atif_ioctl_routes rtdef dev n ct st).atalk_iface_list = st.atalk_iface_list := by
  intro n
  induction n with
  | zero =>
    intro ct st
    rfl
  | succ m ih =>
    intro ct st
    simp only [atif_ioctl_routes]
    rw [ih, atrtr_create_ifaces]

theorem atif_ioctl_add_routes_ifaces (st : State) (dev : device) (a : atalk_iface)
    (nr : netrange) :
    (atif_ioctl_add_routes st dev a nr).1.atalk_iface_list = st.atalk_iface_list := by
  unfold atif_ioctl_add_routes
  simp only
  split_ifs <;> first
    | rfl
    | exact atrtr_create_ifaces _ _ _
    | exact atif_ioctl_routes_ifaces _ _ _ _ _

/-- A `SIOCSIFADDR` that returns 0 leaves as the interface of `dev` the interface
with the address and the net range of the request, on a loopback device as it
is, on another device as `atif_probe_device` returned it with the value 0. -/
theorem atif_ioctl_set_installed (env : probe_env) (st : State) (dev : device)
    (sa : sockaddr_at) (nr : netrange)
    (hok : (atif_ioctl_set env st dev sa nr (atalk_find_dev st dev)).2 = 0) :
    ∃ a1 : atalk_iface, a1.address = sa.sat_addr ∧ a1.nets = nr ∧
      (flag_set dev.flags IFF_LOOPBACK = true →
        atalk_find_dev (atif_ioctl_set env st dev sa nr (atalk_find_dev st dev)).1 dev
          = some a1) ∧
      (flag_set dev.flags IFF_LOOPBACK = false →
        (atif_probe_device env a1).1 = 0 ∧
        atalk_find_dev (atif_ioctl_set env st dev sa nr (atalk_find_dev st dev)).1 dev
          = some (atif_probe_device env a1).2.atif) := by
  have tail : ∀ (st2 : State) (a1 : atalk_iface),
      a1.dev = dev → (∃ i ∈ st2.atalk_iface_list, i.dev = dev) →
      atalk_find_dev st2 dev = some a1 →
      ((if flag_set dev.flags IFF_LOOPBACK then atif_ioctl_add_routes st2 dev a1 nr
        else
          if (atif_probe_device env a1).1 < 0 then
            (atif_drop_device
              { st2 with atalk_iface_list :=
                  atif_store dev (atif_probe_device env a1).2.atif st2.atalk_iface_list } dev,
              -EADDRINUSE)
          else
            atif_ioctl_add_routes
              { st2 with atalk_iface_list :=
                  atif_store dev (atif_probe_device env a1).2.atif st2.atalk_iface_list }
              dev (atif_probe_device env a1).2.atif nr).2 = 0) →
      (flag_set dev.flags IFF_LOOPBACK = true →
        atalk_find_dev
          (if flag_set dev.flags IFF_LOOPBACK then atif_ioctl_add_routes st2 dev a1 nr
          else
            if (atif_probe_device env a1).1 < 0 then
              (atif_drop_device
                { st2 with atalk_iface_list :=
                    atif_store dev (atif_probe_device env a1).2.atif st2.atalk_iface_list } dev,
                -EADDRINUSE)
            else
              atif_ioctl_add_routes
                { st2 with atalk_iface_list :=
                    atif_store dev (atif_probe_device env a1).2.atif st2.atalk_iface_list }
                dev (atif_probe_device env a1).2.atif nr).1 dev = some a1) ∧
      (flag_set dev.flags IFF_LOOPBACK = false →
        (atif_probe_device env a1).1 = 0 ∧
        atalk_find_dev
          (if flag_set dev.flags IFF_LOOPBACK then atif_ioctl_add_routes st2 dev a1 nr
          else
            if (atif_probe_device env a1).1 < 0 then
              (atif_drop_device
                { st2 with atalk_iface_list :=
                    atif_store dev (atif_probe_device env a1).2.atif st2.atalk_iface_list } dev,
                -EADDRINUSE)
            else
              atif_ioctl_add_routes
                { st2 with atalk_iface_list :=
                    atif_store dev (atif_probe_device env a1).2.atif st2.atalk_iface_list }
                dev (atif_probe_device env a1).2.atif nr).1 dev
          = some (atif_probe_device env a1).2.atif) := by
    intro st2 a1 hdev hex hfind h
    by_cases hlo : flag_set dev.flags IFF_LOOPBACK = true
    · rw [if_pos hlo]
      refine ⟨fun _ => ?_, fun hf => absurd hlo (by rw [hf]; decide)⟩
      unfold atalk_find_dev
      rw [atif_ioctl_add_routes_ifaces]
      exact hfind
    · rw [if_neg hlo] at h ⊢
      by_cases hneg : (atif_probe_device env a1).1 < 0
      · rw [if_pos hneg] at h
        exact absurd (show (-EADDRINUSE : Int) = 0 from h) (by decide)
      · rw [if_neg hneg]
        refine ⟨fun ht => absurd ht hlo, fun _ => ⟨?_, ?_⟩⟩
        · rcases (atif_probe_device_result env a1).2.1 with h0 | h0
          · exact h0
          · rw [h0] at hneg
            exact absurd (show (-EADDRINUSE : Int) < 0 by decide) hneg
        · unfold atalk_find_dev
          rw [atif_ioctl_add_routes_ifaces]
          exact atalk_find_dev_loop_store dev _ _
            ((atif_probe_device_dev env a1).trans hdev) hex
  unfold atif_ioctl_set at hok ⊢
  cases hfd : atalk_find_dev st dev with
  | none =>
    rw [hfd] at hok
    simp only at hok ⊢
    refine ⟨{ dev := dev, address := sa.sat_addr, status := 0, nets := nr }, rfl, rfl, ?_⟩
    apply tail _ _ rfl
    · exact atif_store_has_dev dev _ _ rfl ⟨_, List.mem_cons_self _ _, rfl⟩
    · exact atalk_find_dev_loop_store dev _ _ rfl ⟨_, List.mem_cons_self _ _, rfl⟩
    · exact hok
  | some a0 =>
    rw [hfd] at hok
    obtain ⟨hmem, ha0⟩ := atalk_find_dev_loop_some dev _ a0 hfd
    simp only at hok ⊢
    by_cases hp : flag_set a0.status ATIF_PROBE = true
    · rw [if_pos hp] at hok
      exact absurd (show (-EBUSY : Int) = 0 from hok) (by decide)
    · rw [if_neg hp] at hok ⊢
      simp only at hok ⊢
      have hex0 : ∃ i ∈ atif_store dev { a0 with address := sa.sat_addr } st.atalk_iface_list,
          i.dev = dev := atif_store_has_dev dev _ _ ha0 ⟨a0, hmem, ha0⟩
      refine ⟨{ a0 with address := sa.sat_addr, nets := nr }, rfl, rfl, ?_⟩
      apply tail
        { atrtr_device_down
            { st with atalk_iface_list :=
                atif_store dev { a0 with address := sa.sat_addr } st.atalk_iface_list } dev with
          atalk_iface_list := atif_store dev { a0 with address := sa.sat_addr, nets := nr }
            (atrtr_device_down
              { st with atalk_iface_list :=
                  atif_store dev { a0 with address := sa.sat_addr } st.atalk_iface_list }
              dev).atalk_iface_list }
        { a0 with address := sa.sat_addr, nets := nr } ha0
      · refine atif_store_has_dev dev _ _ ha0 ?_
        rw [atrtr_device_down_ifaces]
        exact hex0
      · refine atalk_find_dev_loop_store dev _ _ ha0 ?_
        rw [atrtr_device_down_ifaces]
        exact hex0
      · exact hok

set_option maxRecDepth 100000 in
/-- C32, the claim as stated: `SIOCSIFADDR` with the address `5.1` and the net
range [10, 20] returns 0 for `eth0` (no conflict on the probe) and for the
loopback device `lo`, and the interface installed has the net 5, which is not in
its net range [10, 20]. -/
theorem set_iface_net_outside_range :
    (atif_ioctl quiet_env State.init SIOCSIFADDR (some eth0) net5_request nets10_20 true).2.1
      = 0 ∧
    atalk_find_dev
      (atif_ioctl quiet_env State.init SIOCSIFADDR (some eth0) net5_request nets10_20 true).1 eth0
      = some { dev := eth0, address := { s_net := htons 5, s_node := 1 }, status := 0,
               nets := nets10_20 } ∧
    (atif_ioctl quiet_env State.init SIOCSIFADDR (some lo) net5_request nets10_20 true).2.1
      = 0 ∧
    atalk_find_dev
      (atif_ioctl quiet_env State.init SIOCSIFADDR (some lo) net5_request nets10_20 true).1 lo
      = some { dev := lo, address := { s_net := htons 5, s_node := 1 }, status := 0,
               nets := nets10_20 } ∧
    ntohs (htons 5) = 5 ∧
    ntohs nets10_20.nr_firstnet = 10 ∧
    ntohs nets10_20.nr_lastnet = 20 := by
  refine ⟨by decide, by decide, by decide, by decide, by decide, by decide, by decide⟩

/-- C32, amended: when `SIOCSIFADDR` returns 0 for a net range with
`first_net <= last_net` and the net of the address asked for lies in the range,
or is `ANYNET` on a device that is not a loopback device, the interface of the
device has the net range of the request and a net inside that range. -/
theorem set_iface_net_in_range (env : probe_env) (st : State) (dev : device)
    (sa : sockaddr_at) (nr : netrange)
    (hok : (atif_ioctl env st SIOCSIFADDR (some dev) sa nr true).2.1 = 0)
    (hle : ntohs nr.nr_firstnet ≤ ntohs nr.nr_lastnet)
    (hreq : (ntohs nr.nr_firstnet ≤ ntohs sa.sat_addr.s_net ∧
        ntohs sa.sat_addr.s_net ≤ ntohs nr.nr_lastnet) ∨
      (flag_set dev.flags IFF_LOOPBACK = false ∧ ntohs sa.sat_addr.s_net = ATADDR_ANYNET)) :
    ∃ a, atalk_find_dev (atif_ioctl env st SIOCSIFADDR (some dev) sa nr true).1 dev = some a ∧
      a.nets = nr ∧
      ntohs nr.nr_firstnet ≤ ntohs a.address.s_net ∧
      ntohs a.address.s_net ≤ ntohs nr.nr_lastnet := by
  obtain ⟨e, hset⟩ := atif_ioctl_set_iface env st dev sa nr hok
  rw [e]
  obtain ⟨a1, ha, hn, hL, hN⟩ := atif_ioctl_set_installed env st dev sa nr hset
  by_cases hlo : flag_set dev.flags IFF_LOOPBACK = true
  · refine ⟨a1, hL hlo, hn, ?_⟩
    rw [ha]
    rcases hreq with h | h
    · exact h
    · rw [hlo] at h
      exact absurd h.1 (by decide)
  · have hf : flag_set dev.flags IFF_LOOPBACK = false := by
      cases hb : flag_set dev.flags IFF_LOOPBACK
      · rfl
      · exact absurd hb hlo
    obtain ⟨h0, hfind⟩ := hN hf
    obtain ⟨r1, _, r3⟩ := atif_probe_device_result env a1
    refine ⟨_, hfind, r1.trans hn, ?_⟩
    have hr := (r3 h0).2.2
    rw [hn, ha] at hr
    apply hr hle
    rcases hreq with h | h
    · exact Or.inr h
    · exact Or.inl h.2

theorem set_iface_net_in_range_witness :
    ∃ a, atalk_find_dev eth0_up_state eth0 = some a ∧ a.nets = eth0_nets ∧
      ntohs eth0_nets.nr_firstnet ≤ ntohs a.address.s_net ∧
      ntohs a.address.s_net ≤ ntohs eth0_nets.nr_lastnet :=
  set_iface_net_in_range probe5_env State.init eth0 eth0_request eth0_nets (by decide)
    (by decide) (Or.inl (by decide))

/-! ## The probing bit while `atif_probe_device` runs -/

theorem flag_set_probe_of_testBit (x y : Nat) (h : x.testBit 0 = y.testBit 0) :
    flag_set x ATIF_PROBE = flag_set y ATIF_PROBE := by
  unfold flag_set ATIF_PROBE
  rw [Nat.and_one_is_mod, Nat.and_one_is_mod]
  rw [Nat.testBit_zero, Nat.testBit_zero] at h
  have hx := Nat.mod_two_eq_zero_or_one x
  have hy := Nat.mod_two_eq_zero_or_one y
  rcases hx with hx | hx <;> rcases hy with hy | hy <;> simp_all

theorem flag_set_probe_or_fail (s : Nat) :
    flag_set (s ||| ATIF_PROBE_FAIL) ATIF_PROBE = flag_set s ATIF_PROBE := by
  apply flag_set_probe_of_testBit
  rw [Nat.testBit_or]
  have h2 : ATIF_PROBE_FAIL.testBit 0 = false := by decide
  rw [h2, Bool.or_false]

theorem flag_set_probe_clear_fail (s : Nat) :
    flag_set (s ^^^ (s &&& ATIF_PROBE_FAIL)) ATIF_PROBE = flag_set s ATIF_PROBE := by
  apply flag_set_probe_of_testBit
  rw [Nat.testBit_xor, Nat.testBit_and]
  have h2 : ATIF_PROBE_FAIL.testBit 0 = false := by decide
  rw [h2, Bool.and_false, Bool.xor_false]

theorem atif_probe_send_probe_bit (env : probe_env) :
    ∀ (n : Nat) (r : probe_run),
      flag_set (atif_probe_send env n r).atif.status ATIF_PROBE
        = flag_set r.atif.status ATIF_PROBE := by
  intro n
  induction n with
  | zero =>
    intro r
    rfl
  | succ m ih =>
    intro r
    simp only [atif_probe_send]
    split_ifs <;> first
      | rfl
      | exact flag_set_probe_or_fail _
      | (rw [ih]; try exact flag_set_probe_or_fail _)

theorem atif_probe_send_sleeping_spec (env : probe_env) :
    ∀ (n : Nat) (r : probe_run),
      (∀ a ∈ atif_probe_send_sleeping env n r,
        a.dev = r.atif.dev ∧
        flag_set a.status ATIF_PROBE = flag_set r.atif.status ATIF_PROBE) ∧
      (atif_probe_send env n r).sent
        = r.sent ++ (atif_probe_send_sleeping env n r).map (fun a => a.address) := by
  intro n
  induction n with
  | zero =>
    intro r
    simp [atif_probe_send_sleeping, atif_probe_send]
  | succ m ih =>
    intro r
    simp only [atif_probe_send_sleeping, atif_probe_send]
    split_ifs with h1 h2 h2
    · simp
    · obtain ⟨i1, i2⟩ := ih
        { atif := { r.atif with status := r.atif.status ||| ATIF_PROBE_FAIL },
          sleeps := r.sleeps + 1, sent := r.sent ++ [r.atif.address] }
      refine ⟨?_, ?_⟩
      · intro a ha
        rcases List.mem_cons.mp ha with h | h
        · rw [h]
          exact ⟨rfl, rfl⟩
        · exact ⟨(i1 a h).1, (i1 a h).2.trans (flag_set_probe_or_fail _)⟩
      · rw [i2]
        simp
    · simp
    · obtain ⟨i1, i2⟩ := ih
        { atif := { r.atif with status := r.atif.status },
          sleeps := r.sleeps + 1, sent := r.sent ++ [r.atif.address] }
      refine ⟨?_, ?_⟩
      · intro a ha
        rcases List.mem_cons.mp ha with h | h
        · rw [h]
          exact ⟨rfl, rfl⟩
        · exact i1 a h
      · rw [i2]
        simp

theorem atif_probe_nodes_sleeping_spec (env : probe_env) (nodeoff : Nat) :
    ∀ (n nodect : Nat) (r : probe_run),
      (∀ a ∈ atif_probe_nodes_sleeping env nodeoff n nodect r,
        a.dev = r.atif.dev ∧
        flag_set a.status ATIF_PROBE = flag_set r.atif.status ATIF_PROBE) ∧
      flag_set (atif_probe_nodes env nodeoff n nodect r).2.atif.status ATIF_PROBE
        = flag_set r.atif.status ATIF_PROBE ∧
      (atif_probe_nodes env nodeoff n nodect r).2.sent
        = r.sent ++ (atif_probe_nodes_sleeping env nodeoff n nodect r).map (fun a => a.address) := by
  intro n
  induction n with
  | zero =>
    intro nodect r
    simp [atif_probe_nodes_sleeping, atif_probe_nodes]
  | succ m ih =>
    intro nodect r
    simp only [atif_probe_nodes_sleeping, atif_probe_nodes]
    by_cases hv : (nodect + nodeoff) % 256 > 0 ∧ (nodect + nodeoff) % 256 < 254
    · obtain ⟨s1, s2⟩ := atif_probe_send_sleeping_spec env AARP_RETRANSMIT_LIMIT
        { r with atif := { r.atif with address :=
            { r.atif.address with s_node := (nodect + nodeoff) % 256 } } }
      have s3 := atif_probe_send_probe_bit env AARP_RETRANSMIT_LIMIT
        { r with atif := { r.atif with address :=
            { r.atif.address with s_node := (nodect + nodeoff) % 256 } } }
      repeat rw [if_pos hv]
      by_cases hf : flag_set (atif_probe_send env AARP_RETRANSMIT_LIMIT
          { r with atif := { r.atif with address :=
              { r.atif.address with s_node := (nodect + nodeoff) % 256 } } }).atif.status
          ATIF_PROBE_FAIL = true
      · have hnot : ¬ ((nodect + nodeoff) % 256 > 0 ∧ (nodect + nodeoff) % 256 < 254 ∧
            ¬ flag_set (atif_probe_send env AARP_RETRANSMIT_LIMIT
              { r with atif := { r.atif with address :=
                  { r.atif.address with s_node := (nodect + nodeoff) % 256 } } }).atif.status
              ATIF_PROBE_FAIL = true) := fun h => h.2.2 hf
        repeat rw [if_neg hnot]
        obtain ⟨i1, i2, i3⟩ := ih (nodect + 1)
          { atif_probe_send env AARP_RETRANSMIT_LIMIT
              { r with atif := { r.atif with address :=
                  { r.atif.address with s_node := (nodect + nodeoff) % 256 } } } with
            atif :=
              { (atif_probe_send env AARP_RETRANSMIT_LIMIT
                  { r with atif := { r.atif with address :=
                      { r.atif.address with s_node := (nodect + nodeoff) % 256 } } }).atif with
                status :=
                  (atif_probe_send env AARP_RETRANSMIT_LIMIT
                    { r with atif := { r.atif with address :=
                        { r.atif.address with s_node := (nodect + nodeoff) % 256 } } }).atif.status ^^^
                  ((atif_probe_send env AARP_RETRANSMIT_LIMIT
                    { r with atif := { r.atif with address :=
                        { r.atif.address with s_node := (nodect + nodeoff) % 256 } } }).atif.status &&&
                    ATIF_PROBE_FAIL) } }
        have hclr := flag_set_probe_clear_fail (atif_probe_send env AARP_RETRANSMIT_LIMIT
          { r with atif := { r.atif with address :=
              { r.atif.address with s_node := (nodect + nodeoff) % 256 } } }).atif.status
        refine ⟨?_, ?_, ?_⟩
        · intro a ha
          rcases List.mem_append.mp ha with h | h
          · exact s1 a h
          · exact ⟨(i1 a h).1.trans (atif_probe_send_dev env _ _),
              (i1 a h).2.trans (hclr.trans s3)⟩
        · rw [i2]
          exact hclr.trans s3
        · rw [i3, List.map_append, ← List.append_assoc]
          exact congrArg (fun l => l ++ _) s2
      · have hyes : (nodect + nodeoff) % 256 > 0 ∧ (nodect + nodeoff) % 256 < 254 ∧
            ¬ flag_set (atif_probe_send env AARP_RETRANSMIT_LIMIT
              { r with atif := { r.atif with address :=
                  { r.atif.address with s_node := (nodect + nodeoff) % 256 } } }).atif.status
              ATIF_PROBE_FAIL = true := ⟨hv.1, hv.2, hf⟩
        repeat rw [if_pos hyes]
        exact ⟨s1, s3, s2⟩
    · have hnot : ∀ p : Prop, ¬ ((nodect + nodeoff) % 256 > 0 ∧ (nodect + nodeoff) % 256 < 254 ∧
          p) := fun p h => hv ⟨h.1, h.2.1⟩
      repeat rw [if_neg hv]
      repeat rw [if_neg (hnot _)]
      obtain ⟨i1, i2, i3⟩ := ih (nodect + 1)
        { r with atif :=
            { r.atif with
              address := { r.atif.address with s_node := (nodect + nodeoff) % 256 },
              status := r.atif.status ^^^ (r.atif.status &&& ATIF_PROBE_FAIL) } }
      have hclr := flag_set_probe_clear_fail r.atif.status
      refine ⟨?_, ?_, ?_⟩
      · intro a ha
        rw [List.nil_append] at ha
        exact ⟨(i1 a ha).1, (i1 a ha).2.trans hclr⟩
      · rw [i2]
        exact hclr
      · rw [i3]
        rfl

theorem atif_probe_nets_sleeping_spec (env : probe_env) (first last : Nat) :
    ∀ (n pn : Nat) (r : probe_run),
      (∀ a ∈ atif_probe_nets_sleeping env first last n pn r,
        a.dev = r.atif.dev ∧
        flag_set a.status ATIF_PROBE = flag_set r.atif.status ATIF_PROBE) ∧
      flag_set (atif_probe_nets env first last n pn r).2.atif.status ATIF_PROBE
        = flag_set r.atif.status ATIF_PROBE ∧
      (atif_probe_nets env first last n pn r).2.sent
        = r.sent ++ (atif_probe_nets_sleeping env first last n pn r).map (fun a => a.address) := by
  intro n
  induction n with
  | zero =>
    intro pn r
    simp [atif_probe_nets_sleeping, atif_probe_nets]
  | succ m ih =>
    intro pn r
    simp only [atif_probe_nets_sleeping, atif_probe_nets]
    have hn := atif_probe_nodes_sleeping_spec env (env.jiffies r.sleeps % 256) 256 0
      { r with atif := { r.atif with address := { r.atif.address with s_net := htons pn } } }
    have hd := atif_probe_nodes_dev env (env.jiffies r.sleeps % 256) 256 0
      { r with atif := { r.atif with address := { r.atif.address with s_net := htons pn } } }
    cases hp : atif_probe_nodes env (env.jiffies r.sleeps % 256) 256 0
      { r with atif := { r.atif with address := { r.atif.address with s_net := htons pn } } } with
    | mk b r2 =>
      rw [hp] at hn hd
      obtain ⟨n1, n2, n3⟩ := hn
      cases b
      · simp only
        obtain ⟨i1, i2, i3⟩ := ih (if pn + 1 > last then first else pn + 1) r2
        refine ⟨?_, ?_, ?_⟩
        · intro a ha
          rcases List.mem_append.mp ha with h | h
          · exact n1 a h
          · exact ⟨(i1 a h).1.trans hd, (i1 a h).2.trans n2⟩
        · exact i2.trans n2
        · rw [i3, List.map_append, ← List.append_assoc]
          exact congrArg (fun l => l ++ _) n3
      · simp only
        exact ⟨n1, n2, n3⟩

/-- At every `schedule()` of `atif_probe_device` the status of the interface has
the bit `ATIF_PROBE` as it had it at the call, and the addresses of the interface
at the sleeps are the addresses probed, in order. -/
theorem atif_probe_device_sleeping_spec (env : probe_env) (atif : atalk_iface) :
    (∀ a ∈ atif_probe_device_sleeping env atif,
      a.dev = atif.dev ∧
      flag_set a.status ATIF_PROBE = flag_set atif.status ATIF_PROBE) ∧
    (atif_probe_device env atif).2.sent
      = (atif_probe_device_sleeping env atif).map (fun a => a.address) := by
  have key : ∀ n pn : Nat,
      (match atif_probe_nets env (ntohs atif.nets.nr_firstnet) (ntohs atif.nets.nr_lastnet) n pn
          { atif := atif, sleeps := 0, sent := [] } with
        | (true, r) => ((0 : Int), r)
        | (false, r) => (-EADDRINUSE, r)).2.sent
        = (atif_probe_nets env (ntohs atif.nets.nr_firstnet) (ntohs atif.nets.nr_lastnet) n pn
          { atif := atif, sleeps := 0, sent := [] }).2.sent := by
    intro n pn
    cases hp : atif_probe_nets env (ntohs atif.nets.nr_firstnet) (ntohs atif.nets.nr_lastnet)
        n pn { atif := atif, sleeps := 0, sent := [] } with
    | mk b r =>
      cases b
      · rfl
      · rfl
  unfold atif_probe_device atif_probe_device_sleeping
  simp only
  split_ifs
  · exact ⟨fun a ha => absurd ha (List.not_mem_nil a), rfl⟩
  all_goals
    refine ⟨fun a ha => (atif_probe_nets_sleeping_spec env _ _ _ _ _).1 a ha, ?_⟩
    rw [key, (atif_probe_nets_sleeping_spec env _ _ _ _ _).2.2]
    rfl

/-- At every `schedule()` of a `SIOCSIFADDR`, the interface of `dev` is in the
interface table and its status does not have the bit `ATIF_PROBE`. -/
theorem atif_ioctl_set_sleeping_not_marked (env : probe_env) (st : State) (dev : device)
    (sa : sockaddr_at) (nr : netrange) (t : State)
    (ht : t ∈ atif_ioctl_set_sleeping env st dev sa nr (atalk_find_dev st dev)) :
    ∃ a, atalk_find_dev t dev = some a ∧ flag_set a.status ATIF_PROBE = false := by
  have tail : ∀ (st2 : State) (a1 : atalk_iface),
      a1.dev = dev → (∃ i ∈ st2.atalk_iface_list, i.dev = dev) →
      flag_set a1.status ATIF_PROBE = false →
      t ∈ (if flag_set dev.flags IFF_LOOPBACK then []
        else (atif_probe_device_sleeping env a1).map
          (fun a => { st2 with atalk_iface_list := atif_store dev a st2.atalk_iface_list })) →
      ∃ a, atalk_find_dev t dev = some a ∧ flag_set a.status ATIF_PROBE = false := by
    intro st2 a1 hdev hex hbit h
    by_cases hlo : flag_set dev.flags IFF_LOOPBACK = true
    · rw [if_pos hlo] at h
      exact absurd h (List.not_mem_nil t)
    · rw [if_neg hlo] at h
      obtain ⟨a, ha, rfl⟩ := List.mem_map.mp h
      obtain ⟨s1, _⟩ := atif_probe_device_sleeping_spec env a1
      refine ⟨a, ?_, (s1 a ha).2.trans hbit⟩
      exact atalk_find_dev_loop_store dev a _ ((s1 a ha).1.trans hdev) hex
  unfold atif_ioctl_set_sleeping at ht
  cases hfd : atalk_find_dev st dev with
  | none =>
    rw [hfd] at ht
    simp only at ht
    refine tail
      { atif_add_device st dev sa.sat_addr with
        atalk_iface_list :=
          atif_store dev { dev := dev, address := sa.sat_addr, status := 0, nets := nr }
            (atif_add_device st dev sa.sat_addr).atalk_iface_list }
      { dev := dev, address := sa.sat_addr, status := 0, nets := nr } rfl ?_
      (show flag_set 0 ATIF_PROBE = false by decide) ht
    exact atif_store_has_dev dev _ _ rfl ⟨_, List.mem_cons_self _ _, rfl⟩
  | some a0 =>
    rw [hfd] at ht
    obtain ⟨hmem, ha0⟩ := atalk_find_dev_loop_some dev _ a0 hfd
    simp only at ht
    by_cases hp : flag_set a0.status ATIF_PROBE = true
    · rw [if_pos hp] at ht
      exact absurd ht (List.not_mem_nil t)
    · rw [if_neg hp] at ht
      simp only at ht
      have hbit : flag_set a0.status ATIF_PROBE = false := by
        cases hb : flag_set a0.status ATIF_PROBE
        · rfl
        · exact absurd hb hp
      have hex0 : ∃ i ∈ atif_store dev { a0 with address := sa.sat_addr } st.atalk_iface_list,
          i.dev = dev := atif_store_has_dev dev _ _ ha0 ⟨a0, hmem, ha0⟩
      apply tail
        { atrtr_device_down
            { st with atalk_iface_list :=
                atif_store dev { a0 with address := sa.sat_addr } st.atalk_iface_list } dev with
          atalk_iface_list := atif_store dev { a0 with address := sa.sat_addr, nets := nr }
            (atrtr_device_down
              { st with atalk_iface_list :=
                  atif_store dev { a0 with address := sa.sat_addr } st.atalk_iface_list }
              dev).atalk_iface_list }
        { a0 with address := sa.sat_addr, nets := nr } ha0 _ hbit ht
      refine atif_store_has_dev dev _ _ ha0 ?_
      rw [atrtr_device_down_ifaces]
      exact hex0

theorem atalk_find_anynet_loop_some (node : Nat) (dev : device) (l : List atalk_iface)
    (i : atalk_iface) (h : atalk_find_anynet_loop node dev l = some i) :
    i ∈ l ∧ i.dev = dev ∧ flag_set i.status ATIF_PROBE = false := by
  induction l with
  | nil => simp [atalk_find_anynet_loop] at h
  | cons x xs ih =>
    simp only [atalk_find_anynet_loop] at h
    split_ifs at h with h1 h2
    · exact ⟨List.mem_cons_of_mem _ (ih h).1, (ih h).2⟩
    · simp only [Option.some.injEq] at h
      subst h
      refine ⟨List.mem_cons_self _ _, ?_, ?_⟩
      · by_contra hd
        exact h1 (Or.inl hd)
      · cases hb : flag_set x.status ATIF_PROBE
        · rfl
        · exact absurd (Or.inr hb) h1
    · exact ⟨List.mem_cons_of_mem _ (ih h).1, (ih h).2⟩

/-- The interface that `atalk_rcv` selects is an interface of the table whose
status does not have the bit `ATIF_PROBE`: both `atalk_find_anynet` and
`atalk_find_interface` pass over an interface with the bit. -/
theorem atalk_rcv_atif_not_marked (st : State) (ddp : List u8) (dev : device)
    (atif : atalk_iface) (h : atalk_rcv_atif st ddp dev = some atif) :
    atif ∈ st.atalk_iface_list ∧ flag_set atif.status ATIF_PROBE = false := by
  unfold atalk_rcv_atif at h
  split_ifs at h
  · obtain ⟨h1, _, h3⟩ := atalk_find_anynet_loop_some _ _ _ _ h
    exact ⟨h1, h3⟩
  · obtain ⟨h1, h2⟩ := atalk_find_interface_some st _ _ atif h
    refine ⟨h1, ?_⟩
    unfold atalk_find_interface_matches at h2
    cases hb : flag_set atif.status ATIF_PROBE
    · rfl
    · rw [hb] at h2
      simp at h2

/-- A frame that `atalk_rcv` queues on a socket was matched to an interface whose
status does not have the bit `ATIF_PROBE`. -/
theorem atalk_rcv_queued_not_marked (st : State) (skb : sk_buff) (dev : device)
    (h : (atalk_rcv st skb dev).2 = rcv_exit.queued) :
    ∃ atif, atalk_rcv_atif st (atalk_rcv_trim skb).data dev = some atif ∧
      atif ∈ st.atalk_iface_list ∧ flag_set atif.status ATIF_PROBE = false := by
  unfold atalk_rcv at h
  by_cases h1 : skb.len < sizeof_ddpehdr
  · rw [if_pos h1] at h
    exact absurd (show rcv_exit.header_short = rcv_exit.queued from h) (by decide)
  · rw [if_neg h1] at h
    simp only at h
    by_cases h2 : (atalk_rcv_trim skb).len < sizeof_ddpehdr
    · rw [if_pos h2] at h
      exact absurd (show rcv_exit.length_short = rcv_exit.queued from h) (by decide)
    · rw [if_neg h2] at h
      cases hc : atalk_rcv_checksum_fails (atalk_rcv_trim skb).data with
      | none =>
        rw [hc] at h
        exact absurd (show rcv_exit.checksum_fault = rcv_exit.queued from h) (by decide)
      | some b =>
        rw [hc] at h
        cases b
        · simp only at h
          cases ha : atalk_rcv_atif st (atalk_rcv_trim skb).data dev with
          | none =>
            unfold atalk_rcv_dispatch at h
            simp only at h
            rw [ha] at h
            simp only at h
            cases hr : atrtr_find st (atalk_rcv_ta (atalk_rcv_trim skb).data) with
            | none =>
              rw [hr] at h
              exact absurd (show rcv_exit.not_routed = rcv_exit.queued from h) (by decide)
            | some rt =>
              rw [hr] at h
              simp only at h
              by_cases hh : deh_hops (atalk_rcv_trim skb).data = 15
              · rw [if_pos hh] at h
                exact absurd (show rcv_exit.not_routed = rcv_exit.queued from h) (by decide)
              · rw [if_neg hh] at h
                exact absurd (show rcv_exit.forwarded = rcv_exit.queued from h) (by decide)
          | some atif =>
            exact ⟨atif, rfl, atalk_rcv_atif_not_marked st _ dev atif ha⟩
        · exact absurd (show rcv_exit.checksum_bad = rcv_exit.queued from h) (by decide)

/-! ## Delivery while the address is being probed -/

set_option maxRecDepth 100000 in
/-- C40: `SIOCSIFADDR` for `eth0` with 1000.5 on [1000, 1000] sleeps three times in
`atif_probe_device`, and at each sleep the tables hold the interface `eth0` at
1000.5 with the status 0: `ATIF_PROBE` is not set while the address is probed. On
those tables `atalk_find_interface` and `atalk_find_anynet` return the interface,
a bind to 1000.5.128 returns 0, and `atalk_rcv` queues a frame for 1000.5.128 on
the socket. The same holds when the device is configured again while a socket is
bound: the tables at the three sleeps are the tables with the socket. -/
theorem atalk_rcv_delivers_while_probing :
    atif_ioctl_set_sleeping probe5_env State.init eth0 eth0_request eth0_nets
      (atalk_find_dev State.init eth0) = [eth0_state, eth0_state, eth0_state] ∧
    atalk_find_dev eth0_state eth0 = some eth0_iface ∧
    flag_set eth0_iface.status ATIF_PROBE = false ∧
    atalk_find_interface eth0_state (htons 1000) 5 = some eth0_iface ∧
    atalk_find_anynet eth0_state 5 eth0 = some eth0_iface ∧
    atalk_bind (atalk_create eth0_state SOCK_DGRAM).1 0 usat_a sizeof_sockaddr_at
      = (bound_state, 0) ∧
    (atalk_rcv bound_state local_frame eth0).2 = rcv_exit.queued ∧
    (sock_at (atalk_rcv bound_state local_frame eth0).1 0).receive_queue.map (fun b => b.len)
      = [13] ∧
    atif_ioctl_set_sleeping probe5_env bound_state eth0 eth0_request eth0_nets
      (atalk_find_dev bound_state eth0) = [bound_state, bound_state, bound_state] := by
  refine ⟨by decide, by decide, by decide, by decide, by decide, by decide, by decide,
    by decide, by decide⟩

/-! ## A failing `SIOCSIFADDR` -/

theorem atrtr_device_down_with_ifaces (st : State) (l : List atalk_iface) (dev : device) :
    atrtr_device_down { st with atalk_iface_list := l } dev
      = { atrtr_device_down st dev with atalk_iface_list := l } := by
  unfold atrtr_device_down
  simp only
  split_ifs <;> rfl

/-- The `SIOCSIFADDR` case of `atif_ioctl` for a request that passes the checks:
the tables and the return value are those of `atif_ioctl_set`. -/
theorem atif_ioctl_set_eq (env : probe_env) (st : State) (dev : device) (sa : sockaddr_at)
    (nr : netrange)
    (hty : dev.type = ARPHRD_ETHER)
    (hfam : sa.sat_family = AF_APPLETALK)
    (hph : nr.nr_phase = 2)
    (hnode : sa.sat_addr.s_node ≠ ATADDR_BCAST ∧ sa.sat_addr.s_node ≠ 254) :
    atif_ioctl env st SIOCSIFADDR (some dev) sa nr true
      = ((atif_ioctl_set env st dev sa nr (atalk_find_dev st dev)).1,
         (atif_ioctl_set env st dev sa nr (atalk_find_dev st dev)).2, none) := by
  unfold atif_ioctl
  simp only [if_true]
  have hn : ¬ (sa.sat_addr.s_node = ATADDR_BCAST ∨ sa.sat_addr.s_node = 254) := by
    intro h
    rcases h with h | h
    · exact hnode.1 h
    · exact hnode.2 h
  simp [hfam, hty, hn, hph]

/-- The tables after a `SIOCSIFADDR` that fails on the probe with a conflict on
every address: the interfaces of `dev` are unlinked, and when `dev` had an
interface before the call its routes are flushed. -/
theorem atif_ioctl_set_conflict_state (env : probe_env) (st : State) (dev : device)
    (sa : sockaddr_at) (nr : netrange)
    (hc : ∀ k a, env.conflict k a = true)
    (hlo : flag_set dev.flags IFF_LOOPBACK = false)
    (hbusy : ∀ a, atalk_find_dev st dev = some a → flag_set a.status ATIF_PROBE = false) :
    atif_ioctl_set env st dev sa nr (atalk_find_dev st dev)
      = ({ (match atalk_find_dev st dev with
            | some _ => atrtr_device_down st dev
            | none => st) with
           atalk_iface_list := st.atalk_iface_list.filter (fun i => decide (i.dev ≠ dev)) },
         -EADDRINUSE) := by
  have hneg : ∀ a, (atif_probe_device env a).1 < 0 := by
    intro a
    rw [atif_probe_device_conflict env hc a]
    decide
  have hlo2 : ¬ (flag_set dev.flags IFF_LOOPBACK = true) := by
    rw [hlo]
    decide
  have hfl := (atif_ioctl_set_conflict env st dev sa nr hc hlo hbusy).2
  unfold atif_ioctl_set at hfl ⊢
  cases hfd : atalk_find_dev st dev with
  | none =>
    rw [hfd] at hfl
    simp only at hfl ⊢
    rw [if_neg hlo2, if_pos (hneg _)] at hfl ⊢
    simp only at hfl
    rw [← hfl]
    rfl
  | some a0 =>
    rw [hfd] at hfl
    have hp : ¬ (flag_set a0.status ATIF_PROBE = true) := by
      rw [hbusy a0 hfd]
      decide
    simp only at hfl ⊢
    rw [if_neg hp] at hfl ⊢
    simp only at hfl ⊢
    rw [if_neg hlo2, if_pos (hneg _)] at hfl ⊢
    simp only at hfl
    rw [← hfl, atrtr_device_down_with_ifaces]
    rfl

set_option maxRecDepth 100000 in
/-- C39: `SIOCSIFADDR` for `eth0` with 1000.5 on the net range [1000, 1300] (wider
than 256) passes the probe and returns `-EINVAL`, and the call is not undone: on
empty tables the new interface stays in the interface table; on the tables with
`eth0` configured on [1000, 1000] the route to net 1000 is flushed and the
interface keeps the new range. A call that fails with `-EADDRINUSE` on the
configured device leaves neither the interface nor its route. -/
theorem set_iface_failure_not_atomic :
    State.init.atalk_iface_list = [] ∧
    atif_ioctl probe5_env State.init SIOCSIFADDR (some eth0) eth0_request wide_nets true =
      ({ State.init with atalk_iface_list := [{ eth0_iface with nets := wide_nets }] },
        -EINVAL, none) ∧
    eth0_up_state.atalk_iface_list = [eth0_iface] ∧
    eth0_up_state.atalk_router_list = [eth0_route] ∧
    atif_ioctl probe5_env eth0_up_state SIOCSIFADDR (some eth0) eth0_request wide_nets true =
      ({ State.init with atalk_iface_list := [{ eth0_iface with nets := wide_nets }] },
        -EINVAL, none) ∧
    atif_ioctl conflict_env eth0_up_state SIOCSIFADDR (some eth0) eth0_request eth0_nets true =
      (State.init, -EADDRINUSE, none) := by
  refine ⟨by decide, by decide, by decide, by decide, by decide, ?_⟩
  have hfind : atalk_find_dev eth0_up_state eth0 = some eth0_iface := by decide
  rw [atif_ioctl_set_eq conflict_env eth0_up_state eth0 eth0_request eth0_nets (by decide)
      (by decide) (by decide) (by decide),
    atif_ioctl_set_conflict_state conflict_env eth0_up_state eth0 eth0_request eth0_nets
      (fun _ _ => rfl) (by decide)
      (by
        intro a ha
        rw [hfind] at ha
        cases ha
        decide)]
  rw [hfind]
  decide

end Ddp
